import Mathlib

/-!
# QuadRay-engine: the SIMD encoding profiles

A shallow embedding of the per-architecture profile headers
(`core/config/rtarch_*.h`).  Every pseudo-op of a profile is a function from
its operands to the list of bytes (x86) or 32-bit words (Power) it places in
the code stream, in emission order.  Operands keep the triplet shape
`REG, MOD, SIB` of the headers.
-/

namespace QuadRay

/-! ## Operand model shared by all profiles -/

/-- An operand triplet `REG, MOD, SIB` as written in the register tables of the
profile headers (`#define Xmm0 0x00, 0x03, EMPTY`). -/
structure Operand where
  /-- The first component, the register number. -/
  reg : Nat
  /-- The second component, the addressing mode tag. -/
  mod : Nat
  /-- The third component, the bytes of the optional SIB part. -/
  sib : List Nat
deriving DecidableEq, Repr

/-- The empty emission `EMPTY`. -/
def EMPTY : List Nat := []

/-- Modelled from the spec: `EMITB` of rtarch.h (not part of the profile
headers) places one byte in the code stream. -/
def EMITB (b : Nat) : List Nat := [b]

/-- Modelled from the spec: `EMITW` of rtarch.h (not part of the profile
headers) places one 32-bit word in the code stream. -/
def EMITW (w : Nat) : List Nat := [w]

/-- Modelled from the spec: the selector `MOD(reg, mod, sib)` of the base
headers picks the second component of an operand triplet. -/
def MOD (o : Operand) : Nat := o.mod

/-- Modelled from the spec: the selector `SIB(reg, mod, sib)` of the base
headers picks the third component of an operand triplet. -/
def SIB (o : Operand) : List Nat := o.sib

/-! ## rtarch_x64_256.h -/

namespace X64_256

/-- Modelled from the spec: `REG(reg, mod, sib)` of rtarch_x64.h, the low field
of the physical encoding (the lower three bits of the register number). -/
def REG (o : Operand) : Nat := (o.reg >>> 0) &&& 0x07

/-- Modelled from the spec: `RXB(reg, mod, sib)` of rtarch_x64.h, the operand
extension bit (bit 3 of the register number). -/
def RXB (o : Operand) : Nat := (o.reg >>> 3) &&& 0x01

/-- Modelled from the spec: `MRM(reg, mod, rem)` of rtarch_x64.h, the operand
selector byte combining the mode tag and the two register fields. -/
def MRM (reg mod rem : Nat) : List Nat := EMITB ((mod <<< 6) ||| (reg <<< 3) ||| rem)

/-- `RT_SIMD_REGS`. -/
def RT_SIMD_REGS : Nat := 16

/-- `RT_SIMD_WIDTH`. -/
def RT_SIMD_WIDTH : Nat := 4

/-- `RT_SIMD_ALIGN`. -/
def RT_SIMD_ALIGN : Nat := 32

/-- The 3-byte VEX lead-in with full customization,
`VEX(rxg, rxm, ren, len, pfx, aux)`.  The C subtractions `1 - rxg`, `1 - rxm`
and `0x0F - ren` are natural-number subtractions here; they agree with C for
`rxg, rxm ≤ 1` and `ren ≤ 15`, which is all a register of the file can give. -/
def VEX (rxg rxm ren len pfx aux : Nat) : List Nat :=
  EMITB 0xC4 ++
  EMITB (((1 - rxg) <<< 7) ||| (1 <<< 6) ||| ((1 - rxm) <<< 5) ||| aux) ++
  EMITB ((len <<< 2) ||| ((0x0F - ren) <<< 3) ||| pfx)

/-- Selector for full register (3rd operand, 4-bits-wide), `REN(reg, mod, sib)`. -/
def REN (o : Operand) : Nat := o.reg

def Xmm0 : Operand := ⟨0x00, 0x03, EMPTY⟩
def Xmm1 : Operand := ⟨0x01, 0x03, EMPTY⟩
def Xmm2 : Operand := ⟨0x02, 0x03, EMPTY⟩
def Xmm3 : Operand := ⟨0x03, 0x03, EMPTY⟩
def Xmm4 : Operand := ⟨0x04, 0x03, EMPTY⟩
def Xmm5 : Operand := ⟨0x05, 0x03, EMPTY⟩
def Xmm6 : Operand := ⟨0x06, 0x03, EMPTY⟩
def Xmm7 : Operand := ⟨0x07, 0x03, EMPTY⟩
def Xmm8 : Operand := ⟨0x08, 0x03, EMPTY⟩
def Xmm9 : Operand := ⟨0x09, 0x03, EMPTY⟩
def XmmA : Operand := ⟨0x0A, 0x03, EMPTY⟩
def XmmB : Operand := ⟨0x0B, 0x03, EMPTY⟩
def XmmC : Operand := ⟨0x0C, 0x03, EMPTY⟩
def XmmD : Operand := ⟨0x0D, 0x03, EMPTY⟩
def XmmE : Operand := ⟨0x0E, 0x03, EMPTY⟩
def XmmF : Operand := ⟨0x0F, 0x03, EMPTY⟩

/-- The register table of the header, in the order of its `#define` lines. -/
def xmmFile : List Operand :=
  [Xmm0, Xmm1, Xmm2, Xmm3, Xmm4, Xmm5, Xmm6, Xmm7,
   Xmm8, Xmm9, XmmA, XmmB, XmmC, XmmD, XmmE, XmmF]

/-- The rule `addps_rr(RG, RM)`. -/
def addps_rr (RG RM : Operand) : List Nat :=
  VEX (RXB RG) (RXB RM) (REN RG) 1 1 1 ++ EMITB 0x58 ++
  MRM (REG RG) (MOD RM) (REG RM)

end X64_256

/-! ## rtarch_x86_256.h -/

namespace X86_256

/-- Modelled from the spec: `REG(reg, mod, sib)` of rtarch_x86.h picks the
register number of an operand triplet. -/
def REG (o : Operand) : Nat := o.reg

/-- Modelled from the spec: `MRM(reg, mod, rem)` of rtarch_x86.h, the operand
selector byte combining the mode tag and the two register fields. -/
def MRM (reg mod rem : Nat) : List Nat := EMITB ((mod <<< 6) ||| (reg <<< 3) ||| rem)

/-- `RT_SIMD_REGS`. -/
def RT_SIMD_REGS : Nat := 8

/-- The 2-byte VEX lead-in, 128/256-bit mode in len, leading 0x0F is implied:
`VX2(ren, pfx, len)`. -/
def VX2 (ren pfx len : Nat) : List Nat :=
  EMITB 0xC5 ++
  EMITB (0x80 ||| (len <<< 2) ||| ((0x0F - ren) <<< 3) ||| pfx)

/-- The 3-byte VEX lead-in, 256-bit mode is encoded, leading 0x0F(xx) in aux:
`VX3(ren, pfx, aux)`. -/
def VX3 (ren pfx aux : Nat) : List Nat :=
  EMITB 0xC4 ++
  EMITB (0xE0 ||| aux) ++
  EMITB (0x04 ||| ((0x0F - ren) <<< 3) ||| pfx)

def Xmm0 : Operand := ⟨0x00, 0x03, EMPTY⟩
def Xmm1 : Operand := ⟨0x01, 0x03, EMPTY⟩
def Xmm2 : Operand := ⟨0x02, 0x03, EMPTY⟩
def Xmm3 : Operand := ⟨0x03, 0x03, EMPTY⟩
def Xmm4 : Operand := ⟨0x04, 0x03, EMPTY⟩
def Xmm5 : Operand := ⟨0x05, 0x03, EMPTY⟩
def Xmm6 : Operand := ⟨0x06, 0x03, EMPTY⟩
def Xmm7 : Operand := ⟨0x07, 0x03, EMPTY⟩

/-- The register table of the header, in the order of its `#define` lines. -/
def xmmFile : List Operand :=
  [Xmm0, Xmm1, Xmm2, Xmm3, Xmm4, Xmm5, Xmm6, Xmm7]

/-- The rule `addps_rr(RG, RM)`. -/
def addps_rr (RG RM : Operand) : List Nat :=
  VX2 (REG RG) 0 1 ++ EMITB 0x58 ++
  MRM (REG RG) (MOD RM) (REG RM)

end X86_256

/-! ## Constants and helpers of the Power base headers -/

/-- The register numbers the Power profile headers take from the base header
(rtarch_p32.h / rtarch_p64.h), which is not part of the profile headers; they
stay parameters of every rule. -/
structure PowerBase where
  /-- The scratch register `TPxx` receiving the computed address. -/
  TPxx : Nat
  /-- The scratch register `TDxx` receiving a materialised displacement. -/
  TDxx : Nat
  /-- The register `Teax` behind `Reax` and `Oeax`. -/
  Teax : Nat
deriving DecidableEq, Repr

/-- The displacement type tag, the literal token `0`, `1` or `2` that the
selectors paste onto `B2`, `P2`, `C2`. -/
inductive DispType where
  | T0
  | T1
  | T2
deriving DecidableEq, Repr

/-- A displacement triplet `VAL, TP1, TP2`, the shape the selectors
`B2(val, tp1, tp2)`, `P2(val, tp1, tp2)`, `C2(val, tp1, tp2)` take apart.
Displacement values are unsigned here. -/
structure Disp where
  /-- The numeric displacement. -/
  val : Nat
  /-- The type tag for BASE rules. -/
  tp1 : DispType
  /-- The type tag for SIMD rules. -/
  tp2 : DispType
deriving DecidableEq, Repr

/-- Modelled from the spec: the selector `VAL(val, tp1, tp2)` of the base
headers picks the numeric displacement of the triplet. -/
def VAL (d : Disp) : Nat := d.val

/-- Modelled from the spec: `AUW(sib, cim, reg, brm, vdp, cdp, cxx)` of
rtarch.h, restricted to the shape the SIMD memory rules use it in
(`cim`, `reg`, `cxx` empty): the SIB part followed by the displacement
materialisation `cdp(brm, vdp)`. -/
def AUW (sib : List Nat) (brm vdp : Nat) (cdp : Nat → Nat → List Nat) : List Nat :=
  sib ++ cdp brm vdp

/-! ## rtarch_p64_128.h -/

namespace P64_128

/-- Modelled from the spec: `REG(reg, mod, sib)` of the Power base header picks
the register number of an operand triplet. -/
def REG (o : Operand) : Nat := o.reg

/-- `RT_SIMD_REGS`. -/
def RT_SIMD_REGS : Nat := 16

/-- `RT_SIMD_WIDTH`. -/
def RT_SIMD_WIDTH : Nat := 2

/-- `RT_SIMD_ALIGN`. -/
def RT_SIMD_ALIGN : Nat := 16

/-- The structural packer `MXM(reg, ren, rem)`. -/
def MXM (reg ren rem : Nat) : Nat :=
  (rem <<< 11) ||| (ren <<< 16) ||| (reg <<< 21)

/-- The structural packer `MPM(reg, brm, vdp, bxx, pxx)`. -/
def MPM (reg brm vdp : Nat) (bxx pxx : Nat → Nat) : Nat :=
  pxx vdp ||| (bxx brm <<< 16) ||| (reg <<< 21)

/-- Displacement encoding SIMD(TP2), `B20(br)`. -/
def B20 (br : Nat) : Nat := br

/-- Displacement encoding SIMD(TP2), `P20(dp)`. -/
def P20 (dp : Nat) : Nat := 0x00000000 ||| (dp &&& 0x7FF0)

/-- Displacement encoding SIMD(TP2), `C20(br, dp)`. -/
def C20 (_br _dp : Nat) : List Nat := EMPTY

/-- Displacement encoding SIMD(TP2), `B21(br)`. -/
def B21 (br : Nat) : Nat := br

/-- Displacement encoding SIMD(TP2), `P21(dp)`. -/
def P21 (b : PowerBase) (_dp : Nat) : Nat := 0x44000214 ||| (b.TDxx <<< 11)

/-- Displacement encoding SIMD(TP2), `C21(br, dp)`. -/
def C21 (b : PowerBase) (_br dp : Nat) : List Nat :=
  EMITW (0x60000000 ||| (b.TDxx <<< 16) ||| (0xFFF0 &&& dp))

/-- Displacement encoding SIMD(TP2), `B22(br)`. -/
def B22 (br : Nat) : Nat := br

/-- Displacement encoding SIMD(TP2), `P22(dp)`. -/
def P22 (b : PowerBase) (_dp : Nat) : Nat := 0x44000214 ||| (b.TDxx <<< 11)

/-- Displacement encoding SIMD(TP2), `C22(br, dp)`. -/
def C22 (b : PowerBase) (_br dp : Nat) : List Nat :=
  EMITW (0x64000000 ||| (b.TDxx <<< 16) ||| (0x7FFF &&& (dp >>> 16))) ++
  EMITW (0x60000000 ||| (b.TDxx <<< 16) ||| (b.TDxx <<< 21) ||| (0xFFF0 &&& dp))

/-- The selector `B2(val, tp1, tp2)`, which pastes `tp2` onto `B2`. -/
def B2 (d : Disp) : Nat → Nat :=
  match d.tp2 with
  | .T0 => B20
  | .T1 => B21
  | .T2 => B22

/-- The selector `P2(val, tp1, tp2)`, which pastes `tp2` onto `P2`. -/
def P2 (b : PowerBase) (d : Disp) : Nat → Nat :=
  match d.tp2 with
  | .T0 => P20
  | .T1 => P21 b
  | .T2 => P22 b

/-- The selector `C2(val, tp1, tp2)`, which pastes `tp2` onto `C2`. -/
def C2 (b : PowerBase) (d : Disp) : Nat → Nat → List Nat :=
  match d.tp2 with
  | .T0 => C20
  | .T1 => C21 b
  | .T2 => C22 b

def TmmR : Nat := 0x17
def TmmS : Nat := 0x18
def TmmQ : Nat := 0x19
def TmmA : Nat := 0x1A
def TmmB : Nat := 0x1B
def TmmC : Nat := 0x1C
def TmmD : Nat := 0x1D
def TmmE : Nat := 0x1E
def Tmm1 : Nat := 0x1F

def Xmm0 : Operand := ⟨0x00, 0x00, EMPTY⟩
def Xmm1 : Operand := ⟨0x01, 0x00, EMPTY⟩
def Xmm2 : Operand := ⟨0x02, 0x00, EMPTY⟩
def Xmm3 : Operand := ⟨0x03, 0x00, EMPTY⟩
def Xmm4 : Operand := ⟨0x04, 0x00, EMPTY⟩
def Xmm5 : Operand := ⟨0x05, 0x00, EMPTY⟩
def Xmm6 : Operand := ⟨0x06, 0x00, EMPTY⟩
def Xmm7 : Operand := ⟨0x07, 0x00, EMPTY⟩
def Xmm8 : Operand := ⟨0x08, 0x00, EMPTY⟩
def Xmm9 : Operand := ⟨0x09, 0x00, EMPTY⟩
def XmmA : Operand := ⟨0x0A, 0x00, EMPTY⟩
def XmmB : Operand := ⟨0x0B, 0x00, EMPTY⟩
def XmmC : Operand := ⟨0x0C, 0x00, EMPTY⟩
def XmmD : Operand := ⟨0x0D, 0x00, EMPTY⟩
def XmmE : Operand := ⟨0x0E, 0x00, EMPTY⟩
def XmmF : Operand := ⟨0x0F, 0x00, EMPTY⟩

/-- The register table of the header, in the order of its `#define` lines. -/
def xmmFile : List Operand :=
  [Xmm0, Xmm1, Xmm2, Xmm3, Xmm4, Xmm5, Xmm6, Xmm7,
   Xmm8, Xmm9, XmmA, XmmB, XmmC, XmmD, XmmE, XmmF]

/-- The reserved registers of the header, in the order of its `#define` lines. -/
def tmmFile : List Nat :=
  [TmmR, TmmS, TmmQ, TmmA, TmmB, TmmC, TmmD, TmmE, Tmm1]

/-- The index operand of the final load/store word,
`Teax & (MOD(RM) == TPxx)`: the comparison is evaluated by the assembler,
where true is all ones (the header notes `== -1 if true`). -/
def indexReg (b : PowerBase) (RM : Operand) : Nat :=
  if MOD RM = b.TPxx then b.Teax else 0

/-- The rule `movpx_ld(RG, RM, DP)`. -/
def movpx_ld (b : PowerBase) (RG RM : Operand) (DP : Disp) : List Nat :=
  AUW EMPTY (MOD RM) (VAL DP) (C2 b DP) ++
  EMITW (0x38000000 ||| MPM b.TPxx (REG RM) (VAL DP) (B2 DP) (P2 b DP)) ++
  EMITW (0x7C000699 ||| MXM (REG RG) (indexReg b RM) b.TPxx)

/-- The rule `movpx_st(RG, RM, DP)`. -/
def movpx_st (b : PowerBase) (RG RM : Operand) (DP : Disp) : List Nat :=
  AUW EMPTY (MOD RM) (VAL DP) (C2 b DP) ++
  EMITW (0x38000000 ||| MPM b.TPxx (REG RM) (VAL DP) (B2 DP) (P2 b DP)) ++
  EMITW (0x7C000799 ||| MXM (REG RG) (indexReg b RM) b.TPxx)

end P64_128

/-! ## Save and restore sequences -/

/-- One line of a `sregs_sa` / `sregs_la` body.  The BASE rules `movxx_ld` and
`addxx_ri` live in the base headers, which are not part of the profile
headers, so a sequence is kept as the list of its lines. -/
inductive Step where
  /-- The line `movxx_ld(Reax, Mebp, inf_REGS)`. -/
  | movxx_ld_REGS
  /-- The line `addxx_ri(Reax, IB(imm))`. -/
  | addxx_ri (imm : Nat)
  /-- The line `movpx_st(X, Oeax, PLAIN)`. -/
  | movpx_st (X : Operand)
  /-- The line `movpx_ld(X, Oeax, PLAIN)`. -/
  | movpx_ld (X : Operand)
  /-- The line `movcx_st(X, Oeax, PLAIN)`. -/
  | movcx_st (X : Operand)
  /-- The line `movcx_ld(X, Oeax, PLAIN)`. -/
  | movcx_ld (X : Operand)
  /-- The line `muvcx_st(X, Oeax, PLAIN)`. -/
  | muvcx_st (X : Operand)
  /-- The line `muvcx_ld(X, Oeax, PLAIN)`. -/
  | muvcx_ld (X : Operand)
  /-- The line `EMITW(opc | MXM(reg, ren, rem))`. -/
  | EMITW (opc reg ren rem : Nat)
deriving DecidableEq, Repr

/-- One register transfer of a save/restore sequence: the opcode constant of
the transferring instruction, its register field, and the byte offset of the
transfer from the address loaded from `inf_REGS`. -/
structure Access where
  /-- The opcode constant of the transferring instruction. -/
  opc : Nat
  /-- The register field of the transferring instruction. -/
  reg : Nat
  /-- The byte offset from the address loaded from `inf_REGS`. -/
  off : Nat
deriving DecidableEq, Repr

/-- Modelled from the spec: the BASE lines of a save/restore sequence, which
live in the base headers: `movxx_ld(Reax, Mebp, inf_REGS)` points `Reax` at
the save area (offset 0) and `addxx_ri(Reax, IB(imm))` advances it by `imm`
bytes; every other line transfers registers at displacements from `Reax`
given by `xfer` (opcode constant, register field, displacement). -/
def trace (xfer : Step → List (Nat × Nat × Nat)) : Nat → List Step → List Access
  | _, [] => []
  | _, .movxx_ld_REGS :: r => trace xfer 0 r
  | p, .addxx_ri imm :: r => trace xfer (p + imm) r
  | p, s :: r => (xfer s).map (fun t => ⟨t.1, t.2.1, p + t.2.2⟩) ++ trace xfer p r

/-- The restore counterpart of a save line: a store rule becomes the load rule
of the same register at the same displacement, a raw word has bit `0x100` of
its opcode constant flipped, and the BASE lines stay as they are. -/
def Step.mirror : Step → Step
  | .movpx_st X => .movpx_ld X
  | .movcx_st X => .movcx_ld X
  | .muvcx_st X => .muvcx_ld X
  | .EMITW opc reg ren rem => .EMITW (opc ^^^ 0x100) reg ren rem
  | s => s

/-- A save line `s` and a restore line `l` agree as raw words: either neither
is a raw word, or the store word is the load word with bit `0x100` set. -/
def rawMirror (raw : Step → Option Nat) (s l : Step) : Prop :=
  match raw s, raw l with
  | some ws, some wl => ws = wl ||| 0x100
  | none, none => True
  | _, _ => False

instance (raw : Step → Option Nat) (s l : Step) : Decidable (rawMirror raw s l) := by
  unfold rawMirror
  split <;> infer_instance

namespace X64_256

/-- The transfers of one line: `movpx_st(X, Oeax, PLAIN)` and
`movpx_ld(X, Oeax, PLAIN)` move register `X` with opcode byte `0x29` resp.
`0x28` at displacement `PLAIN`, modelled from the spec as the zero displacement
from `Reax`. -/
def xfer : Step → List (Nat × Nat × Nat)
  | .movpx_st X => [(0x29, REN X, 0)]
  | .movpx_ld X => [(0x28, REN X, 0)]
  | _ => []

/-- The sequence `sregs_sa()` (save all SIMD regs, destroys Reax), one step per line of the
header. -/
def sregs_sa : List Step :=
  [.movxx_ld_REGS,
   .movpx_st Xmm0,
   .addxx_ri (RT_SIMD_WIDTH * 8),
   .movpx_st Xmm1,
   .addxx_ri (RT_SIMD_WIDTH * 8),
   .movpx_st Xmm2,
   .addxx_ri (RT_SIMD_WIDTH * 8),
   .movpx_st Xmm3,
   .addxx_ri (RT_SIMD_WIDTH * 8),
   .movpx_st Xmm4,
   .addxx_ri (RT_SIMD_WIDTH * 8),
   .movpx_st Xmm5,
   .addxx_ri (RT_SIMD_WIDTH * 8),
   .movpx_st Xmm6,
   .addxx_ri (RT_SIMD_WIDTH * 8),
   .movpx_st Xmm7,
   .addxx_ri (RT_SIMD_WIDTH * 8),
   .movpx_st Xmm8,
   .addxx_ri (RT_SIMD_WIDTH * 8),
   .movpx_st Xmm9,
   .addxx_ri (RT_SIMD_WIDTH * 8),
   .movpx_st XmmA,
   .addxx_ri (RT_SIMD_WIDTH * 8),
   .movpx_st XmmB,
   .addxx_ri (RT_SIMD_WIDTH * 8),
   .movpx_st XmmC,
   .addxx_ri (RT_SIMD_WIDTH * 8),
   .movpx_st XmmD,
   .addxx_ri (RT_SIMD_WIDTH * 8),
   .movpx_st XmmE,
   .addxx_ri (RT_SIMD_WIDTH * 8),
   .movpx_st XmmF]

/-- The sequence `sregs_la()` (load all SIMD regs, destroys Reax), one step per line of the
header. -/
def sregs_la : List Step :=
  [.movxx_ld_REGS,
   .movpx_ld Xmm0,
   .addxx_ri (RT_SIMD_WIDTH * 8),
   .movpx_ld Xmm1,
   .addxx_ri (RT_SIMD_WIDTH * 8),
   .movpx_ld Xmm2,
   .addxx_ri (RT_SIMD_WIDTH * 8),
   .movpx_ld Xmm3,
   .addxx_ri (RT_SIMD_WIDTH * 8),
   .movpx_ld Xmm4,
   .addxx_ri (RT_SIMD_WIDTH * 8),
   .movpx_ld Xmm5,
   .addxx_ri (RT_SIMD_WIDTH * 8),
   .movpx_ld Xmm6,
   .addxx_ri (RT_SIMD_WIDTH * 8),
   .movpx_ld Xmm7,
   .addxx_ri (RT_SIMD_WIDTH * 8),
   .movpx_ld Xmm8,
   .addxx_ri (RT_SIMD_WIDTH * 8),
   .movpx_ld Xmm9,
   .addxx_ri (RT_SIMD_WIDTH * 8),
   .movpx_ld XmmA,
   .addxx_ri (RT_SIMD_WIDTH * 8),
   .movpx_ld XmmB,
   .addxx_ri (RT_SIMD_WIDTH * 8),
   .movpx_ld XmmC,
   .addxx_ri (RT_SIMD_WIDTH * 8),
   .movpx_ld XmmD,
   .addxx_ri (RT_SIMD_WIDTH * 8),
   .movpx_ld XmmE,
   .addxx_ri (RT_SIMD_WIDTH * 8),
   .movpx_ld XmmF]

end X64_256

namespace P64_128

/-- The transfers of one line: `movpx_st(X, Oeax, PLAIN)` and
`movpx_ld(X, Oeax, PLAIN)` end in the word `0x7C000799 | MXM(REG(X), ..)` resp.
`0x7C000699 | MXM(REG(X), ..)` at displacement `PLAIN`, modelled from the spec
as the zero displacement from `Reax`; a raw word `opc | MXM(reg, 0x00, Teax)`
transfers `reg` at `Reax` itself. -/
def xfer : Step → List (Nat × Nat × Nat)
  | .movpx_st X => [(0x7C000799, REG X, 0)]
  | .movpx_ld X => [(0x7C000699, REG X, 0)]
  | .EMITW opc reg _ _ => [(opc, reg, 0)]
  | _ => []

/-- The word a raw line `EMITW(opc | MXM(reg, ren, rem))` places in the code
stream. -/
def rawWord : Step → Option Nat
  | .EMITW opc reg ren rem => some (opc ||| MXM reg ren rem)
  | _ => none

/-- The sequence `sregs_sa()` (save all SIMD regs, destroys Reax), one step per line of the
header. -/
def sregs_sa (b : PowerBase) : List Step :=
  [.movxx_ld_REGS,
   .movpx_st Xmm0,
   .addxx_ri (RT_SIMD_WIDTH * 8),
   .movpx_st Xmm1,
   .addxx_ri (RT_SIMD_WIDTH * 8),
   .movpx_st Xmm2,
   .addxx_ri (RT_SIMD_WIDTH * 8),
   .movpx_st Xmm3,
   .addxx_ri (RT_SIMD_WIDTH * 8),
   .movpx_st Xmm4,
   .addxx_ri (RT_SIMD_WIDTH * 8),
   .movpx_st Xmm5,
   .addxx_ri (RT_SIMD_WIDTH * 8),
   .movpx_st Xmm6,
   .addxx_ri (RT_SIMD_WIDTH * 8),
   .movpx_st Xmm7,
   .addxx_ri (RT_SIMD_WIDTH * 8),
   .movpx_st Xmm8,
   .addxx_ri (RT_SIMD_WIDTH * 8),
   .movpx_st Xmm9,
   .addxx_ri (RT_SIMD_WIDTH * 8),
   .movpx_st XmmA,
   .addxx_ri (RT_SIMD_WIDTH * 8),
   .movpx_st XmmB,
   .addxx_ri (RT_SIMD_WIDTH * 8),
   .movpx_st XmmC,
   .addxx_ri (RT_SIMD_WIDTH * 8),
   .movpx_st XmmD,
   .addxx_ri (RT_SIMD_WIDTH * 8),
   .movpx_st XmmE,
   .addxx_ri (RT_SIMD_WIDTH * 8),
   .movpx_st XmmF,
   .addxx_ri (RT_SIMD_WIDTH * 8),
   .EMITW 0x7C000799 TmmR 0x00 b.Teax,
   .addxx_ri (RT_SIMD_WIDTH * 8),
   .EMITW 0x7C000799 TmmS 0x00 b.Teax,
   .addxx_ri (RT_SIMD_WIDTH * 8),
   .EMITW 0x7C000799 TmmQ 0x00 b.Teax,
   .addxx_ri (RT_SIMD_WIDTH * 8),
   .EMITW 0x7C000799 TmmA 0x00 b.Teax,
   .addxx_ri (RT_SIMD_WIDTH * 8),
   .EMITW 0x7C000799 TmmB 0x00 b.Teax,
   .addxx_ri (RT_SIMD_WIDTH * 8),
   .EMITW 0x7C000799 TmmC 0x00 b.Teax,
   .addxx_ri (RT_SIMD_WIDTH * 8),
   .EMITW 0x7C000799 TmmD 0x00 b.Teax,
   .addxx_ri (RT_SIMD_WIDTH * 8),
   .EMITW 0x7C000799 TmmE 0x00 b.Teax,
   .addxx_ri (RT_SIMD_WIDTH * 8),
   .EMITW 0x7C000799 Tmm1 0x00 b.Teax]

/-- The sequence `sregs_la()` (load all SIMD regs, destroys Reax), one step per line of the
header. -/
def sregs_la (b : PowerBase) : List Step :=
  [.movxx_ld_REGS,
   .movpx_ld Xmm0,
   .addxx_ri (RT_SIMD_WIDTH * 8),
   .movpx_ld Xmm1,
   .addxx_ri (RT_SIMD_WIDTH * 8),
   .movpx_ld Xmm2,
   .addxx_ri (RT_SIMD_WIDTH * 8),
   .movpx_ld Xmm3,
   .addxx_ri (RT_SIMD_WIDTH * 8),
   .movpx_ld Xmm4,
   .addxx_ri (RT_SIMD_WIDTH * 8),
   .movpx_ld Xmm5,
   .addxx_ri (RT_SIMD_WIDTH * 8),
   .movpx_ld Xmm6,
   .addxx_ri (RT_SIMD_WIDTH * 8),
   .movpx_ld Xmm7,
   .addxx_ri (RT_SIMD_WIDTH * 8),
   .movpx_ld Xmm8,
   .addxx_ri (RT_SIMD_WIDTH * 8),
   .movpx_ld Xmm9,
   .addxx_ri (RT_SIMD_WIDTH * 8),
   .movpx_ld XmmA,
   .addxx_ri (RT_SIMD_WIDTH * 8),
   .movpx_ld XmmB,
   .addxx_ri (RT_SIMD_WIDTH * 8),
   .movpx_ld XmmC,
   .addxx_ri (RT_SIMD_WIDTH * 8),
   .movpx_ld XmmD,
   .addxx_ri (RT_SIMD_WIDTH * 8),
   .movpx_ld XmmE,
   .addxx_ri (RT_SIMD_WIDTH * 8),
   .movpx_ld XmmF,
   .addxx_ri (RT_SIMD_WIDTH * 8),
   .EMITW 0x7C000699 TmmR 0x00 b.Teax,
   .addxx_ri (RT_SIMD_WIDTH * 8),
   .EMITW 0x7C000699 TmmS 0x00 b.Teax,
   .addxx_ri (RT_SIMD_WIDTH * 8),
   .EMITW 0x7C000699 TmmQ 0x00 b.Teax,
   .addxx_ri (RT_SIMD_WIDTH * 8),
   .EMITW 0x7C000699 TmmA 0x00 b.Teax,
   .addxx_ri (RT_SIMD_WIDTH * 8),
   .EMITW 0x7C000699 TmmB 0x00 b.Teax,
   .addxx_ri (RT_SIMD_WIDTH * 8),
   .EMITW 0x7C000699 TmmC 0x00 b.Teax,
   .addxx_ri (RT_SIMD_WIDTH * 8),
   .EMITW 0x7C000699 TmmD 0x00 b.Teax,
   .addxx_ri (RT_SIMD_WIDTH * 8),
   .EMITW 0x7C000699 TmmE 0x00 b.Teax,
   .addxx_ri (RT_SIMD_WIDTH * 8),
   .EMITW 0x7C000699 Tmm1 0x00 b.Teax]

end P64_128

/-! ## rtarch_p32_256v2.h -/

/-- The constants rtarch_p32_256v2.h takes from headers that are not part of
the profile headers (the base header and rtarch_p64_128v4.h); they stay
parameters. -/
structure PairBase extends PowerBase where
  /-- The reserved register `TmmE`. -/
  TmmE : Nat
  /-- The reserved register `TmmQ`. -/
  TmmQ : Nat
  /-- The reserved register `TmmM`. -/
  TmmM : Nat
  /-- The constant `RT_SIMD_WIDTH32`. -/
  RT_SIMD_WIDTH32 : Nat
deriving DecidableEq, Repr

namespace P32_256V2

/-- `RT_SIMD_ALIGN_256`. -/
def RT_SIMD_ALIGN_256 : Nat := 32

/-- `RT_SIMD_WIDTH32_256`. -/
def RT_SIMD_WIDTH32_256 : Nat := 8

/-- Modelled from the spec: `REG(reg, mod, sib)` of the Power base header picks
the register number of an operand triplet; it names the low half of a
register pair. -/
def REG (o : Operand) : Nat := o.reg

/-- Modelled from the spec: `RYG(reg, mod, sib)` of rtarch_p64_128v4.h names
the high half of a register pair, sixteen registers above the low half (the
header itself writes the high half of `TmmE` as `TmmE+16`). -/
def RYG (o : Operand) : Nat := o.reg + 16

/-- Modelled from the spec: the structural packer `MXM(reg, ren, rem)` of
rtarch_p64_128v4.h, as defined in the sibling rtarch_p64_128.h. -/
def MXM (reg ren rem : Nat) : Nat :=
  (rem <<< 11) ||| (ren <<< 16) ||| (reg <<< 21)

/-- Modelled from the spec: the entry `Xmm0` of the register table of
rtarch_p64_128v4.h, as written in the sibling rtarch_p64_128.h. -/
def Xmm0 : Operand := ⟨0x00, 0x00, EMPTY⟩
/-- Modelled from the spec: the entry `Xmm1` of the register table of
rtarch_p64_128v4.h, as written in the sibling rtarch_p64_128.h. -/
def Xmm1 : Operand := ⟨0x01, 0x00, EMPTY⟩
/-- Modelled from the spec: the entry `Xmm2` of the register table of
rtarch_p64_128v4.h, as written in the sibling rtarch_p64_128.h. -/
def Xmm2 : Operand := ⟨0x02, 0x00, EMPTY⟩
/-- Modelled from the spec: the entry `Xmm3` of the register table of
rtarch_p64_128v4.h, as written in the sibling rtarch_p64_128.h. -/
def Xmm3 : Operand := ⟨0x03, 0x00, EMPTY⟩
/-- Modelled from the spec: the entry `Xmm4` of the register table of
rtarch_p64_128v4.h, as written in the sibling rtarch_p64_128.h. -/
def Xmm4 : Operand := ⟨0x04, 0x00, EMPTY⟩
/-- Modelled from the spec: the entry `Xmm5` of the register table of
rtarch_p64_128v4.h, as written in the sibling rtarch_p64_128.h. -/
def Xmm5 : Operand := ⟨0x05, 0x00, EMPTY⟩
/-- Modelled from the spec: the entry `Xmm6` of the register table of
rtarch_p64_128v4.h, as written in the sibling rtarch_p64_128.h. -/
def Xmm6 : Operand := ⟨0x06, 0x00, EMPTY⟩
/-- Modelled from the spec: the entry `Xmm7` of the register table of
rtarch_p64_128v4.h, as written in the sibling rtarch_p64_128.h. -/
def Xmm7 : Operand := ⟨0x07, 0x00, EMPTY⟩
/-- Modelled from the spec: the entry `Xmm8` of the register table of
rtarch_p64_128v4.h, as written in the sibling rtarch_p64_128.h. -/
def Xmm8 : Operand := ⟨0x08, 0x00, EMPTY⟩
/-- Modelled from the spec: the entry `Xmm9` of the register table of
rtarch_p64_128v4.h, as written in the sibling rtarch_p64_128.h. -/
def Xmm9 : Operand := ⟨0x09, 0x00, EMPTY⟩
/-- Modelled from the spec: the entry `XmmA` of the register table of
rtarch_p64_128v4.h, as written in the sibling rtarch_p64_128.h. -/
def XmmA : Operand := ⟨0x0A, 0x00, EMPTY⟩
/-- Modelled from the spec: the entry `XmmB` of the register table of
rtarch_p64_128v4.h, as written in the sibling rtarch_p64_128.h. -/
def XmmB : Operand := ⟨0x0B, 0x00, EMPTY⟩
/-- Modelled from the spec: the entry `XmmC` of the register table of
rtarch_p64_128v4.h, as written in the sibling rtarch_p64_128.h. -/
def XmmC : Operand := ⟨0x0C, 0x00, EMPTY⟩
/-- Modelled from the spec: the entry `XmmD` of the register table of
rtarch_p64_128v4.h, as written in the sibling rtarch_p64_128.h. -/
def XmmD : Operand := ⟨0x0D, 0x00, EMPTY⟩
/-- Modelled from the spec: the entry `XmmE` of the register table of
rtarch_p64_128v4.h, as written in the sibling rtarch_p64_128.h. -/
def XmmE : Operand := ⟨0x0E, 0x00, EMPTY⟩
/-- Modelled from the spec: the entry `XmmF` of the register table of
rtarch_p64_128v4.h, as written in the sibling rtarch_p64_128.h. -/
def XmmF : Operand := ⟨0x0F, 0x00, EMPTY⟩

/-- The sixteen logical registers `Xmm0 .. XmmF`. -/
def xmmFile : List Operand :=
  [Xmm0, Xmm1, Xmm2, Xmm3, Xmm4, Xmm5, Xmm6, Xmm7,
   Xmm8, Xmm9, XmmA, XmmB, XmmC, XmmD, XmmE, XmmF]

/-- The rule `andcx_rr(XG, XS)`. -/
def andcx_rr (XG XS : Operand) : List Nat :=
  EMITW (0xF0000417 ||| MXM (REG XG) (REG XG) (REG XS)) ++
  EMITW (0xF0000417 ||| MXM (RYG XG) (RYG XG) (RYG XS))

/-- The rule `orrcx_rr(XG, XS)`. -/
def orrcx_rr (XG XS : Operand) : List Nat :=
  EMITW (0xF0000497 ||| MXM (REG XG) (REG XG) (REG XS)) ++
  EMITW (0xF0000497 ||| MXM (RYG XG) (RYG XG) (RYG XS))

/-- The rule `xorcx_rr(XG, XS)`. -/
def xorcx_rr (XG XS : Operand) : List Nat :=
  EMITW (0xF00004D7 ||| MXM (REG XG) (REG XG) (REG XS)) ++
  EMITW (0xF00004D7 ||| MXM (RYG XG) (RYG XG) (RYG XS))

/-- The rule `addcs_rr(XG, XS)`. -/
def addcs_rr (XG XS : Operand) : List Nat :=
  EMITW (0xF0000207 ||| MXM (REG XG) (REG XG) (REG XS)) ++
  EMITW (0xF0000207 ||| MXM (RYG XG) (RYG XG) (RYG XS))

/-- The rule `subcs_rr(XG, XS)`. -/
def subcs_rr (XG XS : Operand) : List Nat :=
  EMITW (0xF0000247 ||| MXM (REG XG) (REG XG) (REG XS)) ++
  EMITW (0xF0000247 ||| MXM (RYG XG) (RYG XG) (RYG XS))

/-- The rule `mulcs_rr(XG, XS)`. -/
def mulcs_rr (XG XS : Operand) : List Nat :=
  EMITW (0xF0000287 ||| MXM (REG XG) (REG XG) (REG XS)) ++
  EMITW (0xF0000287 ||| MXM (RYG XG) (RYG XG) (RYG XS))

/-- The rule `divcs_rr(XG, XS)`. -/
def divcs_rr (XG XS : Operand) : List Nat :=
  EMITW (0xF00002C7 ||| MXM (REG XG) (REG XG) (REG XS)) ++
  EMITW (0xF00002C7 ||| MXM (RYG XG) (RYG XG) (RYG XS))

/-- The rule `mincs_rr(XG, XS)`. -/
def mincs_rr (XG XS : Operand) : List Nat :=
  EMITW (0xF0000647 ||| MXM (REG XG) (REG XG) (REG XS)) ++
  EMITW (0xF0000647 ||| MXM (RYG XG) (RYG XG) (RYG XS))

/-- The rule `maxcs_rr(XG, XS)`. -/
def maxcs_rr (XG XS : Operand) : List Nat :=
  EMITW (0xF0000607 ||| MXM (REG XG) (REG XG) (REG XS)) ++
  EMITW (0xF0000607 ||| MXM (RYG XG) (RYG XG) (RYG XS))

/-- The rule `ceqcs_rr(XG, XS)`. -/
def ceqcs_rr (XG XS : Operand) : List Nat :=
  EMITW (0xF000021F ||| MXM (REG XG) (REG XG) (REG XS)) ++
  EMITW (0xF000021F ||| MXM (RYG XG) (RYG XG) (RYG XS))

/-- The rule `cgtcs_rr(XG, XS)`. -/
def cgtcs_rr (XG XS : Operand) : List Nat :=
  EMITW (0xF000025F ||| MXM (REG XG) (REG XG) (REG XS)) ++
  EMITW (0xF000025F ||| MXM (RYG XG) (RYG XG) (RYG XS))

/-- The rule `cgecs_rr(XG, XS)`. -/
def cgecs_rr (XG XS : Operand) : List Nat :=
  EMITW (0xF000029F ||| MXM (REG XG) (REG XG) (REG XS)) ++
  EMITW (0xF000029F ||| MXM (RYG XG) (RYG XG) (RYG XS))

/-- The rule `addcx_rr(XG, XS)`. -/
def addcx_rr (XG XS : Operand) : List Nat :=
  EMITW (0x10000080 ||| MXM (REG XG) (REG XG) (REG XS)) ++
  EMITW (0x10000080 ||| MXM (RYG XG) (RYG XG) (RYG XS))

/-- The rule `subcx_rr(XG, XS)`. -/
def subcx_rr (XG XS : Operand) : List Nat :=
  EMITW (0x10000480 ||| MXM (REG XG) (REG XG) (REG XS)) ++
  EMITW (0x10000480 ||| MXM (RYG XG) (RYG XG) (RYG XS))

/-- The rule `svlcx_rr(XG, XS)`. -/
def svlcx_rr (XG XS : Operand) : List Nat :=
  EMITW (0x10000184 ||| MXM (REG XG) (REG XG) (REG XS)) ++
  EMITW (0x10000184 ||| MXM (RYG XG) (RYG XG) (RYG XS))

/-- The rule `svrcx_rr(XG, XS)`. -/
def svrcx_rr (XG XS : Operand) : List Nat :=
  EMITW (0x10000284 ||| MXM (REG XG) (REG XG) (REG XS)) ++
  EMITW (0x10000284 ||| MXM (RYG XG) (RYG XG) (RYG XS))

/-- The rule `svrcn_rr(XG, XS)`. -/
def svrcn_rr (XG XS : Operand) : List Nat :=
  EMITW (0x10000384 ||| MXM (REG XG) (REG XG) (REG XS)) ++
  EMITW (0x10000384 ||| MXM (RYG XG) (RYG XG) (RYG XS))

/-- The two-operand register-register rules of the header that apply one
native instruction to each half, with the opcode constant written in each. -/
def pairRules : List (String × Nat × (Operand → Operand → List Nat)) :=
  [("andcx_rr", 0xF0000417, andcx_rr),
   ("orrcx_rr", 0xF0000497, orrcx_rr),
   ("xorcx_rr", 0xF00004D7, xorcx_rr),
   ("addcs_rr", 0xF0000207, addcs_rr),
   ("subcs_rr", 0xF0000247, subcs_rr),
   ("mulcs_rr", 0xF0000287, mulcs_rr),
   ("divcs_rr", 0xF00002C7, divcs_rr),
   ("mincs_rr", 0xF0000647, mincs_rr),
   ("maxcs_rr", 0xF0000607, maxcs_rr),
   ("ceqcs_rr", 0xF000021F, ceqcs_rr),
   ("cgtcs_rr", 0xF000025F, cgtcs_rr),
   ("cgecs_rr", 0xF000029F, cgecs_rr),
   ("addcx_rr", 0x10000080, addcx_rr),
   ("subcx_rr", 0x10000480, subcx_rr),
   ("svlcx_rr", 0x10000184, svlcx_rr),
   ("svrcx_rr", 0x10000284, svrcx_rr),
   ("svrcn_rr", 0x10000384, svrcn_rr)]

/-- The transfers of one line: `movcx_st(X, Oeax, PLAIN)` ends its two halves
in `0x7C000719 | MXM(REG(X), ..)` at displacement `VAL(PLAIN)` and
`0x7C000719 | MXM(RYG(X), ..)` at displacement `VYL(PLAIN)`, `movcx_ld` the
same with `0x7C000619`; modelled from the spec, `VAL(PLAIN)` is the zero
displacement from `Reax` and `VYL(PLAIN)` lies one 128-bit register (16 bytes)
above it.  A raw word `opc | MXM(reg, 0x00, Teax)` transfers `reg` at `Reax`
itself. -/
def xfer : Step → List (Nat × Nat × Nat)
  | .movcx_st X => [(0x7C000719, REG X, 0), (0x7C000719, RYG X, 16)]
  | .movcx_ld X => [(0x7C000619, REG X, 0), (0x7C000619, RYG X, 16)]
  | .EMITW opc reg _ _ => [(opc, reg, 0)]
  | _ => []

/-- The word a raw line `EMITW(opc | MXM(reg, ren, rem))` places in the code
stream. -/
def rawWord : Step → Option Nat
  | .EMITW opc reg ren rem => some (opc ||| MXM reg ren rem)
  | _ => none

/-- The sequence `sregs_sa()` (save all SIMD regs, destroys Reax), one step per line of the
header. -/
def sregs_sa (b : PairBase) : List Step :=
  [.movxx_ld_REGS,
   .movcx_st Xmm0,
   .addxx_ri (b.RT_SIMD_WIDTH32 * 4),
   .movcx_st Xmm1,
   .addxx_ri (b.RT_SIMD_WIDTH32 * 4),
   .movcx_st Xmm2,
   .addxx_ri (b.RT_SIMD_WIDTH32 * 4),
   .movcx_st Xmm3,
   .addxx_ri (b.RT_SIMD_WIDTH32 * 4),
   .movcx_st Xmm4,
   .addxx_ri (b.RT_SIMD_WIDTH32 * 4),
   .movcx_st Xmm5,
   .addxx_ri (b.RT_SIMD_WIDTH32 * 4),
   .movcx_st Xmm6,
   .addxx_ri (b.RT_SIMD_WIDTH32 * 4),
   .movcx_st Xmm7,
   .addxx_ri (b.RT_SIMD_WIDTH32 * 4),
   .movcx_st Xmm8,
   .addxx_ri (b.RT_SIMD_WIDTH32 * 4),
   .movcx_st Xmm9,
   .addxx_ri (b.RT_SIMD_WIDTH32 * 4),
   .movcx_st XmmA,
   .addxx_ri (b.RT_SIMD_WIDTH32 * 4),
   .movcx_st XmmB,
   .addxx_ri (b.RT_SIMD_WIDTH32 * 4),
   .movcx_st XmmC,
   .addxx_ri (b.RT_SIMD_WIDTH32 * 4),
   .movcx_st XmmD,
   .addxx_ri (b.RT_SIMD_WIDTH32 * 4),
   .EMITW 0x7C000719 b.TmmE 0x00 b.Teax,
   .addxx_ri (b.RT_SIMD_WIDTH32 * 4),
   .EMITW 0x7C000719 (b.TmmE + 16) 0x00 b.Teax,
   .addxx_ri (b.RT_SIMD_WIDTH32 * 4),
   .EMITW 0x7C000719 b.TmmQ 0x00 b.Teax,
   .addxx_ri (b.RT_SIMD_WIDTH32 * 4),
   .EMITW 0x7C000719 b.TmmM 0x00 b.Teax,
   .addxx_ri (b.RT_SIMD_WIDTH32 * 4),
   .EMITW 0x7C000718 b.TmmQ 0x00 b.Teax,
   .addxx_ri (b.RT_SIMD_WIDTH32 * 4),
   .EMITW 0x7C000718 b.TmmM 0x00 b.Teax]

/-- The sequence `sregs_la()` (load all SIMD regs, destroys Reax), one step per line of the
header. -/
def sregs_la (b : PairBase) : List Step :=
  [.movxx_ld_REGS,
   .movcx_ld Xmm0,
   .addxx_ri (b.RT_SIMD_WIDTH32 * 4),
   .movcx_ld Xmm1,
   .addxx_ri (b.RT_SIMD_WIDTH32 * 4),
   .movcx_ld Xmm2,
   .addxx_ri (b.RT_SIMD_WIDTH32 * 4),
   .movcx_ld Xmm3,
   .addxx_ri (b.RT_SIMD_WIDTH32 * 4),
   .movcx_ld Xmm4,
   .addxx_ri (b.RT_SIMD_WIDTH32 * 4),
   .movcx_ld Xmm5,
   .addxx_ri (b.RT_SIMD_WIDTH32 * 4),
   .movcx_ld Xmm6,
   .addxx_ri (b.RT_SIMD_WIDTH32 * 4),
   .movcx_ld Xmm7,
   .addxx_ri (b.RT_SIMD_WIDTH32 * 4),
   .movcx_ld Xmm8,
   .addxx_ri (b.RT_SIMD_WIDTH32 * 4),
   .movcx_ld Xmm9,
   .addxx_ri (b.RT_SIMD_WIDTH32 * 4),
   .movcx_ld XmmA,
   .addxx_ri (b.RT_SIMD_WIDTH32 * 4),
   .movcx_ld XmmB,
   .addxx_ri (b.RT_SIMD_WIDTH32 * 4),
   .movcx_ld XmmC,
   .addxx_ri (b.RT_SIMD_WIDTH32 * 4),
   .movcx_ld XmmD,
   .addxx_ri (b.RT_SIMD_WIDTH32 * 4),
   .EMITW 0x7C000619 b.TmmE 0x00 b.Teax,
   .addxx_ri (b.RT_SIMD_WIDTH32 * 4),
   .EMITW 0x7C000619 (b.TmmE + 16) 0x00 b.Teax,
   .addxx_ri (b.RT_SIMD_WIDTH32 * 4),
   .EMITW 0x7C000619 b.TmmQ 0x00 b.Teax,
   .addxx_ri (b.RT_SIMD_WIDTH32 * 4),
   .EMITW 0x7C000619 b.TmmM 0x00 b.Teax,
   .addxx_ri (b.RT_SIMD_WIDTH32 * 4),
   .EMITW 0x7C000618 b.TmmQ 0x00 b.Teax,
   .addxx_ri (b.RT_SIMD_WIDTH32 * 4),
   .EMITW 0x7C000618 b.TmmM 0x00 b.Teax]

end P32_256V2

/-! ## rtarch_x86_256x1v2.h -/

namespace X86_256X1V2

/-- Modelled from the spec: `REG(reg, mod, sib)` of rtarch_x86.h picks the
register number of an operand triplet. -/
def REG (o : Operand) : Nat := o.reg

/-- Modelled from the spec: the entry `Xmm0` of the register table of
rtarch_x86_128x1v8.h, as written in the sibling rtarch_x86_256.h. -/
def Xmm0 : Operand := ⟨0x00, 0x03, EMPTY⟩
/-- Modelled from the spec: the entry `Xmm1` of the register table of
rtarch_x86_128x1v8.h, as written in the sibling rtarch_x86_256.h. -/
def Xmm1 : Operand := ⟨0x01, 0x03, EMPTY⟩
/-- Modelled from the spec: the entry `Xmm2` of the register table of
rtarch_x86_128x1v8.h, as written in the sibling rtarch_x86_256.h. -/
def Xmm2 : Operand := ⟨0x02, 0x03, EMPTY⟩
/-- Modelled from the spec: the entry `Xmm3` of the register table of
rtarch_x86_128x1v8.h, as written in the sibling rtarch_x86_256.h. -/
def Xmm3 : Operand := ⟨0x03, 0x03, EMPTY⟩
/-- Modelled from the spec: the entry `Xmm4` of the register table of
rtarch_x86_128x1v8.h, as written in the sibling rtarch_x86_256.h. -/
def Xmm4 : Operand := ⟨0x04, 0x03, EMPTY⟩
/-- Modelled from the spec: the entry `Xmm5` of the register table of
rtarch_x86_128x1v8.h, as written in the sibling rtarch_x86_256.h. -/
def Xmm5 : Operand := ⟨0x05, 0x03, EMPTY⟩
/-- Modelled from the spec: the entry `Xmm6` of the register table of
rtarch_x86_128x1v8.h, as written in the sibling rtarch_x86_256.h. -/
def Xmm6 : Operand := ⟨0x06, 0x03, EMPTY⟩
/-- Modelled from the spec: the entry `Xmm7` of the register table of
rtarch_x86_128x1v8.h, as written in the sibling rtarch_x86_256.h. -/
def Xmm7 : Operand := ⟨0x07, 0x03, EMPTY⟩

/-- The eight logical registers `Xmm0 .. Xmm7`. -/
def xmmFile : List Operand :=
  [Xmm0, Xmm1, Xmm2, Xmm3, Xmm4, Xmm5, Xmm6, Xmm7]

/-- The transfers of one line: `muvcx_st(X, Oeax, PLAIN)` and
`muvcx_ld(X, Oeax, PLAIN)` move register `X` with opcode byte `0x29` resp.
`0x28` (the `RT_SIMD == 256` branch) at displacement `PLAIN`, modelled from the
spec as the zero displacement from `Reax`. -/
def xfer : Step → List (Nat × Nat × Nat)
  | .muvcx_st X => [(0x29, REG X, 0)]
  | .muvcx_ld X => [(0x28, REG X, 0)]
  | _ => []

/-- The sequence `sregs_sa()` (save all SIMD regs, destroys Reax), one step per line of the
header. -/
def sregs_sa (RT_SIMD_WIDTH32_256 : Nat) : List Step :=
  [.movxx_ld_REGS,
   .muvcx_st Xmm0,
   .addxx_ri (RT_SIMD_WIDTH32_256 * 4),
   .muvcx_st Xmm1,
   .addxx_ri (RT_SIMD_WIDTH32_256 * 4),
   .muvcx_st Xmm2,
   .addxx_ri (RT_SIMD_WIDTH32_256 * 4),
   .muvcx_st Xmm3,
   .addxx_ri (RT_SIMD_WIDTH32_256 * 4),
   .muvcx_st Xmm4,
   .addxx_ri (RT_SIMD_WIDTH32_256 * 4),
   .muvcx_st Xmm5,
   .addxx_ri (RT_SIMD_WIDTH32_256 * 4),
   .muvcx_st Xmm6,
   .addxx_ri (RT_SIMD_WIDTH32_256 * 4),
   .muvcx_st Xmm7]

/-- The sequence `sregs_la()` (load all SIMD regs, destroys Reax), one step per line of the
header. -/
def sregs_la (RT_SIMD_WIDTH32_256 : Nat) : List Step :=
  [.movxx_ld_REGS,
   .muvcx_ld Xmm0,
   .addxx_ri (RT_SIMD_WIDTH32_256 * 4),
   .muvcx_ld Xmm1,
   .addxx_ri (RT_SIMD_WIDTH32_256 * 4),
   .muvcx_ld Xmm2,
   .addxx_ri (RT_SIMD_WIDTH32_256 * 4),
   .muvcx_ld Xmm3,
   .addxx_ri (RT_SIMD_WIDTH32_256 * 4),
   .muvcx_ld Xmm4,
   .addxx_ri (RT_SIMD_WIDTH32_256 * 4),
   .muvcx_ld Xmm5,
   .addxx_ri (RT_SIMD_WIDTH32_256 * 4),
   .muvcx_ld Xmm6,
   .addxx_ri (RT_SIMD_WIDTH32_256 * 4),
   .muvcx_ld Xmm7]

end X86_256X1V2

/-! ## Sample constants for concrete instances -/

/-- A sample assignment of the base-header constants (`TPxx` = r26, `TDxx` =
r25, `Teax` = r4), used only to instantiate statements at concrete inputs. -/
def sampleBase : PowerBase := ⟨0x1A, 0x19, 0x04⟩

/-- A sample assignment of the constants rtarch_p32_256v2.h takes from other
headers (`TmmE` = 14, `TmmQ` = 15, `TmmM` = 31, `RT_SIMD_WIDTH32` = 8), used
only to instantiate statements at concrete inputs. -/
def samplePairBase : PairBase := ⟨sampleBase, 0x0E, 0x0F, 0x1F, 8⟩

/-- A sample base-register memory operand, used only to instantiate statements
at concrete inputs. -/
def sampleMem : Operand := ⟨0x05, 0x05, EMPTY⟩

/-! ## Build-time selection at the top of the headers -/

/-- The outcome of the `#if RT_ADDRESS == 32 / #elif RT_ADDRESS == 64 / #else`
block at the top of a profile header: one base header is included, or the
build stops on `#error` with the given text. -/
inductive BaseSelect where
  /-- The line `#include "header"` is reached. -/
  | included (header : String)
  /-- The line `#error "reason"` is reached. -/
  | failed (reason : String)
deriving DecidableEq, Repr

/-- The address-width selection of rtarch_x64_256.h (lines 10 to 22) as a
function of the value of `RT_ADDRESS` (an undefined name counts as 0 in
`#if`). -/
def X64_256.selectBase (RT_ADDRESS : Int) : BaseSelect :=
  if RT_ADDRESS = 32 then .included "rtarch_x32.h"
  else if RT_ADDRESS = 64 then .included "rtarch_x64.h"
  else .failed "unsupported address size, check RT_ADDRESS in makefiles"

/-- The address-width selection of rtarch_p64_128.h (lines 10 to 22) as a
function of the value of `RT_ADDRESS` (an undefined name counts as 0 in
`#if`). -/
def P64_128.selectBase (RT_ADDRESS : Int) : BaseSelect :=
  if RT_ADDRESS = 32 then .included "rtarch_p32.h"
  else if RT_ADDRESS = 64 then .included "rtarch_p64.h"
  else .failed "unsupported address size, check RT_ADDRESS in makefiles"

/-! ## Constants and helpers of the x86 base headers -/

/-- A displacement triplet `VAL, TYP, CMD` of the x86 base headers: the
numeric displacement, its type tag, and the bytes that encode it. -/
structure DispX where
  /-- The numeric displacement. -/
  val : Nat
  /-- The type tag. -/
  typ : Nat
  /-- The bytes that encode the displacement. -/
  cmd : List Nat
deriving DecidableEq, Repr

/-- An immediate triplet `VAL, TYP, CMD` of the x86 base headers. -/
structure ImmX where
  /-- The numeric immediate. -/
  val : Nat
  /-- The type tag. -/
  typ : Nat
  /-- The bytes that encode the immediate. -/
  cmd : List Nat
deriving DecidableEq, Repr

/-- Modelled from the spec: the selector `CMD(val, typ, cmd)` of the x86 base
headers picks the encoding bytes of a displacement triplet. -/
def CMD (d : DispX) : List Nat := d.cmd

/-- Modelled from the spec: `AUX(sib, cdp, cim)` of the x86 base headers places
the SIB part, the displacement bytes and the immediate bytes, in this order. -/
def AUX (sib cdp cim : List Nat) : List Nat := sib ++ cdp ++ cim

/-- Modelled from the spec: `IB(im)` of the x86 base headers forms the triplet
of a byte-sized immediate; the profile rules read only its `VAL`. -/
def IB (im : Nat) : ImmX := ⟨im, 0x00, EMITB im⟩

/-- The constants the x86 profile headers take from rtarch.h and the base
header, which are not part of the profile headers; they stay parameters of
every rule that names them. -/
structure X86Base where
  /-- The memory operand `Mebp`. -/
  Mebp : Operand
  /-- The type tag of the displacements built by `inf_SCR01`, `inf_SCR02`,
  `inf_GPC01`. -/
  dispTyp : Nat
  /-- The bytes that encode a displacement of the given value. -/
  dispCmd : Nat → List Nat
  /-- The offset of the scratch area `SCR01`. -/
  SCR01 : Nat
  /-- The offset of the scratch area `SCR02`. -/
  SCR02 : Nat
  /-- The offset of the constant `GPC01`. -/
  GPC01 : Nat

/-- Modelled from the spec: `inf_SCR01(nx)` of rtarch.h, the displacement `nx`
bytes into the scratch area `SCR01`. -/
def inf_SCR01 (b : X86Base) (nx : Nat) : DispX :=
  ⟨b.SCR01 + nx, b.dispTyp, b.dispCmd (b.SCR01 + nx)⟩

/-- Modelled from the spec: `inf_SCR02(nx)` of rtarch.h, the displacement `nx`
bytes into the scratch area `SCR02`. -/
def inf_SCR02 (b : X86Base) (nx : Nat) : DispX :=
  ⟨b.SCR02 + nx, b.dispTyp, b.dispCmd (b.SCR02 + nx)⟩

/-- Modelled from the spec: `inf_GPC01` of rtarch.h, the displacement of the
constant `GPC01` (+1.0). -/
def inf_GPC01 (b : X86Base) : DispX :=
  ⟨b.GPC01, b.dispTyp, b.dispCmd b.GPC01⟩

/-- A sample assignment of the x86 base constants (`Mebp` = `0x05, 0x02,
EMPTY`, displacements encoded as one 32-bit unit), used only to instantiate
statements at concrete inputs. -/
def sampleX86 : X86Base := ⟨⟨0x05, 0x02, EMPTY⟩, 0x02, fun n => EMITW n, 0x40, 0x80, 0xC0⟩

/-! ## rtarch_x86_256.h, further rules -/

/-- Modelled from the spec: the selector `VAL(val, typ, cmd)` of rtarch_x86.h
picks the numeric value of an immediate triplet. -/
def X86_256.VAL (i : ImmX) : Nat := i.val

namespace X86_256

/-- The rule `movpx_ld(RG, RM, DP)`. -/
def movpx_ld (RG RM : Operand) (DP : DispX) : List Nat :=
  VX2 0x0 0 1 ++
  EMITB 0x28 ++
  MRM (REG RG) (MOD RM) (REG RM) ++
  AUX (SIB RM) (CMD DP) EMPTY

/-- The rule `movpx_st(RG, RM, DP)`. -/
def movpx_st (RG RM : Operand) (DP : DispX) : List Nat :=
  VX2 0x0 0 1 ++
  EMITB 0x29 ++
  MRM (REG RG) (MOD RM) (REG RM) ++
  AUX (SIB RM) (CMD DP) EMPTY

/-- The rule `subps_rr(RG, RM)`. -/
def subps_rr (RG RM : Operand) : List Nat :=
  VX2 (REG RG) 0 1 ++
  EMITB 0x5C ++
  MRM (REG RG) (MOD RM) (REG RM)

/-- The rule `mulps_rr(RG, RM)`. -/
def mulps_rr (RG RM : Operand) : List Nat :=
  VX2 (REG RG) 0 1 ++
  EMITB 0x59 ++
  MRM (REG RG) (MOD RM) (REG RM)

/-- The rule `rceps_rr(RG, RM)`. -/
def rceps_rr (RG RM : Operand) : List Nat :=
  VX2 0x0 0 1 ++
  EMITB 0x53 ++
  MRM (REG RG) (MOD RM) (REG RM)

/-- The rule `rcsps_rr(RG, RM)`. -/
def rcsps_rr (RG RM : Operand) : List Nat :=
  mulps_rr RM RG ++
  mulps_rr RM RG ++
  addps_rr RG RG ++
  subps_rr RG RM

/-- The rule `cvzps_rr(RG, RM)`. -/
def cvzps_rr (RG RM : Operand) : List Nat :=
  VX2 0x0 2 1 ++
  EMITB 0x5B ++
  MRM (REG RG) (MOD RM) (REG RM)

/-- The rule `rnpps_rr(RG, RM)`. -/
def rnpps_rr (RG RM : Operand) : List Nat :=
  VX3 0x0 1 3 ++
  EMITB 0x08 ++
  MRM (REG RG) (MOD RM) (REG RM) ++
  AUX EMPTY EMPTY (EMITB 0x02)

/-- The rule `rnpps_ld(RG, RM, DP)`. -/
def rnpps_ld (RG RM : Operand) (DP : DispX) : List Nat :=
  VX3 0x0 1 3 ++
  EMITB 0x08 ++
  MRM (REG RG) (MOD RM) (REG RM) ++
  AUX (SIB RM) (CMD DP) (EMITB 0x02)

/-- The rule `cvpps_rr(RG, RM)`. -/
def cvpps_rr (RG RM : Operand) : List Nat :=
  rnpps_rr RG RM ++
  cvzps_rr RG RG

/-- The rule `cvpps_ld(RG, RM, DP)`. -/
def cvpps_ld (RG RM : Operand) (DP : DispX) : List Nat :=
  rnpps_ld RG RM DP ++
  cvzps_rr RG RG

/-- The rule `rnmps_rr(RG, RM)`. -/
def rnmps_rr (RG RM : Operand) : List Nat :=
  VX3 0x0 1 3 ++
  EMITB 0x08 ++
  MRM (REG RG) (MOD RM) (REG RM) ++
  AUX EMPTY EMPTY (EMITB 0x01)

/-- The rule `rnmps_ld(RG, RM, DP)`. -/
def rnmps_ld (RG RM : Operand) (DP : DispX) : List Nat :=
  VX3 0x0 1 3 ++
  EMITB 0x08 ++
  MRM (REG RG) (MOD RM) (REG RM) ++
  AUX (SIB RM) (CMD DP) (EMITB 0x01)

/-- The rule `cvmps_rr(RG, RM)`. -/
def cvmps_rr (RG RM : Operand) : List Nat :=
  rnmps_rr RG RM ++
  cvzps_rr RG RG

/-- The rule `cvmps_ld(RG, RM, DP)`. -/
def cvmps_ld (RG RM : Operand) (DP : DispX) : List Nat :=
  rnmps_ld RG RM DP ++
  cvzps_rr RG RG

namespace AVX1

/-- The rule `prmpx_rr(RG, RM, IM)` (the `RT_256 < 2` branch). -/
def prmpx_rr (RG RM : Operand) (IM : ImmX) : List Nat :=
  VX3 (REG RG) 1 3 ++
  EMITB 0x06 ++
  MRM (REG RG) (MOD RM) (REG RM) ++
  AUX EMPTY EMPTY (EMITB (VAL IM))

/-- The rule `movlx_ld(RG, RM, DP)` (the `RT_256 < 2` branch). -/
def movlx_ld (RG RM : Operand) (DP : DispX) : List Nat :=
  VX2 0x0 0 0 ++
  EMITB 0x28 ++
  MRM (REG RG) (MOD RM) (REG RM) ++
  AUX (SIB RM) (CMD DP) EMPTY

/-- The rule `movlx_st(RG, RM, DP)` (the `RT_256 < 2` branch). -/
def movlx_st (RG RM : Operand) (DP : DispX) : List Nat :=
  VX2 0x0 0 0 ++
  EMITB 0x29 ++
  MRM (REG RG) (MOD RM) (REG RM) ++
  AUX (SIB RM) (CMD DP) EMPTY

/-- The rule `addlx_rr(RG, RM)` (the `RT_256 < 2` branch). -/
def addlx_rr (RG RM : Operand) : List Nat :=
  VX2 (REG RG) 1 0 ++
  EMITB 0xFE ++
  MRM (REG RG) (MOD RM) (REG RM)

/-- The rule `addpx_rr(RG, RM)` (the `RT_256 < 2` branch). -/
def addpx_rr (b : X86Base) (RG RM : Operand) : List Nat :=
  movpx_st RG b.Mebp (inf_SCR01 b 0) ++
  addlx_rr RG RM ++
  movlx_st RG b.Mebp (inf_SCR01 b 0x00) ++
  movlx_ld RG b.Mebp (inf_SCR01 b 0x10) ++
  prmpx_rr RM RM (IB 1) ++
  addlx_rr RG RM ++
  prmpx_rr RM RM (IB 1) ++
  movlx_st RG b.Mebp (inf_SCR01 b 0x10) ++
  movpx_ld RG b.Mebp (inf_SCR01 b 0)

/-- The rule `addlx_ld(RG, RM, DP)` (the `RT_256 < 2` branch). -/
def addlx_ld (RG RM : Operand) (DP : DispX) : List Nat :=
  VX2 (REG RG) 1 0 ++
  EMITB 0xFE ++
  MRM (REG RG) (MOD RM) (REG RM) ++
  AUX (SIB RM) (CMD DP) EMPTY

/-- The rule `addpx_ld(RG, RM, DP)` (the `RT_256 < 2` branch). -/
def addpx_ld (b : X86Base) (RG RM : Operand) (DP : DispX) : List Nat :=
  movpx_st RG b.Mebp (inf_SCR01 b 0) ++
  movpx_ld RG RM DP ++
  movpx_st RG b.Mebp (inf_SCR02 b 0) ++
  movlx_ld RG b.Mebp (inf_SCR01 b 0x00) ++
  addlx_ld RG b.Mebp (inf_SCR02 b 0x00) ++
  movlx_st RG b.Mebp (inf_SCR01 b 0x00) ++
  movlx_ld RG b.Mebp (inf_SCR01 b 0x10) ++
  addlx_ld RG b.Mebp (inf_SCR02 b 0x10) ++
  movlx_st RG b.Mebp (inf_SCR01 b 0x10) ++
  movpx_ld RG b.Mebp (inf_SCR01 b 0)

/-- The rule `sublx_rr(RG, RM)` (the `RT_256 < 2` branch). -/
def sublx_rr (RG RM : Operand) : List Nat :=
  VX2 (REG RG) 1 0 ++
  EMITB 0xFA ++
  MRM (REG RG) (MOD RM) (REG RM)

/-- The rule `subpx_rr(RG, RM)` (the `RT_256 < 2` branch). -/
def subpx_rr (b : X86Base) (RG RM : Operand) : List Nat :=
  movpx_st RG b.Mebp (inf_SCR01 b 0) ++
  sublx_rr RG RM ++
  movlx_st RG b.Mebp (inf_SCR01 b 0x00) ++
  movlx_ld RG b.Mebp (inf_SCR01 b 0x10) ++
  prmpx_rr RM RM (IB 1) ++
  sublx_rr RG RM ++
  prmpx_rr RM RM (IB 1) ++
  movlx_st RG b.Mebp (inf_SCR01 b 0x10) ++
  movpx_ld RG b.Mebp (inf_SCR01 b 0)

/-- The rule `sublx_ld(RG, RM, DP)` (the `RT_256 < 2` branch). -/
def sublx_ld (RG RM : Operand) (DP : DispX) : List Nat :=
  VX2 (REG RG) 1 0 ++
  EMITB 0xFA ++
  MRM (REG RG) (MOD RM) (REG RM) ++
  AUX (SIB RM) (CMD DP) EMPTY

/-- The rule `subpx_ld(RG, RM, DP)` (the `RT_256 < 2` branch). -/
def subpx_ld (b : X86Base) (RG RM : Operand) (DP : DispX) : List Nat :=
  movpx_st RG b.Mebp (inf_SCR01 b 0) ++
  movpx_ld RG RM DP ++
  movpx_st RG b.Mebp (inf_SCR02 b 0) ++
  movlx_ld RG b.Mebp (inf_SCR01 b 0x00) ++
  sublx_ld RG b.Mebp (inf_SCR02 b 0x00) ++
  movlx_st RG b.Mebp (inf_SCR01 b 0x00) ++
  movlx_ld RG b.Mebp (inf_SCR01 b 0x10) ++
  sublx_ld RG b.Mebp (inf_SCR02 b 0x10) ++
  movlx_st RG b.Mebp (inf_SCR01 b 0x10) ++
  movpx_ld RG b.Mebp (inf_SCR01 b 0)

/-- The rule `shllx_ri(RM, IM)` (the `RT_256 < 2` branch). -/
def shllx_ri (RM : Operand) (IM : ImmX) : List Nat :=
  VX2 (REG RM) 1 0 ++
  EMITB 0x72 ++
  MRM 0x06 (MOD RM) (REG RM) ++
  AUX EMPTY EMPTY (EMITB ((VAL IM) &&& 0x1F))

/-- The rule `shlpx_ri(RM, IM)` (the `RT_256 < 2` branch). -/
def shlpx_ri (b : X86Base) (RM : Operand) (IM : ImmX) : List Nat :=
  movpx_st RM b.Mebp (inf_SCR01 b 0) ++
  shllx_ri RM IM ++
  movlx_st RM b.Mebp (inf_SCR01 b 0x00) ++
  movlx_ld RM b.Mebp (inf_SCR01 b 0x10) ++
  shllx_ri RM IM ++
  movlx_st RM b.Mebp (inf_SCR01 b 0x10) ++
  movpx_ld RM b.Mebp (inf_SCR01 b 0)

/-- The rule `shllx_ld(RG, RM, DP)` (the `RT_256 < 2` branch). -/
def shllx_ld (RG RM : Operand) (DP : DispX) : List Nat :=
  VX2 (REG RG) 1 0 ++
  EMITB 0xF2 ++
  MRM (REG RG) (MOD RM) (REG RM) ++
  AUX (SIB RM) (CMD DP) EMPTY

/-- The rule `shlpx_ld(RG, RM, DP)` (the `RT_256 < 2` branch). -/
def shlpx_ld (b : X86Base) (RG RM : Operand) (DP : DispX) : List Nat :=
  movpx_st RG b.Mebp (inf_SCR01 b 0) ++
  shllx_ld RG RM DP ++
  movlx_st RG b.Mebp (inf_SCR01 b 0x00) ++
  movlx_ld RG b.Mebp (inf_SCR01 b 0x10) ++
  shllx_ld RG RM DP ++
  movlx_st RG b.Mebp (inf_SCR01 b 0x10) ++
  movpx_ld RG b.Mebp (inf_SCR01 b 0)

/-- The rule `shrlx_ri(RM, IM)` (the `RT_256 < 2` branch). -/
def shrlx_ri (RM : Operand) (IM : ImmX) : List Nat :=
  VX2 (REG RM) 1 0 ++
  EMITB 0x72 ++
  MRM 0x02 (MOD RM) (REG RM) ++
  AUX EMPTY EMPTY (EMITB ((VAL IM) &&& 0x1F))

/-- The rule `shrpx_ri(RM, IM)` (the `RT_256 < 2` branch). -/
def shrpx_ri (b : X86Base) (RM : Operand) (IM : ImmX) : List Nat :=
  movpx_st RM b.Mebp (inf_SCR01 b 0) ++
  shrlx_ri RM IM ++
  movlx_st RM b.Mebp (inf_SCR01 b 0x00) ++
  movlx_ld RM b.Mebp (inf_SCR01 b 0x10) ++
  shrlx_ri RM IM ++
  movlx_st RM b.Mebp (inf_SCR01 b 0x10) ++
  movpx_ld RM b.Mebp (inf_SCR01 b 0)

/-- The rule `shrlx_ld(RG, RM, DP)` (the `RT_256 < 2` branch). -/
def shrlx_ld (RG RM : Operand) (DP : DispX) : List Nat :=
  VX2 (REG RG) 1 0 ++
  EMITB 0xD2 ++
  MRM (REG RG) (MOD RM) (REG RM) ++
  AUX (SIB RM) (CMD DP) EMPTY

/-- The rule `shrpx_ld(RG, RM, DP)` (the `RT_256 < 2` branch). -/
def shrpx_ld (b : X86Base) (RG RM : Operand) (DP : DispX) : List Nat :=
  movpx_st RG b.Mebp (inf_SCR01 b 0) ++
  shrlx_ld RG RM DP ++
  movlx_st RG b.Mebp (inf_SCR01 b 0x00) ++
  movlx_ld RG b.Mebp (inf_SCR01 b 0x10) ++
  shrlx_ld RG RM DP ++
  movlx_st RG b.Mebp (inf_SCR01 b 0x10) ++
  movpx_ld RG b.Mebp (inf_SCR01 b 0)

/-- The rule `shrln_ri(RM, IM)` (the `RT_256 < 2` branch). -/
def shrln_ri (RM : Operand) (IM : ImmX) : List Nat :=
  VX2 (REG RM) 1 0 ++
  EMITB 0x72 ++
  MRM 0x04 (MOD RM) (REG RM) ++
  AUX EMPTY EMPTY (EMITB ((VAL IM) &&& 0x1F))

/-- The rule `shrpn_ri(RM, IM)` (the `RT_256 < 2` branch). -/
def shrpn_ri (b : X86Base) (RM : Operand) (IM : ImmX) : List Nat :=
  movpx_st RM b.Mebp (inf_SCR01 b 0) ++
  shrln_ri RM IM ++
  movlx_st RM b.Mebp (inf_SCR01 b 0x00) ++
  movlx_ld RM b.Mebp (inf_SCR01 b 0x10) ++
  shrln_ri RM IM ++
  movlx_st RM b.Mebp (inf_SCR01 b 0x10) ++
  movpx_ld RM b.Mebp (inf_SCR01 b 0)

/-- The rule `shrln_ld(RG, RM, DP)` (the `RT_256 < 2` branch). -/
def shrln_ld (RG RM : Operand) (DP : DispX) : List Nat :=
  VX2 (REG RG) 1 0 ++
  EMITB 0xE2 ++
  MRM (REG RG) (MOD RM) (REG RM) ++
  AUX (SIB RM) (CMD DP) EMPTY

/-- The rule `shrpn_ld(RG, RM, DP)` (the `RT_256 < 2` branch). -/
def shrpn_ld (b : X86Base) (RG RM : Operand) (DP : DispX) : List Nat :=
  movpx_st RG b.Mebp (inf_SCR01 b 0) ++
  shrln_ld RG RM DP ++
  movlx_st RG b.Mebp (inf_SCR01 b 0x00) ++
  movlx_ld RG b.Mebp (inf_SCR01 b 0x10) ++
  shrln_ld RG RM DP ++
  movlx_st RG b.Mebp (inf_SCR01 b 0x10) ++
  movpx_ld RG b.Mebp (inf_SCR01 b 0)

end AVX1

namespace AVX2

/-- The rule `addpx_rr(RG, RM)` (the `RT_256 >= 2` branch). -/
def addpx_rr (RG RM : Operand) : List Nat :=
  VX2 (REG RG) 1 1 ++
  EMITB 0xFE ++
  MRM (REG RG) (MOD RM) (REG RM)

/-- The rule `addpx_ld(RG, RM, DP)` (the `RT_256 >= 2` branch). -/
def addpx_ld (RG RM : Operand) (DP : DispX) : List Nat :=
  VX2 (REG RG) 1 1 ++
  EMITB 0xFE ++
  MRM (REG RG) (MOD RM) (REG RM) ++
  AUX (SIB RM) (CMD DP) EMPTY

/-- The rule `subpx_rr(RG, RM)` (the `RT_256 >= 2` branch). -/
def subpx_rr (RG RM : Operand) : List Nat :=
  VX2 (REG RG) 1 1 ++
  EMITB 0xFA ++
  MRM (REG RG) (MOD RM) (REG RM)

/-- The rule `subpx_ld(RG, RM, DP)` (the `RT_256 >= 2` branch). -/
def subpx_ld (RG RM : Operand) (DP : DispX) : List Nat :=
  VX2 (REG RG) 1 1 ++
  EMITB 0xFA ++
  MRM (REG RG) (MOD RM) (REG RM) ++
  AUX (SIB RM) (CMD DP) EMPTY

/-- The rule `shlpx_ri(RM, IM)` (the `RT_256 >= 2` branch). -/
def shlpx_ri (RM : Operand) (IM : ImmX) : List Nat :=
  VX2 (REG RM) 1 1 ++
  EMITB 0x72 ++
  MRM 0x06 (MOD RM) (REG RM) ++
  AUX EMPTY EMPTY (EMITB ((VAL IM) &&& 0x1F))

/-- The rule `shlpx_ld(RG, RM, DP)` (the `RT_256 >= 2` branch). -/
def shlpx_ld (RG RM : Operand) (DP : DispX) : List Nat :=
  VX2 (REG RG) 1 1 ++
  EMITB 0xF2 ++
  MRM (REG RG) (MOD RM) (REG RM) ++
  AUX (SIB RM) (CMD DP) EMPTY

/-- The rule `shrpx_ri(RM, IM)` (the `RT_256 >= 2` branch). -/
def shrpx_ri (RM : Operand) (IM : ImmX) : List Nat :=
  VX2 (REG RM) 1 1 ++
  EMITB 0x72 ++
  MRM 0x02 (MOD RM) (REG RM) ++
  AUX EMPTY EMPTY (EMITB ((VAL IM) &&& 0x1F))

/-- The rule `shrpx_ld(RG, RM, DP)` (the `RT_256 >= 2` branch). -/
def shrpx_ld (RG RM : Operand) (DP : DispX) : List Nat :=
  VX2 (REG RG) 1 1 ++
  EMITB 0xD2 ++
  MRM (REG RG) (MOD RM) (REG RM) ++
  AUX (SIB RM) (CMD DP) EMPTY

/-- The rule `shrpn_ri(RM, IM)` (the `RT_256 >= 2` branch). -/
def shrpn_ri (RM : Operand) (IM : ImmX) : List Nat :=
  VX2 (REG RM) 1 1 ++
  EMITB 0x72 ++
  MRM 0x04 (MOD RM) (REG RM) ++
  AUX EMPTY EMPTY (EMITB ((VAL IM) &&& 0x1F))

/-- The rule `shrpn_ld(RG, RM, DP)` (the `RT_256 >= 2` branch). -/
def shrpn_ld (RG RM : Operand) (DP : DispX) : List Nat :=
  VX2 (REG RG) 1 1 ++
  EMITB 0xE2 ++
  MRM (REG RG) (MOD RM) (REG RM) ++
  AUX (SIB RM) (CMD DP) EMPTY

end AVX2

end X86_256

/-- The two packed-integer sections of rtarch_x86_256.h. -/
inductive IntBranch where
  /-- The section under `#if (RT_256 < 2)`, "packed integer (AVX1)". -/
  | avx1
  /-- The section under `#else`, "packed integer (AVX2)". -/
  | avx2
deriving DecidableEq, Repr

/-- Which packed-integer section of rtarch_x86_256.h is compiled, following the
nesting of the header: `#if defined (RT_SIMD_CODE)`, then
`#if defined (RT_256) && (RT_256 != 0)`, then `#if (RT_256 < 2)` ... `#else`.
`RT_256 = none` stands for an undefined name. -/
def X86_256.integerBranch (RT_SIMD_CODE : Bool) (RT_256 : Option Int) : Option IntBranch :=
  if RT_SIMD_CODE then
    match RT_256 with
    | none => none
    | some v =>
      if v ≠ 0 then
        if v < 2 then some .avx1 else some .avx2
      else none
  else none

/-- Two byte sequences differ in the vector-length bit only: they agree
everywhere except that bit 2 of the second byte is clear in `xs` and set in
`ys`. -/
def differInLengthBit (xs ys : List Nat) : Prop :=
  ∃ h b t, xs = h :: b :: t ∧ ys = h :: (b ||| 0x04) :: t ∧ b &&& 0x04 = 0

/-! ## rtarch_x64_256.h, further rules -/

/-- The constants rtarch_x64_256.h takes from rtarch.h and the base header
(rtarch_x32.h / rtarch_x64.h), which are not part of the profile headers; they
stay parameters of every rule that names them. -/
structure X64Base extends X86Base where
  /-- The bytes of the address-size lead-in `ADR`. -/
  ADR : List Nat
  /-- The bytes of the lead-in `REX(rxg, rxm)`. -/
  REX : Nat → Nat → List Nat

/-- A sample assignment of the x64 base constants (no `ADR` byte, `REX` as the
byte `0x40 | rxg << 2 | rxm`), used only to instantiate statements at concrete
inputs. -/
def sampleX64 : X64Base :=
  ⟨sampleX86, EMPTY, fun rxg rxm => EMITB (0x40 ||| (rxg <<< 2) ||| rxm)⟩

namespace X64_256

/-- The rule `movpx_ld(RG, RM, DP)`. -/
def movpx_ld (b : X64Base) (RG RM : Operand) (DP : DispX) : List Nat :=
  b.ADR ++
  VEX (RXB RG) (RXB RM) 0x0 1 1 1 ++
  EMITB 0x28 ++
  MRM (REG RG) (MOD RM) (REG RM) ++
  AUX (SIB RM) (CMD DP) EMPTY

/-- The rule `movpx_st(RG, RM, DP)`. -/
def movpx_st (b : X64Base) (RG RM : Operand) (DP : DispX) : List Nat :=
  b.ADR ++
  VEX (RXB RG) (RXB RM) 0x0 1 1 1 ++
  EMITB 0x29 ++
  MRM (REG RG) (MOD RM) (REG RM) ++
  AUX (SIB RM) (CMD DP) EMPTY

/-- The rule `divps_ld(RG, RM, DP)`. -/
def divps_ld (b : X64Base) (RG RM : Operand) (DP : DispX) : List Nat :=
  b.ADR ++
  VEX (RXB RG) (RXB RM) (REN RG) 1 1 1 ++
  EMITB 0x5E ++
  MRM (REG RG) (MOD RM) (REG RM) ++
  AUX (SIB RM) (CMD DP) EMPTY

/-- The rule `rceps_rr(RG, RM)` (the `RT_SIMD_COMPAT_RCP == 0` branch). -/
def rceps_rr (b : X64Base) (RG RM : Operand) : List Nat :=
  movpx_st b RM b.Mebp (inf_SCR01 b.toX86Base 0) ++
  movpx_ld b RG b.Mebp (inf_GPC01 b.toX86Base) ++
  divps_ld b RG b.Mebp (inf_SCR01 b.toX86Base 0)

/-- The rule `rcsps_rr(RG, RM)` (the `RT_SIMD_COMPAT_RCP == 0` branch), whose body is empty. -/
def rcsps_rr (_RG _RM : Operand) : List Nat :=
  EMPTY

/-- The rule `fpuxs_ld(RM, DP)`. -/
def fpuxs_ld (b : X64Base) (RM : Operand) (DP : DispX) : List Nat :=
  b.ADR ++
  b.REX 0 (RXB RM) ++
  EMITB 0xDD ++
  MRM 0x00 (MOD RM) (REG RM) ++
  AUX (SIB RM) (CMD DP) EMPTY

/-- The rule `fpuxt_st(RM, DP)`. -/
def fpuxt_st (b : X64Base) (RM : Operand) (DP : DispX) : List Nat :=
  b.ADR ++
  b.REX 0 (RXB RM) ++
  EMITB 0xDD ++
  MRM 0x01 (MOD RM) (REG RM) ++
  AUX (SIB RM) (CMD DP) EMPTY

/-- The rule `cvzps_rr(RG, RM)`. -/
def cvzps_rr (b : X64Base) (RG RM : Operand) : List Nat :=
  movpx_st b RM b.Mebp (inf_SCR01 b.toX86Base 0) ++
  fpuxs_ld b b.Mebp (inf_SCR01 b.toX86Base 0x00) ++
  fpuxt_st b b.Mebp (inf_SCR01 b.toX86Base 0x00) ++
  fpuxs_ld b b.Mebp (inf_SCR01 b.toX86Base 0x08) ++
  fpuxt_st b b.Mebp (inf_SCR01 b.toX86Base 0x08) ++
  fpuxs_ld b b.Mebp (inf_SCR01 b.toX86Base 0x10) ++
  fpuxt_st b b.Mebp (inf_SCR01 b.toX86Base 0x10) ++
  fpuxs_ld b b.Mebp (inf_SCR01 b.toX86Base 0x18) ++
  fpuxt_st b b.Mebp (inf_SCR01 b.toX86Base 0x18) ++
  movpx_ld b RG b.Mebp (inf_SCR01 b.toX86Base 0)

/-- The rule `rnpps_rr(RG, RM)`. -/
def rnpps_rr (RG RM : Operand) : List Nat :=
  VEX (RXB RG) (RXB RM) 0x0 1 1 3 ++
  EMITB 0x09 ++
  MRM (REG RG) (MOD RM) (REG RM) ++
  AUX EMPTY EMPTY (EMITB 0x02)

/-- The rule `rnpps_ld(RG, RM, DP)`. -/
def rnpps_ld (b : X64Base) (RG RM : Operand) (DP : DispX) : List Nat :=
  b.ADR ++
  VEX (RXB RG) (RXB RM) 0x0 1 1 3 ++
  EMITB 0x09 ++
  MRM (REG RG) (MOD RM) (REG RM) ++
  AUX (SIB RM) (CMD DP) (EMITB 0x02)

/-- The rule `cvpps_rr(RG, RM)`. -/
def cvpps_rr (b : X64Base) (RG RM : Operand) : List Nat :=
  rnpps_rr RG RM ++
  cvzps_rr b RG RG

/-- The rule `cvpps_ld(RG, RM, DP)`. -/
def cvpps_ld (b : X64Base) (RG RM : Operand) (DP : DispX) : List Nat :=
  rnpps_ld b RG RM DP ++
  cvzps_rr b RG RG

/-- The rule `rnmps_rr(RG, RM)`. -/
def rnmps_rr (RG RM : Operand) : List Nat :=
  VEX (RXB RG) (RXB RM) 0x0 1 1 3 ++
  EMITB 0x09 ++
  MRM (REG RG) (MOD RM) (REG RM) ++
  AUX EMPTY EMPTY (EMITB 0x01)

/-- The rule `rnmps_ld(RG, RM, DP)`. -/
def rnmps_ld (b : X64Base) (RG RM : Operand) (DP : DispX) : List Nat :=
  b.ADR ++
  VEX (RXB RG) (RXB RM) 0x0 1 1 3 ++
  EMITB 0x09 ++
  MRM (REG RG) (MOD RM) (REG RM) ++
  AUX (SIB RM) (CMD DP) (EMITB 0x01)

/-- The rule `cvmps_rr(RG, RM)`. -/
def cvmps_rr (b : X64Base) (RG RM : Operand) : List Nat :=
  rnmps_rr RG RM ++
  cvzps_rr b RG RG

/-- The rule `cvmps_ld(RG, RM, DP)`. -/
def cvmps_ld (b : X64Base) (RG RM : Operand) (DP : DispX) : List Nat :=
  rnmps_ld b RG RM DP ++
  cvzps_rr b RG RG

end X64_256
/-! ## rtarch_p64_128.h, further rules -/

namespace P64_128

/-- The rule `rceps_rr(RG, RM)` (the `RT_SIMD_COMPAT_RCP == 0` branch). -/
def rceps_rr (RG RM : Operand) : List Nat :=
  EMITW (0xF000036B ||| (MXM (REG RG) 0x00 (REG RM)))

/-- The rule `rcsps_rr(RG, RM)` (the `RT_SIMD_COMPAT_RCP == 0` branch). -/
def rcsps_rr (RG RM : Operand) : List Nat :=
  EMITW (0xF00007CF ||| (MXM (REG RM) (REG RG) TmmA)) ++
  EMITW (0xF000030F ||| (MXM (REG RG) (REG RG) (REG RM)))

/-- The rule `cvzps_rr(RG, RM)`. -/
def cvzps_rr (RG RM : Operand) : List Nat :=
  EMITW (0xF0000763 ||| (MXM (REG RG) 0x00 (REG RM)))

/-- The rule `rnpps_rr(RG, RM)`. -/
def rnpps_rr (RG RM : Operand) : List Nat :=
  EMITW (0xF00003A7 ||| (MXM (REG RG) 0x00 (REG RM)))

/-- The rule `rnpps_ld(RG, RM, DP)`. -/
def rnpps_ld (b : PowerBase) (RG RM : Operand) (DP : Disp) : List Nat :=
  AUW EMPTY (MOD RM) (VAL DP) (C2 b DP) ++
  EMITW (0x38000000 ||| (MPM b.TPxx (REG RM) (VAL DP) (B2 DP) (P2 b DP))) ++
  EMITW (0x7C000699 ||| (MXM Tmm1 (indexReg b RM) b.TPxx)) ++
  EMITW (0xF00003A7 ||| (MXM (REG RG) 0x00 Tmm1))

/-- The rule `cvpps_rr(RG, RM)`. -/
def cvpps_rr (RG RM : Operand) : List Nat :=
  rnpps_rr RG RM ++
  cvzps_rr RG RG

/-- The rule `cvpps_ld(RG, RM, DP)`. -/
def cvpps_ld (b : PowerBase) (RG RM : Operand) (DP : Disp) : List Nat :=
  rnpps_ld b RG RM DP ++
  cvzps_rr RG RG

/-- The rule `rnmps_rr(RG, RM)`. -/
def rnmps_rr (RG RM : Operand) : List Nat :=
  EMITW (0xF00003E7 ||| (MXM (REG RG) 0x00 (REG RM)))

/-- The rule `rnmps_ld(RG, RM, DP)`. -/
def rnmps_ld (b : PowerBase) (RG RM : Operand) (DP : Disp) : List Nat :=
  AUW EMPTY (MOD RM) (VAL DP) (C2 b DP) ++
  EMITW (0x38000000 ||| (MPM b.TPxx (REG RM) (VAL DP) (B2 DP) (P2 b DP))) ++
  EMITW (0x7C000699 ||| (MXM Tmm1 (indexReg b RM) b.TPxx)) ++
  EMITW (0xF00003E7 ||| (MXM (REG RG) 0x00 Tmm1))

/-- The rule `cvmps_rr(RG, RM)`. -/
def cvmps_rr (RG RM : Operand) : List Nat :=
  rnmps_rr RG RM ++
  cvzps_rr RG RG

/-- The rule `cvmps_ld(RG, RM, DP)`. -/
def cvmps_ld (b : PowerBase) (RG RM : Operand) (DP : Disp) : List Nat :=
  rnmps_ld b RG RM DP ++
  cvzps_rr RG RG

end P64_128
/-! ## rtarch_p32_256v2.h, further rules -/

namespace P32_256V2

/-- Modelled from the spec: `VYL(val, tp1, tp2)` of rtarch_p64_128v4.h names
the displacement of the high half of a register pair, one 128-bit register (16
bytes) above the displacement `VAL` of the low half. -/
def VYL (d : Disp) : Nat := d.val + 16

/-- Modelled from the spec: the structural packer `MPM(reg, brm, vdp, bxx,
pxx)` of rtarch_p64_128v4.h, as defined in the sibling rtarch_p64_128.h. -/
def MPM (reg brm vdp : Nat) (bxx pxx : Nat → Nat) : Nat :=
  pxx vdp ||| (bxx brm <<< 16) ||| (reg <<< 21)

/-- Modelled from the spec: the selector `B2(val, tp1, tp2)` of
rtarch_p64_128v4.h, as defined in the sibling rtarch_p64_128.h. -/
def B2 (d : Disp) : Nat → Nat := P64_128.B2 d

/-- Modelled from the spec: the selector `P2(val, tp1, tp2)` of
rtarch_p64_128v4.h, as defined in the sibling rtarch_p64_128.h. -/
def P2 (b : PairBase) (d : Disp) : Nat → Nat := P64_128.P2 b.toPowerBase d

/-- Modelled from the spec: the selector `C2(val, tp1, tp2)` of
rtarch_p64_128v4.h, as defined in the sibling rtarch_p64_128.h. -/
def C2 (b : PairBase) (d : Disp) : Nat → Nat → List Nat := P64_128.C2 b.toPowerBase d

/-- The index operand of a load/store word, `Teax & (MOD(MS) == TPxx)`: the
comparison is evaluated by the assembler, where true is all ones (the header
notes `== -1 if true`). -/
def indexReg (b : PairBase) (M : Operand) : Nat :=
  if MOD M = b.TPxx then b.Teax else 0

/-- The rule `rcecs_rr(XD, XS)` (the `RT_SIMD_COMPAT_RCP != 1` branch). -/
def rcecs_rr (XD XS : Operand) : List Nat :=
  EMITW (0xF000026B ||| (MXM (REG XD) 0x00 (REG XS))) ++
  EMITW (0xF000026B ||| (MXM (RYG XD) 0x00 (RYG XS)))

/-- The rule `rcscs_rr(XG, XS)` (the `RT_SIMD_COMPAT_RCP != 1` branch). -/
def rcscs_rr (b : PairBase) (XG XS : Operand) : List Nat :=
  EMITW (0xF00006CD ||| (MXM (REG XS) (REG XG) b.TmmQ)) ++
  EMITW (0xF000020F ||| (MXM (REG XG) (REG XG) (REG XS))) ++
  EMITW (0xF00006CD ||| (MXM (RYG XS) (RYG XG) b.TmmQ)) ++
  EMITW (0xF000020F ||| (MXM (RYG XG) (RYG XG) (RYG XS)))

/-- The rule `notcx_rx(XG)`. -/
def notcx_rx (XG : Operand) : List Nat :=
  EMITW (0xF0000517 ||| (MXM (REG XG) (REG XG) (REG XG))) ++
  EMITW (0xF0000517 ||| (MXM (RYG XG) (RYG XG) (RYG XG)))

/-- The rule `cvzcs_rr(XD, XS)`. -/
def cvzcs_rr (XD XS : Operand) : List Nat :=
  EMITW (0xF0000263 ||| (MXM (REG XD) 0x00 (REG XS))) ++
  EMITW (0xF0000263 ||| (MXM (RYG XD) 0x00 (RYG XS)))

/-- The rule `rnpcs_rr(XD, XS)`. -/
def rnpcs_rr (XD XS : Operand) : List Nat :=
  EMITW (0xF00002A7 ||| (MXM (REG XD) 0x00 (REG XS))) ++
  EMITW (0xF00002A7 ||| (MXM (RYG XD) 0x00 (RYG XS)))

/-- The rule `rnmcs_rr(XD, XS)`. -/
def rnmcs_rr (XD XS : Operand) : List Nat :=
  EMITW (0xF00002E7 ||| (MXM (REG XD) 0x00 (REG XS))) ++
  EMITW (0xF00002E7 ||| (MXM (RYG XD) 0x00 (RYG XS)))

/-- The rule `movcx_ld(XD, MS, DS)`. -/
def movcx_ld (b : PairBase) (XD MS : Operand) (DS : Disp) : List Nat :=
  AUW EMPTY (MOD MS) (VAL DS) (C2 b DS) ++
  EMITW (0x38000000 ||| (MPM b.TPxx (REG MS) (VAL DS) (B2 DS) (P2 b DS))) ++
  EMITW (0x7C000619 ||| (MXM (REG XD) (indexReg b MS) b.TPxx)) ++
  AUW EMPTY (MOD MS) (VYL DS) (C2 b DS) ++
  EMITW (0x38000000 ||| (MPM b.TPxx (REG MS) (VYL DS) (B2 DS) (P2 b DS))) ++
  EMITW (0x7C000619 ||| (MXM (RYG XD) (indexReg b MS) b.TPxx))

/-- The rule `movcx_st(XS, MD, DD)`. -/
def movcx_st (b : PairBase) (XS MD : Operand) (DD : Disp) : List Nat :=
  AUW EMPTY (MOD MD) (VAL DD) (C2 b DD) ++
  EMITW (0x38000000 ||| (MPM b.TPxx (REG MD) (VAL DD) (B2 DD) (P2 b DD))) ++
  EMITW (0x7C000719 ||| (MXM (REG XS) (indexReg b MD) b.TPxx)) ++
  AUW EMPTY (MOD MD) (VYL DD) (C2 b DD) ++
  EMITW (0x38000000 ||| (MPM b.TPxx (REG MD) (VYL DD) (B2 DD) (P2 b DD))) ++
  EMITW (0x7C000719 ||| (MXM (RYG XS) (indexReg b MD) b.TPxx))

/-- The rule `mmvcx_ld(XG, MS, DS)`. -/
def mmvcx_ld (b : PairBase) (XG MS : Operand) (DS : Disp) : List Nat :=
  AUW EMPTY (MOD MS) (VAL DS) (C2 b DS) ++
  EMITW (0x38000000 ||| (MPM b.TPxx (REG MS) (VAL DS) (B2 DS) (P2 b DS))) ++
  EMITW (0x7C000619 ||| (MXM b.TmmM (indexReg b MS) b.TPxx)) ++
  EMITW (0xF000003F ||| (MXM (REG XG) (REG XG) b.TmmM)) ++
  AUW EMPTY (MOD MS) (VYL DS) (C2 b DS) ++
  EMITW (0x38000000 ||| (MPM b.TPxx (REG MS) (VYL DS) (B2 DS) (P2 b DS))) ++
  EMITW (0x7C000619 ||| (MXM b.TmmM (indexReg b MS) b.TPxx)) ++
  EMITW (0xF000043F ||| (MXM (RYG XG) (RYG XG) b.TmmM))

/-- The rule `mmvcx_st(XS, MG, DG)`. -/
def mmvcx_st (b : PairBase) (XS MG : Operand) (DG : Disp) : List Nat :=
  AUW EMPTY (MOD MG) (VAL DG) (C2 b DG) ++
  EMITW (0x38000000 ||| (MPM b.TPxx (REG MG) (VAL DG) (B2 DG) (P2 b DG))) ++
  EMITW (0x7C000619 ||| (MXM b.TmmM (indexReg b MG) b.TPxx)) ++
  EMITW (0xF000003F ||| (MXM b.TmmM b.TmmM (REG XS))) ++
  EMITW (0x7C000719 ||| (MXM b.TmmM (indexReg b MG) b.TPxx)) ++
  AUW EMPTY (MOD MG) (VYL DG) (C2 b DG) ++
  EMITW (0x38000000 ||| (MPM b.TPxx (REG MG) (VYL DG) (B2 DG) (P2 b DG))) ++
  EMITW (0x7C000619 ||| (MXM b.TmmM (indexReg b MG) b.TPxx)) ++
  EMITW (0xF000043F ||| (MXM b.TmmM b.TmmM (RYG XS))) ++
  EMITW (0x7C000719 ||| (MXM b.TmmM (indexReg b MG) b.TPxx))

/-- The rule `andcx_ld(XG, MS, DS)`. -/
def andcx_ld (b : PairBase) (XG MS : Operand) (DS : Disp) : List Nat :=
  AUW EMPTY (MOD MS) (VAL DS) (C2 b DS) ++
  EMITW (0x38000000 ||| (MPM b.TPxx (REG MS) (VAL DS) (B2 DS) (P2 b DS))) ++
  EMITW (0x7C000619 ||| (MXM b.TmmM (indexReg b MS) b.TPxx)) ++
  EMITW (0xF0000417 ||| (MXM (REG XG) (REG XG) b.TmmM)) ++
  AUW EMPTY (MOD MS) (VYL DS) (C2 b DS) ++
  EMITW (0x38000000 ||| (MPM b.TPxx (REG MS) (VYL DS) (B2 DS) (P2 b DS))) ++
  EMITW (0x7C000619 ||| (MXM b.TmmM (indexReg b MS) b.TPxx)) ++
  EMITW (0xF0000417 ||| (MXM (RYG XG) (RYG XG) b.TmmM))

/-- The rule `anncx_ld(XG, MS, DS)`. -/
def anncx_ld (b : PairBase) (XG MS : Operand) (DS : Disp) : List Nat :=
  AUW EMPTY (MOD MS) (VAL DS) (C2 b DS) ++
  EMITW (0x38000000 ||| (MPM b.TPxx (REG MS) (VAL DS) (B2 DS) (P2 b DS))) ++
  EMITW (0x7C000619 ||| (MXM b.TmmM (indexReg b MS) b.TPxx)) ++
  EMITW (0xF0000457 ||| (MXM (REG XG) b.TmmM (REG XG))) ++
  AUW EMPTY (MOD MS) (VYL DS) (C2 b DS) ++
  EMITW (0x38000000 ||| (MPM b.TPxx (REG MS) (VYL DS) (B2 DS) (P2 b DS))) ++
  EMITW (0x7C000619 ||| (MXM b.TmmM (indexReg b MS) b.TPxx)) ++
  EMITW (0xF0000457 ||| (MXM (RYG XG) b.TmmM (RYG XG)))

/-- The rule `orrcx_ld(XG, MS, DS)`. -/
def orrcx_ld (b : PairBase) (XG MS : Operand) (DS : Disp) : List Nat :=
  AUW EMPTY (MOD MS) (VAL DS) (C2 b DS) ++
  EMITW (0x38000000 ||| (MPM b.TPxx (REG MS) (VAL DS) (B2 DS) (P2 b DS))) ++
  EMITW (0x7C000619 ||| (MXM b.TmmM (indexReg b MS) b.TPxx)) ++
  EMITW (0xF0000497 ||| (MXM (REG XG) (REG XG) b.TmmM)) ++
  AUW EMPTY (MOD MS) (VYL DS) (C2 b DS) ++
  EMITW (0x38000000 ||| (MPM b.TPxx (REG MS) (VYL DS) (B2 DS) (P2 b DS))) ++
  EMITW (0x7C000619 ||| (MXM b.TmmM (indexReg b MS) b.TPxx)) ++
  EMITW (0xF0000497 ||| (MXM (RYG XG) (RYG XG) b.TmmM))

/-- The rule `orncx_ld(XG, MS, DS)` (the `RT_256 >= 2` branch). -/
def orncx_ld (b : PairBase) (XG MS : Operand) (DS : Disp) : List Nat :=
  AUW EMPTY (MOD MS) (VAL DS) (C2 b DS) ++
  EMITW (0x38000000 ||| (MPM b.TPxx (REG MS) (VAL DS) (B2 DS) (P2 b DS))) ++
  EMITW (0x7C000619 ||| (MXM b.TmmM (indexReg b MS) b.TPxx)) ++
  EMITW (0xF0000557 ||| (MXM (REG XG) b.TmmM (REG XG))) ++
  AUW EMPTY (MOD MS) (VYL DS) (C2 b DS) ++
  EMITW (0x38000000 ||| (MPM b.TPxx (REG MS) (VYL DS) (B2 DS) (P2 b DS))) ++
  EMITW (0x7C000619 ||| (MXM b.TmmM (indexReg b MS) b.TPxx)) ++
  EMITW (0xF0000557 ||| (MXM (RYG XG) b.TmmM (RYG XG)))

/-- The rule `xorcx_ld(XG, MS, DS)`. -/
def xorcx_ld (b : PairBase) (XG MS : Operand) (DS : Disp) : List Nat :=
  AUW EMPTY (MOD MS) (VAL DS) (C2 b DS) ++
  EMITW (0x38000000 ||| (MPM b.TPxx (REG MS) (VAL DS) (B2 DS) (P2 b DS))) ++
  EMITW (0x7C000619 ||| (MXM b.TmmM (indexReg b MS) b.TPxx)) ++
  EMITW (0xF00004D7 ||| (MXM (REG XG) (REG XG) b.TmmM)) ++
  AUW EMPTY (MOD MS) (VYL DS) (C2 b DS) ++
  EMITW (0x38000000 ||| (MPM b.TPxx (REG MS) (VYL DS) (B2 DS) (P2 b DS))) ++
  EMITW (0x7C000619 ||| (MXM b.TmmM (indexReg b MS) b.TPxx)) ++
  EMITW (0xF00004D7 ||| (MXM (RYG XG) (RYG XG) b.TmmM))

/-- The rule `addcs_ld(XG, MS, DS)`. -/
def addcs_ld (b : PairBase) (XG MS : Operand) (DS : Disp) : List Nat :=
  AUW EMPTY (MOD MS) (VAL DS) (C2 b DS) ++
  EMITW (0x38000000 ||| (MPM b.TPxx (REG MS) (VAL DS) (B2 DS) (P2 b DS))) ++
  EMITW (0x7C000619 ||| (MXM b.TmmM (indexReg b MS) b.TPxx)) ++
  EMITW (0xF0000207 ||| (MXM (REG XG) (REG XG) b.TmmM)) ++
  AUW EMPTY (MOD MS) (VYL DS) (C2 b DS) ++
  EMITW (0x38000000 ||| (MPM b.TPxx (REG MS) (VYL DS) (B2 DS) (P2 b DS))) ++
  EMITW (0x7C000619 ||| (MXM b.TmmM (indexReg b MS) b.TPxx)) ++
  EMITW (0xF0000207 ||| (MXM (RYG XG) (RYG XG) b.TmmM))

/-- The rule `subcs_ld(XG, MS, DS)`. -/
def subcs_ld (b : PairBase) (XG MS : Operand) (DS : Disp) : List Nat :=
  AUW EMPTY (MOD MS) (VAL DS) (C2 b DS) ++
  EMITW (0x38000000 ||| (MPM b.TPxx (REG MS) (VAL DS) (B2 DS) (P2 b DS))) ++
  EMITW (0x7C000619 ||| (MXM b.TmmM (indexReg b MS) b.TPxx)) ++
  EMITW (0xF0000247 ||| (MXM (REG XG) (REG XG) b.TmmM)) ++
  AUW EMPTY (MOD MS) (VYL DS) (C2 b DS) ++
  EMITW (0x38000000 ||| (MPM b.TPxx (REG MS) (VYL DS) (B2 DS) (P2 b DS))) ++
  EMITW (0x7C000619 ||| (MXM b.TmmM (indexReg b MS) b.TPxx)) ++
  EMITW (0xF0000247 ||| (MXM (RYG XG) (RYG XG) b.TmmM))

/-- The rule `mulcs_ld(XG, MS, DS)`. -/
def mulcs_ld (b : PairBase) (XG MS : Operand) (DS : Disp) : List Nat :=
  AUW EMPTY (MOD MS) (VAL DS) (C2 b DS) ++
  EMITW (0x38000000 ||| (MPM b.TPxx (REG MS) (VAL DS) (B2 DS) (P2 b DS))) ++
  EMITW (0x7C000619 ||| (MXM b.TmmM (indexReg b MS) b.TPxx)) ++
  EMITW (0xF0000287 ||| (MXM (REG XG) (REG XG) b.TmmM)) ++
  AUW EMPTY (MOD MS) (VYL DS) (C2 b DS) ++
  EMITW (0x38000000 ||| (MPM b.TPxx (REG MS) (VYL DS) (B2 DS) (P2 b DS))) ++
  EMITW (0x7C000619 ||| (MXM b.TmmM (indexReg b MS) b.TPxx)) ++
  EMITW (0xF0000287 ||| (MXM (RYG XG) (RYG XG) b.TmmM))

/-- The rule `divcs_ld(XG, MS, DS)`. -/
def divcs_ld (b : PairBase) (XG MS : Operand) (DS : Disp) : List Nat :=
  AUW EMPTY (MOD MS) (VAL DS) (C2 b DS) ++
  EMITW (0x38000000 ||| (MPM b.TPxx (REG MS) (VAL DS) (B2 DS) (P2 b DS))) ++
  EMITW (0x7C000619 ||| (MXM b.TmmM (indexReg b MS) b.TPxx)) ++
  EMITW (0xF00002C7 ||| (MXM (REG XG) (REG XG) b.TmmM)) ++
  AUW EMPTY (MOD MS) (VYL DS) (C2 b DS) ++
  EMITW (0x38000000 ||| (MPM b.TPxx (REG MS) (VYL DS) (B2 DS) (P2 b DS))) ++
  EMITW (0x7C000619 ||| (MXM b.TmmM (indexReg b MS) b.TPxx)) ++
  EMITW (0xF00002C7 ||| (MXM (RYG XG) (RYG XG) b.TmmM))

/-- The rule `sqrcs_ld(XD, MS, DS)`. -/
def sqrcs_ld (b : PairBase) (XD MS : Operand) (DS : Disp) : List Nat :=
  AUW EMPTY (MOD MS) (VAL DS) (C2 b DS) ++
  EMITW (0x38000000 ||| (MPM b.TPxx (REG MS) (VAL DS) (B2 DS) (P2 b DS))) ++
  EMITW (0x7C000619 ||| (MXM b.TmmM (indexReg b MS) b.TPxx)) ++
  EMITW (0xF000022F ||| (MXM (REG XD) 0x00 b.TmmM)) ++
  AUW EMPTY (MOD MS) (VYL DS) (C2 b DS) ++
  EMITW (0x38000000 ||| (MPM b.TPxx (REG MS) (VYL DS) (B2 DS) (P2 b DS))) ++
  EMITW (0x7C000619 ||| (MXM b.TmmM (indexReg b MS) b.TPxx)) ++
  EMITW (0xF000022F ||| (MXM (RYG XD) 0x00 b.TmmM))

/-- The rule `fmacs_ld(XG, XS, MT, DT)` (the `RT_SIMD_COMPAT_FMA <= 1` branch). -/
def fmacs_ld (b : PairBase) (XG XS MT : Operand) (DT : Disp) : List Nat :=
  AUW EMPTY (MOD MT) (VAL DT) (C2 b DT) ++
  EMITW (0x38000000 ||| (MPM b.TPxx (REG MT) (VAL DT) (B2 DT) (P2 b DT))) ++
  EMITW (0x7C000619 ||| (MXM b.TmmM (indexReg b MT) b.TPxx)) ++
  EMITW (0xF000020F ||| (MXM (REG XG) (REG XS) b.TmmM)) ++
  AUW EMPTY (MOD MT) (VYL DT) (C2 b DT) ++
  EMITW (0x38000000 ||| (MPM b.TPxx (REG MT) (VYL DT) (B2 DT) (P2 b DT))) ++
  EMITW (0x7C000619 ||| (MXM b.TmmM (indexReg b MT) b.TPxx)) ++
  EMITW (0xF000020F ||| (MXM (RYG XG) (RYG XS) b.TmmM))

/-- The rule `fmscs_ld(XG, XS, MT, DT)` (the `RT_SIMD_COMPAT_FMS <= 1` branch). -/
def fmscs_ld (b : PairBase) (XG XS MT : Operand) (DT : Disp) : List Nat :=
  AUW EMPTY (MOD MT) (VAL DT) (C2 b DT) ++
  EMITW (0x38000000 ||| (MPM b.TPxx (REG MT) (VAL DT) (B2 DT) (P2 b DT))) ++
  EMITW (0x7C000619 ||| (MXM b.TmmM (indexReg b MT) b.TPxx)) ++
  EMITW (0xF000068F ||| (MXM (REG XG) (REG XS) b.TmmM)) ++
  AUW EMPTY (MOD MT) (VYL DT) (C2 b DT) ++
  EMITW (0x38000000 ||| (MPM b.TPxx (REG MT) (VYL DT) (B2 DT) (P2 b DT))) ++
  EMITW (0x7C000619 ||| (MXM b.TmmM (indexReg b MT) b.TPxx)) ++
  EMITW (0xF000068F ||| (MXM (RYG XG) (RYG XS) b.TmmM))

/-- The rule `mincs_ld(XG, MS, DS)`. -/
def mincs_ld (b : PairBase) (XG MS : Operand) (DS : Disp) : List Nat :=
  AUW EMPTY (MOD MS) (VAL DS) (C2 b DS) ++
  EMITW (0x38000000 ||| (MPM b.TPxx (REG MS) (VAL DS) (B2 DS) (P2 b DS))) ++
  EMITW (0x7C000619 ||| (MXM b.TmmM (indexReg b MS) b.TPxx)) ++
  EMITW (0xF0000647 ||| (MXM (REG XG) (REG XG) b.TmmM)) ++
  AUW EMPTY (MOD MS) (VYL DS) (C2 b DS) ++
  EMITW (0x38000000 ||| (MPM b.TPxx (REG MS) (VYL DS) (B2 DS) (P2 b DS))) ++
  EMITW (0x7C000619 ||| (MXM b.TmmM (indexReg b MS) b.TPxx)) ++
  EMITW (0xF0000647 ||| (MXM (RYG XG) (RYG XG) b.TmmM))

/-- The rule `maxcs_ld(XG, MS, DS)`. -/
def maxcs_ld (b : PairBase) (XG MS : Operand) (DS : Disp) : List Nat :=
  AUW EMPTY (MOD MS) (VAL DS) (C2 b DS) ++
  EMITW (0x38000000 ||| (MPM b.TPxx (REG MS) (VAL DS) (B2 DS) (P2 b DS))) ++
  EMITW (0x7C000619 ||| (MXM b.TmmM (indexReg b MS) b.TPxx)) ++
  EMITW (0xF0000607 ||| (MXM (REG XG) (REG XG) b.TmmM)) ++
  AUW EMPTY (MOD MS) (VYL DS) (C2 b DS) ++
  EMITW (0x38000000 ||| (MPM b.TPxx (REG MS) (VYL DS) (B2 DS) (P2 b DS))) ++
  EMITW (0x7C000619 ||| (MXM b.TmmM (indexReg b MS) b.TPxx)) ++
  EMITW (0xF0000607 ||| (MXM (RYG XG) (RYG XG) b.TmmM))

/-- The rule `ceqcs_ld(XG, MS, DS)`. -/
def ceqcs_ld (b : PairBase) (XG MS : Operand) (DS : Disp) : List Nat :=
  AUW EMPTY (MOD MS) (VAL DS) (C2 b DS) ++
  EMITW (0x38000000 ||| (MPM b.TPxx (REG MS) (VAL DS) (B2 DS) (P2 b DS))) ++
  EMITW (0x7C000619 ||| (MXM b.TmmM (indexReg b MS) b.TPxx)) ++
  EMITW (0xF000021F ||| (MXM (REG XG) (REG XG) b.TmmM)) ++
  AUW EMPTY (MOD MS) (VYL DS) (C2 b DS) ++
  EMITW (0x38000000 ||| (MPM b.TPxx (REG MS) (VYL DS) (B2 DS) (P2 b DS))) ++
  EMITW (0x7C000619 ||| (MXM b.TmmM (indexReg b MS) b.TPxx)) ++
  EMITW (0xF000021F ||| (MXM (RYG XG) (RYG XG) b.TmmM))

/-- The rule `cnecs_ld(XG, MS, DS)`. -/
def cnecs_ld (b : PairBase) (XG MS : Operand) (DS : Disp) : List Nat :=
  AUW EMPTY (MOD MS) (VAL DS) (C2 b DS) ++
  EMITW (0x38000000 ||| (MPM b.TPxx (REG MS) (VAL DS) (B2 DS) (P2 b DS))) ++
  EMITW (0x7C000619 ||| (MXM b.TmmM (indexReg b MS) b.TPxx)) ++
  EMITW (0xF000021F ||| (MXM (REG XG) (REG XG) b.TmmM)) ++
  EMITW (0xF0000517 ||| (MXM (REG XG) (REG XG) (REG XG))) ++
  AUW EMPTY (MOD MS) (VYL DS) (C2 b DS) ++
  EMITW (0x38000000 ||| (MPM b.TPxx (REG MS) (VYL DS) (B2 DS) (P2 b DS))) ++
  EMITW (0x7C000619 ||| (MXM b.TmmM (indexReg b MS) b.TPxx)) ++
  EMITW (0xF000021F ||| (MXM (RYG XG) (RYG XG) b.TmmM)) ++
  EMITW (0xF0000517 ||| (MXM (RYG XG) (RYG XG) (RYG XG)))

/-- The rule `cltcs_ld(XG, MS, DS)`. -/
def cltcs_ld (b : PairBase) (XG MS : Operand) (DS : Disp) : List Nat :=
  AUW EMPTY (MOD MS) (VAL DS) (C2 b DS) ++
  EMITW (0x38000000 ||| (MPM b.TPxx (REG MS) (VAL DS) (B2 DS) (P2 b DS))) ++
  EMITW (0x7C000619 ||| (MXM b.TmmM (indexReg b MS) b.TPxx)) ++
  EMITW (0xF000025F ||| (MXM (REG XG) b.TmmM (REG XG))) ++
  AUW EMPTY (MOD MS) (VYL DS) (C2 b DS) ++
  EMITW (0x38000000 ||| (MPM b.TPxx (REG MS) (VYL DS) (B2 DS) (P2 b DS))) ++
  EMITW (0x7C000619 ||| (MXM b.TmmM (indexReg b MS) b.TPxx)) ++
  EMITW (0xF000025F ||| (MXM (RYG XG) b.TmmM (RYG XG)))

/-- The rule `clecs_ld(XG, MS, DS)`. -/
def clecs_ld (b : PairBase) (XG MS : Operand) (DS : Disp) : List Nat :=
  AUW EMPTY (MOD MS) (VAL DS) (C2 b DS) ++
  EMITW (0x38000000 ||| (MPM b.TPxx (REG MS) (VAL DS) (B2 DS) (P2 b DS))) ++
  EMITW (0x7C000619 ||| (MXM b.TmmM (indexReg b MS) b.TPxx)) ++
  EMITW (0xF000029F ||| (MXM (REG XG) b.TmmM (REG XG))) ++
  AUW EMPTY (MOD MS) (VYL DS) (C2 b DS) ++
  EMITW (0x38000000 ||| (MPM b.TPxx (REG MS) (VYL DS) (B2 DS) (P2 b DS))) ++
  EMITW (0x7C000619 ||| (MXM b.TmmM (indexReg b MS) b.TPxx)) ++
  EMITW (0xF000029F ||| (MXM (RYG XG) b.TmmM (RYG XG)))

/-- The rule `cgtcs_ld(XG, MS, DS)`. -/
def cgtcs_ld (b : PairBase) (XG MS : Operand) (DS : Disp) : List Nat :=
  AUW EMPTY (MOD MS) (VAL DS) (C2 b DS) ++
  EMITW (0x38000000 ||| (MPM b.TPxx (REG MS) (VAL DS) (B2 DS) (P2 b DS))) ++
  EMITW (0x7C000619 ||| (MXM b.TmmM (indexReg b MS) b.TPxx)) ++
  EMITW (0xF000025F ||| (MXM (REG XG) (REG XG) b.TmmM)) ++
  AUW EMPTY (MOD MS) (VYL DS) (C2 b DS) ++
  EMITW (0x38000000 ||| (MPM b.TPxx (REG MS) (VYL DS) (B2 DS) (P2 b DS))) ++
  EMITW (0x7C000619 ||| (MXM b.TmmM (indexReg b MS) b.TPxx)) ++
  EMITW (0xF000025F ||| (MXM (RYG XG) (RYG XG) b.TmmM))

/-- The rule `cgecs_ld(XG, MS, DS)`. -/
def cgecs_ld (b : PairBase) (XG MS : Operand) (DS : Disp) : List Nat :=
  AUW EMPTY (MOD MS) (VAL DS) (C2 b DS) ++
  EMITW (0x38000000 ||| (MPM b.TPxx (REG MS) (VAL DS) (B2 DS) (P2 b DS))) ++
  EMITW (0x7C000619 ||| (MXM b.TmmM (indexReg b MS) b.TPxx)) ++
  EMITW (0xF000029F ||| (MXM (REG XG) (REG XG) b.TmmM)) ++
  AUW EMPTY (MOD MS) (VYL DS) (C2 b DS) ++
  EMITW (0x38000000 ||| (MPM b.TPxx (REG MS) (VYL DS) (B2 DS) (P2 b DS))) ++
  EMITW (0x7C000619 ||| (MXM b.TmmM (indexReg b MS) b.TPxx)) ++
  EMITW (0xF000029F ||| (MXM (RYG XG) (RYG XG) b.TmmM))

/-- The rule `rnzcs_ld(XD, MS, DS)`. -/
def rnzcs_ld (b : PairBase) (XD MS : Operand) (DS : Disp) : List Nat :=
  AUW EMPTY (MOD MS) (VAL DS) (C2 b DS) ++
  EMITW (0x38000000 ||| (MPM b.TPxx (REG MS) (VAL DS) (B2 DS) (P2 b DS))) ++
  EMITW (0x7C000619 ||| (MXM b.TmmM (indexReg b MS) b.TPxx)) ++
  EMITW (0xF0000267 ||| (MXM (REG XD) 0x00 b.TmmM)) ++
  AUW EMPTY (MOD MS) (VYL DS) (C2 b DS) ++
  EMITW (0x38000000 ||| (MPM b.TPxx (REG MS) (VYL DS) (B2 DS) (P2 b DS))) ++
  EMITW (0x7C000619 ||| (MXM b.TmmM (indexReg b MS) b.TPxx)) ++
  EMITW (0xF0000267 ||| (MXM (RYG XD) 0x00 b.TmmM))

/-- The rule `cvzcs_ld(XD, MS, DS)`. -/
def cvzcs_ld (b : PairBase) (XD MS : Operand) (DS : Disp) : List Nat :=
  AUW EMPTY (MOD MS) (VAL DS) (C2 b DS) ++
  EMITW (0x38000000 ||| (MPM b.TPxx (REG MS) (VAL DS) (B2 DS) (P2 b DS))) ++
  EMITW (0x7C000619 ||| (MXM b.TmmM (indexReg b MS) b.TPxx)) ++
  EMITW (0xF0000263 ||| (MXM (REG XD) 0x00 b.TmmM)) ++
  AUW EMPTY (MOD MS) (VYL DS) (C2 b DS) ++
  EMITW (0x38000000 ||| (MPM b.TPxx (REG MS) (VYL DS) (B2 DS) (P2 b DS))) ++
  EMITW (0x7C000619 ||| (MXM b.TmmM (indexReg b MS) b.TPxx)) ++
  EMITW (0xF0000263 ||| (MXM (RYG XD) 0x00 b.TmmM))

/-- The rule `rnpcs_ld(XD, MS, DS)`. -/
def rnpcs_ld (b : PairBase) (XD MS : Operand) (DS : Disp) : List Nat :=
  AUW EMPTY (MOD MS) (VAL DS) (C2 b DS) ++
  EMITW (0x38000000 ||| (MPM b.TPxx (REG MS) (VAL DS) (B2 DS) (P2 b DS))) ++
  EMITW (0x7C000619 ||| (MXM b.TmmM (indexReg b MS) b.TPxx)) ++
  EMITW (0xF00002A7 ||| (MXM (REG XD) 0x00 b.TmmM)) ++
  AUW EMPTY (MOD MS) (VYL DS) (C2 b DS) ++
  EMITW (0x38000000 ||| (MPM b.TPxx (REG MS) (VYL DS) (B2 DS) (P2 b DS))) ++
  EMITW (0x7C000619 ||| (MXM b.TmmM (indexReg b MS) b.TPxx)) ++
  EMITW (0xF00002A7 ||| (MXM (RYG XD) 0x00 b.TmmM))

/-- The rule `rnmcs_ld(XD, MS, DS)`. -/
def rnmcs_ld (b : PairBase) (XD MS : Operand) (DS : Disp) : List Nat :=
  AUW EMPTY (MOD MS) (VAL DS) (C2 b DS) ++
  EMITW (0x38000000 ||| (MPM b.TPxx (REG MS) (VAL DS) (B2 DS) (P2 b DS))) ++
  EMITW (0x7C000619 ||| (MXM b.TmmM (indexReg b MS) b.TPxx)) ++
  EMITW (0xF00002E7 ||| (MXM (REG XD) 0x00 b.TmmM)) ++
  AUW EMPTY (MOD MS) (VYL DS) (C2 b DS) ++
  EMITW (0x38000000 ||| (MPM b.TPxx (REG MS) (VYL DS) (B2 DS) (P2 b DS))) ++
  EMITW (0x7C000619 ||| (MXM b.TmmM (indexReg b MS) b.TPxx)) ++
  EMITW (0xF00002E7 ||| (MXM (RYG XD) 0x00 b.TmmM))

/-- The rule `rnncs_ld(XD, MS, DS)`. -/
def rnncs_ld (b : PairBase) (XD MS : Operand) (DS : Disp) : List Nat :=
  AUW EMPTY (MOD MS) (VAL DS) (C2 b DS) ++
  EMITW (0x38000000 ||| (MPM b.TPxx (REG MS) (VAL DS) (B2 DS) (P2 b DS))) ++
  EMITW (0x7C000619 ||| (MXM b.TmmM (indexReg b MS) b.TPxx)) ++
  EMITW (0xF00002AF ||| (MXM (REG XD) 0x00 b.TmmM)) ++
  AUW EMPTY (MOD MS) (VYL DS) (C2 b DS) ++
  EMITW (0x38000000 ||| (MPM b.TPxx (REG MS) (VYL DS) (B2 DS) (P2 b DS))) ++
  EMITW (0x7C000619 ||| (MXM b.TmmM (indexReg b MS) b.TPxx)) ++
  EMITW (0xF00002AF ||| (MXM (RYG XD) 0x00 b.TmmM))

/-- The rule `addcx_ld(XG, MS, DS)`. -/
def addcx_ld (b : PairBase) (XG MS : Operand) (DS : Disp) : List Nat :=
  AUW EMPTY (MOD MS) (VAL DS) (C2 b DS) ++
  EMITW (0x38000000 ||| (MPM b.TPxx (REG MS) (VAL DS) (B2 DS) (P2 b DS))) ++
  EMITW (0x7C000619 ||| (MXM b.TmmM (indexReg b MS) b.TPxx)) ++
  EMITW (0x10000080 ||| (MXM (REG XG) (REG XG) b.TmmM)) ++
  AUW EMPTY (MOD MS) (VYL DS) (C2 b DS) ++
  EMITW (0x38000000 ||| (MPM b.TPxx (REG MS) (VYL DS) (B2 DS) (P2 b DS))) ++
  EMITW (0x7C000619 ||| (MXM b.TmmM (indexReg b MS) b.TPxx)) ++
  EMITW (0x10000080 ||| (MXM (RYG XG) (RYG XG) b.TmmM))

/-- The rule `subcx_ld(XG, MS, DS)`. -/
def subcx_ld (b : PairBase) (XG MS : Operand) (DS : Disp) : List Nat :=
  AUW EMPTY (MOD MS) (VAL DS) (C2 b DS) ++
  EMITW (0x38000000 ||| (MPM b.TPxx (REG MS) (VAL DS) (B2 DS) (P2 b DS))) ++
  EMITW (0x7C000619 ||| (MXM b.TmmM (indexReg b MS) b.TPxx)) ++
  EMITW (0x10000480 ||| (MXM (REG XG) (REG XG) b.TmmM)) ++
  AUW EMPTY (MOD MS) (VYL DS) (C2 b DS) ++
  EMITW (0x38000000 ||| (MPM b.TPxx (REG MS) (VYL DS) (B2 DS) (P2 b DS))) ++
  EMITW (0x7C000619 ||| (MXM b.TmmM (indexReg b MS) b.TPxx)) ++
  EMITW (0x10000480 ||| (MXM (RYG XG) (RYG XG) b.TmmM))

/-- The rule `svlcx_ld(XG, MS, DS)`. -/
def svlcx_ld (b : PairBase) (XG MS : Operand) (DS : Disp) : List Nat :=
  AUW EMPTY (MOD MS) (VAL DS) (C2 b DS) ++
  EMITW (0x38000000 ||| (MPM b.TPxx (REG MS) (VAL DS) (B2 DS) (P2 b DS))) ++
  EMITW (0x7C000619 ||| (MXM b.TmmM (indexReg b MS) b.TPxx)) ++
  EMITW (0x10000184 ||| (MXM (REG XG) (REG XG) b.TmmM)) ++
  AUW EMPTY (MOD MS) (VYL DS) (C2 b DS) ++
  EMITW (0x38000000 ||| (MPM b.TPxx (REG MS) (VYL DS) (B2 DS) (P2 b DS))) ++
  EMITW (0x7C000619 ||| (MXM b.TmmM (indexReg b MS) b.TPxx)) ++
  EMITW (0x10000184 ||| (MXM (RYG XG) (RYG XG) b.TmmM))

/-- The rule `svrcx_ld(XG, MS, DS)`. -/
def svrcx_ld (b : PairBase) (XG MS : Operand) (DS : Disp) : List Nat :=
  AUW EMPTY (MOD MS) (VAL DS) (C2 b DS) ++
  EMITW (0x38000000 ||| (MPM b.TPxx (REG MS) (VAL DS) (B2 DS) (P2 b DS))) ++
  EMITW (0x7C000619 ||| (MXM b.TmmM (indexReg b MS) b.TPxx)) ++
  EMITW (0x10000284 ||| (MXM (REG XG) (REG XG) b.TmmM)) ++
  AUW EMPTY (MOD MS) (VYL DS) (C2 b DS) ++
  EMITW (0x38000000 ||| (MPM b.TPxx (REG MS) (VYL DS) (B2 DS) (P2 b DS))) ++
  EMITW (0x7C000619 ||| (MXM b.TmmM (indexReg b MS) b.TPxx)) ++
  EMITW (0x10000284 ||| (MXM (RYG XG) (RYG XG) b.TmmM))

/-- The rule `svrcn_ld(XG, MS, DS)`. -/
def svrcn_ld (b : PairBase) (XG MS : Operand) (DS : Disp) : List Nat :=
  AUW EMPTY (MOD MS) (VAL DS) (C2 b DS) ++
  EMITW (0x38000000 ||| (MPM b.TPxx (REG MS) (VAL DS) (B2 DS) (P2 b DS))) ++
  EMITW (0x7C000619 ||| (MXM b.TmmM (indexReg b MS) b.TPxx)) ++
  EMITW (0x10000384 ||| (MXM (REG XG) (REG XG) b.TmmM)) ++
  AUW EMPTY (MOD MS) (VYL DS) (C2 b DS) ++
  EMITW (0x38000000 ||| (MPM b.TPxx (REG MS) (VYL DS) (B2 DS) (P2 b DS))) ++
  EMITW (0x7C000619 ||| (MXM b.TmmM (indexReg b MS) b.TPxx)) ++
  EMITW (0x10000384 ||| (MXM (RYG XG) (RYG XG) b.TmmM))

/-- The rule `rndcs_ld(XD, MS, DS)`. -/
def rndcs_ld (b : PairBase) (XD MS : Operand) (DS : Disp) : List Nat :=
  AUW EMPTY (MOD MS) (VAL DS) (C2 b DS) ++
  EMITW (0x38000000 ||| (MPM b.TPxx (REG MS) (VAL DS) (B2 DS) (P2 b DS))) ++
  EMITW (0x7C000619 ||| (MXM b.TmmM (indexReg b MS) b.TPxx)) ++
  EMITW (0xF00002AF ||| (MXM (REG XD) 0x00 b.TmmM)) ++
  AUW EMPTY (MOD MS) (VYL DS) (C2 b DS) ++
  EMITW (0x38000000 ||| (MPM b.TPxx (REG MS) (VYL DS) (B2 DS) (P2 b DS))) ++
  EMITW (0x7C000619 ||| (MXM b.TmmM (indexReg b MS) b.TPxx)) ++
  EMITW (0xF00002AF ||| (MXM (RYG XD) 0x00 b.TmmM))

/-- The rule `cvtcn_ld(XD, MS, DS)`. -/
def cvtcn_ld (b : PairBase) (XD MS : Operand) (DS : Disp) : List Nat :=
  AUW EMPTY (MOD MS) (VAL DS) (C2 b DS) ++
  EMITW (0x38000000 ||| (MPM b.TPxx (REG MS) (VAL DS) (B2 DS) (P2 b DS))) ++
  EMITW (0x7C000619 ||| (MXM b.TmmM (indexReg b MS) b.TPxx)) ++
  EMITW (0xF00002E3 ||| (MXM (REG XD) 0x00 b.TmmM)) ++
  AUW EMPTY (MOD MS) (VYL DS) (C2 b DS) ++
  EMITW (0x38000000 ||| (MPM b.TPxx (REG MS) (VYL DS) (B2 DS) (P2 b DS))) ++
  EMITW (0x7C000619 ||| (MXM b.TmmM (indexReg b MS) b.TPxx)) ++
  EMITW (0xF00002E3 ||| (MXM (RYG XD) 0x00 b.TmmM))

/-- The rule `cvpcs_rr(XD, XS)`. -/
def cvpcs_rr (XD XS : Operand) : List Nat :=
  rnpcs_rr XD XS ++
  cvzcs_rr XD XD

/-- The rule `cvpcs_ld(XD, MS, DS)`. -/
def cvpcs_ld (b : PairBase) (XD MS : Operand) (DS : Disp) : List Nat :=
  rnpcs_ld b XD MS DS ++
  cvzcs_rr XD XD

/-- The rule `cvmcs_rr(XD, XS)`. -/
def cvmcs_rr (XD XS : Operand) : List Nat :=
  rnmcs_rr XD XS ++
  cvzcs_rr XD XD

/-- The rule `cvmcs_ld(XD, MS, DS)`. -/
def cvmcs_ld (b : PairBase) (XD MS : Operand) (DS : Disp) : List Nat :=
  rnmcs_ld b XD MS DS ++
  cvzcs_rr XD XD

/-- One half of `movcx_ld`: its lines with the half of the register written `r` and
the displacement of the half written `v`. -/
def movcx_ld_half (r : Operand → Nat) (v : Disp → Nat)
    (b : PairBase) (XD MS : Operand) (DS : Disp) : List Nat :=
  AUW EMPTY (MOD MS) (v DS) (C2 b DS) ++
  EMITW (0x38000000 ||| (MPM b.TPxx (REG MS) (v DS) (B2 DS) (P2 b DS))) ++
  EMITW (0x7C000619 ||| (MXM (r XD) (indexReg b MS) b.TPxx))

/-- One half of `movcx_st`: its lines with the half of the register written `r` and
the displacement of the half written `v`. -/
def movcx_st_half (r : Operand → Nat) (v : Disp → Nat)
    (b : PairBase) (XS MD : Operand) (DD : Disp) : List Nat :=
  AUW EMPTY (MOD MD) (v DD) (C2 b DD) ++
  EMITW (0x38000000 ||| (MPM b.TPxx (REG MD) (v DD) (B2 DD) (P2 b DD))) ++
  EMITW (0x7C000719 ||| (MXM (r XS) (indexReg b MD) b.TPxx))

/-- One half of `mmvcx_ld`: its lines with the half of the register written `r` and
the displacement of the half written `v`, and the select opcode written `k`. -/
def mmvcx_ld_half (k : Nat) (r : Operand → Nat) (v : Disp → Nat)
    (b : PairBase) (XG MS : Operand) (DS : Disp) : List Nat :=
  AUW EMPTY (MOD MS) (v DS) (C2 b DS) ++
  EMITW (0x38000000 ||| (MPM b.TPxx (REG MS) (v DS) (B2 DS) (P2 b DS))) ++
  EMITW (0x7C000619 ||| (MXM b.TmmM (indexReg b MS) b.TPxx)) ++
  EMITW (k ||| (MXM (r XG) (r XG) b.TmmM))

/-- One half of `mmvcx_st`: its lines with the half of the register written `r` and
the displacement of the half written `v`, and the select opcode written `k`. -/
def mmvcx_st_half (k : Nat) (r : Operand → Nat) (v : Disp → Nat)
    (b : PairBase) (XS MG : Operand) (DG : Disp) : List Nat :=
  AUW EMPTY (MOD MG) (v DG) (C2 b DG) ++
  EMITW (0x38000000 ||| (MPM b.TPxx (REG MG) (v DG) (B2 DG) (P2 b DG))) ++
  EMITW (0x7C000619 ||| (MXM b.TmmM (indexReg b MG) b.TPxx)) ++
  EMITW (k ||| (MXM b.TmmM b.TmmM (r XS))) ++
  EMITW (0x7C000719 ||| (MXM b.TmmM (indexReg b MG) b.TPxx))

/-- One half of `andcx_ld`: its lines with the half of the register written `r` and
the displacement of the half written `v`. -/
def andcx_ld_half (r : Operand → Nat) (v : Disp → Nat)
    (b : PairBase) (XG MS : Operand) (DS : Disp) : List Nat :=
  AUW EMPTY (MOD MS) (v DS) (C2 b DS) ++
  EMITW (0x38000000 ||| (MPM b.TPxx (REG MS) (v DS) (B2 DS) (P2 b DS))) ++
  EMITW (0x7C000619 ||| (MXM b.TmmM (indexReg b MS) b.TPxx)) ++
  EMITW (0xF0000417 ||| (MXM (r XG) (r XG) b.TmmM))

/-- One half of `anncx_ld`: its lines with the half of the register written `r` and
the displacement of the half written `v`. -/
def anncx_ld_half (r : Operand → Nat) (v : Disp → Nat)
    (b : PairBase) (XG MS : Operand) (DS : Disp) : List Nat :=
  AUW EMPTY (MOD MS) (v DS) (C2 b DS) ++
  EMITW (0x38000000 ||| (MPM b.TPxx (REG MS) (v DS) (B2 DS) (P2 b DS))) ++
  EMITW (0x7C000619 ||| (MXM b.TmmM (indexReg b MS) b.TPxx)) ++
  EMITW (0xF0000457 ||| (MXM (r XG) b.TmmM (r XG)))

/-- One half of `orrcx_ld`: its lines with the half of the register written `r` and
the displacement of the half written `v`. -/
def orrcx_ld_half (r : Operand → Nat) (v : Disp → Nat)
    (b : PairBase) (XG MS : Operand) (DS : Disp) : List Nat :=
  AUW EMPTY (MOD MS) (v DS) (C2 b DS) ++
  EMITW (0x38000000 ||| (MPM b.TPxx (REG MS) (v DS) (B2 DS) (P2 b DS))) ++
  EMITW (0x7C000619 ||| (MXM b.TmmM (indexReg b MS) b.TPxx)) ++
  EMITW (0xF0000497 ||| (MXM (r XG) (r XG) b.TmmM))

/-- One half of `orncx_ld`: its lines with the half of the register written `r` and
the displacement of the half written `v`. -/
def orncx_ld_half (r : Operand → Nat) (v : Disp → Nat)
    (b : PairBase) (XG MS : Operand) (DS : Disp) : List Nat :=
  AUW EMPTY (MOD MS) (v DS) (C2 b DS) ++
  EMITW (0x38000000 ||| (MPM b.TPxx (REG MS) (v DS) (B2 DS) (P2 b DS))) ++
  EMITW (0x7C000619 ||| (MXM b.TmmM (indexReg b MS) b.TPxx)) ++
  EMITW (0xF0000557 ||| (MXM (r XG) b.TmmM (r XG)))

/-- One half of `xorcx_ld`: its lines with the half of the register written `r` and
the displacement of the half written `v`. -/
def xorcx_ld_half (r : Operand → Nat) (v : Disp → Nat)
    (b : PairBase) (XG MS : Operand) (DS : Disp) : List Nat :=
  AUW EMPTY (MOD MS) (v DS) (C2 b DS) ++
  EMITW (0x38000000 ||| (MPM b.TPxx (REG MS) (v DS) (B2 DS) (P2 b DS))) ++
  EMITW (0x7C000619 ||| (MXM b.TmmM (indexReg b MS) b.TPxx)) ++
  EMITW (0xF00004D7 ||| (MXM (r XG) (r XG) b.TmmM))

/-- One half of `addcs_ld`: its lines with the half of the register written `r` and
the displacement of the half written `v`. -/
def addcs_ld_half (r : Operand → Nat) (v : Disp → Nat)
    (b : PairBase) (XG MS : Operand) (DS : Disp) : List Nat :=
  AUW EMPTY (MOD MS) (v DS) (C2 b DS) ++
  EMITW (0x38000000 ||| (MPM b.TPxx (REG MS) (v DS) (B2 DS) (P2 b DS))) ++
  EMITW (0x7C000619 ||| (MXM b.TmmM (indexReg b MS) b.TPxx)) ++
  EMITW (0xF0000207 ||| (MXM (r XG) (r XG) b.TmmM))

/-- One half of `subcs_ld`: its lines with the half of the register written `r` and
the displacement of the half written `v`. -/
def subcs_ld_half (r : Operand → Nat) (v : Disp → Nat)
    (b : PairBase) (XG MS : Operand) (DS : Disp) : List Nat :=
  AUW EMPTY (MOD MS) (v DS) (C2 b DS) ++
  EMITW (0x38000000 ||| (MPM b.TPxx (REG MS) (v DS) (B2 DS) (P2 b DS))) ++
  EMITW (0x7C000619 ||| (MXM b.TmmM (indexReg b MS) b.TPxx)) ++
  EMITW (0xF0000247 ||| (MXM (r XG) (r XG) b.TmmM))

/-- One half of `mulcs_ld`: its lines with the half of the register written `r` and
the displacement of the half written `v`. -/
def mulcs_ld_half (r : Operand → Nat) (v : Disp → Nat)
    (b : PairBase) (XG MS : Operand) (DS : Disp) : List Nat :=
  AUW EMPTY (MOD MS) (v DS) (C2 b DS) ++
  EMITW (0x38000000 ||| (MPM b.TPxx (REG MS) (v DS) (B2 DS) (P2 b DS))) ++
  EMITW (0x7C000619 ||| (MXM b.TmmM (indexReg b MS) b.TPxx)) ++
  EMITW (0xF0000287 ||| (MXM (r XG) (r XG) b.TmmM))

/-- One half of `divcs_ld`: its lines with the half of the register written `r` and
the displacement of the half written `v`. -/
def divcs_ld_half (r : Operand → Nat) (v : Disp → Nat)
    (b : PairBase) (XG MS : Operand) (DS : Disp) : List Nat :=
  AUW EMPTY (MOD MS) (v DS) (C2 b DS) ++
  EMITW (0x38000000 ||| (MPM b.TPxx (REG MS) (v DS) (B2 DS) (P2 b DS))) ++
  EMITW (0x7C000619 ||| (MXM b.TmmM (indexReg b MS) b.TPxx)) ++
  EMITW (0xF00002C7 ||| (MXM (r XG) (r XG) b.TmmM))

/-- One half of `sqrcs_ld`: its lines with the half of the register written `r` and
the displacement of the half written `v`. -/
def sqrcs_ld_half (r : Operand → Nat) (v : Disp → Nat)
    (b : PairBase) (XD MS : Operand) (DS : Disp) : List Nat :=
  AUW EMPTY (MOD MS) (v DS) (C2 b DS) ++
  EMITW (0x38000000 ||| (MPM b.TPxx (REG MS) (v DS) (B2 DS) (P2 b DS))) ++
  EMITW (0x7C000619 ||| (MXM b.TmmM (indexReg b MS) b.TPxx)) ++
  EMITW (0xF000022F ||| (MXM (r XD) 0x00 b.TmmM))

/-- One half of `fmacs_ld`: its lines with the half of the register written `r` and
the displacement of the half written `v`. -/
def fmacs_ld_half (r : Operand → Nat) (v : Disp → Nat)
    (b : PairBase) (XG XS MT : Operand) (DT : Disp) : List Nat :=
  AUW EMPTY (MOD MT) (v DT) (C2 b DT) ++
  EMITW (0x38000000 ||| (MPM b.TPxx (REG MT) (v DT) (B2 DT) (P2 b DT))) ++
  EMITW (0x7C000619 ||| (MXM b.TmmM (indexReg b MT) b.TPxx)) ++
  EMITW (0xF000020F ||| (MXM (r XG) (r XS) b.TmmM))

/-- One half of `fmscs_ld`: its lines with the half of the register written `r` and
the displacement of the half written `v`. -/
def fmscs_ld_half (r : Operand → Nat) (v : Disp → Nat)
    (b : PairBase) (XG XS MT : Operand) (DT : Disp) : List Nat :=
  AUW EMPTY (MOD MT) (v DT) (C2 b DT) ++
  EMITW (0x38000000 ||| (MPM b.TPxx (REG MT) (v DT) (B2 DT) (P2 b DT))) ++
  EMITW (0x7C000619 ||| (MXM b.TmmM (indexReg b MT) b.TPxx)) ++
  EMITW (0xF000068F ||| (MXM (r XG) (r XS) b.TmmM))

/-- One half of `mincs_ld`: its lines with the half of the register written `r` and
the displacement of the half written `v`. -/
def mincs_ld_half (r : Operand → Nat) (v : Disp → Nat)
    (b : PairBase) (XG MS : Operand) (DS : Disp) : List Nat :=
  AUW EMPTY (MOD MS) (v DS) (C2 b DS) ++
  EMITW (0x38000000 ||| (MPM b.TPxx (REG MS) (v DS) (B2 DS) (P2 b DS))) ++
  EMITW (0x7C000619 ||| (MXM b.TmmM (indexReg b MS) b.TPxx)) ++
  EMITW (0xF0000647 ||| (MXM (r XG) (r XG) b.TmmM))

/-- One half of `maxcs_ld`: its lines with the half of the register written `r` and
the displacement of the half written `v`. -/
def maxcs_ld_half (r : Operand → Nat) (v : Disp → Nat)
    (b : PairBase) (XG MS : Operand) (DS : Disp) : List Nat :=
  AUW EMPTY (MOD MS) (v DS) (C2 b DS) ++
  EMITW (0x38000000 ||| (MPM b.TPxx (REG MS) (v DS) (B2 DS) (P2 b DS))) ++
  EMITW (0x7C000619 ||| (MXM b.TmmM (indexReg b MS) b.TPxx)) ++
  EMITW (0xF0000607 ||| (MXM (r XG) (r XG) b.TmmM))

/-- One half of `ceqcs_ld`: its lines with the half of the register written `r` and
the displacement of the half written `v`. -/
def ceqcs_ld_half (r : Operand → Nat) (v : Disp → Nat)
    (b : PairBase) (XG MS : Operand) (DS : Disp) : List Nat :=
  AUW EMPTY (MOD MS) (v DS) (C2 b DS) ++
  EMITW (0x38000000 ||| (MPM b.TPxx (REG MS) (v DS) (B2 DS) (P2 b DS))) ++
  EMITW (0x7C000619 ||| (MXM b.TmmM (indexReg b MS) b.TPxx)) ++
  EMITW (0xF000021F ||| (MXM (r XG) (r XG) b.TmmM))

/-- One half of `cnecs_ld`: its lines with the half of the register written `r` and
the displacement of the half written `v`. -/
def cnecs_ld_half (r : Operand → Nat) (v : Disp → Nat)
    (b : PairBase) (XG MS : Operand) (DS : Disp) : List Nat :=
  AUW EMPTY (MOD MS) (v DS) (C2 b DS) ++
  EMITW (0x38000000 ||| (MPM b.TPxx (REG MS) (v DS) (B2 DS) (P2 b DS))) ++
  EMITW (0x7C000619 ||| (MXM b.TmmM (indexReg b MS) b.TPxx)) ++
  EMITW (0xF000021F ||| (MXM (r XG) (r XG) b.TmmM)) ++
  EMITW (0xF0000517 ||| (MXM (r XG) (r XG) (r XG)))

/-- One half of `cltcs_ld`: its lines with the half of the register written `r` and
the displacement of the half written `v`. -/
def cltcs_ld_half (r : Operand → Nat) (v : Disp → Nat)
    (b : PairBase) (XG MS : Operand) (DS : Disp) : List Nat :=
  AUW EMPTY (MOD MS) (v DS) (C2 b DS) ++
  EMITW (0x38000000 ||| (MPM b.TPxx (REG MS) (v DS) (B2 DS) (P2 b DS))) ++
  EMITW (0x7C000619 ||| (MXM b.TmmM (indexReg b MS) b.TPxx)) ++
  EMITW (0xF000025F ||| (MXM (r XG) b.TmmM (r XG)))

/-- One half of `clecs_ld`: its lines with the half of the register written `r` and
the displacement of the half written `v`. -/
def clecs_ld_half (r : Operand → Nat) (v : Disp → Nat)
    (b : PairBase) (XG MS : Operand) (DS : Disp) : List Nat :=
  AUW EMPTY (MOD MS) (v DS) (C2 b DS) ++
  EMITW (0x38000000 ||| (MPM b.TPxx (REG MS) (v DS) (B2 DS) (P2 b DS))) ++
  EMITW (0x7C000619 ||| (MXM b.TmmM (indexReg b MS) b.TPxx)) ++
  EMITW (0xF000029F ||| (MXM (r XG) b.TmmM (r XG)))

/-- One half of `cgtcs_ld`: its lines with the half of the register written `r` and
the displacement of the half written `v`. -/
def cgtcs_ld_half (r : Operand → Nat) (v : Disp → Nat)
    (b : PairBase) (XG MS : Operand) (DS : Disp) : List Nat :=
  AUW EMPTY (MOD MS) (v DS) (C2 b DS) ++
  EMITW (0x38000000 ||| (MPM b.TPxx (REG MS) (v DS) (B2 DS) (P2 b DS))) ++
  EMITW (0x7C000619 ||| (MXM b.TmmM (indexReg b MS) b.TPxx)) ++
  EMITW (0xF000025F ||| (MXM (r XG) (r XG) b.TmmM))

/-- One half of `cgecs_ld`: its lines with the half of the register written `r` and
the displacement of the half written `v`. -/
def cgecs_ld_half (r : Operand → Nat) (v : Disp → Nat)
    (b : PairBase) (XG MS : Operand) (DS : Disp) : List Nat :=
  AUW EMPTY (MOD MS) (v DS) (C2 b DS) ++
  EMITW (0x38000000 ||| (MPM b.TPxx (REG MS) (v DS) (B2 DS) (P2 b DS))) ++
  EMITW (0x7C000619 ||| (MXM b.TmmM (indexReg b MS) b.TPxx)) ++
  EMITW (0xF000029F ||| (MXM (r XG) (r XG) b.TmmM))

/-- One half of `rnzcs_ld`: its lines with the half of the register written `r` and
the displacement of the half written `v`. -/
def rnzcs_ld_half (r : Operand → Nat) (v : Disp → Nat)
    (b : PairBase) (XD MS : Operand) (DS : Disp) : List Nat :=
  AUW EMPTY (MOD MS) (v DS) (C2 b DS) ++
  EMITW (0x38000000 ||| (MPM b.TPxx (REG MS) (v DS) (B2 DS) (P2 b DS))) ++
  EMITW (0x7C000619 ||| (MXM b.TmmM (indexReg b MS) b.TPxx)) ++
  EMITW (0xF0000267 ||| (MXM (r XD) 0x00 b.TmmM))

/-- One half of `cvzcs_ld`: its lines with the half of the register written `r` and
the displacement of the half written `v`. -/
def cvzcs_ld_half (r : Operand → Nat) (v : Disp → Nat)
    (b : PairBase) (XD MS : Operand) (DS : Disp) : List Nat :=
  AUW EMPTY (MOD MS) (v DS) (C2 b DS) ++
  EMITW (0x38000000 ||| (MPM b.TPxx (REG MS) (v DS) (B2 DS) (P2 b DS))) ++
  EMITW (0x7C000619 ||| (MXM b.TmmM (indexReg b MS) b.TPxx)) ++
  EMITW (0xF0000263 ||| (MXM (r XD) 0x00 b.TmmM))

/-- One half of `rnpcs_ld`: its lines with the half of the register written `r` and
the displacement of the half written `v`. -/
def rnpcs_ld_half (r : Operand → Nat) (v : Disp → Nat)
    (b : PairBase) (XD MS : Operand) (DS : Disp) : List Nat :=
  AUW EMPTY (MOD MS) (v DS) (C2 b DS) ++
  EMITW (0x38000000 ||| (MPM b.TPxx (REG MS) (v DS) (B2 DS) (P2 b DS))) ++
  EMITW (0x7C000619 ||| (MXM b.TmmM (indexReg b MS) b.TPxx)) ++
  EMITW (0xF00002A7 ||| (MXM (r XD) 0x00 b.TmmM))

/-- One half of `rnmcs_ld`: its lines with the half of the register written `r` and
the displacement of the half written `v`. -/
def rnmcs_ld_half (r : Operand → Nat) (v : Disp → Nat)
    (b : PairBase) (XD MS : Operand) (DS : Disp) : List Nat :=
  AUW EMPTY (MOD MS) (v DS) (C2 b DS) ++
  EMITW (0x38000000 ||| (MPM b.TPxx (REG MS) (v DS) (B2 DS) (P2 b DS))) ++
  EMITW (0x7C000619 ||| (MXM b.TmmM (indexReg b MS) b.TPxx)) ++
  EMITW (0xF00002E7 ||| (MXM (r XD) 0x00 b.TmmM))

/-- One half of `rnncs_ld`: its lines with the half of the register written `r` and
the displacement of the half written `v`. -/
def rnncs_ld_half (r : Operand → Nat) (v : Disp → Nat)
    (b : PairBase) (XD MS : Operand) (DS : Disp) : List Nat :=
  AUW EMPTY (MOD MS) (v DS) (C2 b DS) ++
  EMITW (0x38000000 ||| (MPM b.TPxx (REG MS) (v DS) (B2 DS) (P2 b DS))) ++
  EMITW (0x7C000619 ||| (MXM b.TmmM (indexReg b MS) b.TPxx)) ++
  EMITW (0xF00002AF ||| (MXM (r XD) 0x00 b.TmmM))

/-- One half of `addcx_ld`: its lines with the half of the register written `r` and
the displacement of the half written `v`. -/
def addcx_ld_half (r : Operand → Nat) (v : Disp → Nat)
    (b : PairBase) (XG MS : Operand) (DS : Disp) : List Nat :=
  AUW EMPTY (MOD MS) (v DS) (C2 b DS) ++
  EMITW (0x38000000 ||| (MPM b.TPxx (REG MS) (v DS) (B2 DS) (P2 b DS))) ++
  EMITW (0x7C000619 ||| (MXM b.TmmM (indexReg b MS) b.TPxx)) ++
  EMITW (0x10000080 ||| (MXM (r XG) (r XG) b.TmmM))

/-- One half of `subcx_ld`: its lines with the half of the register written `r` and
the displacement of the half written `v`. -/
def subcx_ld_half (r : Operand → Nat) (v : Disp → Nat)
    (b : PairBase) (XG MS : Operand) (DS : Disp) : List Nat :=
  AUW EMPTY (MOD MS) (v DS) (C2 b DS) ++
  EMITW (0x38000000 ||| (MPM b.TPxx (REG MS) (v DS) (B2 DS) (P2 b DS))) ++
  EMITW (0x7C000619 ||| (MXM b.TmmM (indexReg b MS) b.TPxx)) ++
  EMITW (0x10000480 ||| (MXM (r XG) (r XG) b.TmmM))

/-- One half of `svlcx_ld`: its lines with the half of the register written `r` and
the displacement of the half written `v`. -/
def svlcx_ld_half (r : Operand → Nat) (v : Disp → Nat)
    (b : PairBase) (XG MS : Operand) (DS : Disp) : List Nat :=
  AUW EMPTY (MOD MS) (v DS) (C2 b DS) ++
  EMITW (0x38000000 ||| (MPM b.TPxx (REG MS) (v DS) (B2 DS) (P2 b DS))) ++
  EMITW (0x7C000619 ||| (MXM b.TmmM (indexReg b MS) b.TPxx)) ++
  EMITW (0x10000184 ||| (MXM (r XG) (r XG) b.TmmM))

/-- One half of `svrcx_ld`: its lines with the half of the register written `r` and
the displacement of the half written `v`. -/
def svrcx_ld_half (r : Operand → Nat) (v : Disp → Nat)
    (b : PairBase) (XG MS : Operand) (DS : Disp) : List Nat :=
  AUW EMPTY (MOD MS) (v DS) (C2 b DS) ++
  EMITW (0x38000000 ||| (MPM b.TPxx (REG MS) (v DS) (B2 DS) (P2 b DS))) ++
  EMITW (0x7C000619 ||| (MXM b.TmmM (indexReg b MS) b.TPxx)) ++
  EMITW (0x10000284 ||| (MXM (r XG) (r XG) b.TmmM))

/-- One half of `svrcn_ld`: its lines with the half of the register written `r` and
the displacement of the half written `v`. -/
def svrcn_ld_half (r : Operand → Nat) (v : Disp → Nat)
    (b : PairBase) (XG MS : Operand) (DS : Disp) : List Nat :=
  AUW EMPTY (MOD MS) (v DS) (C2 b DS) ++
  EMITW (0x38000000 ||| (MPM b.TPxx (REG MS) (v DS) (B2 DS) (P2 b DS))) ++
  EMITW (0x7C000619 ||| (MXM b.TmmM (indexReg b MS) b.TPxx)) ++
  EMITW (0x10000384 ||| (MXM (r XG) (r XG) b.TmmM))

/-- One half of `rndcs_ld`: its lines with the half of the register written `r` and
the displacement of the half written `v`. -/
def rndcs_ld_half (r : Operand → Nat) (v : Disp → Nat)
    (b : PairBase) (XD MS : Operand) (DS : Disp) : List Nat :=
  AUW EMPTY (MOD MS) (v DS) (C2 b DS) ++
  EMITW (0x38000000 ||| (MPM b.TPxx (REG MS) (v DS) (B2 DS) (P2 b DS))) ++
  EMITW (0x7C000619 ||| (MXM b.TmmM (indexReg b MS) b.TPxx)) ++
  EMITW (0xF00002AF ||| (MXM (r XD) 0x00 b.TmmM))

/-- One half of `cvtcn_ld`: its lines with the half of the register written `r` and
the displacement of the half written `v`. -/
def cvtcn_ld_half (r : Operand → Nat) (v : Disp → Nat)
    (b : PairBase) (XD MS : Operand) (DS : Disp) : List Nat :=
  AUW EMPTY (MOD MS) (v DS) (C2 b DS) ++
  EMITW (0x38000000 ||| (MPM b.TPxx (REG MS) (v DS) (B2 DS) (P2 b DS))) ++
  EMITW (0x7C000619 ||| (MXM b.TmmM (indexReg b MS) b.TPxx)) ++
  EMITW (0xF00002E3 ||| (MXM (r XD) 0x00 b.TmmM))

/-- An entry of the table of rules with a memory operand that process both
halves: the name, the select opcode of each half where the rule has one (0
otherwise), the rule, and its half form.  Rules with one register operand
ignore the second. -/
structure MemPairRule where
  /-- The name of the rule. -/
  name : String
  /-- The select opcode of the low half, 0 if the rule has none. -/
  kLo : Nat
  /-- The select opcode of the high half, 0 if the rule has none. -/
  kHi : Nat
  /-- The rule. -/
  rule : PairBase → Operand → Operand → Operand → Disp → List Nat
  /-- The half form of the rule. -/
  half : Nat → (Operand → Nat) → (Disp → Nat) → PairBase → Operand → Operand → Operand →
    Disp → List Nat

/-- The rules of the header that have a memory operand and process both
halves, in the order of the header. -/
def memPairRules : List MemPairRule :=
 [⟨"movcx_ld", 0, 0,
    fun b X _ M D => movcx_ld b X M D,
    fun _ r v b X _ M D => movcx_ld_half r v b X M D⟩,
  ⟨"movcx_st", 0, 0,
    fun b X _ M D => movcx_st b X M D,
    fun _ r v b X _ M D => movcx_st_half r v b X M D⟩,
  ⟨"mmvcx_ld", 0xF000003F, 0xF000043F,
    fun b X _ M D => mmvcx_ld b X M D,
    fun k r v b X _ M D => mmvcx_ld_half k r v b X M D⟩,
  ⟨"mmvcx_st", 0xF000003F, 0xF000043F,
    fun b X _ M D => mmvcx_st b X M D,
    fun k r v b X _ M D => mmvcx_st_half k r v b X M D⟩,
  ⟨"andcx_ld", 0, 0,
    fun b X _ M D => andcx_ld b X M D,
    fun _ r v b X _ M D => andcx_ld_half r v b X M D⟩,
  ⟨"anncx_ld", 0, 0,
    fun b X _ M D => anncx_ld b X M D,
    fun _ r v b X _ M D => anncx_ld_half r v b X M D⟩,
  ⟨"orrcx_ld", 0, 0,
    fun b X _ M D => orrcx_ld b X M D,
    fun _ r v b X _ M D => orrcx_ld_half r v b X M D⟩,
  ⟨"orncx_ld", 0, 0,
    fun b X _ M D => orncx_ld b X M D,
    fun _ r v b X _ M D => orncx_ld_half r v b X M D⟩,
  ⟨"xorcx_ld", 0, 0,
    fun b X _ M D => xorcx_ld b X M D,
    fun _ r v b X _ M D => xorcx_ld_half r v b X M D⟩,
  ⟨"addcs_ld", 0, 0,
    fun b X _ M D => addcs_ld b X M D,
    fun _ r v b X _ M D => addcs_ld_half r v b X M D⟩,
  ⟨"subcs_ld", 0, 0,
    fun b X _ M D => subcs_ld b X M D,
    fun _ r v b X _ M D => subcs_ld_half r v b X M D⟩,
  ⟨"mulcs_ld", 0, 0,
    fun b X _ M D => mulcs_ld b X M D,
    fun _ r v b X _ M D => mulcs_ld_half r v b X M D⟩,
  ⟨"divcs_ld", 0, 0,
    fun b X _ M D => divcs_ld b X M D,
    fun _ r v b X _ M D => divcs_ld_half r v b X M D⟩,
  ⟨"sqrcs_ld", 0, 0,
    fun b X _ M D => sqrcs_ld b X M D,
    fun _ r v b X _ M D => sqrcs_ld_half r v b X M D⟩,
  ⟨"fmacs_ld", 0, 0,
    fun b X Y M D => fmacs_ld b X Y M D,
    fun _ r v b X Y M D => fmacs_ld_half r v b X Y M D⟩,
  ⟨"fmscs_ld", 0, 0,
    fun b X Y M D => fmscs_ld b X Y M D,
    fun _ r v b X Y M D => fmscs_ld_half r v b X Y M D⟩,
  ⟨"mincs_ld", 0, 0,
    fun b X _ M D => mincs_ld b X M D,
    fun _ r v b X _ M D => mincs_ld_half r v b X M D⟩,
  ⟨"maxcs_ld", 0, 0,
    fun b X _ M D => maxcs_ld b X M D,
    fun _ r v b X _ M D => maxcs_ld_half r v b X M D⟩,
  ⟨"ceqcs_ld", 0, 0,
    fun b X _ M D => ceqcs_ld b X M D,
    fun _ r v b X _ M D => ceqcs_ld_half r v b X M D⟩,
  ⟨"cnecs_ld", 0, 0,
    fun b X _ M D => cnecs_ld b X M D,
    fun _ r v b X _ M D => cnecs_ld_half r v b X M D⟩,
  ⟨"cltcs_ld", 0, 0,
    fun b X _ M D => cltcs_ld b X M D,
    fun _ r v b X _ M D => cltcs_ld_half r v b X M D⟩,
  ⟨"clecs_ld", 0, 0,
    fun b X _ M D => clecs_ld b X M D,
    fun _ r v b X _ M D => clecs_ld_half r v b X M D⟩,
  ⟨"cgtcs_ld", 0, 0,
    fun b X _ M D => cgtcs_ld b X M D,
    fun _ r v b X _ M D => cgtcs_ld_half r v b X M D⟩,
  ⟨"cgecs_ld", 0, 0,
    fun b X _ M D => cgecs_ld b X M D,
    fun _ r v b X _ M D => cgecs_ld_half r v b X M D⟩,
  ⟨"rnzcs_ld", 0, 0,
    fun b X _ M D => rnzcs_ld b X M D,
    fun _ r v b X _ M D => rnzcs_ld_half r v b X M D⟩,
  ⟨"cvzcs_ld", 0, 0,
    fun b X _ M D => cvzcs_ld b X M D,
    fun _ r v b X _ M D => cvzcs_ld_half r v b X M D⟩,
  ⟨"rnpcs_ld", 0, 0,
    fun b X _ M D => rnpcs_ld b X M D,
    fun _ r v b X _ M D => rnpcs_ld_half r v b X M D⟩,
  ⟨"rnmcs_ld", 0, 0,
    fun b X _ M D => rnmcs_ld b X M D,
    fun _ r v b X _ M D => rnmcs_ld_half r v b X M D⟩,
  ⟨"rnncs_ld", 0, 0,
    fun b X _ M D => rnncs_ld b X M D,
    fun _ r v b X _ M D => rnncs_ld_half r v b X M D⟩,
  ⟨"addcx_ld", 0, 0,
    fun b X _ M D => addcx_ld b X M D,
    fun _ r v b X _ M D => addcx_ld_half r v b X M D⟩,
  ⟨"subcx_ld", 0, 0,
    fun b X _ M D => subcx_ld b X M D,
    fun _ r v b X _ M D => subcx_ld_half r v b X M D⟩,
  ⟨"svlcx_ld", 0, 0,
    fun b X _ M D => svlcx_ld b X M D,
    fun _ r v b X _ M D => svlcx_ld_half r v b X M D⟩,
  ⟨"svrcx_ld", 0, 0,
    fun b X _ M D => svrcx_ld b X M D,
    fun _ r v b X _ M D => svrcx_ld_half r v b X M D⟩,
  ⟨"svrcn_ld", 0, 0,
    fun b X _ M D => svrcn_ld b X M D,
    fun _ r v b X _ M D => svrcn_ld_half r v b X M D⟩,
  ⟨"rndcs_ld", 0, 0,
    fun b X _ M D => rndcs_ld b X M D,
    fun _ r v b X _ M D => rndcs_ld_half r v b X M D⟩,
  ⟨"cvtcn_ld", 0, 0,
    fun b X _ M D => cvtcn_ld b X M D,
    fun _ r v b X _ M D => cvtcn_ld_half r v b X M D⟩]

end P32_256V2

/-! ## rtarch_x86_256x1v2.h, further rules -/

/-- The constants and lead-in rules rtarch_x86_256x1v2.h takes from rtarch.h,
the base header and rtarch_x86_128x1v8.h, which are not part of the profile
headers; they stay parameters of every rule that names them. -/
structure X1Base extends X86Base where
  /-- The bytes of the 2-byte lead-in `V2X(ren, len, pfx)`. -/
  V2X : Nat → Nat → Nat → List Nat
  /-- The bytes of the 3-byte lead-in `VEX(ren, len, pfx, aux)`. -/
  VEX : Nat → Nat → Nat → Nat → List Nat

/-- A sample assignment of the constants of rtarch_x86_256x1v2.h (the lead-ins
as `0xC5, 0x80 | len << 2 | (15 - ren) << 3 | pfx` and
`0xC4, 0xE0 | aux, len << 2 | (15 - ren) << 3 | pfx`), used only to instantiate
statements at concrete inputs. -/
def sampleX1 : X1Base :=
  ⟨sampleX86,
   fun ren len pfx => EMITB 0xC5 ++ EMITB (0x80 ||| (len <<< 2) ||| ((0x0F - ren) <<< 3) ||| pfx),
   fun ren len pfx aux =>
     EMITB 0xC4 ++ EMITB (0xE0 ||| aux) ++ EMITB ((len <<< 2) ||| ((0x0F - ren) <<< 3) ||| pfx)⟩

namespace X86_256X1V2

/-- Modelled from the spec: `MRM(reg, mod, rem)` of rtarch_x86.h, the operand
selector byte combining the mode tag and the two register fields. -/
def MRM (reg mod rem : Nat) : List Nat := EMITB ((mod <<< 6) ||| (reg <<< 3) ||| rem)

/-- The rule `movcx_ld(XD, MS, DS)`. -/
def movcx_ld (b : X1Base) (XD MS : Operand) (DS : DispX) : List Nat :=
  b.V2X 0x00 1 0 ++
  EMITB 0x28 ++
  MRM (REG XD) (MOD MS) (REG MS) ++
  AUX (SIB MS) (CMD DS) EMPTY

/-- The rule `movcx_st(XS, MD, DD)`. -/
def movcx_st (b : X1Base) (XS MD : Operand) (DD : DispX) : List Nat :=
  b.V2X 0x00 1 0 ++
  EMITB 0x29 ++
  MRM (REG XS) (MOD MD) (REG MD) ++
  AUX (SIB MD) (CMD DD) EMPTY

/-- The rule `addcs3rr(XD, XS, XT)`. -/
def addcs3rr (b : X1Base) (XD XS XT : Operand) : List Nat :=
  b.V2X (REG XS) 1 0 ++
  EMITB 0x58 ++
  MRM (REG XD) (MOD XT) (REG XT)

/-- The rule `addcs_rr(XG, XS)`. -/
def addcs_rr (b : X1Base) (XG XS : Operand) : List Nat :=
  addcs3rr b XG XG XS

/-- The rule `subcs3rr(XD, XS, XT)`. -/
def subcs3rr (b : X1Base) (XD XS XT : Operand) : List Nat :=
  b.V2X (REG XS) 1 0 ++
  EMITB 0x5C ++
  MRM (REG XD) (MOD XT) (REG XT)

/-- The rule `subcs_rr(XG, XS)`. -/
def subcs_rr (b : X1Base) (XG XS : Operand) : List Nat :=
  subcs3rr b XG XG XS

/-- The rule `mulcs3rr(XD, XS, XT)`. -/
def mulcs3rr (b : X1Base) (XD XS XT : Operand) : List Nat :=
  b.V2X (REG XS) 1 0 ++
  EMITB 0x59 ++
  MRM (REG XD) (MOD XT) (REG XT)

/-- The rule `mulcs_rr(XG, XS)`. -/
def mulcs_rr (b : X1Base) (XG XS : Operand) : List Nat :=
  mulcs3rr b XG XG XS

/-- The rule `mulcs3ld(XD, XS, MT, DT)`. -/
def mulcs3ld (b : X1Base) (XD XS MT : Operand) (DT : DispX) : List Nat :=
  b.V2X (REG XS) 1 0 ++
  EMITB 0x59 ++
  MRM (REG XD) (MOD MT) (REG MT) ++
  AUX (SIB MT) (CMD DT) EMPTY

/-- The rule `mulcs_ld(XG, MS, DS)`. -/
def mulcs_ld (b : X1Base) (XG MS : Operand) (DS : DispX) : List Nat :=
  mulcs3ld b XG XG MS DS

/-- The rule `rcecs_rr(XD, XS)` (the `RT_SIMD_COMPAT_RCP != 1` branch). -/
def rcecs_rr (b : X1Base) (XD XS : Operand) : List Nat :=
  b.V2X 0x00 1 0 ++
  EMITB 0x53 ++
  MRM (REG XD) (MOD XS) (REG XS)

/-- The rule `rcscs_rr(XG, XS)` (the `RT_SIMD_COMPAT_RCP != 1` branch). -/
def rcscs_rr (b : X1Base) (XG XS : Operand) : List Nat :=
  mulcs_rr b XS XG ++
  mulcs_rr b XS XG ++
  addcs_rr b XG XG ++
  subcs_rr b XG XS

/-- The rule `fmacs_rr(XG, XS, XT)` (`RT_256X1 < 2`, `RT_SIMD_COMPAT_FMA == 0`). -/
def fmacs_rr (b : X1Base) (XG XS XT : Operand) : List Nat :=
  movcx_st b XS b.Mebp (inf_SCR01 b.toX86Base 0) ++
  mulcs_rr b XS XT ++
  addcs_rr b XG XS ++
  movcx_ld b XS b.Mebp (inf_SCR01 b.toX86Base 0)

/-- The rule `fmacs_ld(XG, XS, MT, DT)` (`RT_256X1 < 2`, `RT_SIMD_COMPAT_FMA == 0`). -/
def fmacs_ld (b : X1Base) (XG XS MT : Operand) (DT : DispX) : List Nat :=
  movcx_st b XS b.Mebp (inf_SCR01 b.toX86Base 0) ++
  mulcs_ld b XS MT DT ++
  addcs_rr b XG XS ++
  movcx_ld b XS b.Mebp (inf_SCR01 b.toX86Base 0)

/-- The rule `fmscs_rr(XG, XS, XT)` (`RT_256X1 < 2`, `RT_SIMD_COMPAT_FMS == 0`). -/
def fmscs_rr (b : X1Base) (XG XS XT : Operand) : List Nat :=
  movcx_st b XS b.Mebp (inf_SCR01 b.toX86Base 0) ++
  mulcs_rr b XS XT ++
  subcs_rr b XG XS ++
  movcx_ld b XS b.Mebp (inf_SCR01 b.toX86Base 0)

/-- The rule `fmscs_ld(XG, XS, MT, DT)` (`RT_256X1 < 2`, `RT_SIMD_COMPAT_FMS == 0`). -/
def fmscs_ld (b : X1Base) (XG XS MT : Operand) (DT : DispX) : List Nat :=
  movcx_st b XS b.Mebp (inf_SCR01 b.toX86Base 0) ++
  mulcs_ld b XS MT DT ++
  subcs_rr b XG XS ++
  movcx_ld b XS b.Mebp (inf_SCR01 b.toX86Base 0)

/-- The rule `cvzcs_rr(XD, XS)`. -/
def cvzcs_rr (b : X1Base) (XD XS : Operand) : List Nat :=
  b.V2X 0x00 1 2 ++
  EMITB 0x5B ++
  MRM (REG XD) (MOD XS) (REG XS)

/-- The rule `rnpcs_rr(XD, XS)`. -/
def rnpcs_rr (b : X1Base) (XD XS : Operand) : List Nat :=
  b.VEX 0x00 1 1 3 ++
  EMITB 0x08 ++
  MRM (REG XD) (MOD XS) (REG XS) ++
  AUX EMPTY EMPTY (EMITB 0x02)

/-- The rule `rnpcs_ld(XD, MS, DS)`. -/
def rnpcs_ld (b : X1Base) (XD MS : Operand) (DS : DispX) : List Nat :=
  b.VEX 0x00 1 1 3 ++
  EMITB 0x08 ++
  MRM (REG XD) (MOD MS) (REG MS) ++
  AUX (SIB MS) (CMD DS) (EMITB 0x02)

/-- The rule `cvpcs_rr(XD, XS)`. -/
def cvpcs_rr (b : X1Base) (XD XS : Operand) : List Nat :=
  rnpcs_rr b XD XS ++
  cvzcs_rr b XD XD

/-- The rule `cvpcs_ld(XD, MS, DS)`. -/
def cvpcs_ld (b : X1Base) (XD MS : Operand) (DS : DispX) : List Nat :=
  rnpcs_ld b XD MS DS ++
  cvzcs_rr b XD XD

/-- The rule `rnmcs_rr(XD, XS)`. -/
def rnmcs_rr (b : X1Base) (XD XS : Operand) : List Nat :=
  b.VEX 0x00 1 1 3 ++
  EMITB 0x08 ++
  MRM (REG XD) (MOD XS) (REG XS) ++
  AUX EMPTY EMPTY (EMITB 0x01)

/-- The rule `rnmcs_ld(XD, MS, DS)`. -/
def rnmcs_ld (b : X1Base) (XD MS : Operand) (DS : DispX) : List Nat :=
  b.VEX 0x00 1 1 3 ++
  EMITB 0x08 ++
  MRM (REG XD) (MOD MS) (REG MS) ++
  AUX (SIB MS) (CMD DS) (EMITB 0x01)

/-- The rule `cvmcs_rr(XD, XS)`. -/
def cvmcs_rr (b : X1Base) (XD XS : Operand) : List Nat :=
  rnmcs_rr b XD XS ++
  cvzcs_rr b XD XD

/-- The rule `cvmcs_ld(XD, MS, DS)`. -/
def cvmcs_ld (b : X1Base) (XD MS : Operand) (DS : DispX) : List Nat :=
  rnmcs_ld b XD MS DS ++
  cvzcs_rr b XD XD

end X86_256X1V2

/-! ## Register and memory state -/

/-- The state a sequence of vector rules acts on: the content of each vector
register, by register number, and of each memory cell of one vector register,
by the number of the base register and the displacement. -/
structure VState (V : Type) where
  /-- The content of the vector registers. -/
  reg : Nat → V
  /-- The content of the memory cells. -/
  mem : Nat × Nat → V

/-- Modelled from the spec: a vector store writes register `r` to the cell at
displacement `d` from base register `base`. -/
def VState.store {V : Type} (s : VState V) (r base d : Nat) : VState V :=
  { s with mem := Function.update s.mem (base, d) (s.reg r) }

/-- Modelled from the spec: a vector load writes the cell at displacement `d`
from base register `base` to register `r`. -/
def VState.load {V : Type} (s : VState V) (r base d : Nat) : VState V :=
  { s with reg := Function.update s.reg r (s.mem (base, d)) }

/-- Modelled from the spec: a three-operand lane-wise operation writes
`f (reg x) (reg y)` to register `d`. -/
def VState.op {V : Type} (f : V → V → V) (s : VState V) (d x y : Nat) : VState V :=
  { s with reg := Function.update s.reg d (f (s.reg x) (s.reg y)) }

namespace P32_256V2

/-- Effect of one half of `movcx_st` (the lines of `movcx_st_half`): the half
`r` of the register is stored at the displacement `v` of the half. -/
def movcx_st_half_sem {V : Type} (r : Operand → Nat) (v : Disp → Nat)
    (XS MD : Operand) (DD : Disp) (s : VState V) : VState V :=
  s.store (r XS) (REG MD) (v DD)

/-- Effect of one half of `movcx_ld` (the lines of `movcx_ld_half`): the half
`r` of the register is loaded from the displacement `v` of the half. -/
def movcx_ld_half_sem {V : Type} (r : Operand → Nat) (v : Disp → Nat)
    (XD MS : Operand) (DS : Disp) (s : VState V) : VState V :=
  s.load (r XD) (REG MS) (v DS)

/-- Effect of `movcx_st(XS, MD, DD)`: the low half (`REG`, `VAL`), then the high
half (`RYG`, `VYL`). -/
def movcx_st_sem {V : Type} (XS MD : Operand) (DD : Disp) (s : VState V) : VState V :=
  s |> movcx_st_half_sem REG VAL XS MD DD
    |> movcx_st_half_sem RYG VYL XS MD DD

/-- Effect of `movcx_ld(XD, MS, DS)`: the low half (`REG`, `VAL`), then the high
half (`RYG`, `VYL`). -/
def movcx_ld_sem {V : Type} (XD MS : Operand) (DS : Disp) (s : VState V) : VState V :=
  s |> movcx_ld_half_sem REG VAL XD MS DS
    |> movcx_ld_half_sem RYG VYL XD MS DS

namespace V1

/-- The rule `orncx_ld(XG, MS, DS)` (the `RT_256 < 2` branch). -/
def orncx_ld (b : PairBase) (XG MS : Operand) (DS : Disp) : List Nat :=
  notcx_rx XG ++
  P32_256V2.orrcx_ld b XG MS DS

end V1

end P32_256V2

namespace X86_256

/-- Effect of `mulps_rr(RG, RM)`, `vmulps RG, RG, RM`: the header's "mul",
lane-wise `G = G * M`. -/
def mulps_rr_sem {V : Type} [Mul V] (RG RM : Operand) (s : VState V) : VState V :=
  s.op (fun a c => a * c) (REG RG) (REG RG) (REG RM)

/-- Effect of `addps_rr(RG, RM)`, `vaddps RG, RG, RM`: the header's "add",
lane-wise `G = G + M`. -/
def addps_rr_sem {V : Type} [Add V] (RG RM : Operand) (s : VState V) : VState V :=
  s.op (fun a c => a + c) (REG RG) (REG RG) (REG RM)

/-- Effect of `subps_rr(RG, RM)`, `vsubps RG, RG, RM`: the header's "sub",
lane-wise `G = G - M`. -/
def subps_rr_sem {V : Type} [Sub V] (RG RM : Operand) (s : VState V) : VState V :=
  s.op (fun a c => a - c) (REG RG) (REG RG) (REG RM)

/-- Effect of `rcsps_rr(RG, RM)`, line by line as in the header:
`mulps_rr(RM, RG)`, `mulps_rr(RM, RG)`, `addps_rr(RG, RG)`, `subps_rr(RG, RM)`. -/
def rcsps_rr_sem {V : Type} [Mul V] [Add V] [Sub V] (RG RM : Operand) (s : VState V) :
    VState V :=
  s |> mulps_rr_sem RM RG
    |> mulps_rr_sem RM RG
    |> addps_rr_sem RG RG
    |> subps_rr_sem RG RM

end X86_256

namespace X86_256X1V2

/-- Effect of `movcx_st(XS, MD, DD)`: one 256-bit store. -/
def movcx_st_sem {V : Type} (XS MD : Operand) (DD : DispX) (s : VState V) : VState V :=
  s.store (REG XS) (REG MD) DD.val

/-- Effect of `movcx_ld(XD, MS, DS)`: one 256-bit load. -/
def movcx_ld_sem {V : Type} (XD MS : Operand) (DS : DispX) (s : VState V) : VState V :=
  s.load (REG XD) (REG MS) DS.val

/-- Effect of `addcs3rr(XD, XS, XT)`, the header's "add", lane-wise `D = S + T`. -/
def addcs3rr_sem {V : Type} [Add V] (XD XS XT : Operand) (s : VState V) : VState V :=
  s.op (fun a c => a + c) (REG XD) (REG XS) (REG XT)

/-- Effect of `addcs_rr(XG, XS)`, which is `addcs3rr(XG, XG, XS)`. -/
def addcs_rr_sem {V : Type} [Add V] (XG XS : Operand) (s : VState V) : VState V :=
  addcs3rr_sem XG XG XS s

/-- Effect of `subcs3rr(XD, XS, XT)`, the header's "sub", lane-wise `D = S - T`. -/
def subcs3rr_sem {V : Type} [Sub V] (XD XS XT : Operand) (s : VState V) : VState V :=
  s.op (fun a c => a - c) (REG XD) (REG XS) (REG XT)

/-- Effect of `subcs_rr(XG, XS)`, which is `subcs3rr(XG, XG, XS)`. -/
def subcs_rr_sem {V : Type} [Sub V] (XG XS : Operand) (s : VState V) : VState V :=
  subcs3rr_sem XG XG XS s

/-- Effect of `mulcs3rr(XD, XS, XT)`, the header's "mul", lane-wise `D = S * T`. -/
def mulcs3rr_sem {V : Type} [Mul V] (XD XS XT : Operand) (s : VState V) : VState V :=
  s.op (fun a c => a * c) (REG XD) (REG XS) (REG XT)

/-- Effect of `mulcs_rr(XG, XS)`, which is `mulcs3rr(XG, XG, XS)`. -/
def mulcs_rr_sem {V : Type} [Mul V] (XG XS : Operand) (s : VState V) : VState V :=
  mulcs3rr_sem XG XG XS s

/-- Effect of `rcscs_rr(XG, XS)`, line by line as in the header:
`mulcs_rr(XS, XG)`, `mulcs_rr(XS, XG)`, `addcs_rr(XG, XG)`, `subcs_rr(XG, XS)`. -/
def rcscs_rr_sem {V : Type} [Mul V] [Add V] [Sub V] (XG XS : Operand) (s : VState V) :
    VState V :=
  s |> mulcs_rr_sem XS XG
    |> mulcs_rr_sem XS XG
    |> addcs_rr_sem XG XG
    |> subcs_rr_sem XG XS

/-- Effect of `fmacs_rr(XG, XS, XT)` (the `RT_SIMD_COMPAT_FMA == 0` branch), line
by line as in the header: `movcx_st(XS, Mebp, inf_SCR01(0))`,
`mulcs_rr(XS, XT)`, `addcs_rr(XG, XS)`, `movcx_ld(XS, Mebp, inf_SCR01(0))`. -/
def fmacs_rr_sem {V : Type} [Mul V] [Add V] (b : X1Base) (XG XS XT : Operand)
    (s : VState V) : VState V :=
  s |> movcx_st_sem XS b.Mebp (inf_SCR01 b.toX86Base 0)
    |> mulcs_rr_sem XS XT
    |> addcs_rr_sem XG XS
    |> movcx_ld_sem XS b.Mebp (inf_SCR01 b.toX86Base 0)

/-- Effect of `fmscs_rr(XG, XS, XT)` (the `RT_SIMD_COMPAT_FMS == 0` branch), line
by line as in the header: `movcx_st(XS, Mebp, inf_SCR01(0))`,
`mulcs_rr(XS, XT)`, `subcs_rr(XG, XS)`, `movcx_ld(XS, Mebp, inf_SCR01(0))`. -/
def fmscs_rr_sem {V : Type} [Mul V] [Sub V] (b : X1Base) (XG XS XT : Operand)
    (s : VState V) : VState V :=
  s |> movcx_st_sem XS b.Mebp (inf_SCR01 b.toX86Base 0)
    |> mulcs_rr_sem XS XT
    |> subcs_rr_sem XG XS
    |> movcx_ld_sem XS b.Mebp (inf_SCR01 b.toX86Base 0)

end X86_256X1V2

/-- A sample state over the integers (register `n` holds `n + 2`, memory holds
zeros), used only to instantiate statements at concrete inputs. -/
def sampleInts : VState Int := ⟨fun n => (n : Int) + 2, fun _ => 0⟩

/-! ## State of the packed 32-bit integer rules of rtarch_x86_256.h -/

/-- One 128-bit half of a 256-bit register, or one 128-bit memory cell: four
32-bit lanes. -/
abbrev Half : Type := Fin 4 → Nat

/-- A 256-bit register: its low and its high 128-bit half. -/
structure Ymm where
  /-- The low half (lanes 0..3). -/
  lo : Half
  /-- The high half (lanes 4..7). -/
  hi : Half

/-- The state the integer rules act on: the 256-bit vector registers, by
register number, and the 128-bit memory cells, by the number of the base
register and the displacement in bytes. -/
structure IState where
  /-- The content of the vector registers. -/
  reg : Nat → Ymm
  /-- The content of the memory cells. -/
  mem : Nat × Nat → Half

/-- Lane-wise wrapping 32-bit sum of two halves. -/
def add32 (a c : Half) : Half := fun i => (a i + c i) % 2 ^ 32

/-- The half with all lanes zero. -/
def zeroHalf : Half := fun _ => 0

/-- The eight lanes of a register, low half first. -/
def Ymm.lanes (y : Ymm) : List Nat := List.ofFn y.lo ++ List.ofFn y.hi

/-- A sample integer state (every lane of every register holds 1, memory holds
zeros), used only to instantiate statements at concrete inputs. -/
def sampleLanes : IState := ⟨fun _ => ⟨fun _ => 1, fun _ => 1⟩, fun _ => zeroHalf⟩

namespace X86_256

/-- Effect of `movpx_st(RG, RM, DP)`, the 256-bit store (`len` = 1, opcode
`0x29`): the low half goes to the cell at `DP`, the high half to the cell 16
bytes above. -/
def movpx_st_sem (RG RM : Operand) (DP : DispX) (s : IState) : IState :=
  ⟨s.reg,
   Function.update (Function.update s.mem (REG RM, DP.val) (s.reg (REG RG)).lo)
     (REG RM, DP.val + 16) (s.reg (REG RG)).hi⟩

/-- Effect of `movpx_ld(RG, RM, DP)`, the 256-bit load (`len` = 1, opcode
`0x28`): the low half comes from the cell at `DP`, the high half from the cell
16 bytes above. -/
def movpx_ld_sem (RG RM : Operand) (DP : DispX) (s : IState) : IState :=
  ⟨Function.update s.reg (REG RG) ⟨s.mem (REG RM, DP.val), s.mem (REG RM, DP.val + 16)⟩,
   s.mem⟩

namespace AVX1

/-- The half selected by a two-bit field of the immediate of the 128-bit
permute `0x06`: 0 and 1 name the low and high half of the first source, 2 and
3 those of the second. -/
def permHalf (sel : Nat) (a c : Ymm) : Half :=
  match sel % 4 with
  | 0 => a.lo
  | 1 => a.hi
  | 2 => c.lo
  | _ => c.hi

/-- Effect of `prmpx_rr(RG, RM, IM)`, the 128-bit permute (opcode `0x06`) with
destination and first source `RG` and second source `RM`: bits 1:0 of the
immediate select the new low half, bits 5:4 the new high half, bits 3 and 7
clear them. -/
def prmpx_rr_sem (RG RM : Operand) (IM : ImmX) (s : IState) : IState :=
  ⟨Function.update s.reg (REG RG)
     ⟨if (VAL IM).testBit 3 then zeroHalf
       else permHalf (VAL IM) (s.reg (REG RG)) (s.reg (REG RM)),
      if (VAL IM).testBit 7 then zeroHalf
       else permHalf (VAL IM / 16) (s.reg (REG RG)) (s.reg (REG RM))⟩,
   s.mem⟩

/-- Effect of `movlx_ld(RG, RM, DP)`, the 128-bit load (`len` = 0, opcode
`0x28`): the low half comes from the cell at `DP`, the high half is cleared. -/
def movlx_ld_sem (RG RM : Operand) (DP : DispX) (s : IState) : IState :=
  ⟨Function.update s.reg (REG RG) ⟨s.mem (REG RM, DP.val), zeroHalf⟩, s.mem⟩

/-- Effect of `movlx_st(RG, RM, DP)`, the 128-bit store (`len` = 0, opcode
`0x29`): the low half goes to the cell at `DP`. -/
def movlx_st_sem (RG RM : Operand) (DP : DispX) (s : IState) : IState :=
  ⟨s.reg, Function.update s.mem (REG RM, DP.val) (s.reg (REG RG)).lo⟩

/-- Effect of `addlx_rr(RG, RM)`, the 128-bit packed 32-bit add (`len` = 0,
opcode `0xFE`): the low halves are added lane by lane, the high half of the
destination is cleared. -/
def addlx_rr_sem (RG RM : Operand) (s : IState) : IState :=
  ⟨Function.update s.reg (REG RG) ⟨add32 (s.reg (REG RG)).lo (s.reg (REG RM)).lo, zeroHalf⟩,
   s.mem⟩

/-- Effect of the shim `addpx_rr(RG, RM)` (the `RT_256 < 2` branch), line by
line as in the header. -/
def addpx_rr_sem (b : X86Base) (RG RM : Operand) (s : IState) : IState :=
  s |> movpx_st_sem RG b.Mebp (inf_SCR01 b 0)
    |> addlx_rr_sem RG RM
    |> movlx_st_sem RG b.Mebp (inf_SCR01 b 0x00)
    |> movlx_ld_sem RG b.Mebp (inf_SCR01 b 0x10)
    |> prmpx_rr_sem RM RM (IB 1)
    |> addlx_rr_sem RG RM
    |> prmpx_rr_sem RM RM (IB 1)
    |> movlx_st_sem RG b.Mebp (inf_SCR01 b 0x10)
    |> movpx_ld_sem RG b.Mebp (inf_SCR01 b 0)

end AVX1

namespace AVX2

/-- Effect of `addpx_rr(RG, RM)` (the `RT_256 >= 2` branch), the 256-bit packed
32-bit add (`len` = 1, opcode `0xFE`): both halves are added lane by lane. -/
def addpx_rr_sem (RG RM : Operand) (s : IState) : IState :=
  ⟨Function.update s.reg (REG RG)
     ⟨add32 (s.reg (REG RG)).lo (s.reg (REG RM)).lo,
      add32 (s.reg (REG RG)).hi (s.reg (REG RM)).hi⟩,
   s.mem⟩

end AVX2

end X86_256

/-! ## The macro vocabulary of the profile headers -/

/-- The function-like macros that rtarch_x86_256.h defines, each with the number of its
parameters, one entry per `#define` in the order of the header (a name defined
in several branches of a conditional appears once per definition). -/
def X86_256.macroArities : List (String × Nat) :=
 [("RT_SIMD_SET", 2), ("VX2", 3), ("VX3", 3), ("movpx_rr", 2), ("movpx_ld", 3), ("movpx_st", 3),
  ("adrpx_ld", 3), ("andpx_rr", 2), ("andpx_ld", 3), ("annpx_rr", 2), ("annpx_ld", 3),
  ("orrpx_rr", 2), ("orrpx_ld", 3), ("xorpx_rr", 2), ("xorpx_ld", 3), ("addps_rr", 2),
  ("addps_ld", 3), ("subps_rr", 2), ("subps_ld", 3), ("mulps_rr", 2), ("mulps_ld", 3),
  ("divps_rr", 2), ("divps_ld", 3), ("sqrps_rr", 2), ("sqrps_ld", 3), ("rceps_rr", 2),
  ("rcsps_rr", 2), ("rseps_rr", 2), ("rssps_rr", 2), ("minps_rr", 2), ("minps_ld", 3),
  ("maxps_rr", 2), ("maxps_ld", 3), ("ceqps_rr", 2), ("ceqps_ld", 3), ("cneps_rr", 2),
  ("cneps_ld", 3), ("cltps_rr", 2), ("cltps_ld", 3), ("cleps_rr", 2), ("cleps_ld", 3),
  ("cgtps_rr", 2), ("cgtps_ld", 3), ("cgeps_rr", 2), ("cgeps_ld", 3), ("rnzps_rr", 2),
  ("rnzps_ld", 3), ("cvzps_rr", 2), ("cvzps_ld", 3), ("rnpps_rr", 2), ("rnpps_ld", 3),
  ("cvpps_rr", 2), ("cvpps_ld", 3), ("rnmps_rr", 2), ("rnmps_ld", 3), ("cvmps_rr", 2),
  ("cvmps_ld", 3), ("rnnps_rr", 2), ("rnnps_ld", 3), ("cvnps_rr", 2), ("cvnps_ld", 3),
  ("cvnpn_rr", 2), ("cvnpn_ld", 3), ("prmpx_rr", 3), ("movlx_ld", 3), ("movlx_st", 3),
  ("addlx_rr", 2), ("addpx_rr", 2), ("addlx_ld", 3), ("addpx_ld", 3), ("sublx_rr", 2),
  ("subpx_rr", 2), ("sublx_ld", 3), ("subpx_ld", 3), ("shllx_ri", 2), ("shlpx_ri", 2),
  ("shllx_ld", 3), ("shlpx_ld", 3), ("shrlx_ri", 2), ("shrpx_ri", 2), ("shrlx_ld", 3),
  ("shrpx_ld", 3), ("shrln_ri", 2), ("shrpn_ri", 2), ("shrln_ld", 3), ("shrpn_ld", 3),
  ("addpx_rr", 2), ("addpx_ld", 3), ("subpx_rr", 2), ("subpx_ld", 3), ("shlpx_ri", 2),
  ("shlpx_ld", 3), ("shrpx_ri", 2), ("shrpx_ld", 3), ("shrpn_ri", 2), ("shrpn_ld", 3),
  ("movsn_rr", 2), ("CHECK_MASK", 3), ("mmvpx_ld", 4), ("mmvpx_st", 4)]

/-- The function-like macros that rtarch_x64_256.h defines, each with the number of its
parameters, one entry per `#define` in the order of the header (a name defined
in several branches of a conditional appears once per definition). -/
def X64_256.macroArities : List (String × Nat) :=
 [("RT_SIMD_SET", 2), ("VEX", 6), ("REN", 3), ("movpx_rr", 2), ("movpx_ld", 3), ("movpx_st", 3),
  ("adrpx_ld", 3), ("andpx_rr", 2), ("andpx_ld", 3), ("annpx_rr", 2), ("annpx_ld", 3),
  ("orrpx_rr", 2), ("orrpx_ld", 3), ("xorpx_rr", 2), ("xorpx_ld", 3), ("addps_rr", 2),
  ("addps_ld", 3), ("subps_rr", 2), ("subps_ld", 3), ("mulps_rr", 2), ("mulps_ld", 3),
  ("divps_rr", 2), ("divps_ld", 3), ("sqrps_rr", 2), ("sqrps_ld", 3), ("rceps_rr", 2),
  ("rcsps_rr", 2), ("rseps_rr", 2), ("rssps_rr", 2), ("minps_rr", 2), ("minps_ld", 3),
  ("maxps_rr", 2), ("maxps_ld", 3), ("ceqps_rr", 2), ("ceqps_ld", 3), ("cneps_rr", 2),
  ("cneps_ld", 3), ("cltps_rr", 2), ("cltps_ld", 3), ("cleps_rr", 2), ("cleps_ld", 3),
  ("cgtps_rr", 2), ("cgtps_ld", 3), ("cgeps_rr", 2), ("cgeps_ld", 3), ("fpuxs_ld", 2),
  ("fpuxs_st", 2), ("fpuxn_ld", 2), ("fpuxn_st", 2), ("fpuxt_st", 2), ("fpucw_ld", 2),
  ("fpucw_st", 2), ("rnzps_rr", 2), ("rnzps_ld", 3), ("cvzps_rr", 2), ("cvzps_ld", 3),
  ("rnpps_rr", 2), ("rnpps_ld", 3), ("cvpps_rr", 2), ("cvpps_ld", 3), ("rnmps_rr", 2),
  ("rnmps_ld", 3), ("cvmps_rr", 2), ("cvmps_ld", 3), ("rnnps_rr", 2), ("rnnps_ld", 3),
  ("cvnps_rr", 2), ("cvnps_ld", 3), ("cvnpn_rr", 2), ("cvnpn_ld", 3), ("prmpx_rr", 3),
  ("movlx_ld", 3), ("movlx_st", 3), ("addlx_rr", 2), ("addpx_rr", 2), ("addlx_ld", 3),
  ("addpx_ld", 3), ("sublx_rr", 2), ("subpx_rr", 2), ("sublx_ld", 3), ("subpx_ld", 3),
  ("shllx_ri", 2), ("shlpx_ri", 2), ("shllx_ld", 3), ("shlpx_ld", 3), ("shrlx_ri", 2),
  ("shrpx_ri", 2), ("shrlx_ld", 3), ("shrpx_ld", 3), ("shrpn_ri", 2), ("shrpn_ld", 3),
  ("addpx_rr", 2), ("addpx_ld", 3), ("subpx_rr", 2), ("subpx_ld", 3), ("shlpx_ri", 2),
  ("shlpx_ld", 3), ("shrpx_ri", 2), ("shrpx_ld", 3), ("shrpn_ri", 2), ("shrpn_ld", 3),
  ("movsn_rr", 2), ("CHECK_MASK", 3), ("mxcsr_ld", 2), ("mxcsr_st", 2), ("FCTRL_SET", 1),
  ("FCTRL_RESET", 0), ("FCTRL_SET", 1), ("FCTRL_RESET", 0), ("rndps_rr", 2), ("rndps_ld", 3),
  ("cvtps_rr", 2), ("cvtps_ld", 3), ("cvtpn_rr", 2), ("cvtpn_ld", 3), ("rnrps_rr", 3),
  ("cvrps_rr", 3), ("mmvpx_ld", 3), ("mmvpx_st", 3), ("sregs_sa", 0), ("sregs_la", 0)]

/-- The function-like macros that rtarch_p64_128.h defines, each with the number of its
parameters, one entry per `#define` in the order of the header (a name defined
in several branches of a conditional appears once per definition). -/
def P64_128.macroArities : List (String × Nat) :=
 [("RT_SIMD_SET", 2), ("EMITS", 1), ("MXM", 3), ("MPM", 5), ("B2", 3), ("P2", 3), ("C2", 3),
  ("B20", 1), ("P20", 1), ("C20", 2), ("B21", 1), ("P21", 1), ("C21", 2), ("B22", 1), ("P22", 1),
  ("C22", 2), ("movpx_rr", 2), ("movpx_ld", 3), ("movpx_st", 3), ("adrpx_ld", 3), ("andpx_rr", 2),
  ("andpx_ld", 3), ("annpx_rr", 2), ("annpx_ld", 3), ("orrpx_rr", 2), ("orrpx_ld", 3),
  ("xorpx_rr", 2), ("xorpx_ld", 3), ("addps_rr", 2), ("addps_ld", 3), ("subps_rr", 2),
  ("subps_ld", 3), ("mulps_rr", 2), ("mulps_ld", 3), ("divps_rr", 2), ("divps_ld", 3),
  ("sqrps_rr", 2), ("sqrps_ld", 3), ("rceps_rr", 2), ("rcsps_rr", 2), ("rseps_rr", 2),
  ("rssps_rr", 2), ("minps_rr", 2), ("minps_ld", 3), ("maxps_rr", 2), ("maxps_ld", 3),
  ("ceqps_rr", 2), ("ceqps_ld", 3), ("cneps_rr", 2), ("cneps_ld", 3), ("cltps_rr", 2),
  ("cltps_ld", 3), ("cleps_rr", 2), ("cleps_ld", 3), ("cgtps_rr", 2), ("cgtps_ld", 3),
  ("cgeps_rr", 2), ("cgeps_ld", 3), ("rnzps_rr", 2), ("rnzps_ld", 3), ("cvzps_rr", 2),
  ("cvzps_ld", 3), ("rnpps_rr", 2), ("rnpps_ld", 3), ("cvpps_rr", 2), ("cvpps_ld", 3),
  ("rnmps_rr", 2), ("rnmps_ld", 3), ("cvmps_rr", 2), ("cvmps_ld", 3), ("rnnps_rr", 2),
  ("rnnps_ld", 3), ("cvnps_rr", 2), ("cvnps_ld", 3), ("cvnpn_rr", 2), ("cvnpn_ld", 3),
  ("addpx_rr", 2), ("addpx_ld", 3), ("subpx_rr", 2), ("subpx_ld", 3), ("shlpx_ri", 2),
  ("shlpx_ld", 3), ("shrpx_ri", 2), ("shrpx_ld", 3), ("shrpn_ri", 2), ("shrpn_ld", 3),
  ("addpx_rr", 2), ("addpx_ld", 3), ("subpx_rr", 2), ("subpx_ld", 3), ("shlpx_ri", 2),
  ("shlpx_ld", 3), ("shrpx_ri", 2), ("shrpx_ld", 3), ("shrpn_ri", 2), ("shrpn_ld", 3), ("S0", 1),
  ("S1", 1), ("SMN", 2), ("SMF", 2), ("CHECK_MASK", 3), ("CHECK_MASK", 3), ("fpscr_ld", 1),
  ("fpscr_st", 1), ("FCTRL_SET", 1), ("FCTRL_RESET", 0), ("rndps_rr", 2), ("rndps_ld", 3),
  ("cvtps_rr", 2), ("cvtps_ld", 3), ("cvtpn_rr", 2), ("cvtpn_ld", 3), ("rnrps_rr", 3),
  ("cvrps_rr", 3), ("sregs_sa", 0), ("sregs_la", 0)]

/-- The function-like macros that rtarch_x86_256x1v2.h defines, each with the number of its
parameters, one entry per `#define` in the order of the header (a name defined
in several branches of a conditional appears once per definition). -/
def X86_256X1V2.macroArities : List (String × Nat) :=
 [("elmcx_st", 3), ("movcx_rr", 2), ("movcx_ld", 3), ("movcx_st", 3), ("mmvcx_rr", 2),
  ("mmvcx_ld", 3), ("mmvcx_st", 3), ("andcx_rr", 2), ("andcx_ld", 3), ("andcx3rr", 3),
  ("andcx3ld", 4), ("anncx_rr", 2), ("anncx_ld", 3), ("anncx3rr", 3), ("anncx3ld", 4),
  ("orrcx_rr", 2), ("orrcx_ld", 3), ("orrcx3rr", 3), ("orrcx3ld", 4), ("orncx_rr", 2),
  ("orncx_ld", 3), ("orncx3rr", 3), ("orncx3ld", 4), ("xorcx_rr", 2), ("xorcx_ld", 3),
  ("xorcx3rr", 3), ("xorcx3ld", 4), ("notcx_rx", 1), ("notcx_rr", 2), ("negcs_rx", 1),
  ("negcs_rr", 2), ("addcs_rr", 2), ("addcs_ld", 3), ("addcs3rr", 3), ("addcs3ld", 4),
  ("adpcs_rx", 1), ("subcs_rr", 2), ("subcs_ld", 3), ("subcs3rr", 3), ("subcs3ld", 4),
  ("mulcs_rr", 2), ("mulcs_ld", 3), ("mulcs3rr", 3), ("mulcs3ld", 4), ("divcs_rr", 2),
  ("divcs_ld", 3), ("divcs3rr", 3), ("divcs3ld", 4), ("sqrcs_rr", 2), ("sqrcs_ld", 3),
  ("rcecs_rr", 2), ("rcscs_rr", 2), ("rsecs_rr", 2), ("rsscs_rr", 2), ("prmcx_rr", 3),
  ("cvycs_rr", 2), ("cvycs_ld", 3), ("cvxds_rr", 2), ("X", 3), ("addds_ld", 3), ("subds_ld", 3),
  ("mulds_ld", 3), ("fmacs_rr", 3), ("fmacs_ld", 4), ("fmacs_rr", 3), ("fmacs_ld", 4),
  ("fmscs_rr", 3), ("fmscs_ld", 4), ("fmscs_rr", 3), ("fmscs_ld", 4), ("fmacs_rr", 3),
  ("fmacs_ld", 4), ("fmscs_rr", 3), ("fmscs_ld", 4), ("mincs_rr", 2), ("mincs_ld", 3),
  ("mincs3rr", 3), ("mincs3ld", 4), ("maxcs_rr", 2), ("maxcs_ld", 3), ("maxcs3rr", 3),
  ("maxcs3ld", 4), ("ceqcs_rr", 2), ("ceqcs_ld", 3), ("ceqcs3rr", 3), ("ceqcs3ld", 4),
  ("cnecs_rr", 2), ("cnecs_ld", 3), ("cnecs3rr", 3), ("cnecs3ld", 4), ("cltcs_rr", 2),
  ("cltcs_ld", 3), ("cltcs3rr", 3), ("cltcs3ld", 4), ("clecs_rr", 2), ("clecs_ld", 3),
  ("clecs3rr", 3), ("clecs3ld", 4), ("cgtcs_rr", 2), ("cgtcs_ld", 3), ("cgtcs3rr", 3),
  ("cgtcs3ld", 4), ("cgecs_rr", 2), ("cgecs_ld", 3), ("cgecs3rr", 3), ("cgecs3ld", 4),
  ("mkjcx_rx", 3), ("rnzcs_rr", 2), ("rnzcs_ld", 3), ("cvzcs_rr", 2), ("cvzcs_ld", 3),
  ("rnpcs_rr", 2), ("rnpcs_ld", 3), ("cvpcs_rr", 2), ("cvpcs_ld", 3), ("rnmcs_rr", 2),
  ("rnmcs_ld", 3), ("cvmcs_rr", 2), ("cvmcs_ld", 3), ("rnncs_rr", 2), ("rnncs_ld", 3),
  ("cvncs_rr", 2), ("cvncs_ld", 3), ("cvncn_rr", 2), ("cvncn_ld", 3), ("rndcs_rr", 2),
  ("rndcs_ld", 3), ("cvtcs_rr", 2), ("cvtcs_ld", 3), ("cvtcn_rr", 2), ("cvtcn_ld", 3),
  ("rnrcs_rr", 3), ("cvrcs_rr", 3), ("addcx_rr", 2), ("addcx_ld", 3), ("addcx3rr", 3),
  ("addcx3ld", 4), ("subcx_rr", 2), ("subcx_ld", 3), ("subcx3rr", 3), ("subcx3ld", 4),
  ("mulcx_rr", 2), ("mulcx_ld", 3), ("mulcx3rr", 3), ("mulcx3ld", 4), ("shlcx_ri", 2),
  ("shlcx_ld", 3), ("shlcx3ri", 3), ("shlcx3ld", 4), ("shrcx_ri", 2), ("shrcx_ld", 3),
  ("shrcx3ri", 3), ("shrcx3ld", 4), ("shrcn_ri", 2), ("shrcn_ld", 3), ("shrcn3ri", 3),
  ("shrcn3ld", 4), ("svlcx_rr", 2), ("svlcx_ld", 3), ("svlcx3rr", 3), ("svlcx3ld", 4),
  ("svrcx_rr", 2), ("svrcx_ld", 3), ("svrcx3rr", 3), ("svrcx3ld", 4), ("svrcn_rr", 2),
  ("svrcn_ld", 3), ("svrcn3rr", 3), ("svrcn3ld", 4), ("addcx_rr", 2), ("addcx_ld", 3),
  ("addcx3rr", 3), ("addcx3ld", 4), ("subcx_rr", 2), ("subcx_ld", 3), ("subcx3rr", 3),
  ("subcx3ld", 4), ("mulcx_rr", 2), ("mulcx_ld", 3), ("mulcx3rr", 3), ("mulcx3ld", 4),
  ("shlcx_ri", 2), ("shlcx_ld", 3), ("shlcx3ri", 3), ("shlcx3ld", 4), ("shrcx_ri", 2),
  ("shrcx_ld", 3), ("shrcx3ri", 3), ("shrcx3ld", 4), ("shrcn_ri", 2), ("shrcn_ld", 3),
  ("shrcn3ri", 3), ("shrcn3ld", 4), ("svlcx_rr", 2), ("svlcx_ld", 3), ("svlcx3rr", 3),
  ("svlcx3ld", 4), ("svrcx_rr", 2), ("svrcx_ld", 3), ("svrcx3rr", 3), ("svrcx3ld", 4),
  ("svrcn_rr", 2), ("svrcn_ld", 3), ("svrcn3rr", 3), ("svrcn3ld", 4), ("movax_rr", 2),
  ("movax_ld", 3), ("movax_st", 3), ("mmvax_rr", 2), ("mmvax_ld", 3), ("mmvax_st", 3),
  ("andax_rr", 2), ("andax_ld", 3), ("andax3rr", 3), ("andax3ld", 4), ("annax_rr", 2),
  ("annax_ld", 3), ("annax3rr", 3), ("annax3ld", 4), ("orrax_rr", 2), ("orrax_ld", 3),
  ("orrax3rr", 3), ("orrax3ld", 4), ("ornax_rr", 2), ("ornax_ld", 3), ("ornax3rr", 3),
  ("ornax3ld", 4), ("xorax_rr", 2), ("xorax_ld", 3), ("xorax3rr", 3), ("xorax3ld", 4),
  ("notax_rx", 1), ("notax_rr", 2), ("addax_rr", 2), ("addax_ld", 3), ("addax3rr", 3),
  ("addax3ld", 4), ("addax_rx", 1), ("adsax_rr", 2), ("adsax_ld", 3), ("adsax3rr", 3),
  ("adsax3ld", 4), ("adsax_rx", 1), ("adsan_rr", 2), ("adsan_ld", 3), ("adsan3rr", 3),
  ("adsan3ld", 4), ("adsan_rx", 1), ("subax_rr", 2), ("subax_ld", 3), ("subax3rr", 3),
  ("subax3ld", 4), ("subax_rx", 1), ("sbsax_rr", 2), ("sbsax_ld", 3), ("sbsax3rr", 3),
  ("sbsax3ld", 4), ("sbsax_rx", 1), ("sbsan_rr", 2), ("sbsan_ld", 3), ("sbsan3rr", 3),
  ("sbsan3ld", 4), ("sbsan_rx", 1), ("mulax_rr", 2), ("mulax_ld", 3), ("mulax3rr", 3),
  ("mulax3ld", 4), ("mulax_rx", 1), ("shlax_ri", 2), ("shlax_ld", 3), ("shlax3ri", 3),
  ("shlax3ld", 4), ("shrax_ri", 2), ("shrax_ld", 3), ("shrax3ri", 3), ("shrax3ld", 4),
  ("shran_ri", 2), ("shran_ld", 3), ("shran3ri", 3), ("shran3ld", 4), ("addax_rr", 2),
  ("addax_ld", 3), ("addax3rr", 3), ("addax3ld", 4), ("adsax_rr", 2), ("adsax_ld", 3),
  ("adsax3rr", 3), ("adsax3ld", 4), ("adsan_rr", 2), ("adsan_ld", 3), ("adsan3rr", 3),
  ("adsan3ld", 4), ("subax_rr", 2), ("subax_ld", 3), ("subax3rr", 3), ("subax3ld", 4),
  ("sbsax_rr", 2), ("sbsax_ld", 3), ("sbsax3rr", 3), ("sbsax3ld", 4), ("sbsan_rr", 2),
  ("sbsan_ld", 3), ("sbsan3rr", 3), ("sbsan3ld", 4), ("mulax_rr", 2), ("mulax_ld", 3),
  ("mulax3rr", 3), ("mulax3ld", 4), ("shlax_ri", 2), ("shlax_ld", 3), ("shlax3ri", 3),
  ("shlax3ld", 4), ("shrax_ri", 2), ("shrax_ld", 3), ("shrax3ri", 3), ("shrax3ld", 4),
  ("shran_ri", 2), ("shran_ld", 3), ("shran3ri", 3), ("shran3ld", 4), ("svlax_rr", 2),
  ("svlax_ld", 3), ("svlax3rr", 3), ("svlax3ld", 4), ("svlax_xx", 0), ("svrax_rr", 2),
  ("svrax_ld", 3), ("svrax3rr", 3), ("svrax3ld", 4), ("svrax_xx", 0), ("svran_rr", 2),
  ("svran_ld", 3), ("svran3rr", 3), ("svran3ld", 4), ("svran_xx", 0), ("muvcx_ld", 3),
  ("muvcx_st", 3), ("muvcx_ld", 3), ("muvcx_st", 3), ("sregs_sa", 0), ("sregs_la", 0)]

/-- The function-like macros that rtarch_p32_256v2.h defines, each with the number of its
parameters, one entry per `#define` in the order of the header (a name defined
in several branches of a conditional appears once per definition). -/
def P32_256V2.macroArities : List (String × Nat) :=
 [("RT_SIMD_SET64_256", 2), ("RT_SIMD_SET32_256", 2), ("movcx_rr", 2), ("movcx_ld", 3),
  ("movcx_st", 3), ("mmvcx_rr", 2), ("mmvcx_ld", 3), ("mmvcx_st", 3), ("andcx_rr", 2),
  ("andcx_ld", 3), ("anncx_rr", 2), ("anncx_ld", 3), ("orrcx_rr", 2), ("orrcx_ld", 3),
  ("orncx_rr", 2), ("orncx_ld", 3), ("orncx_rr", 2), ("orncx_ld", 3), ("xorcx_rr", 2),
  ("xorcx_ld", 3), ("notcx_rx", 1), ("negcs_rx", 1), ("addcs_rr", 2), ("addcs_ld", 3),
  ("subcs_rr", 2), ("subcs_ld", 3), ("mulcs_rr", 2), ("mulcs_ld", 3), ("divcs_rr", 2),
  ("divcs_ld", 3), ("sqrcs_rr", 2), ("sqrcs_ld", 3), ("rcecs_rr", 2), ("rcscs_rr", 2),
  ("rsecs_rr", 2), ("rsscs_rr", 2), ("fmacs_rr", 3), ("fmacs_ld", 4), ("fmscs_rr", 3),
  ("fmscs_ld", 4), ("mincs_rr", 2), ("mincs_ld", 3), ("maxcs_rr", 2), ("maxcs_ld", 3),
  ("ceqcs_rr", 2), ("ceqcs_ld", 3), ("cnecs_rr", 2), ("cnecs_ld", 3), ("cltcs_rr", 2),
  ("cltcs_ld", 3), ("clecs_rr", 2), ("clecs_ld", 3), ("cgtcs_rr", 2), ("cgtcs_ld", 3),
  ("cgecs_rr", 2), ("cgecs_ld", 3), ("rnzcs_rr", 2), ("rnzcs_ld", 3), ("cvzcs_rr", 2),
  ("cvzcs_ld", 3), ("rnpcs_rr", 2), ("rnpcs_ld", 3), ("cvpcs_rr", 2), ("cvpcs_ld", 3),
  ("rnmcs_rr", 2), ("rnmcs_ld", 3), ("cvmcs_rr", 2), ("cvmcs_ld", 3), ("rnncs_rr", 2),
  ("rnncs_ld", 3), ("cvncs_rr", 2), ("cvncs_ld", 3), ("cvncn_rr", 2), ("cvncn_ld", 3),
  ("addcx_rr", 2), ("addcx_ld", 3), ("subcx_rr", 2), ("subcx_ld", 3), ("shlcx_ri", 2),
  ("shlcx_ld", 3), ("shlcx_ld", 3), ("svlcx_rr", 2), ("svlcx_ld", 3), ("shrcx_ri", 2),
  ("shrcx_ld", 3), ("shrcx_ld", 3), ("svrcx_rr", 2), ("svrcx_ld", 3), ("shrcn_ri", 2),
  ("shrcn_ld", 3), ("shrcn_ld", 3), ("svrcn_rr", 2), ("svrcn_ld", 3), ("SMN32_256", 2),
  ("SMF32_256", 2), ("mkjcx_rx", 3), ("rndcs_rr", 2), ("rndcs_ld", 3), ("cvtcs_rr", 2),
  ("cvtcs_ld", 3), ("cvtcn_rr", 2), ("cvtcn_ld", 3), ("rnrcs_rr", 3), ("cvrcs_rr", 3),
  ("sregs_sa", 0), ("sregs_la", 0)]

/-- The names of the first table that the second table defines with a
different number of parameters. -/
def arityConflicts (t u : List (String × Nat)) : List String :=
  (t.filter (fun p => u.any (fun q => decide (q.2 ≠ p.2) && decide (q.1 = p.1)))).map
    (fun p => p.1)

/-! ## rtarch_p64_128.h and rtarch_p32_256v2.h: compare and mask-merge rules -/

namespace P64_128

/-- The rule `cltps_rr(RG, RM)`. -/
def cltps_rr (RG RM : Operand) : List Nat :=
  EMITW (0xF000035F ||| (MXM (REG RG) (REG RM) (REG RG)))

/-- The rule `cleps_rr(RG, RM)`. -/
def cleps_rr (RG RM : Operand) : List Nat :=
  EMITW (0xF000039F ||| (MXM (REG RG) (REG RM) (REG RG)))

/-- The rule `cgtps_rr(RG, RM)`. -/
def cgtps_rr (RG RM : Operand) : List Nat :=
  EMITW (0xF000035F ||| (MXM (REG RG) (REG RG) (REG RM)))

/-- The rule `cgeps_rr(RG, RM)`. -/
def cgeps_rr (RG RM : Operand) : List Nat :=
  EMITW (0xF000039F ||| (MXM (REG RG) (REG RG) (REG RM)))

end P64_128

namespace P32_256V2

/-- The rule `cltcs_rr(XG, XS)`. -/
def cltcs_rr (XG XS : Operand) : List Nat :=
  EMITW (0xF000025F ||| (MXM (REG XG) (REG XS) (REG XG))) ++
  EMITW (0xF000025F ||| (MXM (RYG XG) (RYG XS) (RYG XG)))

/-- The rule `clecs_rr(XG, XS)`. -/
def clecs_rr (XG XS : Operand) : List Nat :=
  EMITW (0xF000029F ||| (MXM (REG XG) (REG XS) (REG XG))) ++
  EMITW (0xF000029F ||| (MXM (RYG XG) (RYG XS) (RYG XG)))

/-- The rule `mmvcx_rr(XG, XS)`, which the header documents as using `Xmm0`
implicitly as a mask register. -/
def mmvcx_rr (XG XS : Operand) : List Nat :=
  EMITW (0xF000003F ||| (MXM (REG XG) (REG XG) (REG XS))) ++
  EMITW (0xF000043F ||| (MXM (RYG XG) (RYG XG) (RYG XS)))

end P32_256V2

/-! ## rtarch_x64_256.h: directed rounding -/

namespace X64_256

/-- The mode names a rule may paste onto `RT_SIMD_MODE_`. -/
inductive RoundMode where
  | ROUNDN
  | ROUNDM
  | ROUNDP
  | ROUNDZ
  | ROUNDN_F
  | ROUNDM_F
  | ROUNDP_F
  | ROUNDZ_F
deriving DecidableEq, Repr

/-- The constants `RT_SIMD_MODE_ROUNDN .. RT_SIMD_MODE_ROUNDZ_F`: the first
four depend on the conditional `#if RT_SIMD_FLUSH_ZERO == 0`, the `_F` ones do
not. -/
def RT_SIMD_MODE (RT_SIMD_FLUSH_ZERO : Int) : RoundMode → Nat
  | .ROUNDN => if RT_SIMD_FLUSH_ZERO = 0 then 0x00 else 0x04
  | .ROUNDM => if RT_SIMD_FLUSH_ZERO = 0 then 0x01 else 0x05
  | .ROUNDP => if RT_SIMD_FLUSH_ZERO = 0 then 0x02 else 0x06
  | .ROUNDZ => if RT_SIMD_FLUSH_ZERO = 0 then 0x03 else 0x07
  | .ROUNDN_F => 0x04
  | .ROUNDM_F => 0x05
  | .ROUNDP_F => 0x06
  | .ROUNDZ_F => 0x07

/-- The rule `rnzps_rr(RG, RM)`. -/
def rnzps_rr (RG RM : Operand) : List Nat :=
  VEX (RXB RG) (RXB RM) 0x0 1 1 3 ++
  EMITB 0x09 ++
  MRM (REG RG) (MOD RM) (REG RM) ++
  AUX EMPTY EMPTY (EMITB 0x03)

/-- The rule `rnnps_rr(RG, RM)`. -/
def rnnps_rr (RG RM : Operand) : List Nat :=
  VEX (RXB RG) (RXB RM) 0x0 1 1 3 ++
  EMITB 0x09 ++
  MRM (REG RG) (MOD RM) (REG RM) ++
  AUX EMPTY EMPTY (EMITB 0x00)

/-- The rule `rnrps_rr(RG, RM, mode)`; its immediate is
`RT_SIMD_MODE_##mode&3`. -/
def rnrps_rr (RT_SIMD_FLUSH_ZERO : Int) (RG RM : Operand) (mode : RoundMode) : List Nat :=
  VEX (RXB RG) (RXB RM) 0x0 1 1 3 ++
  EMITB 0x09 ++
  MRM (REG RG) (MOD RM) (REG RM) ++
  AUX EMPTY EMPTY (EMITB (RT_SIMD_MODE RT_SIMD_FLUSH_ZERO mode &&& 3))

/-- The rule `cvrps_rr(RG, RM, mode)`. -/
def cvrps_rr (b : X64Base) (RT_SIMD_FLUSH_ZERO : Int) (RG RM : Operand) (mode : RoundMode) :
    List Nat :=
  rnrps_rr RT_SIMD_FLUSH_ZERO RG RM mode ++
  cvzps_rr b RG RG

end X64_256

/-! ## tracer_128v4.cpp: selection of the architecture header -/

namespace Tracer_128v4

/-- Which of the architecture flags are defined when the file is compiled. -/
structure ArchFlags where
  RT_X86 : Bool
  RT_X32 : Bool
  RT_X64 : Bool
  RT_ARM : Bool
  RT_A32 : Bool
  RT_A64 : Bool
  RT_M32 : Bool
  RT_M64 : Bool
  RT_P32 : Bool
  RT_P64 : Bool
deriving DecidableEq, Repr

/-- What the conditional chain does: it includes a header, stops the build
with the text of an `#error`, or does neither. -/
inductive ArchSelect where
  | included (header : String)
  | failed (message : String)
  | nothing
deriving DecidableEq, Repr

/-- The chain `#if defined (RT_X86) .. #elif defined (RT_P32) || defined
(RT_P64) .. #endif` of the file; it has no `#else` branch. -/
def selectArch (f : ArchFlags) : ArchSelect :=
  if f.RT_X86 then .included "rtarch_x86_128.h"
  else if f.RT_X32 || f.RT_X64 then .included "rtarch_x32_128.h"
  else if f.RT_ARM then .included "rtarch_arm_128.h"
  else if f.RT_A32 || f.RT_A64 then
    .failed "AArch64 doesn\x27t have SIMD variant 4, exclude this file from compilation"
  else if f.RT_M32 || f.RT_M64 then
    .failed "mipsMSA doesn\x27t have SIMD variant 4, exclude this file from compilation"
  else if f.RT_P32 || f.RT_P64 then
    .failed "AltiVec doesn\x27t have SIMD variant 4, exclude this file from compilation"
  else .nothing

/-- No architecture flag defined. -/
def noFlags : ArchFlags := ⟨false, false, false, false, false, false, false, false, false, false⟩

end Tracer_128v4

/-! ## rtgeom.cpp: matrices -/

namespace RtGeom

/-- The type `rt_vec4`, four reals. -/
abbrev rt_vec4 (R : Type) : Type := Fin 4 → R

/-- The type `rt_mat4`, `rt_real[4][4]`; the entry `m[i][j]` is written
`m i j`. -/
abbrev rt_mat4 (R : Type) : Type := Fin 4 → Fin 4 → R

/-- The identity matrix `iden4`. -/
def iden4 {R : Type} [Zero R] [One R] : rt_mat4 R :=
  ![![1, 0, 0, 0],
    ![0, 1, 0, 0],
    ![0, 0, 1, 0],
    ![0, 0, 0, 1]]

/-- The function `matrix_mul_vector(vp, m1, v1)`, returning `vp`.  The
`RT_DEBUG` guard against `vp` overlapping an argument concerns addresses;
arrays are values here. -/
def matrix_mul_vector {R : Type} [Add R] [Mul R] (m1 : rt_mat4 R) (v1 : rt_vec4 R) :
    rt_vec4 R :=
  fun i =>
    m1 0 i * v1 0 +
    m1 1 i * v1 1 +
    m1 2 i * v1 2 +
    m1 3 i * v1 3

/-- The function `matrix_mul_matrix(mp, m1, m2)`, returning `mp`.  The
`RT_DEBUG` guard against `mp` overlapping an argument concerns addresses;
arrays are values here. -/
def matrix_mul_matrix {R : Type} [Add R] [Mul R] (m1 m2 : rt_mat4 R) : rt_mat4 R :=
  fun i => matrix_mul_vector m1 (m2 i)

/-- The assignment `m[i][j] = v`. -/
def assign {R : Type} (m : rt_mat4 R) (i j : Fin 4) (v : R) : rt_mat4 R :=
  Function.update m i (Function.update (m i) j v)

/-- The function `matrix_inverse(mp, m1)` without its `RT_DEBUG` part,
returning `mp`: the `memset` to zero, the nine cofactors, the reciprocal `q` of
the determinant and the nine assignments. -/
def matrix_inverse {R : Type} [Field R] (m1 : rt_mat4 R) : rt_mat4 R :=
  let mp : rt_mat4 R := fun _ _ => 0
  let A := m1 1 1 * m1 2 2 - m1 2 1 * m1 1 2
  let B := m1 2 1 * m1 0 2 - m1 0 1 * m1 2 2
  let C := m1 0 1 * m1 1 2 - m1 1 1 * m1 0 2
  let D := m1 2 0 * m1 1 2 - m1 1 0 * m1 2 2
  let E := m1 0 0 * m1 2 2 - m1 2 0 * m1 0 2
  let F := m1 0 2 * m1 1 0 - m1 0 0 * m1 1 2
  let G := m1 1 0 * m1 2 1 - m1 2 0 * m1 1 1
  let H := m1 2 0 * m1 0 1 - m1 0 0 * m1 2 1
  let K := m1 0 0 * m1 1 1 - m1 1 0 * m1 0 1
  let q := 1 / (m1 0 0 * A + m1 1 0 * B + m1 2 0 * C)
  let mp := assign mp 0 0 (A * q)
  let mp := assign mp 0 1 (B * q)
  let mp := assign mp 0 2 (C * q)
  let mp := assign mp 1 0 (D * q)
  let mp := assign mp 1 1 (E * q)
  let mp := assign mp 1 2 (F * q)
  let mp := assign mp 2 0 (G * q)
  let mp := assign mp 2 1 (H * q)
  let mp := assign mp 2 2 (K * q)
  mp

/-- The function `matrix_inverse(mp, m1)` under `RT_DEBUG == 1`: after the
assignments the product `tm` of `mp` and `m1` is compared with `iden4` on the
upper-left 3x3 block, and a difference above `0.00001` in absolute value
(`RT_FABS`) throws "inverted matrix mismatch"; otherwise `mp` is returned.  The
log lines before the throw are left out. -/
def matrix_inverse_debug {R : Type} [LinearOrderedField R] (m1 : rt_mat4 R) :
    Except String (rt_mat4 R) :=
  let mp := matrix_inverse m1
  let tm := matrix_mul_matrix mp m1
  let k := (List.finRange 3).any fun i => (List.finRange 3).any fun j =>
    decide (|tm i.castSucc j.castSucc - iden4 i.castSucc j.castSucc| > 0.00001)
  if k then .error "inverted matrix mismatch" else .ok mp

/-- A sample matrix over the rationals (3x3 determinant 2), used only to
instantiate statements at concrete inputs. -/
def sampleMatrix : rt_mat4 ℚ :=
  ![![2, 0, 0, 0],
    ![1, 1, 0, 0],
    ![0, 3, 1, 0],
    ![5, 6, 7, 1]]

end RtGeom

/-- The divisor of `q` in `matrix_inverse`, the determinant of the upper-left
3x3 block: `m1[0][0] * A + m1[1][0] * B + m1[2][0] * C` with the cofactors `A`,
`B`, `C` written out. -/
def RtGeom.det3 {R : Type} [Field R] (m1 : RtGeom.rt_mat4 R) : R :=
  m1 0 0 * (m1 1 1 * m1 2 2 - m1 2 1 * m1 1 2) +
  m1 1 0 * (m1 2 1 * m1 0 2 - m1 0 1 * m1 2 2) +
  m1 2 0 * (m1 0 1 * m1 1 2 - m1 1 1 * m1 0 2)

/-! ## rtarch_p64_128.h: fp control -/

namespace P64_128

/-- The mode names a rule may paste onto `RT_SIMD_MODE_`. -/
inductive RoundMode where
  | ROUNDN
  | ROUNDM
  | ROUNDP
  | ROUNDZ
  | ROUNDN_F
  | ROUNDM_F
  | ROUNDP_F
  | ROUNDZ_F
deriving DecidableEq, Repr

/-- The constants `RT_SIMD_MODE_ROUNDN .. RT_SIMD_MODE_ROUNDZ_F`: the first
four depend on the conditional `#if RT_SIMD_FLUSH_ZERO == 0`, the `_F` ones do
not. -/
def RT_SIMD_MODE (RT_SIMD_FLUSH_ZERO : Int) : RoundMode → Nat
  | .ROUNDN => if RT_SIMD_FLUSH_ZERO = 0 then 0x00 else 0x04
  | .ROUNDM => if RT_SIMD_FLUSH_ZERO = 0 then 0x03 else 0x07
  | .ROUNDP => if RT_SIMD_FLUSH_ZERO = 0 then 0x02 else 0x06
  | .ROUNDZ => if RT_SIMD_FLUSH_ZERO = 0 then 0x01 else 0x05
  | .ROUNDN_F => 0x04
  | .ROUNDM_F => 0x07
  | .ROUNDP_F => 0x06
  | .ROUNDZ_F => 0x05

/-- The rule `FCTRL_SET(mode)`, "sets given mode into fp control register". -/
def FCTRL_SET (RT_SIMD_FLUSH_ZERO : Int) (mode : RoundMode) : List Nat :=
  EMITW (0xFF80010C ||| (RT_SIMD_MODE RT_SIMD_FLUSH_ZERO mode <<< 12))

/-- The rule `FCTRL_RESET()`, "resumes default mode (ROUNDN) upon leave". -/
def FCTRL_RESET : List Nat :=
  EMITW 0xFF80010C

end P64_128

/-! ## rtarch_x64_256.h and rtarch_x86_256x1v2.h: the 128-bit-lane permute -/

/-- Modelled from the spec: the selector `VAL(val, typ, cmd)` of the x64 base
header picks the numeric value of an immediate triplet. -/
def X64_256.VAL (i : ImmX) : Nat := i.val

/-- Modelled from the spec: the selector `VAL(val, typ, cmd)` of rtarch_x86.h
picks the numeric value of an immediate triplet. -/
def X86_256X1V2.VAL (i : ImmX) : Nat := i.val

namespace X64_256.AVX1

/-- The rule `prmpx_rr(RG, RM, IM)` (the `RT_256 < 2` branch). -/
def prmpx_rr (RG RM : Operand) (IM : ImmX) : List Nat :=
  VEX (RXB RG) (RXB RM) (REN RG) 1 1 3 ++
  EMITB 0x46 ++
  MRM (REG RG) (MOD RM) (REG RM) ++
  AUX EMPTY EMPTY (EMITB (VAL IM))

end X64_256.AVX1

namespace X86_256X1V2

/-- The rule `prmcx_rr(XD, XS, IT)` (the `RT_256X1 < 2` branch). -/
def prmcx_rr (b : X1Base) (XD XS : Operand) (IT : ImmX) : List Nat :=
  b.VEX (REG XD) 1 1 3 ++
  EMITB 0x06 ++
  MRM (REG XD) (MOD XS) (REG XS) ++
  AUX EMPTY EMPTY (EMITB (VAL IT))

end X86_256X1V2

/-! ## rtarch_x64_256.h: the control word of `cvtpn_rr` -/

/-- Modelled from the spec: `IH(im)` of the x86 base headers forms the triplet
of a half-word immediate; the rules here read only its `VAL`. -/
def IH (im : Nat) : ImmX := ⟨im, 0x01, EMITB (im &&& 0xFF) ++ EMITB (im >>> 8)⟩

namespace X64_256

/-- The lines `cvtpn_rr` is made of: the control-word rules of the header
(`fpucw_st`, `fpucw_ld`, `mxcsr_st`), the 32-bit memory-immediate rules of the
base header (`shrwx_mi`, `andwx_mi`, `orrwx_mi`) and the lines of the conversion
`cvnpn_rr` (`movpx_st`, `fpuxn_ld`, `fpuxs_st`, `movpx_ld`). -/
inductive CtlStep where
  | fpucw_st (RM : Operand) (DP : DispX)
  | fpucw_ld (RM : Operand) (DP : DispX)
  | mxcsr_st (RM : Operand) (DP : DispX)
  | shrwx_mi (MG : Operand) (DG : DispX) (IS : ImmX)
  | andwx_mi (MG : Operand) (DG : DispX) (IS : ImmX)
  | orrwx_mi (MG : Operand) (DG : DispX) (IS : ImmX)
  | movpx_st (RG RM : Operand) (DP : DispX)
  | movpx_ld (RG RM : Operand) (DP : DispX)
  | fpuxn_ld (RM : Operand) (DP : DispX)
  | fpuxs_st (RM : Operand) (DP : DispX)
deriving DecidableEq, Repr

/-- The rule `cvnpn_rr(RG, RM)` (round towards near), line by line: the source
register goes to the scratch area `SCR01`, each of its four 64-bit elements is
loaded to the x87 stack as an integer and stored back as a floating-point
value, and the scratch area is loaded into the destination register. -/
def cvnpn_rr (b : X64Base) (RG RM : Operand) : List CtlStep :=
  [.movpx_st RM b.Mebp (inf_SCR01 b.toX86Base 0),
   .fpuxn_ld b.Mebp (inf_SCR01 b.toX86Base 0x00),
   .fpuxs_st b.Mebp (inf_SCR01 b.toX86Base 0x00),
   .fpuxn_ld b.Mebp (inf_SCR01 b.toX86Base 0x08),
   .fpuxs_st b.Mebp (inf_SCR01 b.toX86Base 0x08),
   .fpuxn_ld b.Mebp (inf_SCR01 b.toX86Base 0x10),
   .fpuxs_st b.Mebp (inf_SCR01 b.toX86Base 0x10),
   .fpuxn_ld b.Mebp (inf_SCR01 b.toX86Base 0x18),
   .fpuxs_st b.Mebp (inf_SCR01 b.toX86Base 0x18),
   .movpx_ld RG b.Mebp (inf_SCR01 b.toX86Base 0)]

/-- The rule `cvtpn_rr(RG, RM)`, line by line.  The displacement `inf_SCR00` of
rtarch.h is not in the profile header and stays a parameter. -/
def cvtpn_rr (b : X64Base) (inf_SCR00 : DispX) (RG RM : Operand) : List CtlStep :=
  [.fpucw_st b.Mebp inf_SCR00,
   .mxcsr_st b.Mebp (inf_SCR02 b.toX86Base 0),
   .shrwx_mi b.Mebp (inf_SCR02 b.toX86Base 0) (IB 3),
   .andwx_mi b.Mebp (inf_SCR02 b.toX86Base 0) (IH 0x0C00),
   .orrwx_mi b.Mebp (inf_SCR02 b.toX86Base 0) (IB 0x7F),
   .fpucw_ld b.Mebp (inf_SCR02 b.toX86Base 0)] ++
  cvnpn_rr b RG RM ++
  [.fpucw_ld b.Mebp inf_SCR00]

/-- Modelled from the spec: byte `i` of the little-endian layout of a value,
its bits `8 i .. 8 i + 7`. -/
def bytesLE (v i : Nat) : Nat := (v >>> (8 * i)) % 256

/-- Modelled from the spec: the byte memory after a store of the `n` bytes
`f 0, .., f (n - 1)` at the addresses `a, .., a + n - 1`. -/
def poke (mem : Nat → Nat) (a n : Nat) (f : Nat → Nat) : Nat → Nat :=
  fun x => if a ≤ x ∧ x < a + n then f (x - a) else mem x

/-- Modelled from the spec: the little-endian value of the `n` bytes at the
addresses `a, .., a + n - 1`. -/
def peek (mem : Nat → Nat) : Nat → Nat → Nat
  | _, 0 => 0
  | a, n + 1 => mem a + 256 * peek mem (a + 1) n

/-- The state the lines of `cvtpn_rr` act on. -/
structure CtlState where
  /-- The x87 control word (16 bits). -/
  fpucw : Nat
  /-- The SIMD control register MXCSR (32 bits). -/
  mxcsr : Nat
  /-- The general-purpose registers, by register number. -/
  gpr : Nat → Nat
  /-- The memory, byte by byte. -/
  mem : Nat → Nat
  /-- The 256-bit SIMD registers, by register number and byte index. -/
  ymm : Nat → Nat → Nat
  /-- The x87 register stack, top first. -/
  st : List Nat
  /-- The x87 control word in force at each floating-point store executed,
  oldest first. -/
  used : List Nat

/-- Modelled from the spec: the address of the memory operand `RM, DP`, the
value of its base register plus the displacement. -/
def CtlState.ea (s : CtlState) (RM : Operand) (DP : DispX) : Nat :=
  s.gpr (REN RM) + DP.val

/-- Modelled from the spec: the effect of one line on the machine state.
`fpucw_st` / `fpucw_ld` store and load the 16-bit x87 control word, `mxcsr_st`
stores the 32 bits of MXCSR, the `*wx_mi` rules shift right, and, or the 32-bit
memory word with the immediate, `movpx_st` / `movpx_ld` move the 32 bytes of a
SIMD register, `fpuxn_ld` pushes the 64-bit integer at the operand on the x87
stack, and `fpuxs_st` pops the stack top and stores it as a 64-bit
floating-point value, rounded as the control word in force directs.  The
rounding `toFp64 cw v` of an integer to the floating-point format is not
modelled and stays a parameter. -/
def CtlStep.exec (toFp64 : Nat → Nat → Nat) (s : CtlState) : CtlStep → CtlState
  | .fpucw_st RM DP =>
      ⟨s.fpucw, s.mxcsr, s.gpr, poke s.mem (s.ea RM DP) 2 (bytesLE s.fpucw), s.ymm, s.st,
       s.used⟩
  | .fpucw_ld RM DP =>
      ⟨peek s.mem (s.ea RM DP) 2, s.mxcsr, s.gpr, s.mem, s.ymm, s.st, s.used⟩
  | .mxcsr_st RM DP =>
      ⟨s.fpucw, s.mxcsr, s.gpr, poke s.mem (s.ea RM DP) 4 (bytesLE s.mxcsr), s.ymm, s.st,
       s.used⟩
  | .shrwx_mi MG DG IS =>
      ⟨s.fpucw, s.mxcsr, s.gpr,
       poke s.mem (s.ea MG DG) 4 (bytesLE (peek s.mem (s.ea MG DG) 4 >>> (VAL IS &&& 0x1F))),
       s.ymm, s.st, s.used⟩
  | .andwx_mi MG DG IS =>
      ⟨s.fpucw, s.mxcsr, s.gpr,
       poke s.mem (s.ea MG DG) 4 (bytesLE (peek s.mem (s.ea MG DG) 4 &&& VAL IS)),
       s.ymm, s.st, s.used⟩
  | .orrwx_mi MG DG IS =>
      ⟨s.fpucw, s.mxcsr, s.gpr,
       poke s.mem (s.ea MG DG) 4 (bytesLE (peek s.mem (s.ea MG DG) 4 ||| VAL IS)),
       s.ymm, s.st, s.used⟩
  | .movpx_st RG RM DP =>
      ⟨s.fpucw, s.mxcsr, s.gpr, poke s.mem (s.ea RM DP) 32 (s.ymm (REN RG)), s.ymm, s.st,
       s.used⟩
  | .movpx_ld RG RM DP =>
      ⟨s.fpucw, s.mxcsr, s.gpr, s.mem,
       Function.update s.ymm (REN RG) (fun i => s.mem (s.ea RM DP + i)), s.st, s.used⟩
  | .fpuxn_ld RM DP =>
      ⟨s.fpucw, s.mxcsr, s.gpr, s.mem, s.ymm, peek s.mem (s.ea RM DP) 8 :: s.st, s.used⟩
  | .fpuxs_st RM DP =>
      ⟨s.fpucw, s.mxcsr, s.gpr,
       poke s.mem (s.ea RM DP) 8 (bytesLE (toFp64 s.fpucw (s.st.headD 0))),
       s.ymm, s.st.tail, s.used ++ [s.fpucw]⟩

/-- The effect of a sequence of lines, first line first. -/
def run (toFp64 : Nat → Nat → Nat) (steps : List CtlStep) (s : CtlState) : CtlState :=
  steps.foldl (CtlStep.exec toFp64) s

/-- A sample state (x87 control word `0x037F`, MXCSR `0x5F80`, i.e. rounding
towards +inf, every base register at `0x1000`, memory and registers zero),
used only to instantiate statements at concrete inputs. -/
def sampleCtl : CtlState := ⟨0x037F, 0x5F80, fun _ => 0x1000, fun _ => 0, fun _ _ => 0, [], []⟩

end X64_256

/-! ## rtgeom.cpp: matrix from transform -/

namespace RtGeom

/-- Modelled from the spec: the axis index `RT_X`. -/
def RT_X : Fin 3 := 0
/-- Modelled from the spec: the axis index `RT_Y`. -/
def RT_Y : Fin 3 := 1
/-- Modelled from the spec: the axis index `RT_Z`. -/
def RT_Z : Fin 3 := 2

/-- Modelled from the spec: the structure `rt_TRANSFORM3D` with its three
vectors `scl`, `rot`, `pos`. -/
structure rt_TRANSFORM3D (R : Type) where
  /-- The scale per axis. -/
  scl : Fin 3 → R
  /-- The rotation angle per axis. -/
  rot : Fin 3 → R
  /-- The position per axis. -/
  pos : Fin 3 → R

/-- The function `matrix_from_transform(mp, t1)`, returning `mp`.  The macros
`RT_SINA`, `RT_COSA` are not in src and stay parameters. -/
def matrix_from_transform {R : Type} [Ring R] (RT_SINA RT_COSA : R → R)
    (t1 : rt_TRANSFORM3D R) : rt_mat4 R :=
  let scl_x := t1.scl RT_X
  let scl_y := t1.scl RT_Y
  let scl_z := t1.scl RT_Z
  let sc : rt_mat4 R :=
    ![![scl_x, 0, 0, 0],
      ![0, scl_y, 0, 0],
      ![0, 0, scl_z, 0],
      ![0, 0, 0, 1]]
  let sin_x := RT_SINA (t1.rot RT_X)
  let cos_x := RT_COSA (t1.rot RT_X)
  let rx : rt_mat4 R :=
    ![![1, 0, 0, 0],
      ![0, cos_x, sin_x, 0],
      ![0, -sin_x, cos_x, 0],
      ![0, 0, 0, 1]]
  let sin_y := RT_SINA (t1.rot RT_Y)
  let cos_y := RT_COSA (t1.rot RT_Y)
  let ry : rt_mat4 R :=
    ![![cos_y, 0, -sin_y, 0],
      ![0, 1, 0, 0],
      ![sin_y, 0, cos_y, 0],
      ![0, 0, 0, 1]]
  let sin_z := RT_SINA (t1.rot RT_Z)
  let cos_z := RT_COSA (t1.rot RT_Z)
  let rz : rt_mat4 R :=
    ![![cos_z, sin_z, 0, 0],
      ![-sin_z, cos_z, 0, 0],
      ![0, 0, 1, 0],
      ![0, 0, 0, 1]]
  let pos_x := t1.pos RT_X
  let pos_y := t1.pos RT_Y
  let pos_z := t1.pos RT_Z
  let ps : rt_mat4 R :=
    ![![1, 0, 0, 0],
      ![0, 1, 0, 0],
      ![0, 0, 1, 0],
      ![pos_x, pos_y, pos_z, 1]]
  let mt := matrix_mul_matrix rx sc
  let mp := matrix_mul_matrix ry mt
  let mt := matrix_mul_matrix rz mp
  let mp := matrix_mul_matrix ps mt
  mp

end RtGeom

/-! # Theorems -/

/-- C1: in rtarch_x64_256.h `addps_rr(RG, RM)` on any two registers of
`Xmm0 .. XmmF` emits exactly five bytes: the 3-byte VEX lead-in
`0xC4, ((1-RXB(RG))<<7) | 0x40 | ((1-RXB(RM))<<5) | 0x01,
0x04 | ((15-REN(RG))<<3) | 0x01`, the opcode byte `0x58`, and one ModRM byte
built from `REG(RG)`, `MOD(RM)`, `REG(RM)`; every emitted value fits a byte,
and for two low-numbered registers both extension bits are clear and the
second byte is `0xE1`. -/
theorem X64_256.addps_rr_five_bytes :
    ∀ RG ∈ X64_256.xmmFile, ∀ RM ∈ X64_256.xmmFile,
      X64_256.addps_rr RG RM =
        [0xC4,
         ((1 - X64_256.RXB RG) <<< 7) ||| 0x40 ||| ((1 - X64_256.RXB RM) <<< 5) ||| 0x01,
         0x04 ||| ((15 - X64_256.REN RG) <<< 3) ||| 0x01,
         0x58,
         (MOD RM <<< 6) ||| (X64_256.REG RG <<< 3) ||| X64_256.REG RM]
      ∧ (X64_256.addps_rr RG RM).length = 5
      ∧ (∀ v ∈ X64_256.addps_rr RG RM, v < 256)
      ∧ (RG.reg < 8 → RM.reg < 8 →
          X64_256.RXB RG = 0 ∧ X64_256.RXB RM = 0 ∧
          (X64_256.addps_rr RG RM)[1]? = some 0xE1) := by
  decide

/-- Witness of C1 at `Xmm9`, `Xmm2`: the five bytes are
`C4 61 35 58 CA`. -/
theorem X64_256.addps_rr_five_bytes_witness :
    X64_256.Xmm9 ∈ X64_256.xmmFile ∧ X64_256.Xmm2 ∈ X64_256.xmmFile ∧
    X64_256.addps_rr X64_256.Xmm9 X64_256.Xmm2 = [0xC4, 0x61, 0x35, 0x58, 0xCA] :=
  ⟨by decide, by decide,
   ((X64_256.addps_rr_five_bytes X64_256.Xmm9 (by decide) X64_256.Xmm2 (by decide)).1).trans
     (by decide)⟩

/-- C2 (as stated, refuted): in rtarch_x86_256.h `addps_rr(Xmm0, Xmm1)` is the
four bytes `C5 FC 58 C1`, so it is not five bytes long and does not start with
the 3-byte lead-in byte `0xC4`. -/
theorem X86_256.addps_rr_not_five_bytes :
    X86_256.addps_rr X86_256.Xmm0 X86_256.Xmm1 = [0xC5, 0xFC, 0x58, 0xC1] ∧
    (X86_256.addps_rr X86_256.Xmm0 X86_256.Xmm1).length ≠ 5 ∧
    (X86_256.addps_rr X86_256.Xmm0 X86_256.Xmm1).head? ≠ some 0xC4 := by
  decide

/-- C2 (amended): in rtarch_x86_256.h `addps_rr(RG, RM)` on any two registers
of `Xmm0 .. Xmm7` emits exactly four bytes: the 2-byte vector lead-in `VX2`,
`0xC5, 0x80 | 0x04 | ((15-REG(RG))<<3)`, the opcode byte `0x58`, and one ModRM
byte combining `MOD(RM)`, `REG(RG)`, `REG(RM)`; every emitted value fits a
byte. -/
theorem X86_256.addps_rr_four_bytes :
    ∀ RG ∈ X86_256.xmmFile, ∀ RM ∈ X86_256.xmmFile,
      X86_256.addps_rr RG RM =
        X86_256.VX2 (X86_256.REG RG) 0 1 ++
        [0x58, (MOD RM <<< 6) ||| (X86_256.REG RG <<< 3) ||| X86_256.REG RM]
      ∧ X86_256.VX2 (X86_256.REG RG) 0 1 =
          [0xC5, 0x80 ||| 0x04 ||| ((15 - X86_256.REG RG) <<< 3)]
      ∧ (X86_256.addps_rr RG RM).length = 4
      ∧ (∀ v ∈ X86_256.addps_rr RG RM, v < 256) := by
  decide

/-- Witness of C2 (amended) at `Xmm3`, `Xmm5`: the four bytes are
`C5 E4 58 DD`. -/
theorem X86_256.addps_rr_four_bytes_witness :
    X86_256.Xmm3 ∈ X86_256.xmmFile ∧ X86_256.Xmm5 ∈ X86_256.xmmFile ∧
    (X86_256.addps_rr X86_256.Xmm3 X86_256.Xmm5).length = 4 ∧
    X86_256.addps_rr X86_256.Xmm3 X86_256.Xmm5 = [0xC5, 0xE4, 0x58, 0xDD] :=
  ⟨by decide, by decide,
   (X86_256.addps_rr_four_bytes X86_256.Xmm3 (by decide) X86_256.Xmm5 (by decide)).2.2.1,
   by decide⟩

/-- C3: in rtarch_p32_256v2.h each of the seventeen two-operand
register-register rules `andcx .. svrcn` emits exactly two words carrying the
same opcode constant `K`, the first on the low halves `REG` and the second on
the high halves `RYG`: `K | MXM(REG(XG), REG(XG), REG(XS))` then
`K | MXM(RYG(XG), RYG(XG), RYG(XS))`; for `addcs_rr` the constant is
`0xF0000207`.  On the registers of the file both words decode to the same
constant and to the register fields of their own half. -/
theorem P32_256V2.pair_rules_two_words :
    (P32_256V2.pairRules.map (fun r => r.1) =
      ["andcx_rr", "orrcx_rr", "xorcx_rr", "addcs_rr", "subcs_rr", "mulcs_rr",
       "divcs_rr", "mincs_rr", "maxcs_rr", "ceqcs_rr", "cgtcs_rr", "cgecs_rr",
       "addcx_rr", "subcx_rr", "svlcx_rr", "svrcx_rr", "svrcn_rr"]) ∧
    (∀ r ∈ P32_256V2.pairRules, ∀ XG XS : Operand,
      r.2.2 XG XS =
        [r.2.1 ||| P32_256V2.MXM (P32_256V2.REG XG) (P32_256V2.REG XG) (P32_256V2.REG XS),
         r.2.1 ||| P32_256V2.MXM (P32_256V2.RYG XG) (P32_256V2.RYG XG) (P32_256V2.RYG XS)]) ∧
    (∀ XG XS : Operand, P32_256V2.addcs_rr XG XS =
        [0xF0000207 ||| P32_256V2.MXM (P32_256V2.REG XG) (P32_256V2.REG XG) (P32_256V2.REG XS),
         0xF0000207 ||| P32_256V2.MXM (P32_256V2.RYG XG) (P32_256V2.RYG XG) (P32_256V2.RYG XS)]) ∧
    (∀ r ∈ P32_256V2.pairRules, ∀ XG ∈ P32_256V2.xmmFile, ∀ XS ∈ P32_256V2.xmmFile,
      (r.2.2 XG XS).map (fun w => w &&& 0xFC0007FF) = [r.2.1, r.2.1] ∧
      (r.2.2 XG XS).map
          (fun w => ((w >>> 21) &&& 31, (w >>> 16) &&& 31, (w >>> 11) &&& 31)) =
        [(P32_256V2.REG XG, P32_256V2.REG XG, P32_256V2.REG XS),
         (P32_256V2.RYG XG, P32_256V2.RYG XG, P32_256V2.RYG XS)] ∧
      P32_256V2.REG XG < P32_256V2.RYG XG) := by
  refine ⟨by decide, ?_, fun _ _ => rfl, by decide⟩
  intro r hr XG XS
  simp only [P32_256V2.pairRules, List.mem_cons, List.mem_singleton, List.not_mem_nil,
    or_false] at hr
  rcases hr with h | h | h | h | h | h | h | h | h | h | h | h | h | h | h | h | h <;>
    subst h <;> rfl

/-- Witness of C3 at `addcs_rr(Xmm1, Xmm2)`: the two words are
`0xF0211207` (low halves v1, v2) and `0xF2319207` (high halves v17, v18). -/
theorem P32_256V2.pair_rules_two_words_witness :
    ("addcs_rr", 0xF0000207, P32_256V2.addcs_rr) ∈ P32_256V2.pairRules ∧
    P32_256V2.addcs_rr P32_256V2.Xmm1 P32_256V2.Xmm2 = [0xF0211207, 0xF2319207] :=
  ⟨by simp [P32_256V2.pairRules],
   (P32_256V2.pair_rules_two_words.2.1 ("addcs_rr", 0xF0000207, P32_256V2.addcs_rr)
      (by simp [P32_256V2.pairRules]) P32_256V2.Xmm1 P32_256V2.Xmm2).trans (by decide)⟩

/-! ## Helper lemmas on bit masks -/

/-- Masking a 16-byte-aligned value with `0xFFF0` keeps its low sixteen bits. -/
theorem and_FFF0_of_aligned (dp : Nat) (h : dp % 16 = 0) : dp &&& 0xFFF0 = dp % 65536 := by
  apply Nat.eq_of_testBit_eq
  intro i
  have h16 : (65536 : Nat) = 2 ^ 16 := by norm_num
  rw [Nat.testBit_and, h16, Nat.testBit_mod_two_pow]
  rcases Nat.lt_or_ge i 4 with h4 | h4
  · have hlow : dp.testBit i = false := by
      have := Nat.testBit_mod_two_pow dp 4 i
      rw [show (2:Nat) ^ 4 = 16 by norm_num, h] at this
      simpa [h4] using this.symm
    simp [hlow]
  · rcases Nat.lt_or_ge i 16 with h16 | h16
    · have : (0xFFF0 : Nat).testBit i = true := by
        interval_cases i <;> decide
      simp [this, h16]
    · have : (0xFFF0 : Nat).testBit i = false :=
        Nat.testBit_lt_two_pow (lt_of_lt_of_le (by norm_num : (0xFFF0 : Nat) < 2 ^ 16)
          (Nat.pow_le_pow_right (by norm_num) h16))
      simp [this, Nat.not_lt.mpr h16]

/-- Shifting right distributes over a bitwise and. -/
theorem shiftRight_and (a m n : Nat) : (a &&& m) >>> n = (a >>> n) &&& (m >>> n) := by
  apply Nat.eq_of_testBit_eq
  intro i
  simp only [Nat.testBit_shiftRight, Nat.testBit_and]

/-- Masking twice with masks `m`, `k` whose intersection is `k` is masking
with `k`. -/
theorem and_and_of_and_eq (a m k : Nat) (h : m &&& k = k) : (a &&& m) &&& k = a &&& k := by
  rw [Nat.and_assoc, h]

/-! ## Addressing forms of rtarch_p64_128.h -/

/-- C4 (as stated, refuted): on rtarch_p64_128.h the addressing form does not
follow the numeric displacement.  With type tag 2 the displacement `0x10`,
below the inline limit `0x7FF0`, gets the extended form (two materialisation
words, register-indexed address word); with type tag 0 the displacement
`0x10000`, above the limit, gets the short form (no materialisation word, the
displacement field of the address word is `0`); and the same displacement
`0x10` is encoded in two different forms under two tags. -/
theorem P64_128.form_not_function_of_value :
    ((0x10 : Nat) < 0x7FF0 ∧
      P64_128.movpx_ld sampleBase P64_128.Xmm0 sampleMem ⟨0x10, .T0, .T2⟩ =
        [0x64190000, 0x63390010, 0x7F45CA14, 0x7C00D699]) ∧
    ((0x7FF0 : Nat) ≤ 0x10000 ∧
      P64_128.movpx_ld sampleBase P64_128.Xmm0 sampleMem ⟨0x10000, .T0, .T0⟩ =
        [0x3B450000, 0x7C00D699]) ∧
    P64_128.movpx_ld sampleBase P64_128.Xmm0 sampleMem ⟨0x10, .T0, .T0⟩ ≠
      P64_128.movpx_ld sampleBase P64_128.Xmm0 sampleMem ⟨0x10, .T0, .T2⟩ := by
  decide

/-- C4 (amended): on rtarch_p64_128.h the addressing form of a memory operand
is a function of the displacement's type tag `TP2` alone.  Tag 0 gives the
short form for every value: no materialisation word, and the address word
carries the displacement through `P20`.  Tags 1 and 2 give the extended form
for every value: the displacement is first materialised into `TDxx` by `C21`
(one word) resp. `C22` (two words) and the address word is the
register-indexed one.  Two displacements with the same tag emit the same number
of words; displacement `0x10` with tag 0 is carried unchanged, and
displacement `0x10000` with tag 2 is materialised as high half `1`, low half
`0`. -/
theorem P64_128.form_function_of_tag (b : PowerBase) (RG RM : Operand) (d : Disp) :
    P64_128.movpx_ld b RG RM d =
      (match d.tp2 with
        | .T0 => []
        | .T1 => P64_128.C21 b (MOD RM) d.val
        | .T2 => P64_128.C22 b (MOD RM) d.val) ++
      [0x38000000 |||
        ((match d.tp2 with
            | .T0 => P64_128.P20 d.val
            | .T1 => 0x44000214 ||| (b.TDxx <<< 11)
            | .T2 => 0x44000214 ||| (b.TDxx <<< 11)) |||
          (P64_128.REG RM <<< 16) ||| (b.TPxx <<< 21)),
       0x7C000699 ||| P64_128.MXM (P64_128.REG RG) (P64_128.indexReg b RM) b.TPxx]
    ∧ (P64_128.movpx_ld b RG RM d).length =
        (match d.tp2 with
          | .T0 => 2
          | .T1 => 3
          | .T2 => 4)
    ∧ (∀ e : Disp, e.tp2 = d.tp2 →
        (P64_128.movpx_ld b RG RM e).length = (P64_128.movpx_ld b RG RM d).length)
    ∧ P64_128.P20 0x10 = 0x10
    ∧ P64_128.C22 b (MOD RM) 0x10000 =
        [0x64000000 ||| (b.TDxx <<< 16) ||| 1,
         0x60000000 ||| (b.TDxx <<< 16) ||| (b.TDxx <<< 21) ||| 0] := by
  have h1 : (0x7FFF : Nat) &&& (0x10000 >>> 16) = 1 := by decide
  have h2 : (0xFFF0 : Nat) &&& 0x10000 = 0 := by decide
  have hlen : ∀ e : Disp, (P64_128.movpx_ld b RG RM e).length =
      (match e.tp2 with
        | .T0 => 2
        | .T1 => 3
        | .T2 => 4) := by
    intro e
    cases e with
    | mk val tp1 tp2 => cases tp2 <;> rfl
  refine ⟨?_, hlen d, ?_, by decide, ?_⟩
  · cases d with
    | mk val tp1 tp2 =>
      cases tp2 <;>
        simp only [P64_128.movpx_ld, AUW, EMPTY, EMITW, P64_128.C2, P64_128.C20, P64_128.C21,
          P64_128.C22, P64_128.MPM, P64_128.B2, P64_128.B20, P64_128.B21, P64_128.B22,
          P64_128.P2, P64_128.P21, P64_128.P22, VAL, List.nil_append, List.singleton_append,
          List.append_nil, List.cons_append]
  · intro e he
    rw [hlen e, hlen d, he]
  · simp only [P64_128.C22, EMITW, h1, h2, List.singleton_append]

/-- Witness of C4 (amended): the displacements `0x10` and `0x10000`, both
with tag 2, emit the same number of words (four). -/
theorem P64_128.form_function_of_tag_witness :
    (P64_128.movpx_ld sampleBase P64_128.Xmm0 sampleMem ⟨0x10, .T0, .T2⟩).length =
      (P64_128.movpx_ld sampleBase P64_128.Xmm0 sampleMem ⟨0x10000, .T0, .T2⟩).length :=
  (P64_128.form_function_of_tag sampleBase P64_128.Xmm0 sampleMem ⟨0x10000, .T0, .T2⟩).2.2.1
    ⟨0x10, .T0, .T2⟩ rfl

/-- C5: `C22` of rtarch_p64_128.h emits exactly two words, the high-order half
first: `0x64000000 | TDxx<<16 | ((dp >> 16) & 0x7FFF)`, then
`0x60000000 | TDxx<<16 | TDxx<<21 | (dp & 0xFFF0)`; both immediates fit their
16-bit field, and for every displacement `dp < 2^31` with `dp mod 16 = 0` they
recombine to the displacement. -/
theorem P64_128.C22_high_then_low (b : PowerBase) (br dp : Nat) :
    P64_128.C22 b br dp =
      [0x64000000 ||| (b.TDxx <<< 16) ||| ((dp >>> 16) &&& 0x7FFF),
       0x60000000 ||| (b.TDxx <<< 16) ||| (b.TDxx <<< 21) ||| (dp &&& 0xFFF0)]
    ∧ (P64_128.C22 b br dp).length = 2
    ∧ (dp >>> 16) &&& 0x7FFF < 2 ^ 15
    ∧ dp &&& 0xFFF0 < 2 ^ 16
    ∧ (dp < 2 ^ 31 → dp % 16 = 0 →
        ((((dp >>> 16) &&& 0x7FFF) <<< 16) ||| (dp &&& 0xFFF0)) = dp) := by
  refine ⟨?_, rfl, Nat.and_lt_two_pow _ (by norm_num), Nat.and_lt_two_pow _ (by norm_num), ?_⟩
  · simp only [P64_128.C22, EMITW, List.singleton_append, Nat.and_comm]
  · intro h31 h
    rw [and_FFF0_of_aligned dp h]
    have e1 : (dp >>> 16) &&& 0x7FFF = dp >>> 16 := by
      rw [show (0x7FFF : Nat) = 2 ^ 15 - 1 by norm_num, Nat.and_pow_two_sub_one_eq_mod,
        Nat.shiftRight_eq_div_pow]
      apply Nat.mod_eq_of_lt
      apply Nat.div_lt_of_lt_mul
      calc dp < 2 ^ 31 := h31
        _ = 2 ^ 16 * 2 ^ 15 := by norm_num
    rw [e1, Nat.shiftLeft_eq, Nat.shiftRight_eq_div_pow, Nat.mul_comm,
      ← Nat.mul_add_lt_is_or (by exact Nat.mod_lt _ (by norm_num))]
    show 2 ^ 16 * (dp / 2 ^ 16) + dp % 2 ^ 16 = dp
    exact Nat.div_add_mod dp (2 ^ 16)

/-- Witness of C5 at the displacement `0x12340`: the immediates `0x1` and
`0x2340` recombine to it. -/
theorem P64_128.C22_high_then_low_witness :
    (0x12340 : Nat) < 2 ^ 31 ∧ (0x12340 : Nat) % 16 = 0 ∧
    ((((0x12340 >>> 16) &&& 0x7FFF) <<< 16) ||| (0x12340 &&& 0xFFF0)) = 0x12340 :=
  ⟨by decide, by decide,
   (P64_128.C22_high_then_low sampleBase 0 0x12340).2.2.2.2 (by decide) (by decide)⟩

/-- C6 (as stated, refuted): on rtarch_p64_128.h an out-of-capacity
displacement is not rejected.  The inline form given `0x8000`, outside
`0 .. 0x7FF0`, emits the same two words as for displacement `0`; the type-2
form given `0x80000000`, which does not fit 31 bits, emits the same words as
for displacement `0`. -/
theorem P64_128.oversize_displacement_is_truncated :
    (¬ (0x8000 : Nat) ≤ 0x7FF0 ∧
      P64_128.movpx_ld sampleBase P64_128.Xmm0 sampleMem ⟨0x8000, .T0, .T0⟩ =
        [0x3B450000, 0x7C00D699] ∧
      P64_128.movpx_ld sampleBase P64_128.Xmm0 sampleMem ⟨0x8000, .T0, .T0⟩ =
        P64_128.movpx_ld sampleBase P64_128.Xmm0 sampleMem ⟨0, .T0, .T0⟩) ∧
    (¬ (0x80000000 : Nat) < 2 ^ 31 ∧
      P64_128.movpx_ld sampleBase P64_128.Xmm0 sampleMem ⟨0x80000000, .T0, .T2⟩ =
        [0x64190000, 0x63390000, 0x7F45CA14, 0x7C00D699] ∧
      P64_128.movpx_ld sampleBase P64_128.Xmm0 sampleMem ⟨0x80000000, .T0, .T2⟩ =
        P64_128.movpx_ld sampleBase P64_128.Xmm0 sampleMem ⟨0, .T0, .T2⟩) := by
  decide

/-- C6 (amended): on rtarch_p64_128.h encoding a memory operand never fails on
the displacement; the bits an addressing form cannot hold are dropped.  The
inline form keeps `dp & 0x7FF0`: the field `P20(dp)` is at most `0x7FF0`, and
the two words emitted for `dp` are those emitted for `dp & 0x7FF0`.  The type-2
form keeps `dp & 0x7FFFFFF0`: the four words emitted for `dp` are those
emitted for `dp & 0x7FFFFFF0`. -/
theorem P64_128.displacement_truncated_never_rejected
    (b : PowerBase) (RG RM : Operand) (dp : Nat) (t : DispType) :
    P64_128.P20 dp ≤ 0x7FF0
    ∧ P64_128.P20 dp = P64_128.P20 (dp &&& 0x7FF0)
    ∧ (P64_128.movpx_ld b RG RM ⟨dp, t, .T0⟩).length = 2
    ∧ P64_128.movpx_ld b RG RM ⟨dp, t, .T0⟩ =
        P64_128.movpx_ld b RG RM ⟨dp &&& 0x7FF0, t, .T0⟩
    ∧ (P64_128.movpx_ld b RG RM ⟨dp, t, .T2⟩).length = 4
    ∧ P64_128.movpx_ld b RG RM ⟨dp, t, .T2⟩ =
        P64_128.movpx_ld b RG RM ⟨dp &&& 0x7FFFFFF0, t, .T2⟩ := by
  have hP : P64_128.P20 dp = P64_128.P20 (dp &&& 0x7FF0) := by
    simp only [P64_128.P20]
    rw [and_and_of_and_eq dp 0x7FF0 0x7FF0 (by decide)]
  have hle : P64_128.P20 dp ≤ 0x7FF0 := by
    simp only [P64_128.P20, Nat.zero_or]
    exact Nat.and_le_right
  have hhi : (0x7FFF : Nat) &&& ((dp &&& 0x7FFFFFF0) >>> 16) = 0x7FFF &&& (dp >>> 16) := by
    rw [shiftRight_and, show (0x7FFFFFF0 : Nat) >>> 16 = 0x7FFF by decide,
      Nat.and_comm, and_and_of_and_eq _ 0x7FFF 0x7FFF (by decide), Nat.and_comm]
  have hlo : (0xFFF0 : Nat) &&& (dp &&& 0x7FFFFFF0) = 0xFFF0 &&& dp := by
    rw [Nat.and_comm, and_and_of_and_eq dp 0x7FFFFFF0 0xFFF0 (by decide), Nat.and_comm]
  refine ⟨hle, hP, rfl, ?_, rfl, ?_⟩
  · simp only [P64_128.movpx_ld, AUW, EMPTY, EMITW, P64_128.C2, P64_128.C20, P64_128.MPM,
      P64_128.B2, P64_128.P2, VAL]
    rw [← hP]
  · simp only [P64_128.movpx_ld, AUW, EMPTY, EMITW, P64_128.C2, P64_128.C22, P64_128.MPM,
      P64_128.B2, P64_128.P2, P64_128.P22, VAL, hhi, hlo]

/-! ## Save and restore sequences -/

/-- Setting a further bit commutes with the register fields of a word. -/
theorem or_or_right_comm (a m c : Nat) : (a ||| m) ||| c = (a ||| c) ||| m := by
  rw [Nat.or_assoc, Nat.or_comm m c, ← Nat.or_assoc]

/-- C7: in rtarch_p64_128.h, rtarch_p32_256v2.h and rtarch_x64_256.h
`sregs_la` is the mirror of `sregs_sa`: line by line it is the save sequence
with every store turned into the load of the same register, so both start with
the same base load, have the same number of lines and advance `Reax` by the
same constants at the same places, and every register is loaded from the
offset it was stored at; on the two Power profiles every raw store word is the
corresponding raw load word with bit `0x100` set. -/
theorem sregs_la_mirrors_sregs_sa (b : PowerBase) (c : PairBase) (p q : Nat) :
    (X64_256.sregs_la = X64_256.sregs_sa.map Step.mirror
      ∧ X64_256.sregs_sa.head? = some .movxx_ld_REGS
      ∧ X64_256.sregs_la.length = X64_256.sregs_sa.length
      ∧ (trace X64_256.xfer p X64_256.sregs_la).map (fun a => (a.reg, a.off)) =
          (trace X64_256.xfer q X64_256.sregs_sa).map (fun a => (a.reg, a.off)))
    ∧ (P64_128.sregs_la b = (P64_128.sregs_sa b).map Step.mirror
      ∧ (P64_128.sregs_sa b).head? = some .movxx_ld_REGS
      ∧ (P64_128.sregs_la b).length = (P64_128.sregs_sa b).length
      ∧ (trace P64_128.xfer p (P64_128.sregs_la b)).map (fun a => (a.reg, a.off)) =
          (trace P64_128.xfer q (P64_128.sregs_sa b)).map (fun a => (a.reg, a.off))
      ∧ List.Forall₂ (rawMirror P64_128.rawWord) (P64_128.sregs_sa b) (P64_128.sregs_la b)
      ∧ ((P64_128.sregs_sa b).filterMap P64_128.rawWord).length = 9)
    ∧ (P32_256V2.sregs_la c = (P32_256V2.sregs_sa c).map Step.mirror
      ∧ (P32_256V2.sregs_sa c).head? = some .movxx_ld_REGS
      ∧ (P32_256V2.sregs_la c).length = (P32_256V2.sregs_sa c).length
      ∧ (trace P32_256V2.xfer p (P32_256V2.sregs_la c)).map (fun a => (a.reg, a.off)) =
          (trace P32_256V2.xfer q (P32_256V2.sregs_sa c)).map (fun a => (a.reg, a.off))
      ∧ List.Forall₂ (rawMirror P32_256V2.rawWord) (P32_256V2.sregs_sa c)
          (P32_256V2.sregs_la c)
      ∧ ((P32_256V2.sregs_sa c).filterMap P32_256V2.rawWord).length = 6) := by
  have e1 : (0x7C000799 : Nat) = 0x7C000699 ||| 0x100 := by decide
  have e2 : (0x7C000719 : Nat) = 0x7C000619 ||| 0x100 := by decide
  have e3 : (0x7C000718 : Nat) = 0x7C000618 ||| 0x100 := by decide
  refine ⟨⟨by decide, rfl, rfl, rfl⟩, ⟨rfl, rfl, rfl, rfl, ?_, rfl⟩, ⟨rfl, rfl, rfl, rfl, ?_, rfl⟩⟩
  · simp only [P64_128.sregs_sa, P64_128.sregs_la, List.forall₂_cons, List.Forall₂.nil,
      rawMirror, P64_128.rawWord, and_true, true_and]
    refine ⟨?_, ?_, ?_, ?_, ?_, ?_, ?_, ?_, ?_⟩ <;>
      (nth_rewrite 1 [e1]; exact (or_or_right_comm _ _ _).symm)
  · simp only [P32_256V2.sregs_sa, P32_256V2.sregs_la, List.forall₂_cons, List.Forall₂.nil,
      rawMirror, P32_256V2.rawWord, and_true, true_and]
    refine ⟨?_, ?_, ?_, ?_, ?_, ?_⟩
    · nth_rewrite 1 [e2]; exact (or_or_right_comm _ _ _).symm
    · nth_rewrite 1 [e2]; exact (or_or_right_comm _ _ _).symm
    · nth_rewrite 1 [e2]; exact (or_or_right_comm _ _ _).symm
    · nth_rewrite 1 [e2]; exact (or_or_right_comm _ _ _).symm
    · nth_rewrite 1 [e3]; exact (or_or_right_comm _ _ _).symm
    · nth_rewrite 1 [e3]; exact (or_or_right_comm _ _ _).symm

/-- C8: `sregs_sa` stores every register of the profile's register file exactly
once in a fixed order.  In rtarch_x64_256.h it is the base load followed by
the stores of `Xmm0, .., XmmF` in increasing index order, `RT_SIMD_REGS` = 16
stores of pairwise distinct registers.  In rtarch_p64_128.h it is the base
load followed by the stores of `Xmm0, .., XmmF` and then of the nine reserved
registers `TmmR, TmmS, TmmQ, TmmA, TmmB, TmmC, TmmD, TmmE, Tmm1`, 25 stores
of pairwise distinct registers in all. -/
theorem sregs_sa_stores_each_register_once (b : PowerBase) (p : Nat) :
    (X64_256.sregs_sa =
        .movxx_ld_REGS :: List.intersperse (.addxx_ri (X64_256.RT_SIMD_WIDTH * 8))
          (X64_256.xmmFile.map .movpx_st)
      ∧ X64_256.xmmFile.map X64_256.REN = List.range X64_256.RT_SIMD_REGS
      ∧ (trace X64_256.xfer p X64_256.sregs_sa).map (fun a => (a.opc, a.reg)) =
          (List.range 16).map (fun k => (0x29, k))
      ∧ (trace X64_256.xfer p X64_256.sregs_sa).length = X64_256.RT_SIMD_REGS
      ∧ ((trace X64_256.xfer p X64_256.sregs_sa).map (fun a => a.reg)).Nodup)
    ∧ (P64_128.sregs_sa b =
        .movxx_ld_REGS :: List.intersperse (.addxx_ri (P64_128.RT_SIMD_WIDTH * 8))
          (P64_128.xmmFile.map .movpx_st ++
            P64_128.tmmFile.map (fun t => .EMITW 0x7C000799 t 0x00 b.Teax))
      ∧ P64_128.xmmFile.map P64_128.REG = List.range P64_128.RT_SIMD_REGS
      ∧ P64_128.tmmFile = [0x17, 0x18, 0x19, 0x1A, 0x1B, 0x1C, 0x1D, 0x1E, 0x1F]
      ∧ (trace P64_128.xfer p (P64_128.sregs_sa b)).map (fun a => (a.opc, a.reg)) =
          (List.range 16 ++ P64_128.tmmFile).map (fun k => (0x7C000799, k))
      ∧ (trace P64_128.xfer p (P64_128.sregs_sa b)).length = 25
      ∧ ((trace P64_128.xfer p (P64_128.sregs_sa b)).map (fun a => a.reg)).Nodup) := by
  have h1 : (trace X64_256.xfer p X64_256.sregs_sa).map (fun a => a.reg) = List.range 16 := rfl
  have h2 : (trace P64_128.xfer p (P64_128.sregs_sa b)).map (fun a => a.reg) =
      List.range 16 ++ P64_128.tmmFile := rfl
  refine ⟨⟨by decide, by decide, rfl, rfl, ?_⟩, ⟨rfl, by decide, by decide, rfl, rfl, ?_⟩⟩
  · rw [h1]; decide
  · rw [h2]; decide

/-- C10: in rtarch_x64_256.h and rtarch_p64_128.h `sregs_sa` advances `Reax`
by the one constant `RT_SIMD_WIDTH * 8` between every two consecutive
registers; that constant equals `RT_SIMD_ALIGN` (32 resp. 16) and is a power of
two, the k-th register of the sequence is stored at byte offset
`k * RT_SIMD_ALIGN`, and the save area is 16 * 32 = 512 resp. 25 * 16 = 400
bytes. -/
theorem sregs_sa_stride (b : PowerBase) (p : Nat) :
    (X64_256.RT_SIMD_WIDTH * 8 = X64_256.RT_SIMD_ALIGN
      ∧ X64_256.RT_SIMD_ALIGN = 2 ^ 5
      ∧ X64_256.sregs_sa.filterMap
            (fun s => match s with
              | .addxx_ri imm => some imm
              | _ => none) =
          List.replicate 15 X64_256.RT_SIMD_ALIGN
      ∧ trace X64_256.xfer p X64_256.sregs_sa =
          (List.range 16).map (fun k => ⟨0x29, k, k * X64_256.RT_SIMD_ALIGN⟩)
      ∧ (trace X64_256.xfer p X64_256.sregs_sa).length * X64_256.RT_SIMD_ALIGN = 512)
    ∧ (P64_128.RT_SIMD_WIDTH * 8 = P64_128.RT_SIMD_ALIGN
      ∧ P64_128.RT_SIMD_ALIGN = 2 ^ 4
      ∧ (P64_128.sregs_sa b).filterMap
            (fun s => match s with
              | .addxx_ri imm => some imm
              | _ => none) =
          List.replicate 24 P64_128.RT_SIMD_ALIGN
      ∧ trace P64_128.xfer p (P64_128.sregs_sa b) =
          (List.range 16 ++ P64_128.tmmFile).enum.map
            (fun kr => ⟨0x7C000799, kr.2, kr.1 * P64_128.RT_SIMD_ALIGN⟩)
      ∧ (trace P64_128.xfer p (P64_128.sregs_sa b)).length * P64_128.RT_SIMD_ALIGN = 400) := by
  have h1 : (trace X64_256.xfer p X64_256.sregs_sa).length = 16 := rfl
  have h2 : (trace P64_128.xfer p (P64_128.sregs_sa b)).length = 25 := rfl
  refine ⟨⟨by decide, by decide, rfl, rfl, ?_⟩, ⟨by decide, by decide, rfl, rfl, ?_⟩⟩
  · rw [h1]; rfl
  · rw [h2]; rfl

/-! ## Register tables and build-time selection -/

/-- C18: the register table of each profile is total and injective on its
register file.  `Xmm_i` has register number `i` for every `i < RT_SIMD_REGS`
(8 in rtarch_x86_256.h, 16 in rtarch_x64_256.h and rtarch_p64_128.h), all
entries of a table carry the same MOD tag and are pairwise distinct; in
rtarch_x64_256.h the extension bit and the low field together give the
register number back; in rtarch_p64_128.h the reserved registers
`TmmR .. Tmm1` take the pairwise distinct values `0x17 .. 0x1F`, none of which
is the number of an `Xmm` register. -/
theorem register_tables_injective :
    (X86_256.xmmFile.length = X86_256.RT_SIMD_REGS
      ∧ X86_256.xmmFile.map X86_256.REG = List.range 8
      ∧ (∀ X ∈ X86_256.xmmFile, MOD X = 0x03)
      ∧ (X86_256.xmmFile.map X86_256.REG).Nodup)
    ∧ (X64_256.xmmFile.length = X64_256.RT_SIMD_REGS
      ∧ X64_256.xmmFile.map X64_256.REN = List.range 16
      ∧ (∀ X ∈ X64_256.xmmFile, MOD X = 0x03)
      ∧ (X64_256.xmmFile.map X64_256.REN).Nodup
      ∧ X64_256.xmmFile.map (fun X => X64_256.RXB X * 8 + X64_256.REG X) = List.range 16)
    ∧ (P64_128.xmmFile.length = P64_128.RT_SIMD_REGS
      ∧ P64_128.xmmFile.map P64_128.REG = List.range 16
      ∧ (∀ X ∈ P64_128.xmmFile, MOD X = 0x00)
      ∧ (P64_128.xmmFile.map P64_128.REG).Nodup
      ∧ P64_128.tmmFile = [0x17, 0x18, 0x19, 0x1A, 0x1B, 0x1C, 0x1D, 0x1E, 0x1F]
      ∧ P64_128.tmmFile.Nodup
      ∧ (∀ t ∈ P64_128.tmmFile, t ∉ P64_128.xmmFile.map P64_128.REG)) := by
  decide

/-- Witness of C18 at `XmmA` of rtarch_x64_256.h and `TmmQ` of
rtarch_p64_128.h. -/
theorem register_tables_injective_witness :
    MOD X64_256.XmmA = 0x03 ∧ P64_128.TmmQ ∉ P64_128.xmmFile.map P64_128.REG :=
  ⟨register_tables_injective.2.1.2.2.1 X64_256.XmmA (by decide),
   register_tables_injective.2.2.2.2.2.2.2.2 P64_128.TmmQ (by decide)⟩

/-- C20: the address-width selection of rtarch_x64_256.h and rtarch_p64_128.h
includes the 32-bit base header exactly when `RT_ADDRESS == 32`, the 64-bit
base header exactly when `RT_ADDRESS == 64`, and for every other value stops
the build with the text "unsupported address size, check RT_ADDRESS in
makefiles", including neither. -/
theorem address_width_selection (a : Int) :
    (X64_256.selectBase a = .included "rtarch_x32.h" ↔ a = 32)
    ∧ (X64_256.selectBase a = .included "rtarch_x64.h" ↔ a = 64)
    ∧ (a ≠ 32 → a ≠ 64 → X64_256.selectBase a =
        .failed "unsupported address size, check RT_ADDRESS in makefiles")
    ∧ (∀ h, X64_256.selectBase a = .included h → h = "rtarch_x32.h" ∨ h = "rtarch_x64.h")
    ∧ (P64_128.selectBase a = .included "rtarch_p32.h" ↔ a = 32)
    ∧ (P64_128.selectBase a = .included "rtarch_p64.h" ↔ a = 64)
    ∧ (a ≠ 32 → a ≠ 64 → P64_128.selectBase a =
        .failed "unsupported address size, check RT_ADDRESS in makefiles")
    ∧ (∀ h, P64_128.selectBase a = .included h → h = "rtarch_p32.h" ∨ h = "rtarch_p64.h") := by
  unfold X64_256.selectBase P64_128.selectBase
  by_cases h32 : a = 32
  · subst h32; simp
  · by_cases h64 : a = 64
    · subst h64; simp
    · simp [h32, h64]

/-- Witness of C20 at `RT_ADDRESS = 16`: the build stops with the named
reason in both headers. -/
theorem address_width_selection_witness :
    X64_256.selectBase 16 = .failed "unsupported address size, check RT_ADDRESS in makefiles"
    ∧ P64_128.selectBase 16 =
        .failed "unsupported address size, check RT_ADDRESS in makefiles" :=
  ⟨(address_width_selection 16).2.2.1 (by decide) (by decide),
   (address_width_selection 16).2.2.2.2.2.2.1 (by decide) (by decide)⟩

/-! ## Packed integer rules of rtarch_x86_256.h -/

/-- The second byte of `VX2(ren, 1, 0)` has bit 2 clear, and `VX2(ren, 1, 1)`
is the same lead-in with that bit set. -/
theorem X86_256.VX2_length_bit (ren : Nat) (t : List Nat) :
    differInLengthBit (X86_256.VX2 ren 1 0 ++ t) (X86_256.VX2 ren 1 1 ++ t) := by
  have hk : 0x0F - ren ≤ 15 := Nat.sub_le _ _
  refine ⟨0xC5, 0x80 ||| (0 <<< 2) ||| ((0x0F - ren) <<< 3) ||| 1, t, rfl, ?_, ?_⟩
  · simp only [X86_256.VX2, EMITB, List.singleton_append, List.cons_append, List.nil_append,
      List.cons.injEq, true_and, and_true]
    generalize 0x0F - ren = k at hk
    interval_cases k <;> decide
  · generalize 0x0F - ren = k at hk
    interval_cases k <;> decide

/-- C15 (as stated, refuted): in rtarch_x86_256.h it is not true that one of
the two packed-integer sections is active for every value of `RT_256`: with
`RT_256` equal to 0 (or undefined) the guard `defined (RT_256) && (RT_256 != 0)`
removes both, although 0 is below 2. -/
theorem X86_256.no_integer_section_at_zero :
    X86_256.integerBranch true (some 0) = none
    ∧ (0 : Int) < 2
    ∧ X86_256.integerBranch true none = none := by
  decide

/-- C15 (amended): in rtarch_x86_256.h with `RT_SIMD_CODE` defined, at
extension level AVX2 (`RT_256 >= 2`) each packed-integer rule `addpx_rr/_ld`,
`subpx_rr/_ld`, `shlpx_ri/_ld`, `shrpx_ri/_ld`, `shrpn_ri/_ld` is a single
native instruction (one `VX2` lead-in, one opcode byte, one ModRM byte and the
operand bytes), and its bytes are those of the 128-bit helper of the AVX1
section (`addlx`, `sublx`, `shllx`, `shrlx`, `shrln` on the same operands)
except for bit 2 of the second lead-in byte, which is 1 instead of 0.  With
`RT_SIMD_CODE` defined and a non-zero `RT_256` below 2 the same names are the
multi-instruction shims of the AVX1 section (at least 28 bytes each).  Exactly
one of the two sections is compiled whenever `RT_SIMD_CODE` is defined and
`RT_256` is defined and non-zero (the AVX1 one below 2, the AVX2 one from 2
on), and neither is when `RT_SIMD_CODE` is undefined or `RT_256` is undefined
or 0. -/
theorem X86_256.avx2_integer_rules (b : X86Base) (RG RM : Operand) (DP : DispX)
    (IM : ImmX) :
    (differInLengthBit (X86_256.AVX1.addlx_rr RG RM) (X86_256.AVX2.addpx_rr RG RM)
      ∧ differInLengthBit (X86_256.AVX1.addlx_ld RG RM DP) (X86_256.AVX2.addpx_ld RG RM DP)
      ∧ differInLengthBit (X86_256.AVX1.sublx_rr RG RM) (X86_256.AVX2.subpx_rr RG RM)
      ∧ differInLengthBit (X86_256.AVX1.sublx_ld RG RM DP) (X86_256.AVX2.subpx_ld RG RM DP)
      ∧ differInLengthBit (X86_256.AVX1.shllx_ri RM IM) (X86_256.AVX2.shlpx_ri RM IM)
      ∧ differInLengthBit (X86_256.AVX1.shllx_ld RG RM DP) (X86_256.AVX2.shlpx_ld RG RM DP)
      ∧ differInLengthBit (X86_256.AVX1.shrlx_ri RM IM) (X86_256.AVX2.shrpx_ri RM IM)
      ∧ differInLengthBit (X86_256.AVX1.shrlx_ld RG RM DP) (X86_256.AVX2.shrpx_ld RG RM DP)
      ∧ differInLengthBit (X86_256.AVX1.shrln_ri RM IM) (X86_256.AVX2.shrpn_ri RM IM)
      ∧ differInLengthBit (X86_256.AVX1.shrln_ld RG RM DP) (X86_256.AVX2.shrpn_ld RG RM DP))
    ∧ (X86_256.AVX2.addpx_rr RG RM =
          X86_256.VX2 (X86_256.REG RG) 1 1 ++
            [0xFE, (MOD RM <<< 6) ||| (X86_256.REG RG <<< 3) ||| X86_256.REG RM]
      ∧ X86_256.AVX2.subpx_rr RG RM =
          X86_256.VX2 (X86_256.REG RG) 1 1 ++
            [0xFA, (MOD RM <<< 6) ||| (X86_256.REG RG <<< 3) ||| X86_256.REG RM]
      ∧ X86_256.AVX2.shlpx_ri RM IM =
          X86_256.VX2 (X86_256.REG RM) 1 1 ++
            [0x72, (MOD RM <<< 6) ||| (0x06 <<< 3) ||| X86_256.REG RM, IM.val &&& 0x1F]
      ∧ X86_256.AVX2.shrpx_ri RM IM =
          X86_256.VX2 (X86_256.REG RM) 1 1 ++
            [0x72, (MOD RM <<< 6) ||| (0x02 <<< 3) ||| X86_256.REG RM, IM.val &&& 0x1F]
      ∧ X86_256.AVX2.shrpn_ri RM IM =
          X86_256.VX2 (X86_256.REG RM) 1 1 ++
            [0x72, (MOD RM <<< 6) ||| (0x04 <<< 3) ||| X86_256.REG RM, IM.val &&& 0x1F]
      ∧ X86_256.AVX2.addpx_ld RG RM DP =
          X86_256.VX2 (X86_256.REG RG) 1 1 ++
            [0xFE, (MOD RM <<< 6) ||| (X86_256.REG RG <<< 3) ||| X86_256.REG RM] ++
            SIB RM ++ CMD DP
      ∧ X86_256.AVX2.subpx_ld RG RM DP =
          X86_256.VX2 (X86_256.REG RG) 1 1 ++
            [0xFA, (MOD RM <<< 6) ||| (X86_256.REG RG <<< 3) ||| X86_256.REG RM] ++
            SIB RM ++ CMD DP
      ∧ X86_256.AVX2.shlpx_ld RG RM DP =
          X86_256.VX2 (X86_256.REG RG) 1 1 ++
            [0xF2, (MOD RM <<< 6) ||| (X86_256.REG RG <<< 3) ||| X86_256.REG RM] ++
            SIB RM ++ CMD DP
      ∧ X86_256.AVX2.shrpx_ld RG RM DP =
          X86_256.VX2 (X86_256.REG RG) 1 1 ++
            [0xD2, (MOD RM <<< 6) ||| (X86_256.REG RG <<< 3) ||| X86_256.REG RM] ++
            SIB RM ++ CMD DP
      ∧ X86_256.AVX2.shrpn_ld RG RM DP =
          X86_256.VX2 (X86_256.REG RG) 1 1 ++
            [0xE2, (MOD RM <<< 6) ||| (X86_256.REG RG <<< 3) ||| X86_256.REG RM] ++
            SIB RM ++ CMD DP)
    ∧ (28 ≤ (X86_256.AVX1.addpx_rr b RG RM).length
      ∧ 28 ≤ (X86_256.AVX1.addpx_ld b RG RM DP).length
      ∧ 28 ≤ (X86_256.AVX1.subpx_rr b RG RM).length
      ∧ 28 ≤ (X86_256.AVX1.subpx_ld b RG RM DP).length
      ∧ 28 ≤ (X86_256.AVX1.shlpx_ri b RM IM).length
      ∧ 28 ≤ (X86_256.AVX1.shlpx_ld b RG RM DP).length
      ∧ 28 ≤ (X86_256.AVX1.shrpx_ri b RM IM).length
      ∧ 28 ≤ (X86_256.AVX1.shrpx_ld b RG RM DP).length
      ∧ 28 ≤ (X86_256.AVX1.shrpn_ri b RM IM).length
      ∧ 28 ≤ (X86_256.AVX1.shrpn_ld b RG RM DP).length)
    ∧ (∀ (RT_SIMD_CODE : Bool) (RT_256 : Option Int),
        (X86_256.integerBranch RT_SIMD_CODE RT_256 = some .avx2 ↔
          RT_SIMD_CODE = true ∧ ∃ v, RT_256 = some v ∧ 2 ≤ v)
        ∧ (X86_256.integerBranch RT_SIMD_CODE RT_256 = some .avx1 ↔
          RT_SIMD_CODE = true ∧ ∃ v, RT_256 = some v ∧ v ≠ 0 ∧ v < 2)
        ∧ (X86_256.integerBranch RT_SIMD_CODE RT_256 = none ↔
          RT_SIMD_CODE = false ∨ RT_256 = none ∨ RT_256 = some 0)
        ∧ ((∃ s, X86_256.integerBranch RT_SIMD_CODE RT_256 = some s) ↔
          RT_SIMD_CODE = true ∧ ∃ v, RT_256 = some v ∧ v ≠ 0)) := by
  refine ⟨?differ, ?native, ?shim, ?branch⟩
  case branch =>
    intro code o
    cases code
    · simp [X86_256.integerBranch]
    · cases o with
      | none => simp [X86_256.integerBranch]
      | some v =>
        by_cases hv : v = 0
        · subst hv
          simp [X86_256.integerBranch]
        · by_cases h2 : v < 2
          · simp [X86_256.integerBranch, hv, h2]
          · simp [X86_256.integerBranch, hv, h2]
            omega
  case differ =>
    refine ⟨?_, ?_, ?_, ?_, ?_, ?_, ?_, ?_, ?_, ?_⟩ <;>
      (simp only [X86_256.AVX1.addlx_rr, X86_256.AVX2.addpx_rr, X86_256.AVX1.addlx_ld,
        X86_256.AVX2.addpx_ld, X86_256.AVX1.sublx_rr, X86_256.AVX2.subpx_rr,
        X86_256.AVX1.sublx_ld, X86_256.AVX2.subpx_ld, X86_256.AVX1.shllx_ri,
        X86_256.AVX2.shlpx_ri, X86_256.AVX1.shllx_ld, X86_256.AVX2.shlpx_ld,
        X86_256.AVX1.shrlx_ri, X86_256.AVX2.shrpx_ri, X86_256.AVX1.shrlx_ld,
        X86_256.AVX2.shrpx_ld, X86_256.AVX1.shrln_ri, X86_256.AVX2.shrpn_ri,
        X86_256.AVX1.shrln_ld, X86_256.AVX2.shrpn_ld, List.append_assoc]
       exact X86_256.VX2_length_bit _ _)
  case native =>
    refine ⟨?_, ?_, ?_, ?_, ?_, ?_, ?_, ?_, ?_, ?_⟩ <;>
      simp only [X86_256.AVX2.addpx_rr, X86_256.AVX2.addpx_ld, X86_256.AVX2.subpx_rr,
        X86_256.AVX2.subpx_ld, X86_256.AVX2.shlpx_ri, X86_256.AVX2.shlpx_ld,
        X86_256.AVX2.shrpx_ri, X86_256.AVX2.shrpx_ld, X86_256.AVX2.shrpn_ri,
        X86_256.AVX2.shrpn_ld, X86_256.MRM, X86_256.VAL, AUX, EMITB, EMPTY, CMD, SIB,
        List.append_assoc, List.singleton_append, List.cons_append, List.nil_append,
        List.append_nil]
  case shim =>
    refine ⟨?_, ?_, ?_, ?_, ?_, ?_, ?_, ?_, ?_, ?_⟩ <;>
      (simp only [X86_256.AVX1.addpx_rr, X86_256.AVX1.addpx_ld, X86_256.AVX1.subpx_rr,
        X86_256.AVX1.subpx_ld, X86_256.AVX1.shlpx_ri, X86_256.AVX1.shlpx_ld,
        X86_256.AVX1.shrpx_ri, X86_256.AVX1.shrpx_ld, X86_256.AVX1.shrpn_ri,
        X86_256.AVX1.shrpn_ld, X86_256.AVX1.addlx_rr, X86_256.AVX1.addlx_ld,
        X86_256.AVX1.sublx_rr, X86_256.AVX1.sublx_ld, X86_256.AVX1.shllx_ri,
        X86_256.AVX1.shllx_ld, X86_256.AVX1.shrlx_ri, X86_256.AVX1.shrlx_ld,
        X86_256.AVX1.shrln_ri, X86_256.AVX1.shrln_ld, X86_256.AVX1.movlx_ld,
        X86_256.AVX1.movlx_st, X86_256.AVX1.prmpx_rr, X86_256.movpx_ld, X86_256.movpx_st,
        X86_256.VX2, X86_256.VX3, X86_256.MRM, AUX, EMITB, EMPTY, List.length_append,
        List.length_cons, List.length_nil]
       omega)

/-- Witness of C15 (amended) at `RT_SIMD_CODE` defined and `RT_256 = 2`: the
AVX2 section is the one compiled; with `RT_SIMD_CODE` undefined none is. -/
theorem X86_256.avx2_integer_rules_witness :
    X86_256.integerBranch true (some 2) = some .avx2
    ∧ X86_256.integerBranch false (some 2) = none :=
  ⟨((X86_256.avx2_integer_rules sampleX86 X86_256.Xmm0 X86_256.Xmm1 (inf_SCR01 sampleX86 0)
      (IB 1)).2.2.2 true (some 2)).1.mpr ⟨rfl, 2, rfl, by decide⟩,
   ((X86_256.avx2_integer_rules sampleX86 X86_256.Xmm0 X86_256.Xmm1 (inf_SCR01 sampleX86 0)
      (IB 1)).2.2.2 false (some 2)).2.2.1.mpr (Or.inl rfl)⟩

/-! ## Reciprocal and convert rules -/

/-- C11 (as stated, refuted): rtarch_x64_256.h has no estimate-and-correct
reciprocal.  Its `rcsps_rr` is empty, and its `rceps_rr` is three
instructions: a store of the source to the scratch area (opcode `0x29`), a
load of the constant at `inf_GPC01` (opcode `0x28`) and a full-precision divide
by the scratch area (opcode `0x5E`). -/
theorem X64_256.reciprocal_without_estimate :
    X64_256.rcsps_rr X64_256.Xmm0 X64_256.Xmm1 = []
    ∧ X64_256.rceps_rr sampleX64 X64_256.Xmm0 X64_256.Xmm1 =
        [0xC4, 0xE1, 0x7D, 0x29, 0x8D, 0x40,
         0xC4, 0xE1, 0x7D, 0x28, 0x85, 0xC0,
         0xC4, 0xE1, 0x7D, 0x5E, 0x85, 0x40] := by
  decide

/-- C11 (amended): in rtarch_x86_256.h, rtarch_p64_128.h, rtarch_p32_256v2.h and
rtarch_x86_256x1v2.h the reciprocal is built from one native estimate
instruction per native register (`rce`: opcode byte `0x53` on x86, one word
`0xF000036B` resp. one word `0xF000026B` per half on Power) followed by a
non-empty correction sequence (`rcs`: multiply, multiply, add, subtract on x86,
two words per native register on Power).  In rtarch_x64_256.h `rce` is instead
a store, a load of the constant at `inf_GPC01` and a divide, and `rcs` is
empty. -/
theorem reciprocal_rules (p : PairBase) (x : X1Base) (y : X64Base) (RG RM : Operand) :
    (X86_256.rceps_rr RG RM =
        X86_256.VX2 0 0 1 ++
          [0x53, (MOD RM <<< 6) ||| (X86_256.REG RG <<< 3) ||| X86_256.REG RM]
      ∧ (X86_256.rceps_rr RG RM).length = 4
      ∧ X86_256.rcsps_rr RG RM =
          X86_256.mulps_rr RM RG ++ X86_256.mulps_rr RM RG ++
            X86_256.addps_rr RG RG ++ X86_256.subps_rr RG RM
      ∧ (X86_256.rcsps_rr RG RM).length = 16)
    ∧ (P64_128.rceps_rr RG RM =
        [0xF000036B ||| P64_128.MXM (P64_128.REG RG) 0x00 (P64_128.REG RM)]
      ∧ P64_128.rcsps_rr RG RM =
        [0xF00007CF ||| P64_128.MXM (P64_128.REG RM) (P64_128.REG RG) P64_128.TmmA,
         0xF000030F ||| P64_128.MXM (P64_128.REG RG) (P64_128.REG RG) (P64_128.REG RM)])
    ∧ (P32_256V2.rcecs_rr RG RM =
        [0xF000026B ||| P32_256V2.MXM (P32_256V2.REG RG) 0x00 (P32_256V2.REG RM),
         0xF000026B ||| P32_256V2.MXM (P32_256V2.RYG RG) 0x00 (P32_256V2.RYG RM)]
      ∧ P32_256V2.rcscs_rr p RG RM =
        [0xF00006CD ||| P32_256V2.MXM (P32_256V2.REG RM) (P32_256V2.REG RG) p.TmmQ,
         0xF000020F ||| P32_256V2.MXM (P32_256V2.REG RG) (P32_256V2.REG RG)
           (P32_256V2.REG RM),
         0xF00006CD ||| P32_256V2.MXM (P32_256V2.RYG RM) (P32_256V2.RYG RG) p.TmmQ,
         0xF000020F ||| P32_256V2.MXM (P32_256V2.RYG RG) (P32_256V2.RYG RG)
           (P32_256V2.RYG RM)])
    ∧ (X86_256X1V2.rcecs_rr x RG RM =
        x.V2X 0x00 1 0 ++
          [0x53, (MOD RM <<< 6) ||| (X86_256X1V2.REG RG <<< 3) ||| X86_256X1V2.REG RM]
      ∧ X86_256X1V2.rcscs_rr x RG RM =
          X86_256X1V2.mulcs_rr x RM RG ++ X86_256X1V2.mulcs_rr x RM RG ++
            X86_256X1V2.addcs_rr x RG RG ++ X86_256X1V2.subcs_rr x RG RM
      ∧ X86_256X1V2.mulcs_rr x RM RG =
          x.V2X (X86_256X1V2.REG RM) 1 0 ++
            [0x59, (MOD RG <<< 6) ||| (X86_256X1V2.REG RM <<< 3) ||| X86_256X1V2.REG RG]
      ∧ 8 ≤ (X86_256X1V2.rcscs_rr x RG RM).length)
    ∧ (X64_256.rcsps_rr RG RM = []
      ∧ X64_256.rceps_rr y RG RM =
          X64_256.movpx_st y RM y.Mebp (inf_SCR01 y.toX86Base 0) ++
            X64_256.movpx_ld y RG y.Mebp (inf_GPC01 y.toX86Base) ++
            X64_256.divps_ld y RG y.Mebp (inf_SCR01 y.toX86Base 0)
      ∧ X64_256.divps_ld y RG y.Mebp (inf_SCR01 y.toX86Base 0) =
          y.ADR ++ X64_256.VEX (X64_256.RXB RG) (X64_256.RXB y.Mebp) (X64_256.REN RG) 1 1 1 ++
            [0x5E, (MOD y.Mebp <<< 6) ||| (X64_256.REG RG <<< 3) ||| X64_256.REG y.Mebp] ++
            SIB y.Mebp ++ (inf_SCR01 y.toX86Base 0).cmd) := by
  refine ⟨⟨?_, rfl, rfl, rfl⟩, ⟨rfl, rfl⟩, ⟨rfl, rfl⟩, ⟨?_, rfl, ?_, ?_⟩, ⟨rfl, rfl, ?_⟩⟩
  · simp only [X86_256.rceps_rr, X86_256.MRM, EMITB, List.append_assoc, List.singleton_append]
  · simp only [X86_256X1V2.rcecs_rr, X86_256X1V2.MRM, EMITB, List.append_assoc,
      List.singleton_append]
  · simp only [X86_256X1V2.mulcs_rr, X86_256X1V2.mulcs3rr, X86_256X1V2.MRM, EMITB,
      List.append_assoc, List.singleton_append]
  · simp only [X86_256X1V2.rcscs_rr, X86_256X1V2.mulcs_rr, X86_256X1V2.mulcs3rr,
      X86_256X1V2.addcs_rr, X86_256X1V2.addcs3rr, X86_256X1V2.subcs_rr, X86_256X1V2.subcs3rr,
      X86_256X1V2.MRM, EMITB, List.length_append, List.length_cons, List.length_nil]
    omega
  · simp only [X64_256.divps_ld, X64_256.MRM, AUX, CMD, EMITB, EMPTY, List.append_assoc,
      List.singleton_append, List.append_nil, List.cons_append, List.nil_append]


/-- C14: in all five profiles convert-to-integer with rounding towards +inf
(`cvp`) or -inf (`cvm`) is a two-step expansion.  The `_rr` form emits the
words/bytes of `rnp`/`rnm` `_rr(D, S)` followed by those of `cvz` `_rr(D, D)`;
the `_ld` form emits those of `rnp`/`rnm` `_ld(D, M, DP)` followed by those of
`cvz` `_rr(D, D)`.  The rounding step carries the mode (immediate `0x02` for
+inf and `0x01` for -inf on x86, opcodes `..A7` and `..E7` on Power) and
writes the destination; the converting step reads and writes the
destination. -/
theorem convert_with_rounding_two_steps (p : PairBase) (x : X1Base) (y : X64Base)
    (D S M : Operand) (DP : DispX) (DW : Disp) :
    (X86_256.cvpps_rr D S = X86_256.rnpps_rr D S ++ X86_256.cvzps_rr D D
      ∧ X86_256.cvmps_rr D S = X86_256.rnmps_rr D S ++ X86_256.cvzps_rr D D
      ∧ X86_256.cvpps_ld D M DP = X86_256.rnpps_ld D M DP ++ X86_256.cvzps_rr D D
      ∧ X86_256.cvmps_ld D M DP = X86_256.rnmps_ld D M DP ++ X86_256.cvzps_rr D D
      ∧ X86_256.cvpps_rr D S =
          X86_256.VX3 0x0 1 3 ++
            [0x08, (MOD S <<< 6) ||| (X86_256.REG D <<< 3) ||| X86_256.REG S, 0x02] ++
          (X86_256.VX2 0x0 2 1 ++
            [0x5B, (MOD D <<< 6) ||| (X86_256.REG D <<< 3) ||| X86_256.REG D])
      ∧ X86_256.cvmps_rr D S =
          X86_256.VX3 0x0 1 3 ++
            [0x08, (MOD S <<< 6) ||| (X86_256.REG D <<< 3) ||| X86_256.REG S, 0x01] ++
          (X86_256.VX2 0x0 2 1 ++
            [0x5B, (MOD D <<< 6) ||| (X86_256.REG D <<< 3) ||| X86_256.REG D]))
    ∧ (X64_256.cvpps_rr y D S = X64_256.rnpps_rr D S ++ X64_256.cvzps_rr y D D
      ∧ X64_256.cvmps_rr y D S = X64_256.rnmps_rr D S ++ X64_256.cvzps_rr y D D
      ∧ X64_256.cvpps_ld y D M DP = X64_256.rnpps_ld y D M DP ++ X64_256.cvzps_rr y D D
      ∧ X64_256.cvmps_ld y D M DP = X64_256.rnmps_ld y D M DP ++ X64_256.cvzps_rr y D D
      ∧ X64_256.rnpps_rr D S =
          X64_256.VEX (X64_256.RXB D) (X64_256.RXB S) 0x0 1 1 3 ++
            [0x09, (MOD S <<< 6) ||| (X64_256.REG D <<< 3) ||| X64_256.REG S, 0x02]
      ∧ X64_256.rnmps_rr D S =
          X64_256.VEX (X64_256.RXB D) (X64_256.RXB S) 0x0 1 1 3 ++
            [0x09, (MOD S <<< 6) ||| (X64_256.REG D <<< 3) ||| X64_256.REG S, 0x01])
    ∧ (P64_128.cvpps_rr D S = P64_128.rnpps_rr D S ++ P64_128.cvzps_rr D D
      ∧ P64_128.cvmps_rr D S = P64_128.rnmps_rr D S ++ P64_128.cvzps_rr D D
      ∧ P64_128.cvpps_ld p.toPowerBase D M DW =
          P64_128.rnpps_ld p.toPowerBase D M DW ++ P64_128.cvzps_rr D D
      ∧ P64_128.cvmps_ld p.toPowerBase D M DW =
          P64_128.rnmps_ld p.toPowerBase D M DW ++ P64_128.cvzps_rr D D
      ∧ P64_128.cvpps_rr D S =
          [0xF00003A7 ||| P64_128.MXM (P64_128.REG D) 0x00 (P64_128.REG S),
           0xF0000763 ||| P64_128.MXM (P64_128.REG D) 0x00 (P64_128.REG D)]
      ∧ P64_128.cvmps_rr D S =
          [0xF00003E7 ||| P64_128.MXM (P64_128.REG D) 0x00 (P64_128.REG S),
           0xF0000763 ||| P64_128.MXM (P64_128.REG D) 0x00 (P64_128.REG D)])
    ∧ (P32_256V2.cvpcs_rr D S = P32_256V2.rnpcs_rr D S ++ P32_256V2.cvzcs_rr D D
      ∧ P32_256V2.cvmcs_rr D S = P32_256V2.rnmcs_rr D S ++ P32_256V2.cvzcs_rr D D
      ∧ P32_256V2.cvpcs_ld p D M DW = P32_256V2.rnpcs_ld p D M DW ++ P32_256V2.cvzcs_rr D D
      ∧ P32_256V2.cvmcs_ld p D M DW = P32_256V2.rnmcs_ld p D M DW ++ P32_256V2.cvzcs_rr D D
      ∧ P32_256V2.cvpcs_rr D S =
          [0xF00002A7 ||| P32_256V2.MXM (P32_256V2.REG D) 0x00 (P32_256V2.REG S),
           0xF00002A7 ||| P32_256V2.MXM (P32_256V2.RYG D) 0x00 (P32_256V2.RYG S),
           0xF0000263 ||| P32_256V2.MXM (P32_256V2.REG D) 0x00 (P32_256V2.REG D),
           0xF0000263 ||| P32_256V2.MXM (P32_256V2.RYG D) 0x00 (P32_256V2.RYG D)]
      ∧ P32_256V2.cvmcs_rr D S =
          [0xF00002E7 ||| P32_256V2.MXM (P32_256V2.REG D) 0x00 (P32_256V2.REG S),
           0xF00002E7 ||| P32_256V2.MXM (P32_256V2.RYG D) 0x00 (P32_256V2.RYG S),
           0xF0000263 ||| P32_256V2.MXM (P32_256V2.REG D) 0x00 (P32_256V2.REG D),
           0xF0000263 ||| P32_256V2.MXM (P32_256V2.RYG D) 0x00 (P32_256V2.RYG D)])
    ∧ (X86_256X1V2.cvpcs_rr x D S = X86_256X1V2.rnpcs_rr x D S ++ X86_256X1V2.cvzcs_rr x D D
      ∧ X86_256X1V2.cvmcs_rr x D S = X86_256X1V2.rnmcs_rr x D S ++ X86_256X1V2.cvzcs_rr x D D
      ∧ X86_256X1V2.cvpcs_ld x D M DP =
          X86_256X1V2.rnpcs_ld x D M DP ++ X86_256X1V2.cvzcs_rr x D D
      ∧ X86_256X1V2.cvmcs_ld x D M DP =
          X86_256X1V2.rnmcs_ld x D M DP ++ X86_256X1V2.cvzcs_rr x D D
      ∧ X86_256X1V2.cvpcs_rr x D S =
          x.VEX 0x00 1 1 3 ++
            [0x08, (MOD S <<< 6) ||| (X86_256X1V2.REG D <<< 3) ||| X86_256X1V2.REG S, 0x02] ++
          (x.V2X 0x00 1 2 ++
            [0x5B, (MOD D <<< 6) ||| (X86_256X1V2.REG D <<< 3) ||| X86_256X1V2.REG D])
      ∧ X86_256X1V2.cvmcs_rr x D S =
          x.VEX 0x00 1 1 3 ++
            [0x08, (MOD S <<< 6) ||| (X86_256X1V2.REG D <<< 3) ||| X86_256X1V2.REG S, 0x01] ++
          (x.V2X 0x00 1 2 ++
            [0x5B, (MOD D <<< 6) ||| (X86_256X1V2.REG D <<< 3) ||| X86_256X1V2.REG D])) := by
  refine ⟨⟨rfl, rfl, rfl, rfl, ?_, ?_⟩, ⟨rfl, rfl, rfl, rfl, ?_, ?_⟩,
    ⟨rfl, rfl, rfl, rfl, rfl, rfl⟩, ⟨rfl, rfl, rfl, rfl, rfl, rfl⟩, ⟨rfl, rfl, rfl, rfl, ?_, ?_⟩⟩
  · simp only [X86_256.cvpps_rr, X86_256.rnpps_rr, X86_256.cvzps_rr, X86_256.MRM, AUX, EMITB,
      EMPTY, List.append_assoc, List.singleton_append, List.nil_append, List.cons_append]
  · simp only [X86_256.cvmps_rr, X86_256.rnmps_rr, X86_256.cvzps_rr, X86_256.MRM, AUX, EMITB,
      EMPTY, List.append_assoc, List.singleton_append, List.nil_append, List.cons_append]
  · simp only [X64_256.rnpps_rr, X64_256.MRM, AUX, EMITB,
      EMPTY, List.append_assoc, List.singleton_append, List.nil_append, List.cons_append]
  · simp only [X64_256.rnmps_rr, X64_256.MRM, AUX, EMITB,
      EMPTY, List.append_assoc, List.singleton_append, List.nil_append, List.cons_append]
  · simp only [X86_256X1V2.cvpcs_rr, X86_256X1V2.rnpcs_rr, X86_256X1V2.cvzcs_rr,
      X86_256X1V2.MRM, AUX, EMITB,
      EMPTY, List.append_assoc, List.singleton_append, List.nil_append, List.cons_append]
  · simp only [X86_256X1V2.cvmcs_rr, X86_256X1V2.rnmcs_rr, X86_256X1V2.cvzcs_rr,
      X86_256X1V2.MRM, AUX, EMITB,
      EMPTY, List.append_assoc, List.singleton_append, List.nil_append, List.cons_append]


/-! ## Half ordering of the paired profile -/

/-- C17: in rtarch_p32_256v2.h every rule with a memory operand that reads or
writes both halves of a wide value (the thirty-six rules of `memPairRules`:
mov, mmv, and/ann/orr/orn/xor, add/sub/mul/div/sqr, fma/fms, min/max, the
compares, the rn*/cvz/rnd/cvt converts, addcx/subcx, svl/svr) is its half form
taken at `REG`, `VAL` followed by the same half form taken at `RYG`, `VYL`: low
half first, low half at `VAL(D)`, high half at `VYL(D)`.  The `RT_256 < 2`
branch of `orncx_ld` is `notcx_rx` (low word, high word) followed by
`orrcx_ld`, which is in the table.  Hence `movcx_st` followed, after any
change of the registers, by `movcx_ld` at the same address returns both halves
to the registers they came from. -/
theorem P32_256V2.half_ordering :
    (∀ e ∈ P32_256V2.memPairRules, ∀ (b : PairBase) (X Y M : Operand) (D : Disp),
        e.rule b X Y M D =
          e.half e.kLo P32_256V2.REG VAL b X Y M D ++
            e.half e.kHi P32_256V2.RYG P32_256V2.VYL b X Y M D)
    ∧ P32_256V2.memPairRules.map (fun e => e.name) =
        ["movcx_ld", "movcx_st", "mmvcx_ld", "mmvcx_st", "andcx_ld", "anncx_ld", "orrcx_ld",
          "orncx_ld", "xorcx_ld", "addcs_ld", "subcs_ld", "mulcs_ld", "divcs_ld", "sqrcs_ld",
          "fmacs_ld", "fmscs_ld", "mincs_ld", "maxcs_ld", "ceqcs_ld", "cnecs_ld", "cltcs_ld",
          "clecs_ld", "cgtcs_ld", "cgecs_ld", "rnzcs_ld", "cvzcs_ld", "rnpcs_ld", "rnmcs_ld",
          "rnncs_ld", "addcx_ld", "subcx_ld", "svlcx_ld", "svrcx_ld", "svrcn_ld", "rndcs_ld",
          "cvtcn_ld"]
    ∧ (∀ (b : PairBase) (X M : Operand) (D : Disp),
        P32_256V2.V1.orncx_ld b X M D =
          [0xF0000517 ||| P32_256V2.MXM (P32_256V2.REG X) (P32_256V2.REG X) (P32_256V2.REG X),
           0xF0000517 ||| P32_256V2.MXM (P32_256V2.RYG X) (P32_256V2.RYG X) (P32_256V2.RYG X)] ++
          (P32_256V2.orrcx_ld_half P32_256V2.REG VAL b X M D ++
            P32_256V2.orrcx_ld_half P32_256V2.RYG P32_256V2.VYL b X M D))
    ∧ (∀ (V : Type) (s : VState V) (r : Nat → V) (X M : Operand) (D : Disp),
        let stored := P32_256V2.movcx_st_sem X M D s
        let loaded := P32_256V2.movcx_ld_sem X M D ⟨r, stored.mem⟩
        stored.mem (P32_256V2.REG M, VAL D) = s.reg (P32_256V2.REG X)
        ∧ stored.mem (P32_256V2.REG M, P32_256V2.VYL D) = s.reg (P32_256V2.RYG X)
        ∧ loaded.reg (P32_256V2.REG X) = s.reg (P32_256V2.REG X)
        ∧ loaded.reg (P32_256V2.RYG X) = s.reg (P32_256V2.RYG X)) := by
  refine ⟨?halves, rfl, ?orn, ?trip⟩
  case halves =>
    intro e he b X Y M D
    simp only [P32_256V2.memPairRules, List.mem_cons, List.mem_singleton, List.not_mem_nil,
      or_false] at he
    rcases he with rfl | rfl | rfl | rfl | rfl | rfl | rfl | rfl | rfl | rfl | rfl | rfl | rfl
      | rfl | rfl | rfl | rfl | rfl | rfl | rfl | rfl | rfl | rfl | rfl | rfl | rfl | rfl | rfl
      | rfl | rfl | rfl | rfl | rfl | rfl | rfl | rfl <;>
      simp only [P32_256V2.movcx_ld, P32_256V2.movcx_ld_half, P32_256V2.movcx_st,
        P32_256V2.movcx_st_half, P32_256V2.mmvcx_ld, P32_256V2.mmvcx_ld_half,
        P32_256V2.mmvcx_st, P32_256V2.mmvcx_st_half, P32_256V2.andcx_ld,
        P32_256V2.andcx_ld_half, P32_256V2.anncx_ld, P32_256V2.anncx_ld_half,
        P32_256V2.orrcx_ld, P32_256V2.orrcx_ld_half, P32_256V2.orncx_ld,
        P32_256V2.orncx_ld_half, P32_256V2.xorcx_ld, P32_256V2.xorcx_ld_half,
        P32_256V2.addcs_ld, P32_256V2.addcs_ld_half, P32_256V2.subcs_ld,
        P32_256V2.subcs_ld_half, P32_256V2.mulcs_ld, P32_256V2.mulcs_ld_half,
        P32_256V2.divcs_ld, P32_256V2.divcs_ld_half, P32_256V2.sqrcs_ld,
        P32_256V2.sqrcs_ld_half, P32_256V2.fmacs_ld, P32_256V2.fmacs_ld_half,
        P32_256V2.fmscs_ld, P32_256V2.fmscs_ld_half, P32_256V2.mincs_ld,
        P32_256V2.mincs_ld_half, P32_256V2.maxcs_ld, P32_256V2.maxcs_ld_half,
        P32_256V2.ceqcs_ld, P32_256V2.ceqcs_ld_half, P32_256V2.cnecs_ld,
        P32_256V2.cnecs_ld_half, P32_256V2.cltcs_ld, P32_256V2.cltcs_ld_half,
        P32_256V2.clecs_ld, P32_256V2.clecs_ld_half, P32_256V2.cgtcs_ld,
        P32_256V2.cgtcs_ld_half, P32_256V2.cgecs_ld, P32_256V2.cgecs_ld_half,
        P32_256V2.rnzcs_ld, P32_256V2.rnzcs_ld_half, P32_256V2.cvzcs_ld,
        P32_256V2.cvzcs_ld_half, P32_256V2.rnpcs_ld, P32_256V2.rnpcs_ld_half,
        P32_256V2.rnmcs_ld, P32_256V2.rnmcs_ld_half, P32_256V2.rnncs_ld,
        P32_256V2.rnncs_ld_half, P32_256V2.addcx_ld, P32_256V2.addcx_ld_half,
        P32_256V2.subcx_ld, P32_256V2.subcx_ld_half, P32_256V2.svlcx_ld,
        P32_256V2.svlcx_ld_half, P32_256V2.svrcx_ld, P32_256V2.svrcx_ld_half,
        P32_256V2.svrcn_ld, P32_256V2.svrcn_ld_half, P32_256V2.rndcs_ld,
        P32_256V2.rndcs_ld_half, P32_256V2.cvtcn_ld, P32_256V2.cvtcn_ld_half, List.append_assoc]
  case orn =>
    intro b X M D
    simp only [P32_256V2.V1.orncx_ld, P32_256V2.notcx_rx, P32_256V2.orrcx_ld,
      P32_256V2.orrcx_ld_half, EMITW, List.append_assoc, List.singleton_append,
      List.cons_append, List.nil_append]
  case trip =>
    intro V s r X M D
    have hreg : P32_256V2.REG X ≠ P32_256V2.RYG X := by
      simp only [P32_256V2.REG, P32_256V2.RYG]; omega
    have hdisp : (P32_256V2.REG M, VAL D) ≠ (P32_256V2.REG M, P32_256V2.VYL D) := by
      simp only [VAL, P32_256V2.VYL, ne_eq, Prod.mk.injEq, true_and]; omega
    simp only [P32_256V2.movcx_st_sem, P32_256V2.movcx_ld_sem, P32_256V2.movcx_st_half_sem,
      P32_256V2.movcx_ld_half_sem, VState.store, VState.load, Function.update_same,
      Function.update_noteq hreg, Function.update_noteq hdisp, and_self]


/-- Witness of C17 at the table entry of `movcx_st`, register `Xmm1` and
displacement `0x20`: the rule is its half form at `REG`, `VAL` followed by its
half form at `RYG`, `VYL`. -/
theorem P32_256V2.half_ordering_witness :
    P32_256V2.memPairRules.get ⟨1, by decide⟩ ∈ P32_256V2.memPairRules
    ∧ P32_256V2.movcx_st samplePairBase P32_256V2.Xmm1 sampleMem ⟨0x20, .T0, .T0⟩ =
      P32_256V2.movcx_st_half P32_256V2.REG VAL samplePairBase P32_256V2.Xmm1 sampleMem
          ⟨0x20, .T0, .T0⟩ ++
        P32_256V2.movcx_st_half P32_256V2.RYG P32_256V2.VYL samplePairBase P32_256V2.Xmm1
          sampleMem ⟨0x20, .T0, .T0⟩ :=
  ⟨List.get_mem _ _ _,
   P32_256V2.half_ordering.1 (P32_256V2.memPairRules.get ⟨1, by decide⟩) (List.get_mem _ _ _)
     samplePairBase P32_256V2.Xmm1 P32_256V2.Xmm1 sampleMem ⟨0x20, .T0, .T0⟩⟩

/-! ## Effect of the reciprocal step and of the multiply-add fallback -/

/-- C12: the x86 reciprocal correction step (`rcsps_rr` of rtarch_x86_256.h,
`rcscs_rr` of rtarch_x86_256x1v2.h) is one Newton-Raphson step.  With the
estimate `e` in the first register and `s` in a distinct second register, and
the lane-wise mul/add/sub taken in exact arithmetic (any commutative ring), the
sequence mul S,G; mul S,G; add G,G; sub G,S leaves `e * (2 - s * e)` in the
first register and `s * e * e` in the second; hence `1 - s * G` is squared, and
`e` is kept when `s * e = 1`.  No other register and no memory cell changes. -/
theorem reciprocal_step_is_newton_raphson {V : Type} [CommRing V] (XG XS : Operand)
    (s : VState V) (h : XG.reg ≠ XS.reg) :
    ((X86_256.rcsps_rr_sem XG XS s).reg (X86_256.REG XG) =
        s.reg (X86_256.REG XG) * (2 - s.reg (X86_256.REG XS) * s.reg (X86_256.REG XG))
      ∧ (X86_256.rcsps_rr_sem XG XS s).reg (X86_256.REG XS) =
        s.reg (X86_256.REG XS) * s.reg (X86_256.REG XG) * s.reg (X86_256.REG XG)
      ∧ 1 - s.reg (X86_256.REG XS) * (X86_256.rcsps_rr_sem XG XS s).reg (X86_256.REG XG) =
        (1 - s.reg (X86_256.REG XS) * s.reg (X86_256.REG XG)) ^ 2
      ∧ (s.reg (X86_256.REG XS) * s.reg (X86_256.REG XG) = 1 →
          (X86_256.rcsps_rr_sem XG XS s).reg (X86_256.REG XG) = s.reg (X86_256.REG XG))
      ∧ (∀ r, r ≠ X86_256.REG XG → r ≠ X86_256.REG XS →
          (X86_256.rcsps_rr_sem XG XS s).reg r = s.reg r)
      ∧ (X86_256.rcsps_rr_sem XG XS s).mem = s.mem)
    ∧ ((X86_256X1V2.rcscs_rr_sem XG XS s).reg (X86_256X1V2.REG XG) =
        s.reg (X86_256X1V2.REG XG) *
          (2 - s.reg (X86_256X1V2.REG XS) * s.reg (X86_256X1V2.REG XG))
      ∧ (X86_256X1V2.rcscs_rr_sem XG XS s).reg (X86_256X1V2.REG XS) =
        s.reg (X86_256X1V2.REG XS) * s.reg (X86_256X1V2.REG XG) * s.reg (X86_256X1V2.REG XG)
      ∧ 1 - s.reg (X86_256X1V2.REG XS) *
            (X86_256X1V2.rcscs_rr_sem XG XS s).reg (X86_256X1V2.REG XG) =
        (1 - s.reg (X86_256X1V2.REG XS) * s.reg (X86_256X1V2.REG XG)) ^ 2
      ∧ (s.reg (X86_256X1V2.REG XS) * s.reg (X86_256X1V2.REG XG) = 1 →
          (X86_256X1V2.rcscs_rr_sem XG XS s).reg (X86_256X1V2.REG XG) =
            s.reg (X86_256X1V2.REG XG))
      ∧ (∀ r, r ≠ X86_256X1V2.REG XG → r ≠ X86_256X1V2.REG XS →
          (X86_256X1V2.rcscs_rr_sem XG XS s).reg r = s.reg r)
      ∧ (X86_256X1V2.rcscs_rr_sem XG XS s).mem = s.mem) := by
  have h1 : XS.reg ≠ XG.reg := Ne.symm h
  have hG : (X86_256.rcsps_rr_sem XG XS s).reg XG.reg =
      s.reg XG.reg * (2 - s.reg XS.reg * s.reg XG.reg) := by
    simp only [X86_256.rcsps_rr_sem, X86_256.mulps_rr_sem, X86_256.addps_rr_sem,
      X86_256.subps_rr_sem, X86_256.REG, VState.op, Function.update_same,
      Function.update_noteq h, Function.update_noteq h1]
    ring
  have hS : (X86_256.rcsps_rr_sem XG XS s).reg XS.reg =
      s.reg XS.reg * s.reg XG.reg * s.reg XG.reg := by
    simp only [X86_256.rcsps_rr_sem, X86_256.mulps_rr_sem, X86_256.addps_rr_sem,
      X86_256.subps_rr_sem, X86_256.REG, VState.op, Function.update_same,
      Function.update_noteq h, Function.update_noteq h1]
  have hF : ∀ r, r ≠ XG.reg → r ≠ XS.reg → (X86_256.rcsps_rr_sem XG XS s).reg r = s.reg r := by
    intro r hr1 hr2
    simp only [X86_256.rcsps_rr_sem, X86_256.mulps_rr_sem, X86_256.addps_rr_sem,
      X86_256.subps_rr_sem, X86_256.REG, VState.op, Function.update_noteq hr1,
      Function.update_noteq hr2]
  have hE : X86_256X1V2.rcscs_rr_sem XG XS s = X86_256.rcsps_rr_sem XG XS s := rfl
  have key : (X86_256.rcsps_rr_sem XG XS s).reg (X86_256.REG XG) =
        s.reg (X86_256.REG XG) * (2 - s.reg (X86_256.REG XS) * s.reg (X86_256.REG XG))
      ∧ (X86_256.rcsps_rr_sem XG XS s).reg (X86_256.REG XS) =
        s.reg (X86_256.REG XS) * s.reg (X86_256.REG XG) * s.reg (X86_256.REG XG)
      ∧ 1 - s.reg (X86_256.REG XS) * (X86_256.rcsps_rr_sem XG XS s).reg (X86_256.REG XG) =
        (1 - s.reg (X86_256.REG XS) * s.reg (X86_256.REG XG)) ^ 2
      ∧ (s.reg (X86_256.REG XS) * s.reg (X86_256.REG XG) = 1 →
          (X86_256.rcsps_rr_sem XG XS s).reg (X86_256.REG XG) = s.reg (X86_256.REG XG))
      ∧ (∀ r, r ≠ X86_256.REG XG → r ≠ X86_256.REG XS →
          (X86_256.rcsps_rr_sem XG XS s).reg r = s.reg r)
      ∧ (X86_256.rcsps_rr_sem XG XS s).mem = s.mem := by
    refine ⟨hG, hS, ?_, ?_, hF, rfl⟩
    · show 1 - s.reg XS.reg * (X86_256.rcsps_rr_sem XG XS s).reg XG.reg = _
      rw [hG]
      simp only [X86_256.REG]
      ring
    · intro hfix
      show (X86_256.rcsps_rr_sem XG XS s).reg XG.reg = _
      rw [hG]
      simp only [X86_256.REG] at hfix ⊢
      rw [hfix]
      ring
  exact ⟨key, by rw [hE]; exact key⟩

/-- Witness of C12 at `Xmm0`, `Xmm1` over the integers with `e = 2`, `s = 3`:
the step leaves `2 * (2 - 3 * 2) = -8` in `Xmm0` and `3 * 2 * 2 = 12` in
`Xmm1`. -/
theorem reciprocal_step_is_newton_raphson_witness :
    X86_256.Xmm0.reg ≠ X86_256.Xmm1.reg
    ∧ (X86_256.rcsps_rr_sem X86_256.Xmm0 X86_256.Xmm1 sampleInts).reg 0 = -8
    ∧ (X86_256.rcsps_rr_sem X86_256.Xmm0 X86_256.Xmm1 sampleInts).reg 1 = 12 :=
  ⟨by decide,
   ((reciprocal_step_is_newton_raphson X86_256.Xmm0 X86_256.Xmm1 sampleInts
      (by decide)).1.1).trans (by decide),
   ((reciprocal_step_is_newton_raphson X86_256.Xmm0 X86_256.Xmm1 sampleInts
      (by decide)).1.2.1).trans (by decide)⟩


/-- C13: the multiply-add fallback `fmacs_rr(XG, XS, XT)` of
rtarch_x86_256x1v2.h (`RT_SIMD_COMPAT_FMA == 0`) is: store `XS` to the scratch
cell `SCR01`, `XS = XS * XT`, `XG = XG + XS`, reload `XS` from `SCR01`.
Whenever `XG` and `XS` are distinct registers (`XT` may be either) it leaves
`XG0 + (XS0 * XT0)` in `XG`, a separate multiply followed by a separate add (no
law of arithmetic is used), restores `XS`, changes no register other than `XG`
and no memory cell other than the scratch cell; `fmscs_rr` is the same with
subtraction. -/
theorem X86_256X1V2.multiply_add_fallback {V : Type} [Mul V] [Add V] [Sub V] (b : X1Base)
    (XG XS XT : Operand) (s : VState V) (h : XG.reg ≠ XS.reg) :
    (X86_256X1V2.fmacs_rr b XG XS XT =
        X86_256X1V2.movcx_st b XS b.Mebp (inf_SCR01 b.toX86Base 0) ++
          X86_256X1V2.mulcs_rr b XS XT ++ X86_256X1V2.addcs_rr b XG XS ++
          X86_256X1V2.movcx_ld b XS b.Mebp (inf_SCR01 b.toX86Base 0)
      ∧ (X86_256X1V2.fmacs_rr_sem b XG XS XT s).reg (X86_256X1V2.REG XG) =
          s.reg (X86_256X1V2.REG XG) +
            s.reg (X86_256X1V2.REG XS) * s.reg (X86_256X1V2.REG XT)
      ∧ (X86_256X1V2.fmacs_rr_sem b XG XS XT s).reg (X86_256X1V2.REG XS) =
          s.reg (X86_256X1V2.REG XS)
      ∧ (∀ r, r ≠ X86_256X1V2.REG XG →
          (X86_256X1V2.fmacs_rr_sem b XG XS XT s).reg r = s.reg r)
      ∧ (∀ c, c ≠ (X86_256X1V2.REG b.Mebp, b.SCR01 + 0) →
          (X86_256X1V2.fmacs_rr_sem b XG XS XT s).mem c = s.mem c))
    ∧ (X86_256X1V2.fmscs_rr b XG XS XT =
        X86_256X1V2.movcx_st b XS b.Mebp (inf_SCR01 b.toX86Base 0) ++
          X86_256X1V2.mulcs_rr b XS XT ++ X86_256X1V2.subcs_rr b XG XS ++
          X86_256X1V2.movcx_ld b XS b.Mebp (inf_SCR01 b.toX86Base 0)
      ∧ (X86_256X1V2.fmscs_rr_sem b XG XS XT s).reg (X86_256X1V2.REG XG) =
          s.reg (X86_256X1V2.REG XG) -
            s.reg (X86_256X1V2.REG XS) * s.reg (X86_256X1V2.REG XT)
      ∧ (X86_256X1V2.fmscs_rr_sem b XG XS XT s).reg (X86_256X1V2.REG XS) =
          s.reg (X86_256X1V2.REG XS)
      ∧ (∀ r, r ≠ X86_256X1V2.REG XG →
          (X86_256X1V2.fmscs_rr_sem b XG XS XT s).reg r = s.reg r)
      ∧ (∀ c, c ≠ (X86_256X1V2.REG b.Mebp, b.SCR01 + 0) →
          (X86_256X1V2.fmscs_rr_sem b XG XS XT s).mem c = s.mem c)) := by
  have h1 : XS.reg ≠ XG.reg := Ne.symm h
  refine ⟨⟨rfl, ?_, ?_, ?_, ?_⟩, ⟨rfl, ?_, ?_, ?_, ?_⟩⟩
  · simp only [X86_256X1V2.fmacs_rr_sem, X86_256X1V2.movcx_st_sem, X86_256X1V2.movcx_ld_sem,
      X86_256X1V2.mulcs_rr_sem, X86_256X1V2.mulcs3rr_sem, X86_256X1V2.addcs_rr_sem,
      X86_256X1V2.addcs3rr_sem, X86_256X1V2.REG, VState.op, VState.store, VState.load,
      inf_SCR01, Function.update_same, Function.update_noteq h, Function.update_noteq h1]
  · simp only [X86_256X1V2.fmacs_rr_sem, X86_256X1V2.movcx_st_sem, X86_256X1V2.movcx_ld_sem,
      X86_256X1V2.mulcs_rr_sem, X86_256X1V2.mulcs3rr_sem, X86_256X1V2.addcs_rr_sem,
      X86_256X1V2.addcs3rr_sem, X86_256X1V2.REG, VState.op, VState.store, VState.load,
      inf_SCR01, Function.update_same, Function.update_noteq h, Function.update_noteq h1]
  · intro r hr
    have hr1 : r ≠ XG.reg := hr
    by_cases hs : r = XS.reg
    · subst hs
      simp only [X86_256X1V2.fmacs_rr_sem, X86_256X1V2.movcx_st_sem, X86_256X1V2.movcx_ld_sem,
        X86_256X1V2.mulcs_rr_sem, X86_256X1V2.mulcs3rr_sem, X86_256X1V2.addcs_rr_sem,
        X86_256X1V2.addcs3rr_sem, X86_256X1V2.REG, VState.op, VState.store, VState.load,
        inf_SCR01, Function.update_same]
    · simp only [X86_256X1V2.fmacs_rr_sem, X86_256X1V2.movcx_st_sem, X86_256X1V2.movcx_ld_sem,
        X86_256X1V2.mulcs_rr_sem, X86_256X1V2.mulcs3rr_sem, X86_256X1V2.addcs_rr_sem,
        X86_256X1V2.addcs3rr_sem, X86_256X1V2.REG, VState.op, VState.store, VState.load,
        inf_SCR01, Function.update_noteq hr1, Function.update_noteq hs]
  · intro c hc
    simp only [X86_256X1V2.fmacs_rr_sem, X86_256X1V2.movcx_st_sem, X86_256X1V2.movcx_ld_sem,
      X86_256X1V2.mulcs_rr_sem, X86_256X1V2.mulcs3rr_sem, X86_256X1V2.addcs_rr_sem,
      X86_256X1V2.addcs3rr_sem, VState.op, VState.store, VState.load,
      inf_SCR01, Function.update_noteq hc]
  · simp only [X86_256X1V2.fmscs_rr_sem, X86_256X1V2.movcx_st_sem, X86_256X1V2.movcx_ld_sem,
      X86_256X1V2.mulcs_rr_sem, X86_256X1V2.mulcs3rr_sem, X86_256X1V2.subcs_rr_sem,
      X86_256X1V2.subcs3rr_sem, X86_256X1V2.REG, VState.op, VState.store, VState.load,
      inf_SCR01, Function.update_same, Function.update_noteq h, Function.update_noteq h1]
  · simp only [X86_256X1V2.fmscs_rr_sem, X86_256X1V2.movcx_st_sem, X86_256X1V2.movcx_ld_sem,
      X86_256X1V2.mulcs_rr_sem, X86_256X1V2.mulcs3rr_sem, X86_256X1V2.subcs_rr_sem,
      X86_256X1V2.subcs3rr_sem, X86_256X1V2.REG, VState.op, VState.store, VState.load,
      inf_SCR01, Function.update_same, Function.update_noteq h, Function.update_noteq h1]
  · intro r hr
    have hr1 : r ≠ XG.reg := hr
    by_cases hs : r = XS.reg
    · subst hs
      simp only [X86_256X1V2.fmscs_rr_sem, X86_256X1V2.movcx_st_sem, X86_256X1V2.movcx_ld_sem,
        X86_256X1V2.mulcs_rr_sem, X86_256X1V2.mulcs3rr_sem, X86_256X1V2.subcs_rr_sem,
        X86_256X1V2.subcs3rr_sem, X86_256X1V2.REG, VState.op, VState.store, VState.load,
        inf_SCR01, Function.update_same]
    · simp only [X86_256X1V2.fmscs_rr_sem, X86_256X1V2.movcx_st_sem, X86_256X1V2.movcx_ld_sem,
        X86_256X1V2.mulcs_rr_sem, X86_256X1V2.mulcs3rr_sem, X86_256X1V2.subcs_rr_sem,
        X86_256X1V2.subcs3rr_sem, X86_256X1V2.REG, VState.op, VState.store, VState.load,
        inf_SCR01, Function.update_noteq hr1, Function.update_noteq hs]
  · intro c hc
    simp only [X86_256X1V2.fmscs_rr_sem, X86_256X1V2.movcx_st_sem, X86_256X1V2.movcx_ld_sem,
      X86_256X1V2.mulcs_rr_sem, X86_256X1V2.mulcs3rr_sem, X86_256X1V2.subcs_rr_sem,
      X86_256X1V2.subcs3rr_sem, VState.op, VState.store, VState.load,
      inf_SCR01, Function.update_noteq hc]

/-- Witness of C13 at `Xmm0`, `Xmm1`, `Xmm2` over the integers (registers hold
2, 3, 4): `fmacs_rr` leaves `2 + 3 * 4 = 14` in `Xmm0` and 3 in `Xmm1`. -/
theorem X86_256X1V2.multiply_add_fallback_witness :
    X86_256X1V2.Xmm0.reg ≠ X86_256X1V2.Xmm1.reg
    ∧ (X86_256X1V2.fmacs_rr_sem sampleX1 X86_256X1V2.Xmm0 X86_256X1V2.Xmm1 X86_256X1V2.Xmm2
        sampleInts).reg 0 = 14
    ∧ (X86_256X1V2.fmacs_rr_sem sampleX1 X86_256X1V2.Xmm0 X86_256X1V2.Xmm1 X86_256X1V2.Xmm2
        sampleInts).reg 1 = 3 :=
  ⟨by decide,
   ((X86_256X1V2.multiply_add_fallback sampleX1 X86_256X1V2.Xmm0 X86_256X1V2.Xmm1
      X86_256X1V2.Xmm2 sampleInts (by decide)).1.2.1).trans (by decide),
   ((X86_256X1V2.multiply_add_fallback sampleX1 X86_256X1V2.Xmm0 X86_256X1V2.Xmm1
      X86_256X1V2.Xmm2 sampleInts (by decide)).1.2.2.1).trans (by decide)⟩


/-! ## The AVX1 shim of the packed integer add -/

/-- In the shim, permuting `RM` with itself and immediate 1 swaps its halves. -/
theorem X86_256.AVX1.prmpx_rr_sem_swap (RM : Operand) (s : IState) :
    X86_256.AVX1.prmpx_rr_sem RM RM (IB 1) s =
      ⟨Function.update s.reg RM.reg ⟨(s.reg RM.reg).hi, (s.reg RM.reg).lo⟩, s.mem⟩ := rfl

/-- For two distinct registers the AVX1 shim `addpx_rr(RG, RM)` leaves every
vector register as the native 256-bit add of the AVX2 rule does: the eight
wrapping sums in `RG`, all other registers (also `RM`) unchanged. -/
theorem X86_256.addpx_shim_distinct_registers (b : X86Base) (RG RM : Operand) (s : IState)
    (h : RG.reg ≠ RM.reg) :
    (X86_256.AVX1.addpx_rr_sem b RG RM s).reg = (X86_256.AVX2.addpx_rr_sem RG RM s).reg := by
  have h1 : RM.reg ≠ RG.reg := Ne.symm h
  have hm : (b.Mebp.reg, b.SCR01 + 0) ≠ (b.Mebp.reg, b.SCR01 + 0 + 16) := by
    simp only [ne_eq, Prod.mk.injEq, true_and]; omega
  have hm1 : (b.Mebp.reg, b.SCR01 + 0 + 16) ≠ (b.Mebp.reg, b.SCR01 + 0) := Ne.symm hm
  funext r
  simp only [X86_256.AVX1.addpx_rr_sem, X86_256.AVX1.prmpx_rr_sem_swap,
    X86_256.movpx_st_sem, X86_256.movpx_ld_sem, X86_256.AVX1.movlx_st_sem,
    X86_256.AVX1.movlx_ld_sem, X86_256.AVX1.addlx_rr_sem, X86_256.AVX2.addpx_rr_sem,
    X86_256.REG, inf_SCR01]
  by_cases hr : r = RG.reg
  · subst hr
    simp only [Function.update_same, Function.update_noteq h, Function.update_noteq h1,
      Function.update_noteq hm, Function.update_noteq hm1, Function.update_idem]
  · by_cases hr1 : r = RM.reg
    · subst hr1
      simp only [Function.update_same, Function.update_noteq h, Function.update_noteq h1,
        Function.update_noteq hr, Function.update_idem]
    · simp only [Function.update_noteq hr, Function.update_noteq hr1]

/-- Witness of the equivalence at `Xmm0`, `Xmm1` on the sample state. -/
theorem X86_256.addpx_shim_distinct_registers_witness :
    X86_256.Xmm0.reg ≠ X86_256.Xmm1.reg
    ∧ (X86_256.AVX1.addpx_rr_sem sampleX86 X86_256.Xmm0 X86_256.Xmm1 sampleLanes).reg =
      (X86_256.AVX2.addpx_rr_sem X86_256.Xmm0 X86_256.Xmm1 sampleLanes).reg :=
  ⟨by decide,
   X86_256.addpx_shim_distinct_registers sampleX86 X86_256.Xmm0 X86_256.Xmm1 sampleLanes
     (by decide)⟩

/-- C16 (defect of the shim): with both operands the same register the AVX1
shim `addpx_rr(RG, RG)` of rtarch_x86_256.h does not leave the sums of the
native 256-bit add.  The first half addition overwrites the register before its
high half is used, so the high half of the result is zero in every state.  On
`Xmm0` with every lane 1 the shim leaves lanes `2 2 2 2 0 0 0 0`, the AVX2
rule leaves `2 2 2 2 2 2 2 2`. -/
theorem X86_256.addpx_shim_same_register :
    ((X86_256.AVX1.addpx_rr_sem sampleX86 X86_256.Xmm0 X86_256.Xmm0 sampleLanes).reg 0).lanes =
      [2, 2, 2, 2, 0, 0, 0, 0]
    ∧ ((X86_256.AVX2.addpx_rr_sem X86_256.Xmm0 X86_256.Xmm0 sampleLanes).reg 0).lanes =
      [2, 2, 2, 2, 2, 2, 2, 2]
    ∧ (X86_256.AVX1.addpx_rr sampleX86 X86_256.Xmm0 X86_256.Xmm0).length = 45
    ∧ X86_256.AVX2.addpx_rr X86_256.Xmm0 X86_256.Xmm0 = [0xC5, 0xFD, 0xFE, 0xC0]
    ∧ (∀ (b : X86Base) (RG : Operand) (s : IState),
        ((X86_256.AVX1.addpx_rr_sem b RG RG s).reg (X86_256.REG RG)).hi = zeroHalf) := by
  refine ⟨by decide, by decide, by decide, by decide, ?_⟩
  intro b RG s
  have hm : (b.Mebp.reg, b.SCR01 + 0) ≠ (b.Mebp.reg, b.SCR01 + 0 + 16) := by
    simp only [ne_eq, Prod.mk.injEq, true_and]; omega
  simp only [X86_256.AVX1.addpx_rr_sem, X86_256.AVX1.prmpx_rr_sem_swap,
    X86_256.movpx_st_sem, X86_256.movpx_ld_sem, X86_256.AVX1.movlx_st_sem,
    X86_256.AVX1.movlx_ld_sem, X86_256.AVX1.addlx_rr_sem,
    X86_256.REG, inf_SCR01, Function.update_same, Function.update_noteq hm,
    Function.update_idem]


/-! ## Stability of the macro vocabulary -/

/-- A name that two tables define with different numbers of parameters is
among the conflicts of the two tables. -/
theorem mem_arityConflicts (t u : List (String × Nat)) (n : String) (a c : Nat)
    (ht : (n, a) ∈ t) (hu : (n, c) ∈ u) (h : a ≠ c) : n ∈ arityConflicts t u := by
  simp only [arityConflicts, List.mem_map, List.mem_filter, List.any_eq_true, Bool.and_eq_true,
    decide_eq_true_eq]
  exact ⟨(n, a), ⟨ht, (n, c), hu, fun hca => h hca.symm, rfl⟩, rfl⟩

/-- C19 (as stated, refuted): `mmvpx_ld` and `mmvpx_st` take four parameters
(`RG, RM, DP, RN`) in rtarch_x86_256.h and three (`RG, RM, DP`, the mask
register being implicit) in rtarch_x64_256.h, both headers of the p-subset. -/
theorem mmvpx_arity_differs :
    ("mmvpx_ld", 4) ∈ X86_256.macroArities ∧ ("mmvpx_ld", 3) ∈ X64_256.macroArities
    ∧ ("mmvpx_st", 4) ∈ X86_256.macroArities ∧ ("mmvpx_st", 3) ∈ X64_256.macroArities := by
  decide

set_option maxRecDepth 100000 in
set_option maxHeartbeats 8000000 in
/-- The arity conflicts of rtarch_x86_256.h and rtarch_x64_256.h. -/
theorem arityConflicts_X86_256_X64_256 :
    arityConflicts X86_256.macroArities X64_256.macroArities = ["mmvpx_ld", "mmvpx_st"] := by
  decide

set_option maxRecDepth 100000 in
set_option maxHeartbeats 8000000 in
/-- The arity conflicts of rtarch_x86_256.h and rtarch_p64_128.h. -/
theorem arityConflicts_X86_256_P64_128 :
    arityConflicts X86_256.macroArities P64_128.macroArities = [] := by
  decide

set_option maxRecDepth 100000 in
set_option maxHeartbeats 8000000 in
/-- The arity conflicts of rtarch_x64_256.h and rtarch_p64_128.h. -/
theorem arityConflicts_X64_256_P64_128 :
    arityConflicts X64_256.macroArities P64_128.macroArities = [] := by
  decide

set_option maxRecDepth 100000 in
set_option maxHeartbeats 8000000 in
/-- The arity conflicts of rtarch_x86_256x1v2.h and rtarch_p32_256v2.h. -/
theorem arityConflicts_X86_256X1V2_P32_256V2 :
    arityConflicts X86_256X1V2.macroArities P32_256V2.macroArities = [] := by
  decide

set_option maxRecDepth 100000 in
set_option maxHeartbeats 4000000 in
/-- C19 (amended): every macro name defined in more than one header of the
same subset (p-subset: rtarch_x86_256.h, rtarch_x64_256.h, rtarch_p64_128.h;
c-subset: rtarch_x86_256x1v2.h, rtarch_p32_256v2.h) takes the same number of
parameters in each definition, except `mmvpx_ld` and `mmvpx_st` between
rtarch_x86_256.h and rtarch_x64_256.h.  This
covers `CHECK_MASK` (3), `cvpps_rr` (2), `cvpps_ld` (3), `shlpx_ri` (2),
`rnrps_rr` and `cvrps_rr` (3), `mkjcx_rx` (3), `sregs_sa` and `sregs_la` (0). -/
theorem macro_arities_agree :
    (∀ n a c, (n, a) ∈ X86_256.macroArities → (n, c) ∈ X64_256.macroArities →
        n ≠ "mmvpx_ld" → n ≠ "mmvpx_st" → a = c)
    ∧ (∀ n a c, (n, a) ∈ X86_256.macroArities → (n, c) ∈ P64_128.macroArities → a = c)
    ∧ (∀ n a c, (n, a) ∈ X64_256.macroArities → (n, c) ∈ P64_128.macroArities → a = c)
    ∧ (∀ n a c, (n, a) ∈ X86_256X1V2.macroArities → (n, c) ∈ P32_256V2.macroArities → a = c)
    ∧ arityConflicts X86_256.macroArities X64_256.macroArities = ["mmvpx_ld", "mmvpx_st"]
    ∧ (∀ t ∈ [X86_256.macroArities, X64_256.macroArities, P64_128.macroArities],
        ("CHECK_MASK", 3) ∈ t ∧ ("cvpps_rr", 2) ∈ t ∧ ("cvpps_ld", 3) ∈ t ∧ ("shlpx_ri", 2) ∈ t)
    ∧ (∀ t ∈ [X64_256.macroArities, P64_128.macroArities],
        ("rnrps_rr", 3) ∈ t ∧ ("cvrps_rr", 3) ∈ t ∧ ("sregs_sa", 0) ∈ t ∧ ("sregs_la", 0) ∈ t)
    ∧ (∀ t ∈ [X86_256X1V2.macroArities, P32_256V2.macroArities],
        ("mkjcx_rx", 3) ∈ t ∧ ("sregs_sa", 0) ∈ t ∧ ("sregs_la", 0) ∈ t) := by
  have none_of : ∀ t u : List (String × Nat), arityConflicts t u = [] →
      ∀ n a c, (n, a) ∈ t → (n, c) ∈ u → a = c := by
    intro t u h n a c ht hu
    by_contra hne
    have := mem_arityConflicts t u n a c ht hu hne
    rw [h] at this
    exact List.not_mem_nil _ this
  have h12 := arityConflicts_X86_256_X64_256
  refine ⟨?_, none_of _ _ arityConflicts_X86_256_P64_128,
    none_of _ _ arityConflicts_X64_256_P64_128,
    none_of _ _ arityConflicts_X86_256X1V2_P32_256V2, h12, by decide, by decide, by decide⟩
  · intro n a c ht hu h1 h2
    by_contra hne
    have := mem_arityConflicts _ _ n a c ht hu hne
    rw [h12] at this
    simp only [List.mem_cons, List.mem_singleton, List.not_mem_nil, or_false] at this
    rcases this with h | h
    · exact h1 h
    · exact h2 h

/-- Witness of C19 (amended) at `cvpps_rr`: two parameters in rtarch_x86_256.h
and in rtarch_x64_256.h. -/
theorem macro_arities_agree_witness :
    ("cvpps_rr", 2) ∈ X86_256.macroArities ∧ ("cvpps_rr", 2) ∈ X64_256.macroArities
    ∧ "cvpps_rr" ≠ "mmvpx_ld" ∧ "cvpps_rr" ≠ "mmvpx_st" ∧ (2 : Nat) = 2 :=
  ⟨by decide, by decide, by decide, by decide,
   macro_arities_agree.1 "cvpps_rr" 2 2 (by decide) (by decide) (by decide) (by decide)⟩


/-! ## Selection of the architecture header in tracer_128v4.cpp -/

/-- C21 (defect of the chain): the conditional chain of tracer_128v4.cpp has
no `#else` branch, so with none of the ten architecture flags defined it
includes no header and raises no error.  That assignment is the only one with
this outcome: every other assignment either includes exactly one of the three
128-bit headers or stops the build with one of the three descriptive
messages. -/
theorem Tracer_128v4.no_flag_selects_nothing :
    Tracer_128v4.selectArch Tracer_128v4.noFlags = .nothing
    ∧ (∀ f, Tracer_128v4.selectArch f = .nothing ↔ f = Tracer_128v4.noFlags)
    ∧ (∀ f, Tracer_128v4.selectArch f = .nothing
        ∨ Tracer_128v4.selectArch f ∈
            [Tracer_128v4.ArchSelect.included "rtarch_x86_128.h",
             .included "rtarch_x32_128.h", .included "rtarch_arm_128.h"]
        ∨ Tracer_128v4.selectArch f ∈
            [Tracer_128v4.ArchSelect.failed
               "AArch64 doesn\x27t have SIMD variant 4, exclude this file from compilation",
             .failed
               "mipsMSA doesn\x27t have SIMD variant 4, exclude this file from compilation",
             .failed
               "AltiVec doesn\x27t have SIMD variant 4, exclude this file from compilation"]) := by
  refine ⟨rfl, ?_, ?_⟩
  · rintro ⟨a, b, c, d, e, g, h, i, j, k⟩
    cases a <;> cases b <;> cases c <;> cases d <;> cases e <;> cases g <;> cases h <;>
      cases i <;> cases j <;> cases k <;>
      simp [Tracer_128v4.selectArch, Tracer_128v4.noFlags]
  · rintro ⟨a, b, c, d, e, g, h, i, j, k⟩
    cases a <;> cases b <;> cases c <;> cases d <;> cases e <;> cases g <;> cases h <;>
      cases i <;> cases j <;> cases k <;>
      simp [Tracer_128v4.selectArch]


/-! ## Field packers: decode lemmas -/

/-- The second byte of `VX2(ren, pfx, len)` and its fields, for a 4-bit `ren`,
a 2-bit `pfx` and a 1-bit `len`. -/
theorem X86_256.VX2_byte_fields (ren pfx len : Nat) (hr : ren < 16) (hp : pfx < 4)
    (hl : len < 2) :
    0x80 ≤ (0x80 ||| (len <<< 2) ||| ((0x0F - ren) <<< 3) ||| pfx)
    ∧ (0x80 ||| (len <<< 2) ||| ((0x0F - ren) <<< 3) ||| pfx) ≤ 0xFF
    ∧ (0x80 ||| (len <<< 2) ||| ((0x0F - ren) <<< 3) ||| pfx) &&& 3 = pfx
    ∧ ((0x80 ||| (len <<< 2) ||| ((0x0F - ren) <<< 3) ||| pfx) >>> 2) &&& 1 = len
    ∧ ((0x80 ||| (len <<< 2) ||| ((0x0F - ren) <<< 3) ||| pfx) >>> 3) &&& 15 = ren ^^^ 15
    ∧ (((0x80 ||| (len <<< 2) ||| ((0x0F - ren) <<< 3) ||| pfx) >>> 3) &&& 15) ^^^ 15 = ren
    ∧ ((0x80 ||| (len <<< 2) ||| ((0x0F - ren) <<< 3) ||| pfx) >>> 7) &&& 1 = 1 := by
  interval_cases ren <;> interval_cases pfx <;> interval_cases len <;> decide

/-- C24: the 2-byte vector prefix `VX2(ren, pfx, len)` of rtarch_x86_256.h is
`[0xC5, b]` with `b = 0x80 | len << 2 | (15 - ren) << 3 | pfx`.  For `ren` in
0..15, `pfx` in 0..3 and `len` in 0..1 the byte `b` lies in `0x80..0xFF` and
decodes back to its fields: `b & 3 = pfx`, `(b >> 2) & 1 = len`,
`(b >> 3) & 15 = ren XOR 15`, bit 7 is 1; and any triple in range that emits the
same bytes is the same triple. -/
theorem X86_256.VX2_decodes (ren pfx len : Nat) (hr : ren < 16) (hp : pfx < 4)
    (hl : len < 2) :
    ∃ b, X86_256.VX2 ren pfx len = [0xC5, b]
      ∧ b = 0x80 ||| (len <<< 2) ||| ((15 - ren) <<< 3) ||| pfx
      ∧ 0x80 ≤ b ∧ b ≤ 0xFF
      ∧ b &&& 3 = pfx
      ∧ (b >>> 2) &&& 1 = len
      ∧ (b >>> 3) &&& 15 = ren ^^^ 15
      ∧ (b >>> 7) &&& 1 = 1
      ∧ (∀ ren2 pfx2 len2, ren2 < 16 → pfx2 < 4 → len2 < 2 →
          X86_256.VX2 ren2 pfx2 len2 = [0xC5, b] → ren2 = ren ∧ pfx2 = pfx ∧ len2 = len) := by
  obtain ⟨h1, h2, h3, h4, h5, h6, h7⟩ := X86_256.VX2_byte_fields ren pfx len hr hp hl
  refine ⟨_, rfl, rfl, h1, h2, h3, h4, h5, h7, ?_⟩
  intro ren2 pfx2 len2 hr2 hp2 hl2 he
  obtain ⟨_, _, k3, k4, _, k6, _⟩ := X86_256.VX2_byte_fields ren2 pfx2 len2 hr2 hp2 hl2
  simp only [X86_256.VX2, EMITB, List.singleton_append, List.cons.injEq, and_true,
    true_and] at he
  rw [he] at k3 k4 k6
  exact ⟨k6.symm.trans h6, k3.symm.trans h3, k4.symm.trans h4⟩

/-- Witness of C24 at `ren = 3`, `pfx = 1`, `len = 1`: the prefix is `C5 E5`. -/
theorem X86_256.VX2_decodes_witness :
    ∃ b, X86_256.VX2 3 1 1 = [0xC5, b]
      ∧ b = 0x80 ||| (1 <<< 2) ||| ((15 - 3) <<< 3) ||| 1
      ∧ 0x80 ≤ b ∧ b ≤ 0xFF
      ∧ b &&& 3 = 1
      ∧ (b >>> 2) &&& 1 = 1
      ∧ (b >>> 3) &&& 15 = 3 ^^^ 15
      ∧ (b >>> 7) &&& 1 = 1
      ∧ (∀ ren2 pfx2 len2, ren2 < 16 → pfx2 < 4 → len2 < 2 →
          X86_256.VX2 ren2 pfx2 len2 = [0xC5, b] → ren2 = 3 ∧ pfx2 = 1 ∧ len2 = 1) :=
  X86_256.VX2_decodes 3 1 1 (by decide) (by decide) (by decide)


/-- Shifting right distributes over a bitwise or. -/
theorem shiftRight_or (a b n : Nat) : (a ||| b) >>> n = (a >>> n) ||| (b >>> n) := by
  apply Nat.eq_of_testBit_eq
  intro i
  simp only [Nat.testBit_shiftRight, Nat.testBit_or]

/-- A 5-bit value placed at bit 11, 16 or 21 is read back at its own place, reads
as 0 at the two other places, and leaves the bits outside 11..25 clear. -/
theorem field5_facts (x : Nat) (h : x < 32) :
    (((x <<< 11) >>> 11) &&& 31 = x ∧ ((x <<< 11) >>> 16) &&& 31 = 0
      ∧ ((x <<< 11) >>> 21) &&& 31 = 0 ∧ (x <<< 11) &&& 0xFC0007FF = 0)
    ∧ (((x <<< 16) >>> 11) &&& 31 = 0 ∧ ((x <<< 16) >>> 16) &&& 31 = x
      ∧ ((x <<< 16) >>> 21) &&& 31 = 0 ∧ (x <<< 16) &&& 0xFC0007FF = 0)
    ∧ (((x <<< 21) >>> 11) &&& 31 = 0 ∧ ((x <<< 21) >>> 16) &&& 31 = 0
      ∧ ((x <<< 21) >>> 21) &&& 31 = x ∧ (x <<< 21) &&& 0xFC0007FF = 0) := by
  interval_cases x <;> decide

/-- An opcode constant with bits 11..25 clear reads as 0 in the three 5-bit
fields. -/
theorem opcode_fields_zero (K : Nat) (h : K &&& 0x03FFF800 = 0) :
    (K >>> 11) &&& 31 = 0 ∧ (K >>> 16) &&& 31 = 0 ∧ (K >>> 21) &&& 31 = 0 := by
  have e11 : (0xF800 : Nat) >>> 11 = 31 := by decide
  have e16 : (0x1F0000 : Nat) >>> 16 = 31 := by decide
  have e21 : (0x03E00000 : Nat) >>> 21 = 31 := by decide
  refine ⟨?_, ?_, ?_⟩
  · rw [← e11, ← shiftRight_and, ← and_and_of_and_eq K 0x03FFF800 0xF800 (by decide), h,
      Nat.zero_and, Nat.zero_shiftRight]
  · rw [← e16, ← shiftRight_and, ← and_and_of_and_eq K 0x03FFF800 0x1F0000 (by decide), h,
      Nat.zero_and, Nat.zero_shiftRight]
  · rw [← e21, ← shiftRight_and, ← and_and_of_and_eq K 0x03FFF800 0x03E00000 (by decide), h,
      Nat.zero_and, Nat.zero_shiftRight]

/-- The fields of a word `K | MXM(reg, ren, rem)` of rtarch_p64_128.h, for an
opcode constant `K` with bits 11..25 clear and three 5-bit fields. -/
theorem P64_128.MXM_word_fields (K reg ren rem : Nat) (hK : K &&& 0x03FFF800 = 0)
    (h1 : reg < 32) (h2 : ren < 32) (h3 : rem < 32) :
    ((K ||| P64_128.MXM reg ren rem) >>> 21) &&& 31 = reg
    ∧ ((K ||| P64_128.MXM reg ren rem) >>> 16) &&& 31 = ren
    ∧ ((K ||| P64_128.MXM reg ren rem) >>> 11) &&& 31 = rem
    ∧ (K ||| P64_128.MXM reg ren rem) &&& 0xFC0007FF = K &&& 0xFC0007FF := by
  obtain ⟨k11, k16, k21⟩ := opcode_fields_zero K hK
  obtain ⟨⟨a1, a2, a3, a4⟩, -, -⟩ := field5_facts rem h3
  obtain ⟨-, ⟨b1, b2, b3, b4⟩, -⟩ := field5_facts ren h2
  obtain ⟨-, -, ⟨c1, c2, c3, c4⟩⟩ := field5_facts reg h1
  refine ⟨?_, ?_, ?_, ?_⟩
  · simp only [P64_128.MXM, shiftRight_or, Nat.and_distrib_right, k21, a3, b3, c3,
      Nat.zero_or]
  · simp only [P64_128.MXM, shiftRight_or, Nat.and_distrib_right, k16, a2, b2, c2,
      Nat.zero_or, Nat.or_zero]
  · simp only [P64_128.MXM, shiftRight_or, Nat.and_distrib_right, k11, a1, b1, c1,
      Nat.zero_or, Nat.or_zero]
  · simp only [P64_128.MXM, Nat.and_distrib_right, a4, b4, c4, Nat.or_zero]

/-- A 32-bit opcode constant with bits 11..25 clear lies within the mask
`0xFC0007FF`. -/
theorem opcode_within_mask (K : Nat) (h32 : K < 2 ^ 32) (hK : K &&& 0x03FFF800 = 0) :
    K &&& 0xFC0007FF = K := by
  have hall : K &&& (2 ^ 32 - 1) = K := Nat.and_pow_two_sub_one_of_lt_two_pow h32
  have hsplit : (2 ^ 32 - 1 : Nat) = 0xFC0007FF ||| 0x03FFF800 := by decide
  rw [hsplit, Nat.and_or_distrib_left, hK, Nat.or_zero] at hall
  exact hall

/-- C25: the Power field packer `MXM(reg, ren, rem)` of rtarch_p64_128.h is
`rem << 11 | ren << 16 | reg << 21`.  On 5-bit fields it touches only bits
11..25 (`MXM & 0xFC0007FF = 0`); for every 32-bit opcode constant `K` with
`K & 0x03FFF800 = 0` the word `w = K | MXM(reg, ren, rem)` decodes back as
`(w >> 21) & 31 = reg`, `(w >> 16) & 31 = ren`, `(w >> 11) & 31 = rem` and
`w & 0xFC0007FF = K`; and the packer is injective on 5-bit fields. -/
theorem P64_128.MXM_decodes (reg ren rem : Nat) (h1 : reg < 32) (h2 : ren < 32)
    (h3 : rem < 32) :
    P64_128.MXM reg ren rem = (rem <<< 11) ||| (ren <<< 16) ||| (reg <<< 21)
    ∧ P64_128.MXM reg ren rem &&& 0xFC0007FF = 0
    ∧ (∀ K, K < 2 ^ 32 → K &&& 0x03FFF800 = 0 →
        ((K ||| P64_128.MXM reg ren rem) >>> 21) &&& 31 = reg
        ∧ ((K ||| P64_128.MXM reg ren rem) >>> 16) &&& 31 = ren
        ∧ ((K ||| P64_128.MXM reg ren rem) >>> 11) &&& 31 = rem
        ∧ (K ||| P64_128.MXM reg ren rem) &&& 0xFC0007FF = K)
    ∧ (∀ reg2 ren2 rem2, reg2 < 32 → ren2 < 32 → rem2 < 32 →
        P64_128.MXM reg2 ren2 rem2 = P64_128.MXM reg ren rem →
        reg2 = reg ∧ ren2 = ren ∧ rem2 = rem) := by
  have h0 := P64_128.MXM_word_fields 0 reg ren rem (by decide) h1 h2 h3
  simp only [Nat.zero_or, Nat.zero_and] at h0
  refine ⟨rfl, h0.2.2.2, ?_, ?_⟩
  · intro K h32 hK
    obtain ⟨f1, f2, f3, f4⟩ := P64_128.MXM_word_fields K reg ren rem hK h1 h2 h3
    exact ⟨f1, f2, f3, f4.trans (opcode_within_mask K h32 hK)⟩
  · intro reg2 ren2 rem2 g1 g2 g3 he
    have k0 := P64_128.MXM_word_fields 0 reg2 ren2 rem2 (by decide) g1 g2 g3
    simp only [Nat.zero_or, Nat.zero_and] at k0
    rw [he] at k0
    exact ⟨k0.1.symm.trans h0.1, k0.2.1.symm.trans h0.2.1, k0.2.2.1.symm.trans h0.2.2.1⟩

/-- Witness of C25 at `addps`-like fields 1, 2, 3 under the opcode constant
`0xF0000207`: the word is `0xF0221A07`. -/
theorem P64_128.MXM_decodes_witness :
    0xF0000207 ||| P64_128.MXM 1 2 3 = 0xF0221A07
    ∧ (0xF0221A07 >>> 21) &&& 31 = 1 ∧ (0xF0221A07 >>> 16) &&& 31 = 2
    ∧ (0xF0221A07 >>> 11) &&& 31 = 3 ∧ 0xF0221A07 &&& 0xFC0007FF = 0xF0000207
    ∧ P64_128.MXM 1 2 3 &&& 0xFC0007FF = 0 :=
  ⟨by decide, by decide, by decide, by decide, by decide,
   (P64_128.MXM_decodes 1 2 3 (by decide) (by decide) (by decide)).2.1⟩


/-! ## Displacement and address words of rtarch_p64_128.h -/

/-- C26: the inline displacement encoder `P20(dp) = dp & 0x7FF0` of
rtarch_p64_128.h always yields a 16-byte-aligned value in `0..0x7FF0`, so bit
15 (the sign bit of the 16-bit immediate field) is never set, and it is
lossless exactly on the aligned displacements in range: `P20(dp) = dp` if and
only if `dp <= 0x7FF0` and `dp mod 16 = 0`. -/
theorem P64_128.P20_range_and_lossless (dp : Nat) :
    P64_128.P20 dp = dp &&& 0x7FF0
    ∧ P64_128.P20 dp % 16 = 0
    ∧ P64_128.P20 dp ≤ 0x7FF0
    ∧ P64_128.P20 dp &&& 0x8000 = 0
    ∧ (P64_128.P20 dp = dp ↔ dp ≤ 0x7FF0 ∧ dp % 16 = 0) := by
  have hdef : P64_128.P20 dp = dp &&& 0x7FF0 := by
    simp only [P64_128.P20, Nat.zero_or]
  have hmod : (dp &&& 0x7FF0) % 16 = 0 := by
    have := Nat.and_pow_two_sub_one_eq_mod (dp &&& 0x7FF0) 4
    have e : (2 ^ 4 - 1 : Nat) = 15 := by decide
    have e16 : (2 ^ 4 : Nat) = 16 := by decide
    rw [e, e16, Nat.and_assoc] at this
    have z : (0x7FF0 : Nat) &&& 15 = 0 := by decide
    rw [z, Nat.and_zero] at this
    exact this.symm
  have hle : dp &&& 0x7FF0 ≤ 0x7FF0 := Nat.and_le_right
  have hsign : (dp &&& 0x7FF0) &&& 0x8000 = 0 := by
    rw [Nat.and_assoc]
    have z : (0x7FF0 : Nat) &&& 0x8000 = 0 := by decide
    rw [z, Nat.and_zero]
  refine ⟨hdef, hdef ▸ hmod, hdef ▸ hle, hdef ▸ hsign, ?_⟩
  rw [hdef]
  constructor
  · intro h
    exact ⟨h ▸ hle, h ▸ hmod⟩
  · rintro ⟨hr, ha⟩
    have hlt : dp < 2 ^ 15 := by
      have : (2 ^ 15 : Nat) = 32768 := by decide
      omega
    have hall : dp &&& (2 ^ 15 - 1) = dp := Nat.and_pow_two_sub_one_of_lt_two_pow hlt
    have hsplit : (2 ^ 15 - 1 : Nat) = 0x7FF0 ||| 15 := by decide
    have hlow : dp &&& 15 = 0 := by
      have := Nat.and_pow_two_sub_one_eq_mod dp 4
      have e : (2 ^ 4 - 1 : Nat) = 15 := by decide
      have e16 : (2 ^ 4 : Nat) = 16 := by decide
      rw [e, e16, ha] at this
      exact this
    rw [hsplit, Nat.and_or_distrib_left, hlow, Nat.or_zero] at hall
    exact hall

/-- The fields of a word may be written in either order. -/
theorem or_fields_reorder (k z y x : Nat) :
    k ||| (z ||| y ||| x) = k ||| x ||| y ||| z := by
  ac_rfl

/-- An opcode part that comes with a field merges with the leading opcode. -/
theorem or_opcode_fields_reorder (k c z y x : Nat) :
    k ||| ((c ||| z) ||| y ||| x) = (k ||| c) ||| x ||| y ||| z := by
  ac_rfl

/-- C27: the address-compute word of the Power memory rules `movpx_ld` and
`movpx_st` of rtarch_p64_128.h.  With displacement type 0 it is the
add-immediate `0x38000000 | TPxx << 21 | REG(RM) << 16 | (dp & 0x7FF0)`,
preceded by no materialisation word; with type 1 or 2 it is the register add
`0x7C000214 | TPxx << 21 | REG(RM) << 16 | TDxx << 11` (`0x38000000 |
0x44000214 = 0x7C000214`), preceded by the one word of `C21` resp. the two
words of `C22`; in all three cases exactly one load/store word follows. -/
theorem P64_128.address_compute_word (b : PowerBase) (RG RM : Operand) (dp : Nat)
    (t : DispType) :
    (0x38000000 ||| 0x44000214 : Nat) = 0x7C000214
    ∧ P64_128.movpx_ld b RG RM ⟨dp, t, .T0⟩ =
        [0x38000000 ||| (b.TPxx <<< 21) ||| (P64_128.REG RM <<< 16) ||| (dp &&& 0x7FF0),
         0x7C000699 ||| P64_128.MXM (P64_128.REG RG) (P64_128.indexReg b RM) b.TPxx]
    ∧ P64_128.movpx_ld b RG RM ⟨dp, t, .T1⟩ =
        [0x60000000 ||| (b.TDxx <<< 16) ||| (0xFFF0 &&& dp),
         0x7C000214 ||| (b.TPxx <<< 21) ||| (P64_128.REG RM <<< 16) ||| (b.TDxx <<< 11),
         0x7C000699 ||| P64_128.MXM (P64_128.REG RG) (P64_128.indexReg b RM) b.TPxx]
    ∧ P64_128.movpx_ld b RG RM ⟨dp, t, .T2⟩ =
        [0x64000000 ||| (b.TDxx <<< 16) ||| (0x7FFF &&& (dp >>> 16)),
         0x60000000 ||| (b.TDxx <<< 16) ||| (b.TDxx <<< 21) ||| (0xFFF0 &&& dp),
         0x7C000214 ||| (b.TPxx <<< 21) ||| (P64_128.REG RM <<< 16) ||| (b.TDxx <<< 11),
         0x7C000699 ||| P64_128.MXM (P64_128.REG RG) (P64_128.indexReg b RM) b.TPxx]
    ∧ P64_128.movpx_st b RG RM ⟨dp, t, .T0⟩ =
        [0x38000000 ||| (b.TPxx <<< 21) ||| (P64_128.REG RM <<< 16) ||| (dp &&& 0x7FF0),
         0x7C000799 ||| P64_128.MXM (P64_128.REG RG) (P64_128.indexReg b RM) b.TPxx]
    ∧ P64_128.movpx_st b RG RM ⟨dp, t, .T1⟩ =
        [0x60000000 ||| (b.TDxx <<< 16) ||| (0xFFF0 &&& dp),
         0x7C000214 ||| (b.TPxx <<< 21) ||| (P64_128.REG RM <<< 16) ||| (b.TDxx <<< 11),
         0x7C000799 ||| P64_128.MXM (P64_128.REG RG) (P64_128.indexReg b RM) b.TPxx]
    ∧ P64_128.movpx_st b RG RM ⟨dp, t, .T2⟩ =
        [0x64000000 ||| (b.TDxx <<< 16) ||| (0x7FFF &&& (dp >>> 16)),
         0x60000000 ||| (b.TDxx <<< 16) ||| (b.TDxx <<< 21) ||| (0xFFF0 &&& dp),
         0x7C000214 ||| (b.TPxx <<< 21) ||| (P64_128.REG RM <<< 16) ||| (b.TDxx <<< 11),
         0x7C000799 ||| P64_128.MXM (P64_128.REG RG) (P64_128.indexReg b RM) b.TPxx] := by
  have e : (0x7C000214 : Nat) = 0x38000000 ||| 0x44000214 := by decide
  have imm : ∀ x y z : Nat, 0x38000000 ||| ((0x00000000 ||| z) ||| (y <<< 16) ||| (x <<< 21)) =
      0x38000000 ||| (x <<< 21) ||| (y <<< 16) ||| z := by
    intro x y z
    rw [Nat.zero_or]
    exact or_fields_reorder _ z _ _
  have idx : ∀ x y z : Nat, 0x38000000 ||| ((0x44000214 ||| (z <<< 11)) ||| (y <<< 16) |||
      (x <<< 21)) = 0x7C000214 ||| (x <<< 21) ||| (y <<< 16) ||| (z <<< 11) := by
    intro x y z
    rw [e]
    exact or_opcode_fields_reorder _ _ _ _ _
  refine ⟨by decide, ?_, ?_, ?_, ?_, ?_, ?_⟩ <;>
    simp only [P64_128.movpx_ld, P64_128.movpx_st, AUW, EMPTY, EMITW, VAL, P64_128.C2,
      P64_128.B2, P64_128.P2, P64_128.C20, P64_128.C21, P64_128.C22, P64_128.B20, P64_128.B21,
      P64_128.B22, P64_128.P20, P64_128.P21, P64_128.P22, P64_128.MPM, List.nil_append,
      List.singleton_append, List.cons_append, List.append_assoc] <;>
    first
      | rw [imm]
      | rw [idx]


/-! ## Compare, mask-merge and directed-rounding rules -/

/-- C28: on the Power profiles less-than and less-or-equal are the
greater-than and greater-or-equal opcodes with the two source fields swapped.
In rtarch_p64_128.h `cltps_rr(G, S)` is `0xF000035F | MXM(G, S, G)` and
`cgtps_rr(G, S)` is `0xF000035F | MXM(G, G, S)`, `cleps_rr` / `cgeps_rr` the
same with `0xF000039F`; in rtarch_p32_256v2.h the same holds per half with
`0xF000025F` and `0xF000029F`.  For registers of the tables (`Xmm0 .. XmmF`)
the less-than and greater-than rules emit the same words if and only if the two
operands are the same register. -/
theorem compare_swaps_sources (G S : Operand) (hG : G.reg < 16) (hS : S.reg < 16) :
    (P64_128.cltps_rr G S =
        [0xF000035F ||| P64_128.MXM (P64_128.REG G) (P64_128.REG S) (P64_128.REG G)]
      ∧ P64_128.cgtps_rr G S =
        [0xF000035F ||| P64_128.MXM (P64_128.REG G) (P64_128.REG G) (P64_128.REG S)]
      ∧ P64_128.cleps_rr G S =
        [0xF000039F ||| P64_128.MXM (P64_128.REG G) (P64_128.REG S) (P64_128.REG G)]
      ∧ P64_128.cgeps_rr G S =
        [0xF000039F ||| P64_128.MXM (P64_128.REG G) (P64_128.REG G) (P64_128.REG S)]
      ∧ (P64_128.cltps_rr G S = P64_128.cgtps_rr G S ↔ P64_128.REG G = P64_128.REG S)
      ∧ (P64_128.cleps_rr G S = P64_128.cgeps_rr G S ↔ P64_128.REG G = P64_128.REG S))
    ∧ (P32_256V2.cltcs_rr G S =
        [0xF000025F ||| P32_256V2.MXM (P32_256V2.REG G) (P32_256V2.REG S) (P32_256V2.REG G),
         0xF000025F ||| P32_256V2.MXM (P32_256V2.RYG G) (P32_256V2.RYG S) (P32_256V2.RYG G)]
      ∧ P32_256V2.cgtcs_rr G S =
        [0xF000025F ||| P32_256V2.MXM (P32_256V2.REG G) (P32_256V2.REG G) (P32_256V2.REG S),
         0xF000025F ||| P32_256V2.MXM (P32_256V2.RYG G) (P32_256V2.RYG G) (P32_256V2.RYG S)]
      ∧ P32_256V2.clecs_rr G S =
        [0xF000029F ||| P32_256V2.MXM (P32_256V2.REG G) (P32_256V2.REG S) (P32_256V2.REG G),
         0xF000029F ||| P32_256V2.MXM (P32_256V2.RYG G) (P32_256V2.RYG S) (P32_256V2.RYG G)]
      ∧ P32_256V2.cgecs_rr G S =
        [0xF000029F ||| P32_256V2.MXM (P32_256V2.REG G) (P32_256V2.REG G) (P32_256V2.REG S),
         0xF000029F ||| P32_256V2.MXM (P32_256V2.RYG G) (P32_256V2.RYG G) (P32_256V2.RYG S)]
      ∧ (P32_256V2.cltcs_rr G S = P32_256V2.cgtcs_rr G S ↔
          P32_256V2.REG G = P32_256V2.REG S)
      ∧ (P32_256V2.clecs_rr G S = P32_256V2.cgecs_rr G S ↔
          P32_256V2.REG G = P32_256V2.REG S)) := by
  have g32 : G.reg < 32 := by omega
  have s32 : S.reg < 32 := by omega
  have key : ∀ K : Nat, K &&& 0x03FFF800 = 0 →
      (K ||| P64_128.MXM G.reg S.reg G.reg = K ||| P64_128.MXM G.reg G.reg S.reg ↔
        G.reg = S.reg) := by
    intro K hK
    constructor
    · intro h
      have a := (P64_128.MXM_word_fields K G.reg S.reg G.reg hK g32 s32 g32).2.1
      have c := (P64_128.MXM_word_fields K G.reg G.reg S.reg hK g32 g32 s32).2.1
      rw [h] at a
      exact c.symm.trans a
    · intro h
      rw [h]
  have hM : ∀ x y z : Nat, P32_256V2.MXM x y z = P64_128.MXM x y z := fun _ _ _ => rfl
  refine ⟨⟨rfl, rfl, rfl, rfl, ?_, ?_⟩, ⟨rfl, rfl, rfl, rfl, ?_, ?_⟩⟩
  · simp only [P64_128.cltps_rr, P64_128.cgtps_rr, P64_128.REG, EMITW, List.cons.injEq,
      and_true]
    exact key _ (by decide)
  · simp only [P64_128.cleps_rr, P64_128.cgeps_rr, P64_128.REG, EMITW, List.cons.injEq,
      and_true]
    exact key _ (by decide)
  · simp only [P32_256V2.cltcs_rr, P32_256V2.cgtcs_rr, P32_256V2.REG, P32_256V2.RYG, EMITW,
      List.singleton_append, List.cons.injEq, and_true, hM]
    constructor
    · rintro ⟨h, -⟩
      exact (key _ (by decide)).1 h
    · intro h
      rw [h]
      exact ⟨rfl, rfl⟩
  · simp only [P32_256V2.clecs_rr, P32_256V2.cgecs_rr, P32_256V2.REG, P32_256V2.RYG, EMITW,
      List.singleton_append, List.cons.injEq, and_true, hM]
    constructor
    · rintro ⟨h, -⟩
      exact (key _ (by decide)).1 h
    · intro h
      rw [h]
      exact ⟨rfl, rfl⟩

/-- Witness of C28 at `Xmm1`, `Xmm2` of rtarch_p64_128.h: the less-than word is
`0xF0220B5F` (fields 1, 2, 1), the greater-than word `0xF021135F` (fields 1,
1, 2). -/
theorem compare_swaps_sources_witness :
    P64_128.cltps_rr P64_128.Xmm1 P64_128.Xmm2 = [0xF0220B5F]
    ∧ P64_128.cgtps_rr P64_128.Xmm1 P64_128.Xmm2 = [0xF021135F]
    ∧ ¬ (P64_128.cltps_rr P64_128.Xmm1 P64_128.Xmm2 =
          P64_128.cgtps_rr P64_128.Xmm1 P64_128.Xmm2) :=
  ⟨by decide, by decide,
   fun h => absurd
     ((compare_swaps_sources P64_128.Xmm1 P64_128.Xmm2 (by decide) (by decide)).1.2.2.2.2.1.1 h)
     (by decide)⟩


/-- A field packed at bit 11 or above leaves bits 6..10 of a word clear. -/
theorem shiftLeft_mask_field (x s : Nat) (hs : 11 ≤ s) : ((x <<< s) >>> 6) &&& 31 = 0 := by
  obtain ⟨k, rfl⟩ : ∃ k, s = 11 + k := ⟨s - 11, by omega⟩
  have e31 : (31 : Nat) = 2 ^ 5 - 1 := by decide
  rw [e31, Nat.and_pow_two_sub_one_eq_mod, Nat.shiftLeft_eq, Nat.shiftRight_eq_div_pow,
    Nat.pow_add, ← Nat.mul_assoc]
  have e1 : (2 : Nat) ^ 11 = 2 ^ 6 * 2 ^ 5 := by decide
  rw [e1]
  have e2 : x * (2 ^ 6 * 2 ^ 5) * 2 ^ k = 2 ^ 6 * (x * 2 ^ k * 2 ^ 5) := by ring
  rw [e2, Nat.mul_div_cancel_left _ (by decide : 0 < 2 ^ 6)]
  exact Nat.mul_mod_left _ _

/-- C29: `mmvcx_rr(XG, XS)` of rtarch_p32_256v2.h emits exactly two select
words, `0xF000003F | MXM(REG(XG), REG(XG), REG(XS))` and
`0xF000043F | MXM(RYG(XG), RYG(XG), RYG(XS))`.  The two opcode constants
differ only in the 5-bit field at bits 6..10, the mask register: it is 0, the
low half `REG(Xmm0)`, in the first and 16, the high half `RYG(Xmm0)`, in the
second; and this field of the emitted words is that of the opcode constants,
whatever the operands. -/
theorem P32_256V2.mmvcx_rr_mask_of_xmm0 (XG XS : Operand) :
    P32_256V2.mmvcx_rr XG XS =
      [0xF000003F ||| P32_256V2.MXM (P32_256V2.REG XG) (P32_256V2.REG XG) (P32_256V2.REG XS),
       0xF000043F ||| P32_256V2.MXM (P32_256V2.RYG XG) (P32_256V2.RYG XG) (P32_256V2.RYG XS)]
    ∧ (P32_256V2.mmvcx_rr XG XS).length = 2
    ∧ (0xF000043F : Nat) ^^^ 0xF000003F = 16 <<< 6
    ∧ (0xF000043F : Nat) &&& (0xFFFFFFFF ^^^ (31 <<< 6)) =
        0xF000003F &&& (0xFFFFFFFF ^^^ (31 <<< 6))
    ∧ ((0xF000003F : Nat) >>> 6) &&& 31 = P32_256V2.REG P32_256V2.Xmm0
    ∧ ((0xF000043F : Nat) >>> 6) &&& 31 = P32_256V2.RYG P32_256V2.Xmm0
    ∧ P32_256V2.REG P32_256V2.Xmm0 = 0
    ∧ P32_256V2.RYG P32_256V2.Xmm0 = 0 + 16
    ∧ ((0xF000003F |||
          P32_256V2.MXM (P32_256V2.REG XG) (P32_256V2.REG XG) (P32_256V2.REG XS)) >>> 6)
        &&& 31 = 0
    ∧ ((0xF000043F |||
          P32_256V2.MXM (P32_256V2.RYG XG) (P32_256V2.RYG XG) (P32_256V2.RYG XS)) >>> 6)
        &&& 31 = 16 := by
  have hm : ∀ x y z : Nat, ((P32_256V2.MXM x y z) >>> 6) &&& 31 = 0 := by
    intro x y z
    simp only [P32_256V2.MXM, shiftRight_or, Nat.and_distrib_right,
      shiftLeft_mask_field z 11 (by decide), shiftLeft_mask_field y 16 (by decide),
      shiftLeft_mask_field x 21 (by decide), Nat.or_zero]
  have k0 : ((0xF000003F : Nat) >>> 6) &&& 31 = 0 := by decide
  have k1 : ((0xF000043F : Nat) >>> 6) &&& 31 = 16 := by decide
  refine ⟨rfl, rfl, by decide, by decide, by decide, by decide, rfl, rfl, ?_, ?_⟩
  · rw [shiftRight_or, Nat.and_distrib_right, hm, k0, Nat.or_zero]
  · rw [shiftRight_or, Nat.and_distrib_right, hm, k1, Nat.or_zero]

/-- C30: in rtarch_x64_256.h the generic directed-rounding rule agrees with
the four dedicated ones.  Under either setting of `RT_SIMD_FLUSH_ZERO` the
immediate `RT_SIMD_MODE_mode & 3` is 0, 1, 2, 3 for `ROUNDN`, `ROUNDM`,
`ROUNDP`, `ROUNDZ` and their `_F` variants, so `rnrps_rr(RG, RM, mode)` emits
byte for byte the sequence of `rnnps_rr`, `rnmps_rr`, `rnpps_rr`, `rnzps_rr`
respectively, and `cvrps_rr(RG, RM, mode)` that sequence followed by
`cvzps_rr(RG, RG)`. -/
theorem X64_256.rnrps_rr_agrees (b : X64Base) (fz : Int) (RG RM : Operand) :
    (X64_256.rnrps_rr fz RG RM .ROUNDN = X64_256.rnnps_rr RG RM
      ∧ X64_256.rnrps_rr fz RG RM .ROUNDM = X64_256.rnmps_rr RG RM
      ∧ X64_256.rnrps_rr fz RG RM .ROUNDP = X64_256.rnpps_rr RG RM
      ∧ X64_256.rnrps_rr fz RG RM .ROUNDZ = X64_256.rnzps_rr RG RM
      ∧ X64_256.rnrps_rr fz RG RM .ROUNDN_F = X64_256.rnnps_rr RG RM
      ∧ X64_256.rnrps_rr fz RG RM .ROUNDM_F = X64_256.rnmps_rr RG RM
      ∧ X64_256.rnrps_rr fz RG RM .ROUNDP_F = X64_256.rnpps_rr RG RM
      ∧ X64_256.rnrps_rr fz RG RM .ROUNDZ_F = X64_256.rnzps_rr RG RM)
    ∧ ([X64_256.RoundMode.ROUNDN, .ROUNDM, .ROUNDP, .ROUNDZ, .ROUNDN_F, .ROUNDM_F, .ROUNDP_F,
          .ROUNDZ_F].map (fun m => X64_256.RT_SIMD_MODE fz m &&& 3) = [0, 1, 2, 3, 0, 1, 2, 3])
    ∧ (X64_256.cvrps_rr b fz RG RM .ROUNDN =
          X64_256.rnnps_rr RG RM ++ X64_256.cvzps_rr b RG RG
      ∧ X64_256.cvrps_rr b fz RG RM .ROUNDM =
          X64_256.rnmps_rr RG RM ++ X64_256.cvzps_rr b RG RG
      ∧ X64_256.cvrps_rr b fz RG RM .ROUNDP =
          X64_256.rnpps_rr RG RM ++ X64_256.cvzps_rr b RG RG
      ∧ X64_256.cvrps_rr b fz RG RM .ROUNDZ =
          X64_256.rnzps_rr RG RM ++ X64_256.cvzps_rr b RG RG
      ∧ X64_256.cvrps_rr b fz RG RM .ROUNDN_F =
          X64_256.rnnps_rr RG RM ++ X64_256.cvzps_rr b RG RG
      ∧ X64_256.cvrps_rr b fz RG RM .ROUNDM_F =
          X64_256.rnmps_rr RG RM ++ X64_256.cvzps_rr b RG RG
      ∧ X64_256.cvrps_rr b fz RG RM .ROUNDP_F =
          X64_256.rnpps_rr RG RM ++ X64_256.cvzps_rr b RG RG
      ∧ X64_256.cvrps_rr b fz RG RM .ROUNDZ_F =
          X64_256.rnzps_rr RG RM ++ X64_256.cvzps_rr b RG RG)
    ∧ (X64_256.cvrps_rr b fz RG RM .ROUNDP = X64_256.cvpps_rr b RG RM
      ∧ X64_256.cvrps_rr b fz RG RM .ROUNDM = X64_256.cvmps_rr b RG RM) := by
  have e0 : (0x00 : Nat) &&& 3 = 0x00 := by decide
  have e1 : (0x01 : Nat) &&& 3 = 0x01 := by decide
  have e2 : (0x02 : Nat) &&& 3 = 0x02 := by decide
  have e3 : (0x03 : Nat) &&& 3 = 0x03 := by decide
  have e4 : (0x04 : Nat) &&& 3 = 0x00 := by decide
  have e5 : (0x05 : Nat) &&& 3 = 0x01 := by decide
  have e6 : (0x06 : Nat) &&& 3 = 0x02 := by decide
  have e7 : (0x07 : Nat) &&& 3 = 0x03 := by decide
  have hmode : [X64_256.RoundMode.ROUNDN, .ROUNDM, .ROUNDP, .ROUNDZ, .ROUNDN_F, .ROUNDM_F,
      .ROUNDP_F, .ROUNDZ_F].map (fun m => X64_256.RT_SIMD_MODE fz m &&& 3) =
      [0, 1, 2, 3, 0, 1, 2, 3] := by
    by_cases h : fz = 0 <;>
      simp only [List.map, X64_256.RT_SIMD_MODE, h, if_true, if_false, e0, e1, e2, e3, e4, e5,
        e6, e7]
  have hr : X64_256.rnrps_rr fz RG RM .ROUNDN = X64_256.rnnps_rr RG RM
      ∧ X64_256.rnrps_rr fz RG RM .ROUNDM = X64_256.rnmps_rr RG RM
      ∧ X64_256.rnrps_rr fz RG RM .ROUNDP = X64_256.rnpps_rr RG RM
      ∧ X64_256.rnrps_rr fz RG RM .ROUNDZ = X64_256.rnzps_rr RG RM
      ∧ X64_256.rnrps_rr fz RG RM .ROUNDN_F = X64_256.rnnps_rr RG RM
      ∧ X64_256.rnrps_rr fz RG RM .ROUNDM_F = X64_256.rnmps_rr RG RM
      ∧ X64_256.rnrps_rr fz RG RM .ROUNDP_F = X64_256.rnpps_rr RG RM
      ∧ X64_256.rnrps_rr fz RG RM .ROUNDZ_F = X64_256.rnzps_rr RG RM := by
    by_cases h : fz = 0 <;>
      simp only [X64_256.rnrps_rr, X64_256.rnnps_rr, X64_256.rnmps_rr, X64_256.rnpps_rr,
        X64_256.rnzps_rr, X64_256.RT_SIMD_MODE, h, if_true, if_false, e0, e1, e2, e3, e4, e5,
        e6, e7, and_self]
  obtain ⟨r1, r2, r3, r4, r5, r6, r7, r8⟩ := hr
  refine ⟨⟨r1, r2, r3, r4, r5, r6, r7, r8⟩, hmode, ⟨?_, ?_, ?_, ?_, ?_, ?_, ?_, ?_⟩, ⟨?_, ?_⟩⟩
  · simp only [X64_256.cvrps_rr, r1]
  · simp only [X64_256.cvrps_rr, r2]
  · simp only [X64_256.cvrps_rr, r3]
  · simp only [X64_256.cvrps_rr, r4]
  · simp only [X64_256.cvrps_rr, r5]
  · simp only [X64_256.cvrps_rr, r6]
  · simp only [X64_256.cvrps_rr, r7]
  · simp only [X64_256.cvrps_rr, r8]
  · simp only [X64_256.cvrps_rr, X64_256.cvpps_rr, r3]
  · simp only [X64_256.cvrps_rr, X64_256.cvmps_rr, r2]


/-! ## Matrices of rtgeom.cpp -/

/-- The entries of the result of `matrix_inverse(mp, m1)`: nine cofactors times
the reciprocal of the determinant, zeros in row and column 3. -/
theorem RtGeom.matrix_inverse_entries {R : Type} [Field R] (m1 : RtGeom.rt_mat4 R) :
    (RtGeom.matrix_inverse m1 0 0 = (m1 1 1 * m1 2 2 - m1 2 1 * m1 1 2) * (1 / RtGeom.det3 m1)
      ∧ RtGeom.matrix_inverse m1 0 1 =
          (m1 2 1 * m1 0 2 - m1 0 1 * m1 2 2) * (1 / RtGeom.det3 m1)
      ∧ RtGeom.matrix_inverse m1 0 2 =
          (m1 0 1 * m1 1 2 - m1 1 1 * m1 0 2) * (1 / RtGeom.det3 m1)
      ∧ RtGeom.matrix_inverse m1 0 3 = 0)
    ∧ (RtGeom.matrix_inverse m1 1 0 =
          (m1 2 0 * m1 1 2 - m1 1 0 * m1 2 2) * (1 / RtGeom.det3 m1)
      ∧ RtGeom.matrix_inverse m1 1 1 =
          (m1 0 0 * m1 2 2 - m1 2 0 * m1 0 2) * (1 / RtGeom.det3 m1)
      ∧ RtGeom.matrix_inverse m1 1 2 =
          (m1 0 2 * m1 1 0 - m1 0 0 * m1 1 2) * (1 / RtGeom.det3 m1)
      ∧ RtGeom.matrix_inverse m1 1 3 = 0)
    ∧ (RtGeom.matrix_inverse m1 2 0 =
          (m1 1 0 * m1 2 1 - m1 2 0 * m1 1 1) * (1 / RtGeom.det3 m1)
      ∧ RtGeom.matrix_inverse m1 2 1 =
          (m1 2 0 * m1 0 1 - m1 0 0 * m1 2 1) * (1 / RtGeom.det3 m1)
      ∧ RtGeom.matrix_inverse m1 2 2 =
          (m1 0 0 * m1 1 1 - m1 1 0 * m1 0 1) * (1 / RtGeom.det3 m1)
      ∧ RtGeom.matrix_inverse m1 2 3 = 0)
    ∧ (RtGeom.matrix_inverse m1 3 0 = 0 ∧ RtGeom.matrix_inverse m1 3 1 = 0
      ∧ RtGeom.matrix_inverse m1 3 2 = 0 ∧ RtGeom.matrix_inverse m1 3 3 = 0) :=
  ⟨⟨rfl, rfl, rfl, rfl⟩, ⟨rfl, rfl, rfl, rfl⟩, ⟨rfl, rfl, rfl, rfl⟩, ⟨rfl, rfl, rfl, rfl⟩⟩

/-- The product of the result of `matrix_inverse(mp, m1)` and `m1`, entry by
entry on the upper-left 3x3 block, over any field. -/
theorem RtGeom.matrix_inverse_mul_entries {R : Type} [Field R] (m1 : RtGeom.rt_mat4 R)
    (h : RtGeom.det3 m1 ≠ 0) :
    RtGeom.matrix_mul_matrix (RtGeom.matrix_inverse m1) m1 0 0 = 1
    ∧ RtGeom.matrix_mul_matrix (RtGeom.matrix_inverse m1) m1 0 1 = 0
    ∧ RtGeom.matrix_mul_matrix (RtGeom.matrix_inverse m1) m1 0 2 = 0
    ∧ RtGeom.matrix_mul_matrix (RtGeom.matrix_inverse m1) m1 1 0 = 0
    ∧ RtGeom.matrix_mul_matrix (RtGeom.matrix_inverse m1) m1 1 1 = 1
    ∧ RtGeom.matrix_mul_matrix (RtGeom.matrix_inverse m1) m1 1 2 = 0
    ∧ RtGeom.matrix_mul_matrix (RtGeom.matrix_inverse m1) m1 2 0 = 0
    ∧ RtGeom.matrix_mul_matrix (RtGeom.matrix_inverse m1) m1 2 1 = 0
    ∧ RtGeom.matrix_mul_matrix (RtGeom.matrix_inverse m1) m1 2 2 = 1 := by
  obtain ⟨⟨a0, a1, a2, a3⟩, ⟨b0, b1, b2, b3⟩, ⟨c0, c1, c2, c3⟩, ⟨d0, d1, d2, d3⟩⟩ :=
    RtGeom.matrix_inverse_entries m1
  have hd : m1 0 0 * (m1 1 1 * m1 2 2 - m1 2 1 * m1 1 2) +
      m1 1 0 * (m1 2 1 * m1 0 2 - m1 0 1 * m1 2 2) +
      m1 2 0 * (m1 0 1 * m1 1 2 - m1 1 1 * m1 0 2) ≠ 0 := h
  refine ⟨?_, ?_, ?_, ?_, ?_, ?_, ?_, ?_, ?_⟩ <;>
    simp only [RtGeom.matrix_mul_matrix, RtGeom.matrix_mul_vector, a0, a1, a2, a3, b0, b1, b2,
      b3, c0, c1, c2, c3, d0, d1, d2, d3, RtGeom.det3] <;>
    field_simp <;>
    ring

/-- C22: `matrix_inverse(mp, m1)` computes the inverse of the upper-left 3x3
block.  For every 4x4 matrix `m1` over an ordered field (exact arithmetic)
whose 3x3 determinant `m1[0][0]*A + m1[1][0]*B + m1[2][0]*C` is non-zero, the
upper-left 3x3 block of the product `matrix_mul_matrix(tm, mp, m1)` is that of
`iden4`; every entry of `mp` with row or column index 3, `mp[3][3]` included,
is 0; and the `RT_DEBUG` self-check passes, so the debug build returns the same
`mp` without throwing. -/
theorem RtGeom.matrix_inverse_inverts {R : Type} [LinearOrderedField R]
    (m1 : RtGeom.rt_mat4 R) (h : RtGeom.det3 m1 ≠ 0) :
    (∀ i j : Fin 4, i ≠ 3 → j ≠ 3 →
        RtGeom.matrix_mul_matrix (RtGeom.matrix_inverse m1) m1 i j = RtGeom.iden4 i j)
    ∧ (∀ i j : Fin 4, i = 3 ∨ j = 3 → RtGeom.matrix_inverse m1 i j = 0)
    ∧ RtGeom.matrix_inverse_debug m1 = .ok (RtGeom.matrix_inverse m1) := by
  obtain ⟨p00, p01, p02, p10, p11, p12, p20, p21, p22⟩ :=
    RtGeom.matrix_inverse_mul_entries m1 h
  have hprod : ∀ i j : Fin 4, i ≠ 3 → j ≠ 3 →
      RtGeom.matrix_mul_matrix (RtGeom.matrix_inverse m1) m1 i j = RtGeom.iden4 i j := by
    intro i j hi hj
    fin_cases i <;> fin_cases j
    · exact p00
    · exact p01
    · exact p02
    · exact absurd rfl hj
    · exact p10
    · exact p11
    · exact p12
    · exact absurd rfl hj
    · exact p20
    · exact p21
    · exact p22
    · exact absurd rfl hj
    · exact absurd rfl hi
    · exact absurd rfl hi
    · exact absurd rfl hi
    · exact absurd rfl hi
  refine ⟨hprod, ?_, ?_⟩
  · intro i j hij
    obtain ⟨⟨_, _, _, a3⟩, ⟨_, _, _, b3⟩, ⟨_, _, _, c3⟩, ⟨d0, d1, d2, d3⟩⟩ :=
      RtGeom.matrix_inverse_entries m1
    rcases hij with rfl | rfl
    · fin_cases j
      · exact d0
      · exact d1
      · exact d2
      · exact d3
    · fin_cases i
      · exact a3
      · exact b3
      · exact c3
      · exact d3
  · have hk : ∀ i j : Fin 3,
        decide (|RtGeom.matrix_mul_matrix (RtGeom.matrix_inverse m1) m1 i.castSucc j.castSucc -
          RtGeom.iden4 i.castSucc j.castSucc| > (0.00001 : R)) = false := by
      intro i j
      have hi : i.castSucc ≠ (3 : Fin 4) := by fin_cases i <;> decide
      have hj : j.castSucc ≠ (3 : Fin 4) := by fin_cases j <;> decide
      rw [hprod _ _ hi hj, sub_self, abs_zero, decide_eq_false_iff_not, not_lt]
      norm_num
    have hany : ((List.finRange 3).any fun i => (List.finRange 3).any fun j =>
        decide (|RtGeom.matrix_mul_matrix (RtGeom.matrix_inverse m1) m1 i.castSucc j.castSucc -
          RtGeom.iden4 i.castSucc j.castSucc| > (0.00001 : R))) = false := by
      simp [hk]
    simp only [RtGeom.matrix_inverse_debug, hany, Bool.false_eq_true, if_false]

/-- Witness of C22 at the sample matrix over the rationals, whose 3x3
determinant is 2: the product has 1 at entry (0, 0) and 0 at entry (0, 1). -/
theorem RtGeom.matrix_inverse_inverts_witness :
    RtGeom.det3 RtGeom.sampleMatrix ≠ 0
    ∧ RtGeom.matrix_mul_matrix (RtGeom.matrix_inverse RtGeom.sampleMatrix)
        RtGeom.sampleMatrix 0 0 = 1
    ∧ RtGeom.matrix_mul_matrix (RtGeom.matrix_inverse RtGeom.sampleMatrix)
        RtGeom.sampleMatrix 0 1 = 0
    ∧ RtGeom.matrix_inverse RtGeom.sampleMatrix 3 3 = 0 :=
  have hdet : RtGeom.det3 RtGeom.sampleMatrix ≠ 0 := by
    simp [RtGeom.det3, RtGeom.sampleMatrix]
  ⟨hdet,
   (RtGeom.matrix_inverse_inverts RtGeom.sampleMatrix hdet).1 0 0 (by decide) (by decide),
   (RtGeom.matrix_inverse_inverts RtGeom.sampleMatrix hdet).1 0 1 (by decide) (by decide),
   (RtGeom.matrix_inverse_inverts RtGeom.sampleMatrix hdet).2.1 3 3 (Or.inl rfl)⟩

/-- C23: `iden4` is a two-sided identity of `matrix_mul_matrix`, where
`matrix_mul_matrix(mp, m1, m2)` sets `mp[i][r]` to the sum over `k < 4` of
`m1[k][r] * m2[i][k]`: for every 4x4 matrix `m` (exact arithmetic, any
semiring), `matrix_mul_matrix(mp, iden4, m)` and `matrix_mul_matrix(mp, m,
iden4)` both give `mp = m`. -/
theorem RtGeom.iden4_is_identity {R : Type} [Semiring R] (m m2 : RtGeom.rt_mat4 R) :
    (∀ i r : Fin 4, RtGeom.matrix_mul_matrix m m2 i r =
        m 0 r * m2 i 0 + m 1 r * m2 i 1 + m 2 r * m2 i 2 + m 3 r * m2 i 3)
    ∧ (∀ i r : Fin 4, RtGeom.matrix_mul_matrix m m2 i r =
        ∑ k : Fin 4, m k r * m2 i k)
    ∧ RtGeom.matrix_mul_matrix RtGeom.iden4 m = m
    ∧ RtGeom.matrix_mul_matrix m RtGeom.iden4 = m
    ∧ RtGeom.iden4 = (fun i j : Fin 4 => if i = j then (1 : R) else 0) := by
  have hid : (RtGeom.iden4 : RtGeom.rt_mat4 R) = (fun i j : Fin 4 => if i = j then 1 else 0) := by
    funext i j
    fin_cases i <;> fin_cases j <;> rfl
  refine ⟨fun _ _ => rfl, ?_, ?_, ?_, hid⟩
  · intro i r
    simp only [RtGeom.matrix_mul_matrix, RtGeom.matrix_mul_vector, Fin.sum_univ_four]
  · funext i r
    simp only [RtGeom.matrix_mul_matrix, RtGeom.matrix_mul_vector, hid]
    fin_cases r <;> simp
  · funext i r
    simp only [RtGeom.matrix_mul_matrix, RtGeom.matrix_mul_vector, hid]
    fin_cases i <;> simp


/-! ## The fp control rules of rtarch_p64_128.h -/

/-- C31 (as stated, refuted): in rtarch_p64_128.h, with `RT_SIMD_FLUSH_ZERO`
set to 1, `FCTRL_RESET()` emits `0xFF80010C` while `FCTRL_SET(ROUNDN)` emits
`0xFF80010C | (RT_SIMD_MODE_ROUNDN << 12)` = `0xFF80410C`: the two words
differ. -/
theorem P64_128.FCTRL_RESET_differs_under_flush_zero :
    P64_128.FCTRL_RESET = [0xFF80010C]
    ∧ P64_128.RT_SIMD_MODE 1 .ROUNDN = 0x04
    ∧ P64_128.FCTRL_SET 1 .ROUNDN = [0xFF80410C]
    ∧ P64_128.FCTRL_SET 1 .ROUNDN ≠ P64_128.FCTRL_RESET
    ∧ P64_128.FCTRL_RESET ≠ EMITW (0xFF80010C ||| (P64_128.RT_SIMD_MODE 1 .ROUNDN <<< 12)) := by
  refine ⟨rfl, rfl, by decide, by decide, by decide⟩

/-- C31 (amended): in rtarch_p64_128.h `FCTRL_RESET()` resumes the default
rounding mode ROUNDN.  For either setting of `RT_SIMD_FLUSH_ZERO` the word it
emits, `0xFF80010C`, has in its rounding field (bits 12..13) the rounding mode
`RT_SIMD_MODE_ROUNDN & 3` = 0 of the word `0xFF80010C | (RT_SIMD_MODE_ROUNDN << 12)`
emitted by `FCTRL_SET(ROUNDN)`, and the two words agree in every bit except
bit 14 (`0x4000`), the flush-to-zero bit `(RT_SIMD_MODE_ROUNDN & 4) << 12`,
which `FCTRL_RESET()` leaves clear.  With `RT_SIMD_FLUSH_ZERO == 0` the two
words are equal; with any other setting `FCTRL_SET(ROUNDN)` emits
`0xFF80410C`. -/
theorem P64_128.FCTRL_RESET_resumes_rounding_mode (fz : Int) :
    P64_128.FCTRL_RESET = [0xFF80010C]
    ∧ P64_128.FCTRL_SET fz .ROUNDN =
        [0xFF80010C ||| (P64_128.RT_SIMD_MODE fz .ROUNDN <<< 12)]
    ∧ P64_128.RT_SIMD_MODE fz .ROUNDN &&& 3 = 0
    ∧ (∀ r ∈ P64_128.FCTRL_RESET, ∀ w ∈ P64_128.FCTRL_SET fz .ROUNDN,
        (r >>> 12) &&& 3 = (w >>> 12) &&& 3
        ∧ (w >>> 12) &&& 3 = P64_128.RT_SIMD_MODE fz .ROUNDN &&& 3
        ∧ w = r ||| ((P64_128.RT_SIMD_MODE fz .ROUNDN &&& 4) <<< 12)
        ∧ w &&& (0xFFFFFFFF ^^^ 0x4000) = r
        ∧ r &&& 0x4000 = 0)
    ∧ (fz = 0 → P64_128.FCTRL_SET fz .ROUNDN = P64_128.FCTRL_RESET)
    ∧ (fz ≠ 0 → P64_128.FCTRL_SET fz .ROUNDN = [0xFF80410C])
    ∧ (P64_128.FCTRL_SET fz .ROUNDN = P64_128.FCTRL_RESET ↔ fz = 0) := by
  by_cases h : fz = 0
  · subst h
    refine ⟨rfl, rfl, by decide, by decide, fun _ => rfl, fun hc => absurd rfl hc,
      ⟨fun _ => rfl, fun _ => by decide⟩⟩
  · have m : P64_128.RT_SIMD_MODE fz .ROUNDN = 0x04 := by
      simp only [P64_128.RT_SIMD_MODE, h, if_false]
    have e : P64_128.FCTRL_SET fz .ROUNDN = [0xFF80410C] := by
      simp only [P64_128.FCTRL_SET, m, EMITW]
      decide
    rw [e, m]
    refine ⟨rfl, by decide, by decide, by decide, fun hz => absurd hz h, fun _ => rfl,
      ⟨fun hc => absurd hc (by decide), fun hz => absurd hz h⟩⟩

/-! ## The 128-bit-lane permute of the x86-family headers -/

/-- C33 (defect of rtarch_x64_256.h): the 128-bit-lane permute helper does not
emit the same opcode in the three x86-family headers.  `prmpx_rr` of
rtarch_x86_256.h and `prmcx_rr` of rtarch_x86_256x1v2.h emit a 3-byte prefix with
`aux = 3`, `pfx = 1` and 256-bit length, the opcode byte `0x06`, ModRM and the
immediate; `prmpx_rr` in the `RT_256 < 2` branch of rtarch_x64_256.h emits the
same prefix, ModRM and immediate but the opcode byte `0x46`.  On `Xmm1`, `Xmm1`,
`IB(1)` the bytes are `C4 E3 75 06 C9 01` and `C4 E3 75 46 C9 01`. -/
theorem prmpx_rr_opcode_differs (x : X1Base) (RG RM : Operand) (IM : ImmX) :
    X86_256.AVX1.prmpx_rr RG RM IM =
        [0xC4, 0xE0 ||| 3, 0x04 ||| ((0x0F - X86_256.REG RG) <<< 3) ||| 1, 0x06,
         (MOD RM <<< 6) ||| (X86_256.REG RG <<< 3) ||| X86_256.REG RM, IM.val]
    ∧ X86_256X1V2.prmcx_rr x RG RM IM =
        x.VEX (X86_256X1V2.REG RG) 1 1 3 ++
          [0x06, (MOD RM <<< 6) ||| (X86_256X1V2.REG RG <<< 3) ||| X86_256X1V2.REG RM, IM.val]
    ∧ X64_256.AVX1.prmpx_rr RG RM IM =
        [0xC4, ((1 - X64_256.RXB RG) <<< 7) ||| (1 <<< 6) ||| ((1 - X64_256.RXB RM) <<< 5) ||| 3,
         (1 <<< 2) ||| ((0x0F - X64_256.REN RG) <<< 3) ||| 1, 0x46,
         (MOD RM <<< 6) ||| (X64_256.REG RG <<< 3) ||| X64_256.REG RM, IM.val]
    ∧ X86_256.AVX1.prmpx_rr X86_256.Xmm1 X86_256.Xmm1 (IB 1) =
        [0xC4, 0xE3, 0x75, 0x06, 0xC9, 0x01]
    ∧ X86_256X1V2.prmcx_rr sampleX1 X86_256X1V2.Xmm1 X86_256X1V2.Xmm1 (IB 1) =
        [0xC4, 0xE3, 0x75, 0x06, 0xC9, 0x01]
    ∧ X64_256.AVX1.prmpx_rr X64_256.Xmm1 X64_256.Xmm1 (IB 1) =
        [0xC4, 0xE3, 0x75, 0x46, 0xC9, 0x01]
    ∧ X64_256.AVX1.prmpx_rr X64_256.Xmm1 X64_256.Xmm1 (IB 1) ≠
        X86_256.AVX1.prmpx_rr X86_256.Xmm1 X86_256.Xmm1 (IB 1) := by
  refine ⟨?_, ?_, ?_, by decide, by decide, by decide, by decide⟩
  · simp only [X86_256.AVX1.prmpx_rr, X86_256.VX3, X86_256.MRM, X86_256.VAL, AUX, EMITB, EMPTY,
      List.append_assoc, List.singleton_append, List.nil_append, List.cons_append]
  · simp only [X86_256X1V2.prmcx_rr, X86_256X1V2.MRM, X86_256X1V2.VAL, AUX, EMITB, EMPTY,
      List.append_assoc, List.singleton_append, List.nil_append, List.cons_append]
  · simp only [X64_256.AVX1.prmpx_rr, X64_256.VEX, X64_256.MRM, X64_256.VAL, AUX, EMITB, EMPTY,
      List.append_assoc, List.singleton_append, List.nil_append, List.cons_append]


/-! ## The x87 control word of `cvtpn_rr` in rtarch_x64_256.h -/

/-- The control word built from an MXCSR value by the shr / and / orr steps of
`cvtpn_rr`: its rounding field is that of MXCSR, its low seven bits are set and
no bit outside `0x0C7F` is set. -/
theorem X64_256.control_word_bits (m : Nat) :
    ((((m >>> 3) &&& 0x0C00) ||| 0x7F) >>> 10) &&& 3 = (m >>> 13) &&& 3
    ∧ (((m >>> 3) &&& 0x0C00) ||| 0x7F) &&& 0x7F = 0x7F
    ∧ (((m >>> 3) &&& 0x0C00) ||| 0x7F) &&& 0x0C7F = ((m >>> 3) &&& 0x0C00) ||| 0x7F
    ∧ ((m >>> 3) &&& 0x0C00) ||| 0x7F ≤ 0x0C7F := by
  have e1 : ((((m >>> 3) &&& 0x0C00) ||| 0x7F) >>> 10) &&& 3 = (m >>> 13) &&& 3 := by
    have z : ((0x7F : Nat) >>> 10) &&& 3 = 0 := by decide
    have c : (0x0C00 : Nat) >>> 10 = 3 := by decide
    have s : m >>> 3 >>> 10 = m >>> 13 := (Nat.shiftRight_add m 3 10).symm
    rw [shiftRight_or, Nat.and_distrib_right, z, Nat.or_zero, shiftRight_and, c, s,
      Nat.and_assoc, Nat.and_self]
  have e2 : (((m >>> 3) &&& 0x0C00) ||| 0x7F) &&& 0x7F = 0x7F := by
    have z : (0x0C00 : Nat) &&& 0x7F = 0 := by decide
    rw [Nat.and_distrib_right, Nat.and_assoc, z, Nat.and_zero, Nat.zero_or, Nat.and_self]
  have e3 : (((m >>> 3) &&& 0x0C00) ||| 0x7F) &&& 0x0C7F =
      ((m >>> 3) &&& 0x0C00) ||| 0x7F := by
    have a : (0x0C00 : Nat) &&& 0x0C7F = 0x0C00 := by decide
    have c : (0x7F : Nat) &&& 0x0C7F = 0x7F := by decide
    rw [Nat.and_distrib_right, Nat.and_assoc, a, c]
  refine ⟨e1, e2, e3, ?_⟩
  rw [← e3]
  exact Nat.and_le_right

/-- A read of `k` bytes that does not overlap a store of `n` bytes is not
changed by it. -/
theorem X64_256.peek_poke_disjoint (mem : Nat → Nat) (a n : Nat) (f : Nat → Nat) (k : Nat) :
    ∀ x, (x + k ≤ a ∨ a + n ≤ x) → X64_256.peek (X64_256.poke mem a n f) x k =
      X64_256.peek mem x k := by
  induction k with
  | zero => intro x _; rfl
  | succ k ih =>
    intro x h
    have h1 : X64_256.poke mem a n f x = mem x := by
      unfold X64_256.poke
      rw [if_neg]
      omega
    simp only [X64_256.peek]
    rw [h1, ih (x + 1) (by omega)]

/-- Byte `i` of a store of `n` bytes, `i < n`. -/
theorem X64_256.poke_at (mem : Nat → Nat) (a n : Nat) (f : Nat → Nat) (i : Nat) (h : i < n) :
    X64_256.poke mem a n f (a + i) = f i := by
  unfold X64_256.poke
  rw [if_pos ⟨by omega, by omega⟩, Nat.add_sub_cancel_left]

/-- Reading back a 32-bit store gives the low 32 bits of the value. -/
theorem X64_256.peek_poke_word (mem : Nat → Nat) (a v : Nat) :
    X64_256.peek (X64_256.poke mem a 4 (X64_256.bytesLE v)) a 4 = v % 2 ^ 32 := by
  have h0 := X64_256.poke_at mem a 4 (X64_256.bytesLE v) 0 (by decide)
  have h1 := X64_256.poke_at mem a 4 (X64_256.bytesLE v) 1 (by decide)
  have h2 := X64_256.poke_at mem a 4 (X64_256.bytesLE v) 2 (by decide)
  have h3 := X64_256.poke_at mem a 4 (X64_256.bytesLE v) 3 (by decide)
  simp only [Nat.add_zero] at h0
  simp only [X64_256.peek, Nat.add_assoc, Nat.reduceAdd, h0, h1, h2, h3, X64_256.bytesLE,
    Nat.shiftRight_eq_div_pow, Nat.reduceMul, Nat.reducePow]
  omega

/-- Reading 16 bits at the address of a 32-bit store gives the low 16 bits of
the value (little-endian layout). -/
theorem X64_256.peek_poke_word_low (mem : Nat → Nat) (a v : Nat) :
    X64_256.peek (X64_256.poke mem a 4 (X64_256.bytesLE v)) a 2 = v % 2 ^ 16 := by
  have h0 := X64_256.poke_at mem a 4 (X64_256.bytesLE v) 0 (by decide)
  have h1 := X64_256.poke_at mem a 4 (X64_256.bytesLE v) 1 (by decide)
  simp only [Nat.add_zero] at h0
  simp only [X64_256.peek, h0, h1, X64_256.bytesLE,
    Nat.shiftRight_eq_div_pow, Nat.reduceMul, Nat.reducePow]
  omega

/-- Reading back a 16-bit store gives the low 16 bits of the value. -/
theorem X64_256.peek_poke_half (mem : Nat → Nat) (a v : Nat) :
    X64_256.peek (X64_256.poke mem a 2 (X64_256.bytesLE v)) a 2 = v % 2 ^ 16 := by
  have h0 := X64_256.poke_at mem a 2 (X64_256.bytesLE v) 0 (by decide)
  have h1 := X64_256.poke_at mem a 2 (X64_256.bytesLE v) 1 (by decide)
  simp only [Nat.add_zero] at h0
  simp only [X64_256.peek, h0, h1, X64_256.bytesLE,
    Nat.shiftRight_eq_div_pow, Nat.reduceMul, Nat.reducePow]
  omega

/-- Running two sequences of lines one after the other. -/
theorem X64_256.run_append (toFp64 : Nat → Nat → Nat) (l1 l2 : List X64_256.CtlStep)
    (s : X64_256.CtlState) :
    X64_256.run toFp64 (l1 ++ l2) s = X64_256.run toFp64 l2 (X64_256.run toFp64 l1 s) :=
  List.foldl_append _ _ _ _

/-- No line changes a base register or MXCSR. -/
theorem X64_256.exec_gpr_mxcsr (toFp64 : Nat → Nat → Nat) (s : X64_256.CtlState)
    (st : X64_256.CtlStep) :
    (X64_256.CtlStep.exec toFp64 s st).gpr = s.gpr
    ∧ (X64_256.CtlStep.exec toFp64 s st).mxcsr = s.mxcsr := by
  cases st <;> exact ⟨rfl, rfl⟩

/-- No sequence of lines changes a base register or MXCSR. -/
theorem X64_256.run_gpr_mxcsr (toFp64 : Nat → Nat → Nat) (l : List X64_256.CtlStep) :
    ∀ s : X64_256.CtlState, (X64_256.run toFp64 l s).gpr = s.gpr
      ∧ (X64_256.run toFp64 l s).mxcsr = s.mxcsr := by
  induction l with
  | nil => intro s; exact ⟨rfl, rfl⟩
  | cons st l ih =>
    intro s
    have h := ih (X64_256.CtlStep.exec toFp64 s st)
    have e := X64_256.exec_gpr_mxcsr toFp64 s st
    exact ⟨h.1.trans e.1, h.2.trans e.2⟩

/-- A read that every line of a sequence leaves alone is left alone by the
sequence. -/
theorem X64_256.run_preserves (toFp64 : Nat → Nat → Nat) (g : Nat → Nat) (x k : Nat)
    (l : List X64_256.CtlStep)
    (hl : ∀ st ∈ l, ∀ t : X64_256.CtlState, t.gpr = g →
      X64_256.peek (X64_256.CtlStep.exec toFp64 t st).mem x k = X64_256.peek t.mem x k) :
    ∀ s : X64_256.CtlState, s.gpr = g →
      X64_256.peek (X64_256.run toFp64 l s).mem x k = X64_256.peek s.mem x k := by
  induction l with
  | nil => intro s _; rfl
  | cons st l ih =>
    intro s hs
    have h1 := hl st (List.mem_cons_self _ _) s hs
    have h2 := ih (fun st' hst' => hl st' (List.mem_cons_of_mem _ hst'))
      (X64_256.CtlStep.exec toFp64 s st)
      ((X64_256.exec_gpr_mxcsr toFp64 s st).1.trans hs)
    exact h2.trans h1

/-- The x87 control word after one line: only `fpucw_ld` changes it. -/
theorem X64_256.exec_fpucw (toFp64 : Nat → Nat → Nat) (s : X64_256.CtlState) :
    (∀ (RM : Operand) (DP : DispX),
        (X64_256.CtlStep.exec toFp64 s (.fpucw_st RM DP)).fpucw = s.fpucw)
    ∧ (∀ (RM : Operand) (DP : DispX), (X64_256.CtlStep.exec toFp64 s (.fpucw_ld RM DP)).fpucw =
        X64_256.peek s.mem (s.gpr (X64_256.REN RM) + DP.val) 2)
    ∧ (∀ (RM : Operand) (DP : DispX),
        (X64_256.CtlStep.exec toFp64 s (.mxcsr_st RM DP)).fpucw = s.fpucw)
    ∧ (∀ (RM : Operand) (DP : DispX) (IS : ImmX),
        (X64_256.CtlStep.exec toFp64 s (.shrwx_mi RM DP IS)).fpucw = s.fpucw)
    ∧ (∀ (RM : Operand) (DP : DispX) (IS : ImmX),
        (X64_256.CtlStep.exec toFp64 s (.andwx_mi RM DP IS)).fpucw = s.fpucw)
    ∧ (∀ (RM : Operand) (DP : DispX) (IS : ImmX),
        (X64_256.CtlStep.exec toFp64 s (.orrwx_mi RM DP IS)).fpucw = s.fpucw)
    ∧ (∀ (RG RM : Operand) (DP : DispX),
        (X64_256.CtlStep.exec toFp64 s (.movpx_st RG RM DP)).fpucw = s.fpucw)
    ∧ (∀ (RG RM : Operand) (DP : DispX),
        (X64_256.CtlStep.exec toFp64 s (.movpx_ld RG RM DP)).fpucw = s.fpucw)
    ∧ (∀ (RM : Operand) (DP : DispX),
        (X64_256.CtlStep.exec toFp64 s (.fpuxn_ld RM DP)).fpucw = s.fpucw)
    ∧ (∀ (RM : Operand) (DP : DispX),
        (X64_256.CtlStep.exec toFp64 s (.fpuxs_st RM DP)).fpucw = s.fpucw) := by
  refine ⟨?_, ?_, ?_, ?_, ?_, ?_, ?_, ?_, ?_, ?_⟩ <;> (intros; rfl)

/-- The record of control words after one line: only the floating-point store
`fpuxs_st` adds to it, and it adds the control word in force. -/
theorem X64_256.exec_used (toFp64 : Nat → Nat → Nat) (s : X64_256.CtlState) :
    (∀ (RM : Operand) (DP : DispX), (X64_256.CtlStep.exec toFp64 s (.fpucw_st RM DP)).used = s.used)
    ∧ (∀ (RM : Operand) (DP : DispX),
        (X64_256.CtlStep.exec toFp64 s (.fpucw_ld RM DP)).used = s.used)
    ∧ (∀ (RM : Operand) (DP : DispX),
        (X64_256.CtlStep.exec toFp64 s (.mxcsr_st RM DP)).used = s.used)
    ∧ (∀ (RM : Operand) (DP : DispX) (IS : ImmX),
        (X64_256.CtlStep.exec toFp64 s (.shrwx_mi RM DP IS)).used = s.used)
    ∧ (∀ (RM : Operand) (DP : DispX) (IS : ImmX),
        (X64_256.CtlStep.exec toFp64 s (.andwx_mi RM DP IS)).used = s.used)
    ∧ (∀ (RM : Operand) (DP : DispX) (IS : ImmX),
        (X64_256.CtlStep.exec toFp64 s (.orrwx_mi RM DP IS)).used = s.used)
    ∧ (∀ (RG RM : Operand) (DP : DispX),
        (X64_256.CtlStep.exec toFp64 s (.movpx_st RG RM DP)).used = s.used)
    ∧ (∀ (RG RM : Operand) (DP : DispX),
        (X64_256.CtlStep.exec toFp64 s (.movpx_ld RG RM DP)).used = s.used)
    ∧ (∀ (RM : Operand) (DP : DispX),
        (X64_256.CtlStep.exec toFp64 s (.fpuxn_ld RM DP)).used = s.used)
    ∧ (∀ (RM : Operand) (DP : DispX),
        (X64_256.CtlStep.exec toFp64 s (.fpuxs_st RM DP)).used = s.used ++ [s.fpucw]) := by
  refine ⟨?_, ?_, ?_, ?_, ?_, ?_, ?_, ?_, ?_, ?_⟩ <;> (intros; rfl)

/-- The memory after one line of the control-word part of `cvtpn_rr`. -/
theorem X64_256.exec_mem (toFp64 : Nat → Nat → Nat) (s : X64_256.CtlState) :
    (∀ (RM : Operand) (DP : DispX), (X64_256.CtlStep.exec toFp64 s (.fpucw_st RM DP)).mem =
        X64_256.poke s.mem (s.gpr (X64_256.REN RM) + DP.val) 2 (X64_256.bytesLE s.fpucw))
    ∧ (∀ (RM : Operand) (DP : DispX), (X64_256.CtlStep.exec toFp64 s (.fpucw_ld RM DP)).mem = s.mem)
    ∧ (∀ (RM : Operand) (DP : DispX), (X64_256.CtlStep.exec toFp64 s (.mxcsr_st RM DP)).mem =
        X64_256.poke s.mem (s.gpr (X64_256.REN RM) + DP.val) 4 (X64_256.bytesLE s.mxcsr))
    ∧ (∀ (RM : Operand) (DP : DispX) (IS : ImmX),
        (X64_256.CtlStep.exec toFp64 s (.shrwx_mi RM DP IS)).mem =
        X64_256.poke s.mem (s.gpr (X64_256.REN RM) + DP.val) 4
          (X64_256.bytesLE (X64_256.peek s.mem (s.gpr (X64_256.REN RM) + DP.val) 4 >>>
            (X64_256.VAL IS &&& 0x1F))))
    ∧ (∀ (RM : Operand) (DP : DispX) (IS : ImmX),
        (X64_256.CtlStep.exec toFp64 s (.andwx_mi RM DP IS)).mem =
        X64_256.poke s.mem (s.gpr (X64_256.REN RM) + DP.val) 4
          (X64_256.bytesLE (X64_256.peek s.mem (s.gpr (X64_256.REN RM) + DP.val) 4 &&&
            X64_256.VAL IS)))
    ∧ (∀ (RM : Operand) (DP : DispX) (IS : ImmX),
        (X64_256.CtlStep.exec toFp64 s (.orrwx_mi RM DP IS)).mem =
        X64_256.poke s.mem (s.gpr (X64_256.REN RM) + DP.val) 4
          (X64_256.bytesLE (X64_256.peek s.mem (s.gpr (X64_256.REN RM) + DP.val) 4 |||
            X64_256.VAL IS))) := by
  refine ⟨?_, ?_, ?_, ?_, ?_, ?_⟩ <;> (intros; rfl)

/-- Running a sequence that starts with a given line. -/
theorem X64_256.run_cons (toFp64 : Nat → Nat → Nat) (st : X64_256.CtlStep)
    (l : List X64_256.CtlStep) (s : X64_256.CtlState) :
    X64_256.run toFp64 (st :: l) s =
      X64_256.run toFp64 l (X64_256.CtlStep.exec toFp64 s st) := rfl

/-- Running the empty sequence. -/
theorem X64_256.run_nil (toFp64 : Nat → Nat → Nat) (s : X64_256.CtlState) :
    X64_256.run toFp64 [] s = s := rfl

/-- The conversion `cvnpn_rr` keeps the x87 control word, executes four
floating-point stores under it, and writes memory only inside the 32 bytes of
the scratch area `SCR01`. -/
theorem X64_256.cvnpn_rr_frame (b : X64Base) (RG RM : Operand) (toFp64 : Nat → Nat → Nat)
    (t : X64_256.CtlState) :
    (X64_256.run toFp64 (X64_256.cvnpn_rr b RG RM) t).fpucw = t.fpucw
    ∧ (X64_256.run toFp64 (X64_256.cvnpn_rr b RG RM) t).used =
        t.used ++ List.replicate 4 t.fpucw
    ∧ ∀ x k, (x + k ≤ t.gpr (X64_256.REN b.Mebp) + b.SCR01
          ∨ t.gpr (X64_256.REN b.Mebp) + b.SCR01 + 32 ≤ x) →
        X64_256.peek (X64_256.run toFp64 (X64_256.cvnpn_rr b RG RM) t).mem x k =
          X64_256.peek t.mem x k := by
  refine ⟨?_, ?_, ?_⟩
  · simp only [X64_256.cvnpn_rr, X64_256.run_cons, X64_256.run_nil, X64_256.exec_fpucw]
  · simp only [X64_256.cvnpn_rr, X64_256.run_cons, X64_256.run_nil, X64_256.exec_fpucw,
      X64_256.exec_used, List.append_assoc, List.singleton_append, List.replicate,
      List.cons_append, List.nil_append]
  · intro x k hx
    refine X64_256.run_preserves toFp64 t.gpr x k _ ?_ t rfl
    intro st hst u hu
    simp only [X64_256.cvnpn_rr, List.mem_cons, List.mem_singleton, List.not_mem_nil,
      or_false] at hst
    rcases hst with h | h | h | h | h | h | h | h | h | h <;> subst h <;>
      first
        | rfl
        | (simp only [X64_256.CtlStep.exec, X64_256.CtlState.ea, inf_SCR01, hu]
           exact X64_256.peek_poke_disjoint _ _ _ _ _ _ (by omega))

/-- C32: in `cvtpn_rr` of rtarch_x64_256.h the x87 control word used for the
conversion carries the rounding mode of the SIMD control register.  On the
byte-addressed machine state, for every 16-bit control word and every 32-bit
MXCSR value `m`, whenever the two bytes of the control word saved at `SCR00`
overlap neither the four bytes of the MXCSR image at `SCR02` nor the 32 bytes
of the scratch area `SCR01` that `cvnpn_rr` writes: each of the four
floating-point stores of `cvnpn_rr` runs under `cw = ((m >> 3) & 0x0C00) | 0x7F`;
`(cw >> 10) & 3 = (m >> 13) & 3`, the low seven bits of `cw` are set and every
bit outside `0x0C7F` is clear; the first line saves the previous control word
to `SCR00`, the last line reloads it from `SCR00`, and the control word after
the sequence is the one before it; MXCSR is unchanged. -/
theorem X64_256.cvtpn_rr_control_word (b : X64Base) (inf_SCR00 : DispX) (RG RM : Operand)
    (toFp64 : Nat → Nat → Nat) (s : X64_256.CtlState)
    (h02 : inf_SCR00.val + 2 ≤ b.SCR02 ∨ b.SCR02 + 4 ≤ inf_SCR00.val)
    (h01 : inf_SCR00.val + 2 ≤ b.SCR01 ∨ b.SCR01 + 32 ≤ inf_SCR00.val)
    (hw : s.fpucw < 2 ^ 16) (hm : s.mxcsr < 2 ^ 32) :
    (X64_256.run toFp64 (X64_256.cvtpn_rr b inf_SCR00 RG RM) s).used =
        s.used ++ List.replicate 4 (((s.mxcsr >>> 3) &&& 0x0C00) ||| 0x7F)
    ∧ ((((s.mxcsr >>> 3) &&& 0x0C00) ||| 0x7F) >>> 10) &&& 3 = (s.mxcsr >>> 13) &&& 3
    ∧ (((s.mxcsr >>> 3) &&& 0x0C00) ||| 0x7F) &&& 0x7F = 0x7F
    ∧ (((s.mxcsr >>> 3) &&& 0x0C00) ||| 0x7F) &&& 0x0C7F =
        ((s.mxcsr >>> 3) &&& 0x0C00) ||| 0x7F
    ∧ ((s.mxcsr >>> 3) &&& 0x0C00) ||| 0x7F ≤ 0x0C7F
    ∧ (X64_256.cvtpn_rr b inf_SCR00 RG RM).head? = some (.fpucw_st b.Mebp inf_SCR00)
    ∧ (X64_256.cvtpn_rr b inf_SCR00 RG RM).getLast? = some (.fpucw_ld b.Mebp inf_SCR00)
    ∧ (X64_256.run toFp64 (X64_256.cvtpn_rr b inf_SCR00 RG RM) s).fpucw = s.fpucw
    ∧ (X64_256.run toFp64 (X64_256.cvtpn_rr b inf_SCR00 RG RM) s).mxcsr = s.mxcsr := by
  obtain ⟨e1, e2, e3, e4⟩ := X64_256.control_word_bits s.mxcsr
  have p16 : (2 : Nat) ^ 16 = 65536 := by decide
  have i3 : X64_256.VAL (IB 3) &&& 0x1F = 3 := by decide
  have iC : X64_256.VAL (IH 0x0C00) = 0x0C00 := rfl
  have i7 : X64_256.VAL (IB 0x7F) = 0x7F := rfl
  have v1 : s.mxcsr % 2 ^ 32 = s.mxcsr := Nat.mod_eq_of_lt hm
  have v2 : (s.mxcsr >>> 3) % 2 ^ 32 = s.mxcsr >>> 3 :=
    Nat.mod_eq_of_lt (lt_of_le_of_lt
      (by rw [Nat.shiftRight_eq_div_pow]; exact Nat.div_le_self _ _) hm)
  have v3 : ((s.mxcsr >>> 3) &&& 0x0C00) % 2 ^ 32 = (s.mxcsr >>> 3) &&& 0x0C00 :=
    Nat.mod_eq_of_lt (lt_of_le_of_lt Nat.and_le_right (by decide))
  have v4 : (((s.mxcsr >>> 3) &&& 0x0C00) ||| 0x7F) % 2 ^ 16 =
      ((s.mxcsr >>> 3) &&& 0x0C00) ||| 0x7F := by
    apply Nat.mod_eq_of_lt
    omega
  have hrun : X64_256.run toFp64 (X64_256.cvtpn_rr b inf_SCR00 RG RM) s =
      X64_256.CtlStep.exec toFp64
        (X64_256.run toFp64 (X64_256.cvnpn_rr b RG RM)
          (X64_256.run toFp64
            [.fpucw_st b.Mebp inf_SCR00,
             .mxcsr_st b.Mebp (inf_SCR02 b.toX86Base 0),
             .shrwx_mi b.Mebp (inf_SCR02 b.toX86Base 0) (IB 3),
             .andwx_mi b.Mebp (inf_SCR02 b.toX86Base 0) (IH 0x0C00),
             .orrwx_mi b.Mebp (inf_SCR02 b.toX86Base 0) (IB 0x7F),
             .fpucw_ld b.Mebp (inf_SCR02 b.toX86Base 0)] s))
        (.fpucw_ld b.Mebp inf_SCR00) := by
    unfold X64_256.cvtpn_rr
    rw [X64_256.run_append, X64_256.run_append, X64_256.run_cons, X64_256.run_nil]
  have a1 : (X64_256.run toFp64
      [.fpucw_st b.Mebp inf_SCR00,
       .mxcsr_st b.Mebp (inf_SCR02 b.toX86Base 0),
       .shrwx_mi b.Mebp (inf_SCR02 b.toX86Base 0) (IB 3),
       .andwx_mi b.Mebp (inf_SCR02 b.toX86Base 0) (IH 0x0C00),
       .orrwx_mi b.Mebp (inf_SCR02 b.toX86Base 0) (IB 0x7F),
       .fpucw_ld b.Mebp (inf_SCR02 b.toX86Base 0)] s).fpucw =
        ((s.mxcsr >>> 3) &&& 0x0C00) ||| 0x7F := by
    simp only [X64_256.run_cons, X64_256.run_nil, X64_256.exec_fpucw, X64_256.exec_mem,
      X64_256.exec_gpr_mxcsr, X64_256.peek_poke_word, X64_256.peek_poke_word_low,
      i3, iC, i7, v1, v2, v3, v4]
  have a2 : (X64_256.run toFp64
      [.fpucw_st b.Mebp inf_SCR00,
       .mxcsr_st b.Mebp (inf_SCR02 b.toX86Base 0),
       .shrwx_mi b.Mebp (inf_SCR02 b.toX86Base 0) (IB 3),
       .andwx_mi b.Mebp (inf_SCR02 b.toX86Base 0) (IH 0x0C00),
       .orrwx_mi b.Mebp (inf_SCR02 b.toX86Base 0) (IB 0x7F),
       .fpucw_ld b.Mebp (inf_SCR02 b.toX86Base 0)] s).used = s.used := by
    simp only [X64_256.run_cons, X64_256.run_nil, X64_256.exec_used]
  have a3 : X64_256.peek (X64_256.run toFp64
      [.fpucw_st b.Mebp inf_SCR00,
       .mxcsr_st b.Mebp (inf_SCR02 b.toX86Base 0),
       .shrwx_mi b.Mebp (inf_SCR02 b.toX86Base 0) (IB 3),
       .andwx_mi b.Mebp (inf_SCR02 b.toX86Base 0) (IH 0x0C00),
       .orrwx_mi b.Mebp (inf_SCR02 b.toX86Base 0) (IB 0x7F),
       .fpucw_ld b.Mebp (inf_SCR02 b.toX86Base 0)] s).mem
        (s.gpr (X64_256.REN b.Mebp) + inf_SCR00.val) 2 = s.fpucw := by
    simp only [X64_256.run_cons, X64_256.run_nil, X64_256.exec_mem, X64_256.exec_gpr_mxcsr,
      inf_SCR02]
    rw [X64_256.peek_poke_disjoint _ _ _ _ _ _ (by omega),
      X64_256.peek_poke_disjoint _ _ _ _ _ _ (by omega),
      X64_256.peek_poke_disjoint _ _ _ _ _ _ (by omega),
      X64_256.peek_poke_disjoint _ _ _ _ _ _ (by omega),
      X64_256.peek_poke_half]
    exact Nat.mod_eq_of_lt hw
  have g1 := (X64_256.run_gpr_mxcsr toFp64
      [.fpucw_st b.Mebp inf_SCR00,
       .mxcsr_st b.Mebp (inf_SCR02 b.toX86Base 0),
       .shrwx_mi b.Mebp (inf_SCR02 b.toX86Base 0) (IB 3),
       .andwx_mi b.Mebp (inf_SCR02 b.toX86Base 0) (IH 0x0C00),
       .orrwx_mi b.Mebp (inf_SCR02 b.toX86Base 0) (IB 0x7F),
       .fpucw_ld b.Mebp (inf_SCR02 b.toX86Base 0)] s).1
  obtain ⟨c1, c2, c3⟩ := X64_256.cvnpn_rr_frame b RG RM toFp64
    (X64_256.run toFp64
      [.fpucw_st b.Mebp inf_SCR00,
       .mxcsr_st b.Mebp (inf_SCR02 b.toX86Base 0),
       .shrwx_mi b.Mebp (inf_SCR02 b.toX86Base 0) (IB 3),
       .andwx_mi b.Mebp (inf_SCR02 b.toX86Base 0) (IH 0x0C00),
       .orrwx_mi b.Mebp (inf_SCR02 b.toX86Base 0) (IB 0x7F),
       .fpucw_ld b.Mebp (inf_SCR02 b.toX86Base 0)] s)
  have g2 := (X64_256.run_gpr_mxcsr toFp64 (X64_256.cvnpn_rr b RG RM)
    (X64_256.run toFp64
      [.fpucw_st b.Mebp inf_SCR00,
       .mxcsr_st b.Mebp (inf_SCR02 b.toX86Base 0),
       .shrwx_mi b.Mebp (inf_SCR02 b.toX86Base 0) (IB 3),
       .andwx_mi b.Mebp (inf_SCR02 b.toX86Base 0) (IH 0x0C00),
       .orrwx_mi b.Mebp (inf_SCR02 b.toX86Base 0) (IB 0x7F),
       .fpucw_ld b.Mebp (inf_SCR02 b.toX86Base 0)] s)).1
  refine ⟨?_, e1, e2, e3, e4, rfl, rfl, ?_,
    (X64_256.run_gpr_mxcsr toFp64 _ s).2⟩
  · rw [hrun, (X64_256.exec_used toFp64 _).2.1, c2, a1, a2]
  · rw [hrun, (X64_256.exec_fpucw toFp64 _).2.1, g2, g1, c3 _ _ (by rw [g1]; omega), a3]

/-- Witness of C32 on the sample state (MXCSR `0x5F80`, rounding towards
+inf; `SCR00` at `0x20`, `SCR01` at `0x40`, `SCR02` at `0x80`): the four
floating-point stores of the conversion run under the control word `0x087F`,
rounding field 2, and the control word `0x037F` is back afterwards. -/
theorem X64_256.cvtpn_rr_control_word_witness :
    (X64_256.run (fun _ v => v) (X64_256.cvtpn_rr sampleX64 ⟨0x20, 0x02, EMITW 0x20⟩
        X64_256.Xmm0 X64_256.Xmm1) X64_256.sampleCtl).used =
      [0x087F, 0x087F, 0x087F, 0x087F]
    ∧ ((0x087F : Nat) >>> 10) &&& 3 = ((0x5F80 : Nat) >>> 13) &&& 3
    ∧ (X64_256.run (fun _ v => v) (X64_256.cvtpn_rr sampleX64 ⟨0x20, 0x02, EMITW 0x20⟩
        X64_256.Xmm0 X64_256.Xmm1) X64_256.sampleCtl).fpucw = 0x037F :=
  ⟨((X64_256.cvtpn_rr_control_word sampleX64 ⟨0x20, 0x02, EMITW 0x20⟩ X64_256.Xmm0
      X64_256.Xmm1 (fun _ v => v) X64_256.sampleCtl (by decide) (by decide) (by decide)
      (by decide)).1).trans (by decide),
   by decide,
   (X64_256.cvtpn_rr_control_word sampleX64 ⟨0x20, 0x02, EMITW 0x20⟩ X64_256.Xmm0
      X64_256.Xmm1 (fun _ v => v) X64_256.sampleCtl (by decide) (by decide) (by decide)
      (by decide)).2.2.2.2.2.2.2.1⟩

/-- The disjointness of `SCR00` from `SCR01` is needed: on the sample state with
`SCR00` placed on the scratch area `SCR01` (both at `0x40`) the conversion
overwrites the saved control word, and the last line reloads the overwritten
bytes, here `0x0000` instead of `0x037F`. -/
theorem X64_256.cvtpn_rr_overlapping_scratch :
    (X64_256.run (fun _ v => v) (X64_256.cvtpn_rr sampleX64 ⟨0x40, 0x02, EMITW 0x40⟩
        X64_256.Xmm0 X64_256.Xmm1) X64_256.sampleCtl).fpucw = 0
    ∧ X64_256.sampleCtl.fpucw = 0x037F := by
  decide


/-! ## Matrix from transform in rtgeom.cpp -/

/-- The last row and column of a product: if `a[k][3]` is `0, 0, 0, 1` then
`matrix_mul_matrix(mp, a, b)` keeps the entries `b[i][3]`, and if `b[3]` is
`(0, 0, 0, 1)` it keeps the vector `a[3]`. -/
theorem RtGeom.matrix_mul_matrix_last {R : Type} [Semiring R] (a b : RtGeom.rt_mat4 R) :
    (a 0 3 = 0 ∧ a 1 3 = 0 ∧ a 2 3 = 0 ∧ a 3 3 = 1 →
        ∀ i, RtGeom.matrix_mul_matrix a b i 3 = b i 3)
    ∧ (b 3 0 = 0 ∧ b 3 1 = 0 ∧ b 3 2 = 0 ∧ b 3 3 = 1 →
        ∀ r, RtGeom.matrix_mul_matrix a b 3 r = a 3 r) := by
  constructor
  · rintro ⟨h0, h1, h2, h3⟩ i
    show a 0 3 * b i 0 + a 1 3 * b i 1 + a 2 3 * b i 2 + a 3 3 * b i 3 = b i 3
    rw [h0, h1, h2, h3]
    simp only [zero_mul, one_mul, zero_add]
  · rintro ⟨h0, h1, h2, h3⟩ r
    show a 0 r * b 3 0 + a 1 r * b 3 1 + a 2 r * b 3 2 + a 3 r * b 3 3 = a 3 r
    rw [h0, h1, h2, h3]
    simp only [mul_zero, mul_one, zero_add]

/-- The last row and column of the product of five matrices formed as in
`matrix_from_transform`. -/
theorem RtGeom.five_product_last {R : Type} [Semiring R] (sc rx ry rz ps : RtGeom.rt_mat4 R)
    (hsc : sc 3 0 = 0 ∧ sc 3 1 = 0 ∧ sc 3 2 = 0 ∧ sc 3 3 = 1)
    (hrx : (rx 0 3 = 0 ∧ rx 1 3 = 0 ∧ rx 2 3 = 0 ∧ rx 3 3 = 1)
      ∧ (rx 3 0 = 0 ∧ rx 3 1 = 0 ∧ rx 3 2 = 0 ∧ rx 3 3 = 1))
    (hry : (ry 0 3 = 0 ∧ ry 1 3 = 0 ∧ ry 2 3 = 0 ∧ ry 3 3 = 1)
      ∧ (ry 3 0 = 0 ∧ ry 3 1 = 0 ∧ ry 3 2 = 0 ∧ ry 3 3 = 1))
    (hrz : (rz 0 3 = 0 ∧ rz 1 3 = 0 ∧ rz 2 3 = 0 ∧ rz 3 3 = 1)
      ∧ (rz 3 0 = 0 ∧ rz 3 1 = 0 ∧ rz 3 2 = 0 ∧ rz 3 3 = 1))
    (hps : ps 0 3 = 0 ∧ ps 1 3 = 0 ∧ ps 2 3 = 0 ∧ ps 3 3 = 1) :
    (∀ i, RtGeom.matrix_mul_matrix ps (RtGeom.matrix_mul_matrix rz
        (RtGeom.matrix_mul_matrix ry (RtGeom.matrix_mul_matrix rx sc))) i 3 = sc i 3)
    ∧ (∀ r, RtGeom.matrix_mul_matrix ps (RtGeom.matrix_mul_matrix rz
        (RtGeom.matrix_mul_matrix ry (RtGeom.matrix_mul_matrix rx sc))) 3 r = ps 3 r) := by
  have row1 : ∀ r, RtGeom.matrix_mul_matrix rx sc 3 r = rx 3 r :=
    (RtGeom.matrix_mul_matrix_last rx sc).2 hsc
  have row2 : ∀ r, RtGeom.matrix_mul_matrix ry (RtGeom.matrix_mul_matrix rx sc) 3 r = ry 3 r :=
    (RtGeom.matrix_mul_matrix_last ry _).2
      ⟨(row1 0).trans hrx.2.1, (row1 1).trans hrx.2.2.1, (row1 2).trans hrx.2.2.2.1,
        (row1 3).trans hrx.2.2.2.2⟩
  have row3 : ∀ r, RtGeom.matrix_mul_matrix rz
      (RtGeom.matrix_mul_matrix ry (RtGeom.matrix_mul_matrix rx sc)) 3 r = rz 3 r :=
    (RtGeom.matrix_mul_matrix_last rz _).2
      ⟨(row2 0).trans hry.2.1, (row2 1).trans hry.2.2.1, (row2 2).trans hry.2.2.2.1,
        (row2 3).trans hry.2.2.2.2⟩
  constructor
  · intro i
    rw [(RtGeom.matrix_mul_matrix_last ps _).1 hps i,
      (RtGeom.matrix_mul_matrix_last rz _).1 hrz.1 i,
      (RtGeom.matrix_mul_matrix_last ry _).1 hry.1 i,
      (RtGeom.matrix_mul_matrix_last rx _).1 hrx.1 i]
  · exact (RtGeom.matrix_mul_matrix_last ps _).2
      ⟨(row3 0).trans hrz.2.1, (row3 1).trans hrz.2.2.1, (row3 2).trans hrz.2.2.2.1,
        (row3 3).trans hrz.2.2.2.2⟩

/-- C34: `matrix_from_transform(mp, t1)` yields an affine matrix whose
translation column is the position.  For every transform `t1` (any scale, any
angles, sine and cosine arbitrary functions, exact arithmetic in any ring) the
result, the product of `ps`, `rz`, `ry`, `rx`, `sc` formed by four calls of
`matrix_mul_matrix`, satisfies `mp[3] = (pos_x, pos_y, pos_z, 1)` and
`mp[i][3] = 0` for `i = 0, 1, 2`. -/
theorem RtGeom.matrix_from_transform_affine {R : Type} [Ring R] (sina cosa : R → R)
    (t1 : RtGeom.rt_TRANSFORM3D R) :
    RtGeom.matrix_from_transform sina cosa t1 3 =
      ![t1.pos RtGeom.RT_X, t1.pos RtGeom.RT_Y, t1.pos RtGeom.RT_Z, 1]
    ∧ RtGeom.matrix_from_transform sina cosa t1 3 0 = t1.pos RtGeom.RT_X
    ∧ RtGeom.matrix_from_transform sina cosa t1 3 1 = t1.pos RtGeom.RT_Y
    ∧ RtGeom.matrix_from_transform sina cosa t1 3 2 = t1.pos RtGeom.RT_Z
    ∧ RtGeom.matrix_from_transform sina cosa t1 3 3 = 1
    ∧ RtGeom.matrix_from_transform sina cosa t1 0 3 = 0
    ∧ RtGeom.matrix_from_transform sina cosa t1 1 3 = 0
    ∧ RtGeom.matrix_from_transform sina cosa t1 2 3 = 0 := by
  have key := RtGeom.five_product_last
    (![![t1.scl RtGeom.RT_X, 0, 0, 0],
       ![0, t1.scl RtGeom.RT_Y, 0, 0],
       ![0, 0, t1.scl RtGeom.RT_Z, 0],
       ![0, 0, 0, 1]] : RtGeom.rt_mat4 R)
    (![![1, 0, 0, 0],
       ![0, cosa (t1.rot RtGeom.RT_X), sina (t1.rot RtGeom.RT_X), 0],
       ![0, -sina (t1.rot RtGeom.RT_X), cosa (t1.rot RtGeom.RT_X), 0],
       ![0, 0, 0, 1]] : RtGeom.rt_mat4 R)
    (![![cosa (t1.rot RtGeom.RT_Y), 0, -sina (t1.rot RtGeom.RT_Y), 0],
       ![0, 1, 0, 0],
       ![sina (t1.rot RtGeom.RT_Y), 0, cosa (t1.rot RtGeom.RT_Y), 0],
       ![0, 0, 0, 1]] : RtGeom.rt_mat4 R)
    (![![cosa (t1.rot RtGeom.RT_Z), sina (t1.rot RtGeom.RT_Z), 0, 0],
       ![-sina (t1.rot RtGeom.RT_Z), cosa (t1.rot RtGeom.RT_Z), 0, 0],
       ![0, 0, 1, 0],
       ![0, 0, 0, 1]] : RtGeom.rt_mat4 R)
    (![![1, 0, 0, 0],
       ![0, 1, 0, 0],
       ![0, 0, 1, 0],
       ![t1.pos RtGeom.RT_X, t1.pos RtGeom.RT_Y, t1.pos RtGeom.RT_Z, 1]] : RtGeom.rt_mat4 R)
    ⟨rfl, rfl, rfl, rfl⟩ ⟨⟨rfl, rfl, rfl, rfl⟩, ⟨rfl, rfl, rfl, rfl⟩⟩
    ⟨⟨rfl, rfl, rfl, rfl⟩, ⟨rfl, rfl, rfl, rfl⟩⟩ ⟨⟨rfl, rfl, rfl, rfl⟩, ⟨rfl, rfl, rfl, rfl⟩⟩
    ⟨rfl, rfl, rfl, rfl⟩
  obtain ⟨col, row⟩ := key
  have r0 : RtGeom.matrix_from_transform sina cosa t1 3 0 = t1.pos RtGeom.RT_X := row 0
  have r1 : RtGeom.matrix_from_transform sina cosa t1 3 1 = t1.pos RtGeom.RT_Y := row 1
  have r2 : RtGeom.matrix_from_transform sina cosa t1 3 2 = t1.pos RtGeom.RT_Z := row 2
  have r3 : RtGeom.matrix_from_transform sina cosa t1 3 3 = 1 := row 3
  refine ⟨?_, r0, r1, r2, r3, col 0, col 1, col 2⟩
  funext r
  fin_cases r
  · exact r0
  · exact r1
  · exact r2
  · exact r3

end QuadRay
